import Mathlib

/-!
# Qt Quick 3D particles: emission and per-tick evaluation

A shallow embedding of `src/quick3dparticles/qquick3dparticleemitter.cpp` and
`src/quick3dparticles/qquick3dparticlesystem.cpp`.

Conventions of the embedding

* C++ `float`/`double` values are embedded as rationals (`ℚ`). Where a float
  result decides something discrete (a comparison, `floorf`, a conversion to
  an integer type) the operations that lead to it are rounded as IEEE 754
  binary32 rounds them (`f32`, `f32sqrt`: round to nearest, ties to even);
  a quantity that is only passed on (positions, sizes, factors, start times)
  is the exact one. Infinities and NaN are no values of `ℚ`: the places where
  the source can produce one are treated case by case and say so.
* C++ `int` values are embedded as `Int`; integer arithmetic does not wrap.
  The conversion of a float to `int` is `floatToInt`.
* `qint8` / `uchar` fields are embedded as `Int`; the conversions from a
  floating value (`toChar`, `toUChar`) truncate towards zero and reduce into
  the 8 bit range.
* Objects reached through pointers live in a `World` of heaps indexed by
  `Ptr`; a null pointer is `none`.
* Calls into code that is not part of the two files (affectors, trail
  emitters, node transforms, quaternion helpers, the random stream) are
  fields holding the called function, or are recorded in the result.
-/

namespace Quick3DParticles

/-! ## Plain data -/

/-- Pointer identity of a heap object. -/
abbrev Ptr := Nat

/-- QVector3D with exact components. -/
structure QVector3D where
  x : ℚ
  y : ℚ
  z : ℚ
deriving DecidableEq

namespace QVector3D

/-- The default constructed (null) vector. -/
def zero : QVector3D := ⟨0, 0, 0⟩

/-- Component-wise sum, `operator+`. -/
def add (a b : QVector3D) : QVector3D := ⟨a.x + b.x, a.y + b.y, a.z + b.z⟩

/-- Product with a factor, `operator*(QVector3D, float)`. -/
def scale (a : QVector3D) (f : ℚ) : QVector3D := ⟨a.x * f, a.y * f, a.z * f⟩

/-- `QVector3D::isNull`: all three components are zero. -/
def isNull (a : QVector3D) : Bool := a.x == 0 && a.y == 0 && a.z == 0

end QVector3D

/-- QVector4D with exact components (used for the colour variation and the
sprite colour). -/
structure QVector4D where
  x : ℚ
  y : ℚ
  z : ℚ
  w : ℚ
deriving DecidableEq

/-- Vector3b of `qquick3dparticledata_p.h`: three signed 8 bit values. -/
structure Vector3b where
  x : Int
  y : Int
  z : Int
deriving DecidableEq

/-- Color4ub of `qquick3dparticledata_p.h`: four unsigned 8 bit channels. -/
structure Color4ub where
  r : Int
  g : Int
  b : Int
  a : Int
deriving DecidableEq

/-- Conversion of a floating value to an integer type: the fractional part is
discarded (truncation towards zero). -/
def truncToInt (q : ℚ) : Int := if 0 ≤ q then ⌊q⌋ else ⌈q⌉

/-- Conversion `char(f)` / assignment of a float to a `qint8`: truncation,
kept in the range -128..127. -/
def toChar (q : ℚ) : Int := (truncToInt q + 128) % 256 - 128

/-- Assignment of a float to a `uchar`: truncation, kept in the range
0..255. -/
def toUChar (q : ℚ) : Int := truncToInt q % 256

/-- Conversion of a float to `int`: the fractional part is discarded. A value
outside the range of `int` has no defined result in C++; the value taken here
is the one the x86 conversion instruction returns, `INT_MIN`. -/
def floatToInt (q : ℚ) : Int :=
  if -2147483648 ≤ truncToInt q ∧ truncToInt q ≤ 2147483647 then truncToInt q else -2147483648

/-! ## IEEE 754 binary32 rounding -/

/-- Rounding to the nearest integer, a tie to the even one. -/
def roundHalfEven (q : ℚ) : Int :=
  if q - ⌊q⌋ < 1 / 2 then ⌊q⌋
  else if 1 / 2 < q - ⌊q⌋ then ⌊q⌋ + 1
  else if ⌊q⌋ % 2 = 0 then ⌊q⌋ else ⌊q⌋ + 1

/-- The exponent of the unit in the last place of a binary32 float of the
magnitude of `q`: 24 significant bits, and the fixed exponent -149 in the
subnormal range below 2^-126. -/
def ulpExponent (q : ℚ) : Int := max (Int.log 2 |q|) (-126) - 23

/-- The binary32 float nearest to `q`, a tie going to the even significand:
the result of a float operation whose exact result is `q`. Overflow is not
modelled: beyond the largest finite float the rounding goes on with 24
significant bits. -/
def f32 (q : ℚ) : ℚ := roundHalfEven (q / 2 ^ ulpExponent q) * 2 ^ ulpExponent q

/-- FLT_MAX, the largest finite binary32 float, (2^24 - 1) * 2^104. -/
def f32Max : ℚ := 16777215 * 2 ^ 104

/-- The result of `std::sqrt(float)` for `x`: the float nearest to the square
root (IEEE 754 requires the correctly rounded result). It is computed on
integers: with `u` the exponent of the unit in the last place of the root,
the root divided by 2^u lies in [N, N + 1) for N = Nat.sqrt ⌊x / 4^u⌋, and it
is rounded to N or N + 1 by comparing x / 4^u with (N + 1/2)^2. The root of a
value that is not positive is taken as 0 (the source takes roots of absolute
values only). -/
def f32sqrt (x : ℚ) : ℚ :=
  if x ≤ 0 then 0
  else
    let u : Int := Int.log 2 x / 2 - 23
    let scaled : ℚ := x / 4 ^ u
    let N : Nat := Nat.sqrt ⌊scaled⌋₊
    let M : Nat :=
      if scaled < ((N : ℚ) + 1 / 2) ^ 2 then N
      else if ((N : ℚ) + 1 / 2) ^ 2 < scaled then N + 1
      else if N % 2 = 0 then N else N + 1
    (M : ℚ) * 2 ^ u

/-- QQuick3DParticleData: the emission-time attributes of one logical
particle (one slot of `m_particleData`). -/
structure QQuick3DParticleData where
  startPosition : QVector3D
  startVelocity : QVector3D
  startRotation : Vector3b
  startRotationVelocity : Vector3b
  startColor : Color4ub
  startTime : ℚ
  lifetime : ℚ
  endSize : ℚ
  startSize : ℚ
  index : Int
deriving DecidableEq

/-- QQuick3DParticleDataCurrent: the state derived for one particle during
one tick. -/
structure QQuick3DParticleDataCurrent where
  position : QVector3D
  rotation : QVector3D
  scale : QVector3D
  color : Color4ub
deriving DecidableEq

/-- The default constructed QQuick3DParticleDataCurrent is not declared under
`src/`; evaluation overwrites position, colour, rotation and scale before any
of them is read, so the initial value is taken as zero. -/
def QQuick3DParticleDataCurrent.init : QQuick3DParticleDataCurrent :=
  ⟨QVector3D.zero, QVector3D.zero, QVector3D.zero, ⟨0, 0, 0, 0⟩⟩

/-- QQuick3DParticle::FadeType. -/
inductive FadeType where
  | FadeNone
  | FadeOpacity
  | FadeScale
deriving DecidableEq

/-- QQuick3DParticle::AlignMode. -/
inductive AlignMode where
  | AlignNone
  | AlignTowardsTarget
  | AlignTowardsStartVelocity
deriving DecidableEq

/-- The dynamic type of a particle, as found by the `qobject_cast`s of the
system. -/
inductive ParticleKind where
  | ModelParticle
  | SpriteParticle
deriving DecidableEq

/-- QColor as read through `red()`, `green()`, `blue()`, `alpha()`. -/
structure QColor where
  red : Int
  green : Int
  blue : Int
  alpha : Int
deriving DecidableEq

/-- One row of the instance table of a model particle: the arguments of one
`addInstance(position, scale, eulerRotation, color)` call. -/
structure ModelInstance where
  position : QVector3D
  scale : QVector3D
  eulerRotation : QVector3D
  color : QColor
deriving DecidableEq

/-- One slot of the buffer of a sprite particle: the arguments of one
`setParticleData(index, position, rotation, color, size, age)` call. -/
structure SpriteParticleData where
  position : QVector3D
  rotation : QVector3D
  color : QVector4D
  size : ℚ
  age : ℚ
deriving DecidableEq

/-- QQuick3DParticle: the members read or written by the emitter and by the
system. `m_particleData` holds `m_maxAmount` records. The members of the two
subclasses are kept side by side: `m_initialScale`, `m_instanceTable` and
`m_hasTransparency` belong to QQuick3DParticleModelParticle, `m_billboard`
and `m_spriteParticleData` to QQuick3DParticleSpriteParticle. -/
structure QQuick3DParticle where
  m_system : Option Ptr
  kind : ParticleKind
  m_initialScale : QVector3D
  m_instanceTable : List ModelInstance
  m_hasTransparency : Bool
  m_billboard : Bool
  m_spriteParticleData : Nat → SpriteParticleData
  m_maxAmount : Int
  m_particleData : List QQuick3DParticleData
  m_currentIndex : Int
  m_lastBurstIndex : Int
  m_color : QColor
  m_colorVariation : QVector4D
  m_unifiedColorVariation : Bool
  m_fadeInEffect : FadeType
  m_fadeOutEffect : FadeType
  m_fadeInDuration : Int
  m_fadeOutDuration : Int
  m_alignMode : AlignMode
  m_alignTarget : QVector3D
  m_depthBias : ℚ

/-- The parameter kinds of the random stream that `emitParticle` draws
(QPRand::UsageType). -/
inductive QPRand where
  | LifeSpanV
  | ScaleV
  | RotXV
  | RotYV
  | RotZV
  | RotXVV
  | RotYVV
  | RotZVV
  | ColorRV
  | ColorGV
  | ColorBV
  | ColorAV
deriving DecidableEq

/-- QQuick3DParticleAffector: the members the system reads, and the virtual
`affectParticle` as the function it computes on the derived state. -/
structure QQuick3DParticleAffector where
  m_enabled : Bool
  m_particles : List Ptr
  affectParticle : QQuick3DParticleData → QQuick3DParticleDataCurrent → ℚ → QQuick3DParticleDataCurrent

/-- QAbstractAnimation::State of Qt, the state of the animation `m_animation`
that drives the clock of a system. -/
inductive AnimationState where
  | Stopped
  | Paused
  | Running
deriving DecidableEq

namespace AnimationState

/-- QAbstractAnimation::start of Qt: the animation runs. -/
def start (_ : AnimationState) : AnimationState := Running

/-- QAbstractAnimation::stop of Qt: the animation is stopped. -/
def stop (_ : AnimationState) : AnimationState := Stopped

/-- QAbstractAnimation::pause of Qt: a stopped animation cannot be paused (a
warning is printed and nothing changes), any other becomes paused. -/
def pause (s : AnimationState) : AnimationState :=
  if s = Stopped then Stopped else Paused

/-- QAbstractAnimation::resume of Qt: only a paused animation resumes (else a
warning is printed and nothing changes). -/
def resume (s : AnimationState) : AnimationState :=
  if s = Paused then Running else s

end AnimationState

/-- QQuick3DParticleSystem: clock, run state, seed and random stream
(`m_rand` is `rand()->get(index, kind)`, `randInit seed` is the stream after
`m_rand.init(seed)`), and the registered objects. -/
structure QQuick3DParticleSystem where
  m_running : Bool
  m_paused : Bool
  m_time : Int
  m_rand : Int → QPRand → ℚ
  m_particles : List Ptr
  m_emitters : List Ptr
  m_trailEmitters : List Ptr
  m_affectors : List Ptr
  m_animation : AnimationState
  m_componentComplete : Bool
  m_initialized : Bool
  m_useRandomSeed : Bool
  m_seed : Int
  m_particleIdIndex : Int
  randInit : Int → Int → QPRand → ℚ

/-- QQuick3DParticleEmitBurstData: a burst requested through `burst()`. -/
structure QQuick3DParticleEmitBurstData where
  time : Int
  amount : Int
  duration : Int
  position : QVector3D
deriving DecidableEq

/-- QQuick3DParticleEmitBurst (EmitBurst3D): a declared burst as the emitter
holds it in `m_emitBursts`, the values read through `time()`, `amount()`,
`duration()` and the pointer `self` to the object. -/
structure QQuick3DParticleEmitBurst where
  time : Int
  amount : Int
  duration : Int
  self : Ptr
deriving DecidableEq

/-- QMatrix4x4 as far as emitParticle uses it: `mul v` is `transform * v`,
and `rotatedMap v` is `rotationTransform.map(v)` for the copy of the matrix
rotated by the emitter node's `rotation()`. -/
structure QMatrix4x4 where
  mul : QVector3D → QVector3D
  rotatedMap : QVector3D → QVector3D

/-- QQuick3DParticleEmitter. The collaborators that are not under `src/` are
held as the functions the emitter calls on them: `m_shape` is
`m_shape->randomPosition(index)`, `m_velocity` is `m_velocity->sample(d)`,
`particleTransform` is the matrix returned by
`calculateParticleTransform(parentNode(), m_systemSharedParent)` and
`position` is the node's `position()`. `isTrailEmitter`, `m_follow` and
`m_bursts` are the part added by QQuick3DParticleTrailEmitter. -/
structure QQuick3DParticleEmitter where
  m_system : Option Ptr
  m_particle : Option Ptr
  m_enabled : Bool
  m_emitRate : ℚ
  m_particleScale : ℚ
  m_particleEndScale : ℚ
  m_particleScaleVariation : ℚ
  m_lifeSpan : Int
  m_lifeSpanVariation : Int
  m_particleRotation : QVector3D
  m_particleRotationVariation : QVector3D
  m_particleRotationVelocity : QVector3D
  m_particleRotationVelocityVariation : QVector3D
  m_shape : Option (Int → QVector3D)
  m_velocity : Option (QQuick3DParticleData → QVector3D)
  m_emitBursts : List QQuick3DParticleEmitBurst
  m_burstGenerated : Bool
  m_prevEmitTime : Int
  m_unemittedF : ℚ
  m_clearData : QQuick3DParticleData
  m_depthBias : ℚ
  position : QVector3D
  particleTransform : QMatrix4x4
  isTrailEmitter : Bool
  m_follow : Option Ptr
  m_bursts : List QQuick3DParticleEmitBurstData

/-- The call site of an `emitParticle` call. -/
inductive EmitSite where
  | rate
  | burst
  | declaredBurst
deriving DecidableEq

/-- One executed `emitParticle` call: who called, from where, and the record
`*d` it left in slot `index` of `particle`. -/
structure EmitCall where
  emitter : Ptr
  site : EmitSite
  particle : Ptr
  index : Int
  data : QQuick3DParticleData
deriving DecidableEq

/-- The heaps of the objects that point to each other; the quaternion helper
of QtQuick3D that alignment uses, `lookAtEuler s t r` being
`(QQuick3DQuaternionUtils::lookAt(s, t) * QQuaternion::fromEulerAngles(r)).toEulerAngles()`;
the default constructed QQuick3DParticleData (declared in
`qquick3dparticledata_p.h`, not under `src/`); and `emitTrace`, the
`emitParticle` calls executed so far, oldest first. The trace is an
observation of the run and is never read by the program. -/
structure World where
  systems : Ptr → QQuick3DParticleSystem
  particles : Ptr → QQuick3DParticle
  emitters : Ptr → QQuick3DParticleEmitter
  affectors : Ptr → QQuick3DParticleAffector
  lookAtEuler : QVector3D → QVector3D → QVector3D → QVector3D
  defaultData : QQuick3DParticleData
  emitTrace : List EmitCall

namespace World

/-- Write through a particle pointer. -/
def setParticle (w : World) (p : Ptr) (v : QQuick3DParticle) : World :=
  { w with particles := Function.update w.particles p v }

/-- Write through an emitter pointer. -/
def setEmitter (w : World) (e : Ptr) (v : QQuick3DParticleEmitter) : World :=
  { w with emitters := Function.update w.emitters e v }

end World

/-- Write through a system pointer. -/
def World.setSystem (w : World) (s : Ptr) (v : QQuick3DParticleSystem) : World :=
  { w with systems := Function.update w.systems s v }

/-! ## The particle pool: `QQuick3DParticle` -/

namespace QQuick3DParticle

/-- Modelled from the spec: QQuick3DParticle::nextCurrentIndex
(`qquick3dparticle.cpp` is not under `src/`). Records are reused by ring
buffer indexing: the index advances by one and, after the last slot, returns
to the first slot that is not claimed by a burst. -/
def nextCurrentIndex (p : QQuick3DParticle) : Int × QQuick3DParticle :=
  let i := if p.m_currentIndex < p.m_maxAmount - 1 then p.m_currentIndex + 1 else p.m_lastBurstIndex
  (i, { p with m_currentIndex := i })

/-- Modelled from the spec: QQuick3DParticle::reset (`qquick3dparticle.cpp` is
not under `src/`). The entire record set is reset and no slot is claimed any
more. -/
def reset (p : QQuick3DParticle) (defaultData : QQuick3DParticleData) : QQuick3DParticle :=
  { p with
    m_currentIndex := -1
    m_lastBurstIndex := 0
    m_particleData := List.replicate p.m_maxAmount.toNat defaultData }

/-- Modelled from the spec: QQuick3DParticle::updateBurstIndex
(`qquick3dparticle.cpp` is not under `src/`). Bursts claim the first slots:
the first reusable slot moves up by the burst amount. -/
def updateBurstIndex (p : QQuick3DParticle) (amount : Int) : QQuick3DParticle :=
  { p with m_lastBurstIndex := p.m_lastBurstIndex + amount }

/-- The index that the `(k + 1)`-th of successive nextCurrentIndex calls on
the pool hands out. -/
def claimedIndex : QQuick3DParticle → Nat → Int
  | p, 0 => p.nextCurrentIndex.1
  | p, k + 1 => claimedIndex p.nextCurrentIndex.2 k

end QQuick3DParticle

/-! ## Emission: `qquick3dparticleemitter.cpp` -/

namespace QQuick3DParticleEmitter

/-- QQuick3DParticleEmitter::setEnabled (lines 81-94). -/
def setEnabled (w : World) (self : Ptr) (enabled : Bool) : World :=
  let e := w.emitters self
  if e.m_enabled = enabled then w
  else
    let e1 :=
      match e.m_system with
      | some sys => if enabled then { e with m_prevEmitTime := (w.systems sys).m_time } else e
      | none => e
    w.setEmitter self { e1 with m_enabled := enabled }

/-- QQuick3DParticleEmitter::reset (lines 526-530). -/
def reset (w : World) (self : Ptr) : World :=
  w.setEmitter self { w.emitters self with m_prevEmitTime := 0, m_unemittedF := 0 }

/-- The life time block of emitParticle (lines 647-650), for the random value
`rho = rand->get(particleIndex, QPRand::LifeSpanV)`. -/
def emitLifetime (e : QQuick3DParticleEmitter) (rho : ℚ) : ℚ :=
  let lifeSpanMs : ℚ := (e.m_lifeSpanVariation : ℚ) / 1000
  let lifeSpanVariationMs : ℚ := lifeSpanMs - 2 * rho * lifeSpanMs
  (e.m_lifeSpan : ℚ) / 1000 + lifeSpanVariationMs

/-- The size block of emitParticle (lines 652-656), for the random value
`rho = rand->get(particleIndex, QPRand::ScaleV)`: the pair
`(startSize, endSize)`. -/
def emitSize (e : QQuick3DParticleEmitter) (rho : ℚ) : ℚ × ℚ :=
  let sVar : ℚ := e.m_particleScaleVariation - 2 * rho * e.m_particleScaleVariation
  let endScale : ℚ := if e.m_particleEndScale < 0 then e.m_particleScale else e.m_particleEndScale
  (max 0 (e.m_particleScale + sVar), max 0 (endScale + sVar))

/-- One axis of the rotation block of emitParticle (lines 678-684):
`rot.x = r * step; rot.x += (v - 2.0f * rho * v) * step;` on a `qint8`, with
`step = 127.0f / 360.0f`. Every operation is a float operation whose result is
truncated into the `qint8`. -/
def emitRotationAxis (r v rho : ℚ) : Int :=
  let step : ℚ := f32 (127 / 360)
  let rot : Int := toChar (f32 (r * step))
  toChar (f32 ((rot : ℚ) + f32 (f32 (v - f32 (f32 (2 * rho) * v)) * step)))

/-- The rotation block of emitParticle (lines 675-686): the start rotation
that is stored, the one of `m_clearData` when rotation and variation are both
null. -/
def emitRotation (e : QQuick3DParticleEmitter) (rand : QPRand → ℚ) : Vector3b :=
  if !e.m_particleRotation.isNull || !e.m_particleRotationVariation.isNull then
    ⟨emitRotationAxis e.m_particleRotation.x e.m_particleRotationVariation.x (rand QPRand.RotXV),
     emitRotationAxis e.m_particleRotation.y e.m_particleRotationVariation.y (rand QPRand.RotYV),
     emitRotationAxis e.m_particleRotation.z e.m_particleRotationVariation.z (rand QPRand.RotZV)⟩
  else e.m_clearData.startRotation

/-- Lines 697-704 for one axis, applied to the rotation velocity `rotVel`
after variation: `char(max(-127, min(127, sign * sqrt(abs(rotVel)))))` with
`sign = rotVel < 0 ? -1 : 1`. The arguments of `std::min` are floats, so `abs`
and `std::sqrt` are the float overloads: the root is the rounded float root
`f32sqrt`, and the product with the sign is exact. -/
def compressRotationVelocity (rotVel : ℚ) : Int :=
  let sign : ℚ := if rotVel < 0 then -1 else 1
  toChar (max (-127) (min 127 (sign * f32sqrt |rotVel|)))

/-- The rotation velocity block of emitParticle (lines 687-705). -/
def emitRotationVelocity (e : QQuick3DParticleEmitter) (rand : QPRand → ℚ) : Vector3b :=
  if !e.m_particleRotationVelocity.isNull || !e.m_particleRotationVelocityVariation.isNull then
    let vx := e.m_particleRotationVelocityVariation.x
    let vy := e.m_particleRotationVelocityVariation.y
    let vz := e.m_particleRotationVelocityVariation.z
    let rotVelX := e.m_particleRotationVelocity.x + (vx - 2 * rand QPRand.RotXVV * vx)
    let rotVelY := e.m_particleRotationVelocity.y + (vy - 2 * rand QPRand.RotYVV * vy)
    let rotVelZ := e.m_particleRotationVelocity.z + (vz - 2 * rand QPRand.RotZVV * vz)
    ⟨compressRotationVelocity rotVelX, compressRotationVelocity rotVelY,
     compressRotationVelocity rotVelZ⟩
  else e.m_clearData.startRotationVelocity

/-- The colour block of emitParticle (lines 707-724). -/
def emitColor (particle : QQuick3DParticle) (rand : QPRand → ℚ) : Color4ub :=
  let pc := particle.m_color
  let pcv := particle.m_colorVariation
  if particle.m_unifiedColorVariation then
    let randVar : Int := truncToInt (rand QPRand.ColorAV * 256)
    ⟨toUChar (pc.red * (1 - pcv.x) + randVar * pcv.x),
     toUChar (pc.green * (1 - pcv.y) + randVar * pcv.y),
     toUChar (pc.blue * (1 - pcv.z) + randVar * pcv.z),
     toUChar (pc.alpha * (1 - pcv.w) + randVar * pcv.w)⟩
  else
    ⟨toUChar (pc.red * (1 - pcv.x) + truncToInt (rand QPRand.ColorRV * 256) * pcv.x),
     toUChar (pc.green * (1 - pcv.y) + truncToInt (rand QPRand.ColorGV * 256) * pcv.y),
     toUChar (pc.blue * (1 - pcv.z) + truncToInt (rand QPRand.ColorBV * 256) * pcv.z),
     toUChar (pc.alpha * (1 - pcv.w) + truncToInt (rand QPRand.ColorAV * 256) * pcv.w)⟩

/-- The record `*d` that emitParticle (lines 643-724) builds for the slot
`particleIndex`: `m_clearData` with index, start time, life time, sizes,
position, velocity, rotation, rotation velocity and colour filled in. -/
def emitData (e : QQuick3DParticleEmitter) (particle : QQuick3DParticle) (rand : QPRand → ℚ)
    (particleIndex : Int) (startTime : ℚ) (transform : QMatrix4x4) (centerPos : QVector3D) :
    QQuick3DParticleData :=
  let d0 : QQuick3DParticleData := { e.m_clearData with index := particleIndex, startTime := startTime }
  let d1 := { d0 with lifetime := emitLifetime e (rand QPRand.LifeSpanV) }
  let d2 := { d1 with
    startSize := (emitSize e (rand QPRand.ScaleV)).1
    endSize := (emitSize e (rand QPRand.ScaleV)).2 }
  let pos :=
    match e.m_shape with
    | some randomPosition => centerPos.add (randomPosition particleIndex)
    | none => centerPos
  let d3 := { d2 with startPosition := transform.mul pos }
  let d4 :=
    match e.m_velocity with
    | some sample => { d3 with startVelocity := transform.rotatedMap (sample d3) }
    | none => d3
  { d4 with
    startRotation := emitRotation e rand
    startRotationVelocity := emitRotationVelocity e rand
    startColor := emitColor particle rand }

/-- QQuick3DParticleEmitter::emitParticle (lines 635-725). The next slot of
the particle is claimed and overwritten with the new record, and the call is
appended to the trace. A claimed index outside `m_particleData` writes
nothing. `site` names the caller and only goes to the trace. -/
def emitParticle (w : World) (self : Ptr) (site : EmitSite) (particle : Ptr) (startTime : ℚ)
    (transform : QMatrix4x4) (centerPos : QVector3D) : World :=
  let e := w.emitters self
  match e.m_system with
  | none => w
  | some sys =>
    let rand := (w.systems sys).m_rand
    let next := (w.particles particle).nextCurrentIndex
    let particleIndex := next.1
    let d := emitData e next.2 (rand particleIndex) particleIndex startTime transform centerPos
    let data := if 0 ≤ particleIndex then next.2.m_particleData.set particleIndex.toNat d
      else next.2.m_particleData
    let w1 := w.setParticle particle { next.2 with m_particleData := data }
    { w1 with emitTrace := w1.emitTrace ++ [⟨self, site, particle, particleIndex, d⟩] }

/-- Lines 738-739 of getEmitAmount: the float `emitAmountF`,
`timeChange / (1000.0f / m_emitRate)` with `timeChange` the difference of the
two `int` times converted to float. Every operation is rounded. When
`1000.0f / m_emitRate` exceeds the largest float it is +infinity in the
source, and a finite `timeChange` divided by it is zero. -/
def emitAmountFloat (emitRate : ℚ) (prevEmitTime time : Int) : ℚ :=
  let timeChange : ℚ := f32 ((time - prevEmitTime : Int) : ℚ)
  let period : ℚ := f32 (1000 / emitRate)
  if f32Max < period then 0 else f32 (timeChange / period)

/-- QQuick3DParticleEmitter::getEmitAmount (lines 727-753): the amount to
emit now, and the world with the unemitted fraction updated. `floorf` is
exact, its result is converted to `int`; in `emitAmountF - emitAmount` the
`int` is converted back to float, and `+=`, `-` and `--` are float
operations. -/
def getEmitAmount (w : World) (self : Ptr) : Int × World :=
  let e := w.emitters self
  match e.m_system with
  | none => (0, w)
  | some sys =>
    if !e.m_enabled then (0, w)
    else if e.m_emitRate ≤ 0 then (0, w)
    else
      let emitAmountF : ℚ := emitAmountFloat e.m_emitRate e.m_prevEmitTime (w.systems sys).m_time
      let emitAmount : Int := floatToInt (⌊emitAmountF⌋ : ℚ)
      if 0 < emitAmount then
        let unemittedF := f32 (e.m_unemittedF + f32 (emitAmountF - f32 (emitAmount : ℚ)))
        if 1 ≤ unemittedF then
          (emitAmount + 1, w.setEmitter self { e with m_unemittedF := f32 (unemittedF - 1) })
        else
          (emitAmount, w.setEmitter self { e with m_unemittedF := unemittedF })
      else (emitAmount, w)

/-- The start time expression of the two emission loops (lines 772 and 807):
`(time / 1000) + (float(1 + i) / emitAmount) * (span / 1000)`, where `span` is
`burst.duration` for a burst and `systemTime - m_prevEmitTime` for the rate
based emission. -/
def distributeStartTime (time span emitAmount : Int) (i : Nat) : ℚ :=
  (time : ℚ) / 1000 + ((1 + i : ℚ) / emitAmount) * ((span : ℚ) / 1000)

/-- QQuick3DParticleEmitter::emitParticlesBurst (lines 755-775). -/
def emitParticlesBurst (w : World) (self : Ptr) (burst : QQuick3DParticleEmitBurstData) : World :=
  let e := w.emitters self
  match e.m_system with
  | none => w
  | some sys =>
    if !e.m_enabled then w
    else
      match e.m_particle with
      | none => w
      | some particle =>
        if (w.particles particle).m_system ≠ some sys then w
        else
          let transform := e.particleTransform
          let centerPos := e.position.add burst.position
          let emitAmount : Int := min burst.amount (w.particles particle).m_maxAmount
          (List.range emitAmount.toNat).foldl
            (fun w1 i =>
              let startTime : ℚ := distributeStartTime burst.time burst.duration emitAmount i
              emitParticle w1 self EmitSite.burst particle startTime transform centerPos)
            w

/-- QQuick3DParticleEmitter::burst(count, duration, position) (lines
560-570). -/
def burst (w : World) (self : Ptr) (count duration : Int) (position : QVector3D) : World :=
  match (w.emitters self).m_system with
  | none => w
  | some sys => emitParticlesBurst w self ⟨(w.systems sys).m_time, count, duration, position⟩

/-- The loop over `m_emitBursts` of generateEmitBursts (lines 602-615). The
flag of the result is `false` when the loop was left by the `return` of line
605 (a burst with an amount of zero or less). -/
def generateBurstLoop (self particle : Ptr) (transform : QMatrix4x4) (centerPos : QVector3D) :
    World → List QQuick3DParticleEmitBurst → World × Bool
  | w, [] => (w, true)
  | w, emitBurst :: rest =>
    let emitAmount := emitBurst.amount
    if emitAmount ≤ 0 then (w, false)
    else
      let startTime : ℚ := (emitBurst.time : ℚ) / 1000
      let timeStep : ℚ := (emitBurst.duration : ℚ) / 1000 / emitAmount
      let loop := (List.range emitAmount.toNat).foldl
        (fun (acc : World × ℚ) _ =>
          (emitParticle acc.1 self EmitSite.declaredBurst particle acc.2 transform centerPos,
           acc.2 + timeStep))
        (w, startTime)
      let w1 := loop.1
      let w2 := w1.setParticle particle ((w1.particles particle).updateBurstIndex emitBurst.amount)
      generateBurstLoop self particle transform centerPos w2 rest

/-- QQuick3DParticleEmitter::generateEmitBursts (lines 580-617). -/
def generateEmitBursts (w : World) (self : Ptr) : World :=
  let e := w.emitters self
  match e.m_system with
  | none => w
  | some sys =>
    match e.m_particle with
    | none => w
    | some particle =>
      if (w.particles particle).m_system ≠ some sys then w
      else if e.m_emitBursts.isEmpty then
        w.setEmitter self { e with m_burstGenerated := true }
      else
        let w1 := w.setParticle particle ((w.particles particle).reset w.defaultData)
        let r := generateBurstLoop self particle e.particleTransform e.position w1 e.m_emitBursts
        if r.2 then r.1.setEmitter self { r.1.emitters self with m_burstGenerated := true }
        else r.1

/-- The rate based part of emitParticles (lines 793-811), entered once the
guards have passed and pending bursts have been generated; `sys` and
`particle` are the pointers `m_system` and `m_particle`. -/
def emitRateParticles (w1 : World) (self sys particle : Ptr) : World :=
  let r := getEmitAmount w1 self
  if r.1 < 1 then r.2
  else
    let w2 := r.2
    let systemTime : Int := (w2.systems sys).m_time
    let transform := (w2.emitters self).particleTransform
    let centerPos := (w2.emitters self).position
    let prevEmitTime : Int := (w2.emitters self).m_prevEmitTime
    let emitAmount : Int := min r.1 (w2.particles particle).m_maxAmount
    let w3 := (List.range emitAmount.toNat).foldl
      (fun w3 i =>
        let startTime : ℚ :=
          distributeStartTime prevEmitTime (systemTime - prevEmitTime) emitAmount i
        emitParticle w3 self EmitSite.rate particle startTime transform centerPos)
      w2
    w3.setEmitter self { w3.emitters self with m_prevEmitTime := systemTime }

/-- QQuick3DParticleEmitter::emitParticles (lines 778-812). -/
def emitParticles (w : World) (self : Ptr) : World :=
  let e := w.emitters self
  match e.m_system with
  | none => w
  | some sys =>
    if !e.m_enabled then w
    else
      match e.m_particle with
      | none => w
      | some particle =>
        if (w.particles particle).m_system ≠ some sys then w
        else
          let w1 := if !e.m_burstGenerated then generateEmitBursts w self else w
          emitRateParticles w1 self sys particle

/-- The result of getEmitAmount (lines 738-752) as a function of the emit
rate, the previous emit time, the stored unemitted fraction and the system
time: the amount, and the unemitted fraction that is stored. -/
def emitAmountOf (emitRate : ℚ) (prevEmitTime : Int) (unemittedF : ℚ) (time : Int) : Int × ℚ :=
  let emitAmountF : ℚ := emitAmountFloat emitRate prevEmitTime time
  let emitAmount : Int := floatToInt (⌊emitAmountF⌋ : ℚ)
  if 0 < emitAmount then
    if 1 ≤ f32 (unemittedF + f32 (emitAmountF - f32 (emitAmount : ℚ))) then
      (emitAmount + 1, f32 (f32 (unemittedF + f32 (emitAmountF - f32 (emitAmount : ℚ))) - 1))
    else (emitAmount, f32 (unemittedF + f32 (emitAmountF - f32 (emitAmount : ℚ))))
  else (emitAmount, unemittedF)

/-- The result of getEmitAmount for the emitter `e` at system time `time`. -/
def emitAmountAt (e : QQuick3DParticleEmitter) (time : Int) : Int × ℚ :=
  emitAmountOf e.m_emitRate e.m_prevEmitTime e.m_unemittedF time

end QQuick3DParticleEmitter

/-! ## Evaluation: `qquick3dparticlesystem.cpp` -/

/-- TrailEmits: a trail emitter that follows the particle being processed,
with the amount it has to emit for every alive host record. -/
structure TrailEmits where
  emitter : Ptr
  amount : Int
deriving DecidableEq

/-- One call `emitter->emitTrailParticles(&currentData, amount)`. The body of
that method is not under `src/`; the call is recorded with its arguments. -/
structure TrailCall where
  emitter : Ptr
  currentData : QQuick3DParticleDataCurrent
  amount : Int
deriving DecidableEq

/-- The state threaded through a tick: the heaps and the trail calls made so
far, oldest first. -/
structure TickState where
  world : World
  trailCalls : List TrailCall

namespace QQuick3DParticleSystem

/-- QQuick3DParticleSystem::processParticleCommon (lines 670-688): position
from start position and velocity, colour from start colour, rotation from the
compact start rotation and rotation velocity. The statistics counter
`m_particlesUsed` is not modelled. -/
def processParticleCommon (currentData : QQuick3DParticleDataCurrent)
    (d : QQuick3DParticleData) (particleTimeS : ℚ) : QQuick3DParticleDataCurrent :=
  let step : ℚ := 360 / 127
  { currentData with
    position := d.startPosition.add (d.startVelocity.scale particleTimeS)
    color := d.startColor
    rotation :=
      ⟨d.startRotation.x * step + |d.startRotationVelocity.x| * d.startRotationVelocity.x * particleTimeS,
       d.startRotation.y * step + |d.startRotationVelocity.y| * d.startRotationVelocity.y * particleTimeS,
       d.startRotation.z * step + |d.startRotationVelocity.z| * d.startRotationVelocity.z * particleTimeS⟩ }

/-- QQuick3DParticleSystem::processParticleFadeInOut (lines 690-710). The
alpha channel is a `uchar`, so `color.a *= f` stores `toUChar (a * f)`. The
result is meaningful while the divisor of an entered block is not zero; the
divisors of a call are listed by `fadeDivisors`. -/
def processParticleFadeInOut (currentData : QQuick3DParticleDataCurrent)
    (particle : QQuick3DParticle) (particleTimeS particleTimeLeftS : ℚ) :
    QQuick3DParticleDataCurrent :=
  let fadeInS : ℚ := particle.m_fadeInDuration / 1000
  let fadeOutS : ℚ := particle.m_fadeOutDuration / 1000
  let c1 :=
    if particleTimeS < fadeInS then
      let fadeIn := particleTimeS / fadeInS
      if particle.m_fadeInEffect = FadeType.FadeOpacity then
        { currentData with color := { currentData.color with a := toUChar (currentData.color.a * fadeIn) } }
      else if particle.m_fadeInEffect = FadeType.FadeScale then
        { currentData with scale := currentData.scale.scale fadeIn }
      else currentData
    else currentData
  if particleTimeLeftS < fadeOutS then
    let fadeOut := particleTimeLeftS / fadeOutS
    if particle.m_fadeOutEffect = FadeType.FadeOpacity then
      { c1 with color := { c1.color with a := toUChar (c1.color.a * fadeOut) } }
    else if particle.m_fadeOutEffect = FadeType.FadeScale then
      { c1 with scale := c1.scale.scale fadeOut }
    else c1
  else c1

/-- QQuick3DParticleSystem::processParticleAlignment (lines 712-721). -/
def processParticleAlignment (w : World) (currentData : QQuick3DParticleDataCurrent)
    (particle : QQuick3DParticle) (d : QQuick3DParticleData) : QQuick3DParticleDataCurrent :=
  if particle.m_alignMode = AlignMode.AlignTowardsTarget then
    { currentData with
      rotation := w.lookAtEuler particle.m_alignTarget currentData.position currentData.rotation }
  else if particle.m_alignMode = AlignMode.AlignTowardsStartVelocity then
    { currentData with
      rotation := w.lookAtEuler d.startVelocity QVector3D.zero currentData.rotation }
  else currentData

/-- The affector loop of processModelParticle / processSpriteParticle (lines
590-594 and 649-653): every registered affector, in list order, that is
enabled and not restricted to other particles, transforms the derived
state. -/
def applyAffectors (w : World) (affectors : List Ptr) (particle : Ptr)
    (d : QQuick3DParticleData) (currentData : QQuick3DParticleDataCurrent)
    (particleTimeS : ℚ) : QQuick3DParticleDataCurrent :=
  affectors.foldl
    (fun cur a =>
      let affector := w.affectors a
      if affector.m_enabled && (affector.m_particles.isEmpty || affector.m_particles.contains particle) then
        affector.affectParticle d cur particleTimeS
      else cur)
    currentData

/-- The trail loop (lines 597-598 and 656-657): one recorded call per
collected trail emitter, in order. -/
def emitTrails (trailEmits : List TrailEmits) (currentData : QQuick3DParticleDataCurrent) :
    List TrailCall :=
  trailEmits.map (fun t => ⟨t.emitter, currentData, t.amount⟩)

/-- `std::max(0.0f, std::min(1.0f, particleTimeS / d->lifetime))` (lines 580
and 638). With a life time of zero the quotient is an infinity or NaN in the
source: `std::min(1.0f, x)` returns 1 unless `x < 1.0f`, so NaN and +infinity
give 1, and -infinity gives 0 through `std::max`. -/
def lifeFraction (particleTimeS lifetime : ℚ) : ℚ :=
  if lifetime = 0 then (if particleTimeS < 0 then 0 else 1)
  else max 0 (min 1 (particleTimeS / lifetime))

/-- The body of the loop of processModelParticle (lines 561-605) for one
record `d`: `none` is the `continue` of a record that is not alive, otherwise
the derived state that is committed with `addInstance`. The end of the life
time, the elapsed time and the remaining time are floats that are compared:
they are the rounded sum and differences. -/
def evaluateModelRecord (w : World) (system modelParticle : Ptr) (timeS : ℚ)
    (d : QQuick3DParticleData) : Option QQuick3DParticleDataCurrent :=
  let p := w.particles modelParticle
  let particleTimeEnd := f32 (d.startTime + d.lifetime)
  if timeS < d.startTime ∨ timeS > particleTimeEnd then
    none
  else
    let particleTimeS := f32 (timeS - d.startTime)
    let c0 := processParticleCommon QQuick3DParticleDataCurrent.init d particleTimeS
    let c1 := processParticleAlignment w c0 p d
    let timeChange : ℚ := lifeFraction particleTimeS d.lifetime
    let c2 := { c1 with
      scale := p.m_initialScale.scale (d.endSize * timeChange + d.startSize * (1 - timeChange)) }
    let particleTimeLeftS := f32 (d.lifetime - particleTimeS)
    let c3 := processParticleFadeInOut c2 p particleTimeS particleTimeLeftS
    some (applyAffectors w (w.systems system).m_affectors modelParticle d c3 particleTimeS)

/-- The instance committed for an alive record (lines 600-602):
`addInstance(currentData.position, currentData.scale, currentData.rotation, color)`. -/
def instanceOfCurrent (currentData : QQuick3DParticleDataCurrent) : ModelInstance :=
  ⟨currentData.position, currentData.scale, currentData.rotation,
   ⟨currentData.color.r, currentData.color.g, currentData.color.b, currentData.color.a⟩⟩

/-- One iteration `i` of the loop of processModelParticle (lines 560-606);
the flag is the local `semiTransparent`. A slot missing from
`m_particleData` (fewer than `m_maxAmount` records) is skipped. -/
def processModelStep (system modelParticle : Ptr) (trailEmits : List TrailEmits) (timeS : ℚ)
    (acc : TickState × Bool) (i : Nat) : TickState × Bool :=
  let s := acc.1
  let p := s.world.particles modelParticle
  match p.m_particleData[i]? with
  | none => acc
  | some d =>
    match evaluateModelRecord s.world system modelParticle timeS d with
    | none => acc
    | some currentData =>
      let p1 := { p with m_instanceTable := p.m_instanceTable ++ [instanceOfCurrent currentData] }
      ({ world := s.world.setParticle modelParticle p1
         trailCalls := s.trailCalls ++ emitTrails trailEmits currentData },
       acc.2 || (currentData.color.a != 255))

/-- QQuick3DParticleSystem::processModelParticle (lines 553-609). The
instance table is cleared, then every alive record appends one instance;
`commitInstance` publishes the table and changes nothing modelled here. -/
def processModelParticle (st : TickState) (system modelParticle : Ptr)
    (trailEmits : List TrailEmits) (timeS : ℚ) : TickState :=
  let p0 := st.world.particles modelParticle
  let cleared : TickState :=
    { st with world := st.world.setParticle modelParticle { p0 with m_instanceTable := [] } }
  let c := p0.m_maxAmount
  let loop := (List.range c.toNat).foldl
    (processModelStep system modelParticle trailEmits timeS) (cleared, false)
  let pEnd := loop.1.world.particles modelParticle
  { loop.1 with
    world := loop.1.world.setParticle modelParticle { pEnd with m_hasTransparency := loop.2 } }

/-- The slot written for a record that is not alive (lines 622-623):
`setParticleData(i, {}, {}, {}, 0.0f, 0.0f)`. -/
def hiddenSprite : SpriteParticleData :=
  ⟨QVector3D.zero, QVector3D.zero, ⟨0, 0, 0, 0⟩, 0, 0⟩

/-- The body of the loop of processSpriteParticle (lines 616-665) for one
record `d`: `none` for a record that is not alive, otherwise the derived
state together with `timeChange`. -/
def evaluateSpriteRecord (w : World) (system spriteParticle : Ptr) (timeS : ℚ)
    (d : QQuick3DParticleData) : Option (QQuick3DParticleDataCurrent × ℚ) :=
  let p := w.particles spriteParticle
  let particleTimeEnd := f32 (d.startTime + d.lifetime)
  if timeS < d.startTime ∨ timeS > particleTimeEnd then
    none
  else
    let particleTimeS := f32 (timeS - d.startTime)
    let c0 := processParticleCommon QQuick3DParticleDataCurrent.init d particleTimeS
    let c1 := if !p.m_billboard then processParticleAlignment w c0 p d else c0
    let timeChange : ℚ := lifeFraction particleTimeS d.lifetime
    let scale := d.endSize * timeChange + d.startSize * (1 - timeChange)
    let c2 := { c1 with scale := ⟨scale, scale, scale⟩ }
    let particleTimeLeftS := f32 (d.lifetime - particleTimeS)
    let c3 := processParticleFadeInOut c2 p particleTimeS particleTimeLeftS
    some (applyAffectors w (w.systems system).m_affectors spriteParticle d c3 particleTimeS, timeChange)

/-- The slot written for an alive record (lines 660-665). -/
def spriteOfCurrent (currentData : QQuick3DParticleDataCurrent) (timeChange : ℚ) :
    SpriteParticleData :=
  ⟨currentData.position, currentData.rotation,
   ⟨(currentData.color.r : ℚ) / 255, (currentData.color.g : ℚ) / 255,
    (currentData.color.b : ℚ) / 255, (currentData.color.a : ℚ) / 255⟩,
   currentData.scale.x, timeChange⟩

/-- One iteration `i` of the loop of processSpriteParticle (lines 615-666). A
slot missing from `m_particleData` is skipped. -/
def processSpriteStep (system spriteParticle : Ptr) (trailEmits : List TrailEmits) (timeS : ℚ)
    (s : TickState) (i : Nat) : TickState :=
  let p := s.world.particles spriteParticle
  match p.m_particleData[i]? with
  | none => s
  | some d =>
    match evaluateSpriteRecord s.world system spriteParticle timeS d with
    | none =>
      let p1 := { p with
        m_spriteParticleData := Function.update p.m_spriteParticleData i hiddenSprite }
      { s with world := s.world.setParticle spriteParticle p1 }
    | some (currentData, timeChange) =>
      let p1 := { p with
        m_spriteParticleData :=
          Function.update p.m_spriteParticleData i (spriteOfCurrent currentData timeChange) }
      { world := s.world.setParticle spriteParticle p1
        trailCalls := s.trailCalls ++ emitTrails trailEmits currentData }

/-- QQuick3DParticleSystem::processSpriteParticle (lines 611-668): every slot
`i < maxAmount` is written, hidden when its record is not alive;
`commitParticles` publishes the buffer and changes nothing modelled here. -/
def processSpriteParticle (st : TickState) (system spriteParticle : Ptr)
    (trailEmits : List TrailEmits) (timeS : ℚ) : TickState :=
  let c := (st.world.particles spriteParticle).m_maxAmount
  (List.range c.toNat).foldl (processSpriteStep system spriteParticle trailEmits timeS) st

end QQuick3DParticleSystem

/-! ## Registration, run state and the tick -/

namespace QQuick3DParticleSystem

/-- QQuick3DParticleSystem::registerParticleEmitter (lines 456-463); the
`qobject_cast` to a trail emitter is the flag `isTrailEmitter`. -/
def registerParticleEmitter (w : World) (self e : Ptr) : World :=
  let s := w.systems self
  if (w.emitters e).isTrailEmitter then
    w.setSystem self { s with m_trailEmitters := s.m_trailEmitters ++ [e] }
  else
    w.setSystem self { s with m_emitters := s.m_emitters ++ [e] }

/-- QQuick3DParticleSystem::unRegisterParticleEmitter (lines 465-472);
`QList::removeAll` drops every occurrence. -/
def unRegisterParticleEmitter (w : World) (self e : Ptr) : World :=
  let s := w.systems self
  if (w.emitters e).isTrailEmitter then
    w.setSystem self { s with m_trailEmitters := s.m_trailEmitters.filter (fun x => x != e) }
  else
    w.setSystem self { s with m_emitters := s.m_emitters.filter (fun x => x != e) }

/-- QQuick3DParticleSystem::registerParticleAffector (lines 474-478); the
signal connection kept in `m_connections` is not modelled. -/
def registerParticleAffector (w : World) (self a : Ptr) : World :=
  let s := w.systems self
  w.setSystem self { s with m_affectors := s.m_affectors ++ [a] }

/-- QQuick3DParticleSystem::unRegisterParticleAffector (lines 480-485). -/
def unRegisterParticleAffector (w : World) (self a : Ptr) : World :=
  let s := w.systems self
  w.setSystem self { s with m_affectors := s.m_affectors.filter (fun x => x != a) }

/-- One of the two loops of isShared (lines 769-773 and 774-778), entered with
the count so far: `none` when the loop returns `true`, otherwise the count
after the loop. -/
def isSharedLoop (w : World) (particle : Option Ptr) : List Ptr → Nat → Option Nat
  | [], count => some count
  | e :: rest, count =>
    let count1 := count + (if (w.emitters e).m_particle = particle then 1 else 0)
    if count1 > 1 then none else isSharedLoop w particle rest count1

/-- QQuick3DParticleSystem::isShared (lines 766-780); the argument is a
pointer, `none` being the null pointer. -/
def isShared (w : World) (self : Ptr) (particle : Option Ptr) : Bool :=
  match isSharedLoop w particle (w.systems self).m_emitters 0 with
  | none => true
  | some count =>
    match isSharedLoop w particle (w.systems self).m_trailEmitters count with
    | none => true
    | some _ => false

/-- QQuick3DParticleSystem::setPaused (lines 286-294). -/
def setPaused (w : World) (self : Ptr) (paused : Bool) : World :=
  let s := w.systems self
  if s.m_paused != paused then
    let animation :=
      if s.m_animation ≠ AnimationState.Stopped then
        (if paused then s.m_animation.pause else s.m_animation.resume)
      else s.m_animation
    w.setSystem self { s with m_paused := paused, m_animation := animation }
  else w

/-- QQuick3DParticleSystem::setSeed (lines 331-339). -/
def setSeed (w : World) (self : Ptr) (seed : Int) : World :=
  let s := w.systems self
  if s.m_seed = seed then w
  else w.setSystem self { s with m_seed := seed, m_rand := s.randInit seed }

/-- QRandomGenerator::bounded(int highest) of Qt for the 32 bit value
`generated` drawn by the generator: a value from 0 (inclusive) to `highest`
(exclusive), computed as `generated * highest / 2^32`. -/
def bounded (generated : Nat) (highest : Int) : Int :=
  ((generated : Int) * highest) / 4294967296

/-- QQuick3DParticleSystem::doSeedRandomization (lines 760-764); `generated`
is the 32 bit value the global generator draws, `INT32_MAX` is
2147483647. -/
def doSeedRandomization (w : World) (self : Ptr) (generated : Nat) : World :=
  setSeed w self (bounded generated (1 + (2147483647 - 1)))

/-- QQuick3DParticleSystem::setRunning (lines 262-284); `generated` is the
value the global generator draws if the seed is randomised. -/
def setRunning (w : World) (self : Ptr) (running : Bool) (generated : Nat) : World :=
  if (w.systems self).m_running != running then
    let w1 := w.setSystem self { w.systems self with m_running := running }
    let w2 := setPaused w1 self false
    let w3 :=
      if (w2.systems self).m_running then
        let wa := (w2.systems self).m_emitters.foldl
          (fun w0 e => QQuick3DParticleEmitter.reset w0 e) w2
        let wb := (wa.systems self).m_trailEmitters.foldl
          (fun w0 e => QQuick3DParticleEmitter.reset w0 e) wa
        let wc := (wb.systems self).m_particles.foldl
          (fun w0 p => w0.setParticle p ((w0.particles p).reset w0.defaultData)) wb
        wc.setSystem self { wc.systems self with m_particleIdIndex := 0 }
      else w2
    let s3 := w3.systems self
    let w4 :=
      if s3.m_componentComplete && !s3.m_running && s3.m_useRandomSeed then
        doSeedRandomization w3 self generated
      else w3
    let s4 := w4.systems self
    w4.setSystem self
      { s4 with m_animation := if s4.m_running then s4.m_animation.start else s4.m_animation.stop }
  else w

/-- QQuick3DParticleSystem::reset (lines 376-393). -/
def reset (w : World) (self : Ptr) : World :=
  let s := w.systems self
  if !s.m_componentComplete then w
  else
    let a1 := if s.m_animation = AnimationState.Running then s.m_animation.stop else s.m_animation
    let a2 := if s.m_running then a1.start else a1
    let a3 := if s.m_paused then a2.pause else a2
    w.setSystem self { s with m_time := 0, m_animation := a3, m_initialized := true }

end QQuick3DParticleSystem

namespace QQuick3DParticleEmitter

/-- QQuick3DParticleEmitter::setSystem (lines 131-169): the emitter leaves
the lists of its old system and joins those of the new one. Lines 143-166
re-target `m_shape->m_system`, `m_velocity->m_system` and
`m_systemSharedParent`; these belong to collaborators that are held here as
the functions `m_shape`, `m_velocity` and `particleTransform`, whose values
are left as they are. -/
def setSystem (w : World) (self : Ptr) (system : Option Ptr) : World :=
  if (w.emitters self).m_system = system then w
  else
    let w1 :=
      match (w.emitters self).m_system with
      | some old => QQuick3DParticleSystem.unRegisterParticleEmitter w old self
      | none => w
    let w2 := w1.setEmitter self { w1.emitters self with m_system := system }
    match system with
    | some new => QQuick3DParticleSystem.registerParticleEmitter w2 new self
    | none => w2

/-- Modelled from the spec: QQuick3DParticleTrailEmitter::hasBursts
(`qquick3dparticletrailemitter.cpp` is not under `src/`; the header declares
it next to the list `m_bursts`): the trail emitter has bursts queued by
`burst()`. -/
def hasBursts (e : QQuick3DParticleEmitter) : Bool := !e.m_bursts.isEmpty

/-- Modelled from the spec: QQuick3DParticleTrailEmitter::clearBursts
(`qquick3dparticletrailemitter.cpp` is not under `src/`): the queued bursts
are dropped. -/
def clearBursts (w : World) (self : Ptr) : World :=
  w.setEmitter self { w.emitters self with m_bursts := [] }

end QQuick3DParticleEmitter

namespace QQuick3DParticleSystem

/-- One iteration of the loop that collects the trail emits for `particle`
(updateCurrentTime, lines 519-529). -/
def collectTrailStep (particle : Ptr) (acc : World × List TrailEmits) (emitter : Ptr) :
    World × List TrailEmits :=
  if (acc.1.emitters emitter).m_follow = some particle then
    let r := QQuick3DParticleEmitter.getEmitAmount acc.1 emitter
    if r.1 > 0 || (r.2.emitters emitter).hasBursts then
      (r.2, acc.2 ++ [⟨emitter, r.1⟩])
    else (r.2, acc.2)
  else acc

/-- The trail emits collected for `particle` (updateCurrentTime, lines
517-529), with the world in which every asked trail emitter has updated its
unemitted fraction. -/
def collectTrailEmits (w : World) (self particle : Ptr) : World × List TrailEmits :=
  (w.systems self).m_trailEmitters.foldl (collectTrailStep particle) (w, [])

/-- The body of the loop over `m_particles` (updateCurrentTime, lines
515-543): collect the trail emits, then process the particle as a sprite or a
model particle. The statistics counter `m_particlesMax` is not modelled. -/
def animateParticle (self : Ptr) (timeS : ℚ) (st : TickState) (particle : Ptr) : TickState :=
  let c := collectTrailEmits st.world self particle
  let st1 : TickState := { st with world := c.1 }
  match (st1.world.particles particle).kind with
  | ParticleKind.SpriteParticle => processSpriteParticle st1 self particle c.2 timeS
  | ParticleKind.ModelParticle => processModelParticle st1 self particle c.2 timeS

/-- QQuick3DParticleSystem::updateCurrentTime (lines 487-551). `timeS` is
`float(m_time / 1000.0f)`, the rounded quotient of the time converted to
float. The virtual
`prepareToAffect` of the affectors has no override under `src/`: an affector
is held as the function `affectParticle` computes in this tick. Statistics
and the dirty flag of the update animation are not modelled. -/
def updateCurrentTime (st : TickState) (self : Ptr) (currentTime : Int) : TickState :=
  if !(st.world.systems self).m_initialized then st
  else
    let w1 :=
      if (st.world.systems self).m_time ≠ currentTime then
        st.world.setSystem self { st.world.systems self with m_time := currentTime }
      else st.world
    let timeS : ℚ := f32 (f32 ((w1.systems self).m_time : ℚ) / 1000)
    let w2 := (w1.systems self).m_emitters.foldl
      (fun w0 e => QQuick3DParticleEmitter.emitParticles w0 e) w1
    let st3 := (w2.systems self).m_particles.foldl (animateParticle self timeS)
      { st with world := w2 }
    let w4 := (st3.world.systems self).m_trailEmitters.foldl
      (fun w0 e => QQuick3DParticleEmitter.clearBursts w0 e) st3.world
    { st3 with world := w4 }

/-- The calls `affector->affectParticle(*d, &currentData, particleTimeS)` made
by the affector loop (lines 590-594 and 649-653), oldest first, each with the
derived state it receives. -/
def affectorCalls (w : World) (particle : Ptr) (d : QQuick3DParticleData) (particleTimeS : ℚ) :
    List Ptr → QQuick3DParticleDataCurrent → List (Ptr × QQuick3DParticleDataCurrent)
  | [], _ => []
  | a :: rest, currentData =>
    let affector := w.affectors a
    if affector.m_enabled && (affector.m_particles.isEmpty || affector.m_particles.contains particle) then
      (a, currentData)
        :: affectorCalls w particle d particleTimeS rest
            (affector.affectParticle d currentData particleTimeS)
    else affectorCalls w particle d particleTimeS rest currentData

/-- The derived state of an alive record when the affector loop is entered
(lines 570-587 and 627-646): after common processing, alignment, scale and
fades. With `scaleOf` the scale vector of the particle kind. -/
def stateBeforeAffectors (w : World) (particle : Ptr) (timeS : ℚ) (d : QQuick3DParticleData)
    (align : Bool) (scaleOf : ℚ → QVector3D) : QQuick3DParticleDataCurrent :=
  let p := w.particles particle
  let particleTimeS := f32 (timeS - d.startTime)
  let c0 := processParticleCommon QQuick3DParticleDataCurrent.init d particleTimeS
  let c1 := if align then processParticleAlignment w c0 p d else c0
  let timeChange : ℚ := lifeFraction particleTimeS d.lifetime
  let c2 := { c1 with scale := scaleOf (d.endSize * timeChange + d.startSize * (1 - timeChange)) }
  processParticleFadeInOut c2 p particleTimeS (f32 (d.lifetime - particleTimeS))

end QQuick3DParticleSystem

/-! ## Evaluation of a whole record list

Closed forms of what the two loops of the system produce, used to state the
results of `processModelParticle` and `processSpriteParticle`. -/

open QQuick3DParticleSystem in
/-- The instances of the alive records among `ds`, in order. -/
def modelTable (w : World) (system particle : Ptr) (timeS : ℚ) (ds : List QQuick3DParticleData) :
    List ModelInstance :=
  ds.filterMap (fun d => (evaluateModelRecord w system particle timeS d).map instanceOfCurrent)

open QQuick3DParticleSystem in
/-- The trail calls made for the alive records among `ds`, in order. -/
def modelTrailCalls (w : World) (system particle : Ptr) (trailEmits : List TrailEmits) (timeS : ℚ)
    (ds : List QQuick3DParticleData) : List TrailCall :=
  (ds.filterMap (evaluateModelRecord w system particle timeS)).flatMap (emitTrails trailEmits)

open QQuick3DParticleSystem in
/-- Whether an alive record among `ds` has a derived alpha other than 255. -/
def modelSemiTransparent (w : World) (system particle : Ptr) (timeS : ℚ)
    (ds : List QQuick3DParticleData) : Bool :=
  (ds.filterMap (evaluateModelRecord w system particle timeS)).any (fun c => c.color.a != 255)

open QQuick3DParticleSystem in
/-- The sprite slot that the record `d` is shown with at `timeS`. -/
def spriteSlot (w : World) (system particle : Ptr) (timeS : ℚ) (d : QQuick3DParticleData) :
    SpriteParticleData :=
  match evaluateSpriteRecord w system particle timeS d with
  | none => hiddenSprite
  | some r => spriteOfCurrent r.1 r.2

open QQuick3DParticleSystem in
/-- The trail calls made for the alive records among `ds` of a sprite
particle, in order. -/
def spriteTrailCalls (w : World) (system particle : Ptr) (trailEmits : List TrailEmits) (timeS : ℚ)
    (ds : List QQuick3DParticleData) : List TrailCall :=
  (ds.filterMap (evaluateSpriteRecord w system particle timeS)).flatMap
    (fun r => emitTrails trailEmits r.1)

/-- The sprite buffer after the slots below `n` have been processed: slot `j`
shows record `j` if there is one, the other slots keep their content. -/
def spriteBuffer (w : World) (system particle : Ptr) (timeS : ℚ) (n : Nat) :
    Nat → SpriteParticleData :=
  fun j =>
    if j < n then
      match (w.particles particle).m_particleData[j]? with
      | some d => spriteSlot w system particle timeS d
      | none => (w.particles particle).m_spriteParticleData j
    else (w.particles particle).m_spriteParticleData j

/-! ## Observations on a run -/

/-- The start times of the particles that `emitter` has emitted from the call
site `site`, oldest first. -/
def emittedStartTimes (w : World) (emitter : Ptr) (site : EmitSite) : List ℚ :=
  (w.emitTrace.filter (fun c => decide (c.emitter = emitter ∧ c.site = site))).map
    (fun c => c.data.startTime)

/-- A pool in which every index that nextCurrentIndex hands out is a slot of
`m_particleData`: the list holds `m_maxAmount` records, the slots claimed by
declared bursts leave at least one slot free, and the current index is the
slot before the first free one or a free slot. -/
def PoolReady (p : QQuick3DParticle) : Prop :=
  (p.m_particleData.length : Int) = p.m_maxAmount
    ∧ 0 ≤ p.m_lastBurstIndex ∧ p.m_lastBurstIndex < p.m_maxAmount
    ∧ p.m_lastBurstIndex - 1 ≤ p.m_currentIndex ∧ p.m_currentIndex < p.m_maxAmount

/-- The records that a loop of `n` emitParticle calls with the start times
`f 0, .., f (n - 1)` has written, read from `m_particleData` of the pool `p`
before the loop and of the pool `p1` after it. Call `i` writes slot
`p.claimedIndex i`, a free slot of the pool; after the loop that slot holds a
record with the start time `f i` and the index of the slot, unless a later
call of the loop has claimed the slot again; the `n` slots are distinct when
`n` is at most the number of free slots; every slot that no call has claimed
holds what it held before. -/
def RecordsWritten (p p1 : QQuick3DParticle) (n : Nat) (f : Nat → ℚ) : Prop :=
  (∀ i, i < n → p.m_lastBurstIndex ≤ p.claimedIndex i ∧ p.claimedIndex i < p.m_maxAmount)
    ∧ (∀ i, i < n → (∀ j, i < j → j < n → p.claimedIndex j ≠ p.claimedIndex i) →
        ∃ d, p1.m_particleData[(p.claimedIndex i).toNat]? = some d
          ∧ d.startTime = f i ∧ d.index = p.claimedIndex i)
    ∧ ((n : Int) ≤ p.m_maxAmount - p.m_lastBurstIndex →
        ∀ i j, i < j → j < n → p.claimedIndex i ≠ p.claimedIndex j)
    ∧ (∀ slot : Nat, (∀ i, i < n → (p.claimedIndex i).toNat ≠ slot) →
        p1.m_particleData[slot]? = p.m_particleData[slot]?)

/-- What every emission leaves as it is: the systems, the emitters, and the
size and owner of every particle pool. -/
structure EmitFrame (w w1 : World) : Prop where
  systems : w1.systems = w.systems
  emitters : w1.emitters = w.emitters
  maxAmount : ∀ p, (w1.particles p).m_maxAmount = (w.particles p).m_maxAmount
  psystem : ∀ p, (w1.particles p).m_system = (w.particles p).m_system

/-- QQuick3DParticleSystem::updateCurrentTime, lines 492-495: the clock of the
system moves to `time`. -/
def World.setTime (w : World) (sys : Ptr) (time : Int) : World :=
  w.setSystem sys { w.systems sys with m_time := time }

/-- One tick as seen by one emitter (updateCurrentTime, lines 492-506): the
clock of the system moves to `time` and the system calls emitParticles on the
emitter. -/
def emitTick (w : World) (sys self : Ptr) (time : Int) : World :=
  QQuick3DParticleEmitter.emitParticles (w.setTime sys time) self

/-- A sequence of ticks at the given times, in order. -/
def emitTicks (w : World) (sys self : Ptr) (times : List Int) : World :=
  times.foldl (fun w1 t => emitTick w1 sys self t) w

/-- The pool size never limits the count: at every tick of the sequence the
amount returned by getEmitAmount is at most `maxAmount`, so the `std::min` of
line 803 changes nothing. -/
def neverLimited (sys self particle : Ptr) : World → List Int → Prop
  | _, [] => True
  | w, t :: ts =>
    (QQuick3DParticleEmitter.getEmitAmount (w.setTime sys t) self).1
        ≤ (w.particles particle).m_maxAmount
      ∧ neverLimited sys self particle (emitTick w sys self t) ts

/-- The number of particles that `emitter` has emitted so far through the
rate based emission of emitParticles. -/
def rateEmitted (w : World) (emitter : Ptr) : Nat :=
  (emittedStartTimes w emitter EmitSite.rate).length

/-- An emitter that emits: enabled, with the system `sys`, a particle of that
system, and the positive emit rate `r`. -/
structure ActiveEmitter (w : World) (emitter sys particle : Ptr) (r : ℚ) : Prop where
  hasSystem : (w.emitters emitter).m_system = some sys
  isEnabled : (w.emitters emitter).m_enabled = true
  hasParticle : (w.emitters emitter).m_particle = some particle
  sameSystem : (w.particles particle).m_system = some sys
  hasRate : (w.emitters emitter).m_emitRate = r
  ratePos : 0 < r

/-- The pair (`m_prevEmitTime`, `m_unemittedF`) of an emitter with emit rate
`r` after ticks at the given times, starting from the pair given: at every
tick the fraction is replaced by the one getEmitAmount stores, and the
previous emit time moves to the tick time when at least one particle is
emitted. -/
def rateRun (r : ℚ) : Int × ℚ → List Int → Int × ℚ
  | s, [] => s
  | s, t :: ts =>
    rateRun r
      (if 1 ≤ (QQuick3DParticleEmitter.emitAmountOf r s.1 s.2 t).1 then t else s.1,
       (QQuick3DParticleEmitter.emitAmountOf r s.1 s.2 t).2) ts

/-- The pure form of `neverLimited` for an emitter with emit rate `r` and a
pool of `maxAmount` slots, on the pair (`m_prevEmitTime`,
`m_unemittedF`). -/
def rateLimitFree (r : ℚ) (maxAmount : Int) : Int × ℚ → List Int → Prop
  | _, [] => True
  | s, t :: ts =>
    (QQuick3DParticleEmitter.emitAmountOf r s.1 s.2 t).1 ≤ maxAmount
      ∧ rateLimitFree r maxAmount
          (if 1 ≤ (QQuick3DParticleEmitter.emitAmountOf r s.1 s.2 t).1 then t else s.1,
           (QQuick3DParticleEmitter.emitAmountOf r s.1 s.2 t).2) ts

/-- The sum of the float amounts `emitAmountF` that getEmitAmount computed at
the ticks that emitted, for an emitter with emit rate `r` that starts from
the pair (`m_prevEmitTime`, `m_unemittedF`) given. -/
def rateFloatSum (r : ℚ) : Int × ℚ → List Int → ℚ
  | _, [] => 0
  | s, t :: ts =>
    (if 1 ≤ (QQuick3DParticleEmitter.emitAmountOf r s.1 s.2 t).1
      then QQuick3DParticleEmitter.emitAmountFloat r s.1 t else 0)
      + rateFloatSum r
          (if 1 ≤ (QQuick3DParticleEmitter.emitAmountOf r s.1 s.2 t).1 then t else s.1,
           (QQuick3DParticleEmitter.emitAmountOf r s.1 s.2 t).2) ts

/-- The number of ticks that emitted, likewise. -/
def rateEmitTicks (r : ℚ) : Int × ℚ → List Int → Nat
  | _, [] => 0
  | s, t :: ts =>
    (if 1 ≤ (QQuick3DParticleEmitter.emitAmountOf r s.1 s.2 t).1 then 1 else 0)
      + rateEmitTicks r
          (if 1 ≤ (QQuick3DParticleEmitter.emitAmountOf r s.1 s.2 t).1 then t else s.1,
           (QQuick3DParticleEmitter.emitAmountOf r s.1 s.2 t).2) ts

/-! ## A small concrete scene

One system (pointer 0) with one sprite particle (pointer 0) of 100 slots and
one emitter (pointer 0) that emits 2.5 particles per second with a life span
of 10 s ± 2 s. The random stream always returns 1/2. -/

/-- The default constructed record of the example scene: not alive at any
time `t ≥ 0`. -/
def exampleData : QQuick3DParticleData :=
  ⟨⟨0, 0, 0⟩, ⟨0, 0, 0⟩, ⟨0, 0, 0⟩, ⟨0, 0, 0⟩, ⟨255, 255, 255, 255⟩, -1, 0, 1, 1, 0⟩

/-- The system of the example scene. -/
def exampleSystem : QQuick3DParticleSystem :=
  { m_running := true
    m_paused := false
    m_time := 0
    m_rand := fun _ _ => 1 / 2
    m_particles := [0]
    m_emitters := [0]
    m_trailEmitters := []
    m_affectors := []
    m_animation := AnimationState.Running
    m_componentComplete := true
    m_initialized := true
    m_useRandomSeed := false
    m_seed := 0
    m_particleIdIndex := 0
    randInit := fun _ _ _ => 1 / 2 }

/-- The particle of the example scene. -/
def exampleParticle : QQuick3DParticle :=
  { m_system := some 0
    kind := ParticleKind.SpriteParticle
    m_initialScale := ⟨1, 1, 1⟩
    m_instanceTable := []
    m_hasTransparency := false
    m_billboard := true
    m_spriteParticleData := fun _ => ⟨⟨0, 0, 0⟩, ⟨0, 0, 0⟩, ⟨0, 0, 0, 0⟩, 0, 0⟩
    m_maxAmount := 100
    m_particleData := List.replicate 100 exampleData
    m_currentIndex := -1
    m_lastBurstIndex := 0
    m_color := ⟨255, 255, 255, 255⟩
    m_colorVariation := ⟨0, 0, 0, 0⟩
    m_unifiedColorVariation := false
    m_fadeInEffect := FadeType.FadeOpacity
    m_fadeOutEffect := FadeType.FadeOpacity
    m_fadeInDuration := 600
    m_fadeOutDuration := 600
    m_alignMode := AlignMode.AlignNone
    m_alignTarget := ⟨0, 0, 0⟩
    m_depthBias := 0 }

/-- The emitter of the example scene. -/
def exampleEmitter : QQuick3DParticleEmitter :=
  { m_system := some 0
    m_particle := some 0
    m_enabled := true
    m_emitRate := 5 / 2
    m_particleScale := 1
    m_particleEndScale := 3
    m_particleScaleVariation := 1 / 2
    m_lifeSpan := 10000
    m_lifeSpanVariation := 2000
    m_particleRotation := ⟨360, 90, 0⟩
    m_particleRotationVariation := ⟨0, 0, 0⟩
    m_particleRotationVelocity := ⟨100, -50, 0⟩
    m_particleRotationVelocityVariation := ⟨0, 0, 0⟩
    m_shape := none
    m_velocity := none
    m_emitBursts := []
    m_burstGenerated := false
    m_prevEmitTime := 0
    m_unemittedF := 0
    m_clearData := exampleData
    m_depthBias := 0
    position := ⟨0, 0, 0⟩
    particleTransform := ⟨id, id⟩
    isTrailEmitter := false
    m_follow := none
    m_bursts := [] }

/-- A record of the example scene that is alive from 2 s to 5 s and grows
from size 1 to size 3. -/
def exampleRecord : QQuick3DParticleData :=
  ⟨⟨0, 0, 0⟩, ⟨0, 0, 0⟩, ⟨0, 0, 0⟩, ⟨0, 0, 0⟩, ⟨255, 255, 255, 255⟩, 2, 3, 3, 1, 0⟩

/-- The system of the example scene with its clock at `time` (ms). -/
def exampleSystemAt (time : Int) : QQuick3DParticleSystem :=
  { exampleSystem with m_time := time }

/-- The example scene. -/
def exampleWorld : World :=
  { systems := fun _ => exampleSystem
    particles := fun _ => exampleParticle
    emitters := fun _ => exampleEmitter
    affectors := fun _ => ⟨false, [], fun _ c _ => c⟩
    lookAtEuler := fun _ _ r => r
    defaultData := exampleData
    emitTrace := [] }

/-- Ten ticks, one every 1000 ms. -/
def exampleTicks : List Int :=
  [1000, 2000, 3000, 4000, 5000, 6000, 7000, 8000, 9000, 10000]

/-- The example scene with the clock of its system at `time` (ms). -/
def exampleWorldAt (time : Int) : World :=
  { exampleWorld with systems := fun _ => exampleSystemAt time }

/-! ## Sequences of run state calls -/

/-- A call that changes the run state of a system: `setRunning(running)` with
the value the global generator would draw, `setPaused(paused)`, or
`reset()`. -/
inductive RunCall where
  | setRunning (running : Bool) (generated : Nat)
  | setPaused (paused : Bool)
  | reset
deriving DecidableEq

/-- The world after the system `self` has executed the call. -/
def RunCall.apply (w : World) (self : Ptr) : RunCall → World
  | RunCall.setRunning running generated => QQuick3DParticleSystem.setRunning w self running generated
  | RunCall.setPaused paused => QQuick3DParticleSystem.setPaused w self paused
  | RunCall.reset => QQuick3DParticleSystem.reset w self

/-- The world after the system `self` has executed the calls in order. -/
def runCalls (w : World) (self : Ptr) (calls : List RunCall) : World :=
  calls.foldl (fun w1 c => c.apply w1 self) w

/-- Every `setPaused(true)` of the sequence is called while the system is
running. -/
def pausedOnlyWhileRunning (self : Ptr) : World → List RunCall → Prop
  | _, [] => True
  | w, c :: cs =>
    (c = RunCall.setPaused true → (w.systems self).m_running = true)
      ∧ pausedOnlyWhileRunning self (c.apply w self) cs

/-- The example scene with its system stopped. -/
def exampleStoppedWorld : World :=
  { exampleWorld with
    systems := fun _ =>
      { exampleSystem with m_running := false, m_animation := AnimationState.Stopped } }

/-! ## Registration through `setSystem` -/

/-- The calls `emitter->setSystem(system)` of a run, executed in order. -/
def setSystems (w : World) (calls : List (Ptr × Option Ptr)) : World :=
  calls.foldl (fun w1 c => QQuick3DParticleEmitter.setSystem w1 c.1 c.2) w

/-- Registration follows the system pointer: every emitter occurs once in the
list of its kind (`m_trailEmitters` for a trail emitter, `m_emitters`
otherwise) of the system it points to, and in no other emitter list. -/
def RegistrationFollowsSystem (w : World) : Prop :=
  ∀ (e S : Ptr),
    (w.systems S).m_emitters.count e
        = (if (w.emitters e).isTrailEmitter = false ∧ (w.emitters e).m_system = some S then 1 else 0)
    ∧ (w.systems S).m_trailEmitters.count e
        = (if (w.emitters e).isTrailEmitter = true ∧ (w.emitters e).m_system = some S then 1 else 0)

/-- The example scene before any emitter has been given a system: no emitter
points to a system and the emitter lists are empty. -/
def exampleUnregisteredWorld : World :=
  { exampleWorld with
    systems := fun _ => { exampleSystem with m_emitters := [], m_trailEmitters := [] }
    emitters := fun _ => { exampleEmitter with m_system := none } }

/-! ## Trail emits of a tick -/

/-- The trail emits for `particle` in closed form: of the registered trail
emitters, in list order, those that follow `particle` and whose
getEmitAmount() is positive or that have bursts, each with the amount
getEmitAmount() returns in `w`. -/
def trailEmitsOf (w : World) (self particle : Ptr) : List TrailEmits :=
  (w.systems self).m_trailEmitters.filterMap (fun emitter =>
    if (w.emitters emitter).m_follow = some particle
        ∧ (0 < (QQuick3DParticleEmitter.getEmitAmount w emitter).1
            ∨ (w.emitters emitter).hasBursts = true) then
      some ⟨emitter, (QQuick3DParticleEmitter.getEmitAmount w emitter).1⟩
    else none)

/-- A record that is alive from 2 s to 5 s and moves along x with 1 unit per
second. -/
def exampleMovingRecord : QQuick3DParticleData :=
  ⟨⟨0, 0, 0⟩, ⟨1, 0, 0⟩, ⟨0, 0, 0⟩, ⟨0, 0, 0⟩, ⟨255, 255, 255, 255⟩, 2, 3, 1, 1, 0⟩

/-- The example scene at 3 s with a trail emitter (pointer 1) that follows
particle 0 and has one burst queued; particle 0 holds the moving record. -/
def exampleTrailWorld : World :=
  { exampleWorld with
    systems := fun _ => { exampleSystemAt 3000 with m_trailEmitters := [1] }
    particles := fun _ =>
      { exampleParticle with m_maxAmount := 1, m_particleData := [exampleMovingRecord] }
    emitters := fun e =>
      if e = 1 then
        { exampleEmitter with
          isTrailEmitter := true
          m_follow := some 0
          m_emitRate := 0
          m_bursts := [⟨3000, 5, 0, ⟨0, 0, 0⟩⟩] }
      else exampleEmitter }

/-! ## Declared bursts -/

namespace QQuick3DParticleEmitter

/-- QQuick3DParticleEmitter::registerEmitBurst (lines 619-626). The list
holds pointers: `contains` and `removeAll` compare the pointer `self` of the
burst objects, not their values. -/
def registerEmitBurst (w : World) (self : Ptr) (emitBurst : QQuick3DParticleEmitBurst) : World :=
  let e := w.emitters self
  let bursts :=
    if e.m_emitBursts.any (fun b => b.self == emitBurst.self) then
      e.m_emitBursts.filter (fun b => b.self != emitBurst.self)
    else e.m_emitBursts
  w.setEmitter self { e with m_emitBursts := bursts ++ [emitBurst], m_burstGenerated := false }

/-- QQuick3DParticleEmitter::unRegisterEmitBurst (lines 628-633), comparing
pointers likewise. -/
def unRegisterEmitBurst (w : World) (self : Ptr) (emitBurst : QQuick3DParticleEmitBurst) : World :=
  let e := w.emitters self
  let bursts :=
    if e.m_emitBursts.any (fun b => b.self == emitBurst.self) then
      e.m_emitBursts.filter (fun b => b.self != emitBurst.self)
    else e.m_emitBursts
  w.setEmitter self { e with m_emitBursts := bursts, m_burstGenerated := false }

end QQuick3DParticleEmitter

/-- The start times a declared burst is specified to emit with: `amount`
particles, the i-th (i = 0..amount-1) at `time/1000 + i * (duration/1000)/amount`. -/
def declaredBurstStartTimes (b : QQuick3DParticleEmitBurst) : List ℚ :=
  (List.range b.amount.toNat).map
    (fun (i : Nat) => (b.time : ℚ) / 1000 + i * ((b.duration : ℚ) / 1000 / b.amount))

/-- The example scene with the two declared bursts (time 0, amount 100) and
(time 2000, amount 50) on its emitter and a pool of 200 slots. -/
def exampleBurstWorld : World :=
  { exampleWorld with
    particles := fun _ =>
      { exampleParticle with
        m_maxAmount := 200, m_particleData := List.replicate 200 exampleData }
    emitters := fun _ => { exampleEmitter with m_emitBursts := [⟨0, 100, 0, 1⟩, ⟨2000, 50, 0, 2⟩] } }

/-- The example scene with a declared burst of amount 0 in front of the burst
(time 2000, amount 50). -/
def exampleEmptyBurstWorld : World :=
  { exampleWorld with
    emitters := fun _ => { exampleEmitter with m_emitBursts := [⟨0, 0, 0, 1⟩, ⟨2000, 50, 0, 2⟩] } }

/-- The example scene with an emit rate of 0 and one declared burst
(time 0, amount 2) on its emitter. -/
def exampleRateZeroWorld : World :=
  { exampleWorld with
    emitters := fun _ => { exampleEmitter with m_emitRate := 0, m_emitBursts := [⟨0, 2, 0, 1⟩] } }

/-- The example scene with an emit rate of 0 and a declared burst of amount 0
in front of the burst (time 2000, amount 50). -/
def exampleRateZeroEmptyBurstWorld : World :=
  { exampleWorld with
    emitters := fun _ =>
      { exampleEmitter with m_emitRate := 0, m_emitBursts := [⟨0, 0, 0, 1⟩, ⟨2000, 50, 0, 2⟩] } }

/-- The example scene with an emit rate of 13 particles per second. -/
def exampleRate13World : World :=
  { exampleWorld with emitters := fun _ => { exampleEmitter with m_emitRate := 13 } }

/-- The example scene with a fade-out duration of 0 on its particle. -/
def exampleNoFadeOutWorld : World :=
  { exampleWorld with particles := fun _ => { exampleParticle with m_fadeOutDuration := 0 } }

/-- A record emitted by a burst at 1400 ms with a life time of 1 s: its start
time is the float `1.4f`. -/
def exampleLateRecord : QQuick3DParticleData :=
  { exampleRecord with startTime := 11744051 / 8388608, lifetime := 1 }

/-- The example scene at 1000 ms with its emitter disabled. -/
def exampleDisabledWorld : World :=
  { exampleWorldAt 1000 with emitters := fun _ => { exampleEmitter with m_enabled := false } }

/-- The world in which emitParticles reaches its rate based part (lines
789-791): pending declared bursts have been generated. -/
def afterPendingBursts (w : World) (self : Ptr) : World :=
  if !(w.emitters self).m_burstGenerated then QQuick3DParticleEmitter.generateEmitBursts w self
  else w

/-- One fade block of processParticleFadeInOut (lines 694-700 and 702-708)
for the fade factor `f`: the alpha or the scale is multiplied by it,
depending on the effect. -/
def fadeBy (effect : FadeType) (currentData : QQuick3DParticleDataCurrent) (f : ℚ) :
    QQuick3DParticleDataCurrent :=
  if effect = FadeType.FadeOpacity then
    { currentData with color := { currentData.color with a := toUChar (currentData.color.a * f) } }
  else if effect = FadeType.FadeScale then
    { currentData with scale := currentData.scale.scale f }
  else currentData

/-- The divisors of the divisions that processParticleFadeInOut executes: the
fade-in block (lines 694-700) divides by `fadeInS`, the fade-out block (lines
702-708) by `fadeOutS`. -/
def fadeDivisors (particle : QQuick3DParticle) (particleTimeS particleTimeLeftS : ℚ) : List ℚ :=
  let fadeInS : ℚ := particle.m_fadeInDuration / 1000
  let fadeOutS : ℚ := particle.m_fadeOutDuration / 1000
  (if particleTimeS < fadeInS then [fadeInS] else [])
    ++ (if particleTimeLeftS < fadeOutS then [fadeOutS] else [])

end Quick3DParticles

/-! # Scene graph and render helpers

The properties of `runtimerender/` are stated on the definitions
of this part. Bit masks (`QFlags`, `FlagT`) are natural numbers, floats are exact
rationals, a 4×4 matrix is a matrix over the rationals. -/

namespace Quick3DRuntimeRender

/-- Pointer identity of a heap object. -/
abbrev Ptr := Nat

/-- QMatrix4x4 of Qt with exact entries; the default constructed matrix is the
identity. -/
abbrev QMatrix4x4 := Matrix (Fin 4) (Fin 4) ℚ

/-- QFlags::setFlag(flag, on) of Qt: `on ? (*this |= flag) : (*this &= ~flag)`.
On an unbounded natural `i & ~flag` is `i ^ (i & flag)`. -/
def setFlag (flags flag : Nat) (enabled : Bool) : Nat :=
  if enabled then flags ||| flag else flags ^^^ (flags &&& flag)

/-- QFlags::operator&(flag) of Qt read as a `bool`: some bit of `flag` is
set. -/
def testFlag (flags flag : Nat) : Bool := (flags &&& flag) != 0

/-! ## `QSSGLayerRenderPreparationResultFlags` (qssglayerrenderdata_p.h) -/

namespace QSSGLayerRenderPreparationResultFlag

/-- WasLayerDataDirty = 1 << 0. -/
def WasLayerDataDirty : Nat := 1 <<< 0

/-- WasDirty = 1 << 1. -/
def WasDirty : Nat := 1 <<< 1

/-- RequiresDepthTexture = 1 << 2. -/
def RequiresDepthTexture : Nat := 1 <<< 2

/-- RequiresSsaoPass = 1 << 3. -/
def RequiresSsaoPass : Nat := 1 <<< 3

/-- RequiresShadowMapPass = 1 << 4. -/
def RequiresShadowMapPass : Nat := 1 <<< 4

/-- RequiresScreenTexture = 1 << 5. -/
def RequiresScreenTexture : Nat := 1 <<< 5

/-- RequiresMipmapsForScreenTexture = 1 << 6. -/
def RequiresMipmapsForScreenTexture : Nat := 1 <<< 6

end QSSGLayerRenderPreparationResultFlag

namespace QSSGLayerRenderPreparationResultFlags

open QSSGLayerRenderPreparationResultFlag

/-- wasLayerDataDirty() (lines 92-95). -/
def wasLayerDataDirty (flags : Nat) : Bool := testFlag flags WasLayerDataDirty

/-- setLayerDataDirty(inValue) (lines 96-99). -/
def setLayerDataDirty (flags : Nat) (inValue : Bool) : Nat := setFlag flags WasLayerDataDirty inValue

/-- wasDirty() (line 101). -/
def wasDirty (flags : Nat) : Bool := testFlag flags WasDirty

/-- setWasDirty(inValue) (line 102). -/
def setWasDirty (flags : Nat) (inValue : Bool) : Nat := setFlag flags WasDirty inValue

/-- requiresDepthTexture() (lines 104-107). -/
def requiresDepthTexture (flags : Nat) : Bool := testFlag flags RequiresDepthTexture

/-- setRequiresDepthTexture(inValue) (lines 108-111). -/
def setRequiresDepthTexture (flags : Nat) (inValue : Bool) : Nat :=
  setFlag flags RequiresDepthTexture inValue

/-- requiresSsaoPass() (line 113). -/
def requiresSsaoPass (flags : Nat) : Bool := testFlag flags RequiresSsaoPass

/-- setRequiresSsaoPass(inValue) (lines 114-117). -/
def setRequiresSsaoPass (flags : Nat) (inValue : Bool) : Nat :=
  setFlag flags RequiresSsaoPass inValue

/-- requiresShadowMapPass() (lines 119-122). -/
def requiresShadowMapPass (flags : Nat) : Bool := testFlag flags RequiresShadowMapPass

/-- setRequiresShadowMapPass(inValue) (lines 123-126). -/
def setRequiresShadowMapPass (flags : Nat) (inValue : Bool) : Nat :=
  setFlag flags RequiresShadowMapPass inValue

/-- requiresScreenTexture() (lines 128-131). -/
def requiresScreenTexture (flags : Nat) : Bool := testFlag flags RequiresScreenTexture

/-- setRequiresScreenTexture(inValue) (lines 132-135). -/
def setRequiresScreenTexture (flags : Nat) (inValue : Bool) : Nat :=
  setFlag flags RequiresScreenTexture inValue

/-- requiresMipmapsForScreenTexture() (lines 137-140). -/
def requiresMipmapsForScreenTexture (flags : Nat) : Bool :=
  testFlag flags RequiresMipmapsForScreenTexture

/-- setRequiresMipmapsForScreenTexture(inValue) (lines 141-144). -/
def setRequiresMipmapsForScreenTexture (flags : Nat) (inValue : Bool) : Nat :=
  setFlag flags RequiresMipmapsForScreenTexture inValue

end QSSGLayerRenderPreparationResultFlags

/-- One call of a setter of QSSGLayerRenderPreparationResultFlags. -/
inductive FlagSetterCall where
  | setLayerDataDirty (inValue : Bool)
  | setWasDirty (inValue : Bool)
  | setRequiresDepthTexture (inValue : Bool)
  | setRequiresSsaoPass (inValue : Bool)
  | setRequiresShadowMapPass (inValue : Bool)
  | setRequiresScreenTexture (inValue : Bool)
  | setRequiresMipmapsForScreenTexture (inValue : Bool)
deriving DecidableEq

/-- The flags after the call. -/
def FlagSetterCall.apply (flags : Nat) : FlagSetterCall → Nat
  | setLayerDataDirty v => QSSGLayerRenderPreparationResultFlags.setLayerDataDirty flags v
  | setWasDirty v => QSSGLayerRenderPreparationResultFlags.setWasDirty flags v
  | setRequiresDepthTexture v => QSSGLayerRenderPreparationResultFlags.setRequiresDepthTexture flags v
  | setRequiresSsaoPass v => QSSGLayerRenderPreparationResultFlags.setRequiresSsaoPass flags v
  | setRequiresShadowMapPass v => QSSGLayerRenderPreparationResultFlags.setRequiresShadowMapPass flags v
  | setRequiresScreenTexture v => QSSGLayerRenderPreparationResultFlags.setRequiresScreenTexture flags v
  | setRequiresMipmapsForScreenTexture v =>
    QSSGLayerRenderPreparationResultFlags.setRequiresMipmapsForScreenTexture flags v

/-- The flags after the calls, in order. -/
def applySetters (flags : Nat) (calls : List FlagSetterCall) : Nat :=
  calls.foldl (fun f c => c.apply f) flags

/-- The callers keep the two flags together: setRequiresSsaoPass(true) is
only called on flags that require the depth texture, and
setRequiresDepthTexture(false) only on flags that do not require the SSAO
pass. -/
def ssaoAfterDepth : Nat → List FlagSetterCall → Prop
  | _, [] => True
  | flags, c :: cs =>
    (c = FlagSetterCall.setRequiresSsaoPass true →
        QSSGLayerRenderPreparationResultFlags.requiresDepthTexture flags = true)
      ∧ (c = FlagSetterCall.setRequiresDepthTexture false →
        QSSGLayerRenderPreparationResultFlags.requiresSsaoPass flags = false)
      ∧ ssaoAfterDepth (c.apply flags) cs

/-! ## Render nodes (qssgrendernode_p.h) -/

/-- The kinds of QSSGRenderGraphObject::Type that the helpers and the node
graph tell apart. -/
inductive GraphObjectType where
  | Node
  | Layer
  | Model
  | OrthographicCamera
  | PerspectiveCamera
  | CustomFrustumCamera
  | CustomCamera
  | DirectionalLight
  | PointLight
  | SpotLight
deriving DecidableEq, Repr

/-- QSSGRenderGraphObject::isCamera(type). -/
def isCamera : GraphObjectType → Bool
  | GraphObjectType.OrthographicCamera => true
  | GraphObjectType.PerspectiveCamera => true
  | GraphObjectType.CustomFrustumCamera => true
  | GraphObjectType.CustomCamera => true
  | _ => false

namespace QSSGRenderNode

namespace DirtyFlag

/-- TransformDirty = 1 << 4. -/
def TransformDirty : Nat := 1 <<< 4
/-- OpacityDirty = 1 << 5. -/
def OpacityDirty : Nat := 1 <<< 5
/-- ActiveDirty = 1 << 6. -/
def ActiveDirty : Nat := 1 <<< 6
/-- PickableDirty = 1 << 7. -/
def PickableDirty : Nat := 1 <<< 7
/-- SubNodeDirty = 1 << 8. -/
def SubNodeDirty : Nat := 1 <<< 8
/-- GlobalValuesDirty = TransformDirty | OpacityDirty | ActiveDirty | PickableDirty. -/
def GlobalValuesDirty : Nat := TransformDirty ||| OpacityDirty ||| ActiveDirty ||| PickableDirty
/-- DirtyMask = GlobalValuesDirty | SubNodeDirty. -/
def DirtyMask : Nat := GlobalValuesDirty ||| SubNodeDirty

end DirtyFlag

end QSSGRenderNode

/-- The members of QSSGRenderNode that carry the local and global values, with
the initial values of the header: a node starts with `GlobalValuesDirty`, opaque
and with identity transforms. A QSSGRenderModel or camera is such a node with
its own `type`. -/
structure QSSGRenderNode where
  type : GraphObjectType := GraphObjectType.Node
  localOpacity : ℚ := 1
  flags : Nat := QSSGRenderNode.DirtyFlag.GlobalValuesDirty
  localTransform : QMatrix4x4 := 1
  globalTransform : QMatrix4x4 := 1
  globalOpacity : ℚ := 1
  parent : Option Ptr := none

namespace QSSGRenderNode

/-- isDirty(dirtyFlag): `(flags & FlagT(dirtyFlag)) != 0`. -/
def isDirty (node : QSSGRenderNode) (dirtyFlag : Nat) : Bool :=
  (node.flags &&& dirtyFlag) != 0

end QSSGRenderNode

/-! ## Render helpers (qssgrenderhelpers.cpp)

`QSSGLayerRenderData::getCurrent(renderer)` is the field `currentLayer` of the
state. The methods of the layer are outside the helpers: a call on the layer is
recorded in `layerCalls`, and what the layer answers is a field of
`QSSGLayerRenderData`. `QSSG_ASSERT_X(cond, msg, action)` runs `action` when
`cond` does not hold. -/

/-- QSSGNodeId, the opaque id of a node. -/
abbrev QSSGNodeId := Nat
/-- QSSGPrepContextId. -/
abbrev QSSGPrepContextId := Nat
/-- QSSGRenderablesId. -/
abbrev QSSGRenderablesId := Nat
/-- QSSGPrepResultId. -/
abbrev QSSGPrepResultId := Nat

/-- The enumerator `Uninitialized` of the id types. -/
def Uninitialized : Nat := 0

/-- The answers of an active layer to the calls that return a value. -/
structure QSSGLayerRenderData where
  createRenderables : QSSGPrepContextId → List QSSGNodeId → Nat → QSSGRenderablesId
  getOrCreateExtensionContext : Ptr → QSSGNodeId → Nat → QSSGPrepContextId
  prepareModelsForRender : QSSGPrepContextId → QSSGRenderablesId → ℚ → QSSGPrepResultId
  getGlobalTransform : QSSGPrepContextId → QSSGNodeId → QMatrix4x4
  getGlobalOpacity : QSSGPrepContextId → QSSGNodeId → ℚ

/-- A call of a helper on the active layer, with the layer and the
arguments. -/
inductive LayerCall where
  | createRenderables (layer : Ptr) (prepId : QSSGPrepContextId) (nodes : List QSSGNodeId)
      (flags : Nat)
  | getOrCreateExtensionContext (layer : Ptr) (ext : Ptr) (camera : QSSGNodeId) (slot : Nat)
  | prepareModelsForRender (layer : Ptr) (prepId : QSSGPrepContextId)
      (renderablesId : QSSGRenderablesId) (lodThreshold : ℚ)
  | prepareRenderables (layer : Ptr) (prepId : QSSGPrepResultId) (renderPassDescriptor : Ptr)
      (ps : Nat) (filter : Nat)
  | renderRenderables (layer : Ptr) (prepId : QSSGPrepResultId)
  | setModelMaterials (layer : Ptr) (renderablesId : QSSGRenderablesId) (model : QSSGNodeId)
      (materials : List Ptr)
  | setModelMaterialsAll (layer : Ptr) (renderablesId : QSSGRenderablesId) (materials : List Ptr)
  | getGlobalTransform (layer : Ptr) (prepId : QSSGPrepContextId) (model : QSSGNodeId)
  | getGlobalOpacity (layer : Ptr) (prepId : QSSGPrepContextId) (model : QSSGNodeId)
  | setGlobalTransform (layer : Ptr) (renderablesId : QSSGRenderablesId) (model : QSSGNodeId)
      (transform : QMatrix4x4)
  | setGlobalOpacity (layer : Ptr) (renderablesId : QSSGRenderablesId) (model : QSSGNodeId)
      (opacity : ℚ)

/-- What a helper reaches through `frameData`: the active layer of the
renderer (if any), the layers, the nodes behind the node ids (a null pointer
for an id that is no node) and the calls made on layers so far. -/
structure QSSGFrameData where
  currentLayer : Option Ptr
  layers : Ptr → QSSGLayerRenderData
  nodes : QSSGNodeId → Option QSSGRenderNode
  layerCalls : List LayerCall

/-- The frame data with one more call on a layer. -/
def QSSGFrameData.call (frameData : QSSGFrameData) (c : LayerCall) : QSSGFrameData :=
  { frameData with layerCalls := frameData.layerCalls ++ [c] }

/-- The node `getNode<QSSGRenderModel>(model)` when the check
`renderModel && renderModel->type == Type::Model` passes. -/
def validModel (frameData : QSSGFrameData) (model : QSSGNodeId) : Option QSSGRenderNode :=
  match frameData.nodes model with
  | some renderModel =>
    if renderModel.type = GraphObjectType.Model then some renderModel else none
  | none => none

namespace QSSGRenderHelpers

/-- QSSGRenderHelpers::createRenderables (qssgrenderhelpers.cpp:48-62). -/
def createRenderables (frameData : QSSGFrameData) (prepId : QSSGPrepContextId)
    (nodes : List QSSGNodeId) (flags : Nat) : QSSGRenderablesId × QSSGFrameData :=
  let rid := Uninitialized
  if nodes.length > 0 then
    match frameData.currentLayer with
    | none => (rid, frameData)
    | some layer =>
      ((frameData.layers layer).createRenderables prepId nodes flags,
        frameData.call (LayerCall.createRenderables layer prepId nodes flags))
  else (rid, frameData)

/-- QSSGRenderHelpers::prepareForRender (qssgrenderhelpers.cpp:79-90): the
camera is checked before the layer. -/
def prepareForRender (frameData : QSSGFrameData) (ext : Ptr) (camera : QSSGNodeId) (slot : Nat) :
    QSSGPrepContextId × QSSGFrameData :=
  match frameData.nodes camera with
  | none => (Uninitialized, frameData)
  | some cn =>
    if isCamera cn.type then
      match frameData.currentLayer with
      | none => (Uninitialized, frameData)
      | some layer =>
        ((frameData.layers layer).getOrCreateExtensionContext ext camera slot,
          frameData.call (LayerCall.getOrCreateExtensionContext layer ext camera slot))
    else (Uninitialized, frameData)

/-- QSSGRenderHelpers::commit (qssgrenderhelpers.cpp:102-111). -/
def commit (frameData : QSSGFrameData) (prepId : QSSGPrepContextId)
    (renderablesId : QSSGRenderablesId) (lodThreshold : ℚ) : QSSGPrepResultId × QSSGFrameData :=
  match frameData.currentLayer with
  | none => (Uninitialized, frameData)
  | some layer =>
    ((frameData.layers layer).prepareModelsForRender prepId renderablesId lodThreshold,
      frameData.call (LayerCall.prepareModelsForRender layer prepId renderablesId lodThreshold))

/-- QSSGRenderHelpers::prepareRenderables (qssgrenderhelpers.cpp:122-132). -/
def prepareRenderables (frameData : QSSGFrameData) (prepId : QSSGPrepResultId)
    (renderPassDescriptor : Ptr) (ps : Nat) (filter : Nat) : QSSGFrameData :=
  match frameData.currentLayer with
  | none => frameData
  | some layer =>
    frameData.call (LayerCall.prepareRenderables layer prepId renderPassDescriptor ps filter)

/-- QSSGRenderHelpers::renderRenderables (qssgrenderhelpers.cpp:141-147). -/
def renderRenderables (contextInterface : QSSGFrameData) (prepId : QSSGPrepResultId) :
    QSSGFrameData :=
  match contextInterface.currentLayer with
  | none => contextInterface
  | some layer => contextInterface.call (LayerCall.renderRenderables layer prepId)

end QSSGRenderHelpers

namespace QSSGModelHelpers

/-- QSSGModelHelpers::setModelMaterials for one model
(qssgrenderhelpers.cpp:176-187). -/
def setModelMaterials (frameData : QSSGFrameData) (renderablesId : QSSGRenderablesId)
    (model : QSSGNodeId) (materials : List Ptr) : QSSGFrameData :=
  match frameData.currentLayer with
  | none => frameData
  | some layer =>
    match validModel frameData model with
    | none => frameData
    | some _ => frameData.call (LayerCall.setModelMaterials layer renderablesId model materials)

/-- QSSGModelHelpers::setModelMaterials for all models of the renderables
(qssgrenderhelpers.cpp:196-204). -/
def setModelMaterialsAll (frameData : QSSGFrameData) (renderablesId : QSSGRenderablesId)
    (materials : List Ptr) : QSSGFrameData :=
  match frameData.currentLayer with
  | none => frameData
  | some layer => frameData.call (LayerCall.setModelMaterialsAll layer renderablesId materials)

/-- QSSGModelHelpers::getGlobalTransform (qssgrenderhelpers.cpp:214-225). The
default constructed matrix is the identity. -/
def getGlobalTransform (frameData : QSSGFrameData) (model : QSSGNodeId)
    (prepId : QSSGPrepContextId) : QMatrix4x4 × QSSGFrameData :=
  match frameData.currentLayer with
  | none => (1, frameData)
  | some layer =>
    match validModel frameData model with
    | none => (1, frameData)
    | some renderModel =>
      if prepId ≠ Uninitialized then
        ((frameData.layers layer).getGlobalTransform prepId model,
          frameData.call (LayerCall.getGlobalTransform layer prepId model))
      else (renderModel.globalTransform, frameData)

/-- QSSGModelHelpers::getLocalTransform (qssgrenderhelpers.cpp:232-238):
`frameData` is unused. -/
def getLocalTransform (frameData : QSSGFrameData) (model : QSSGNodeId) :
    QMatrix4x4 × QSSGFrameData :=
  match validModel frameData model with
  | none => (1, frameData)
  | some renderModel => (renderModel.localTransform, frameData)

/-- QSSGModelHelpers::getGlobalOpacity(frameData, model)
(qssgrenderhelpers.cpp:245-251): `frameData` is unused. -/
def getGlobalOpacity (frameData : QSSGFrameData) (model : QSSGNodeId) : ℚ × QSSGFrameData :=
  match validModel frameData model with
  | none => (0, frameData)
  | some renderModel => (renderModel.globalOpacity, frameData)

/-- QSSGModelHelpers::getGlobalOpacity(frameData, model, prepId)
(qssgrenderhelpers.cpp:261-270). -/
def getGlobalOpacityIn (frameData : QSSGFrameData) (model : QSSGNodeId)
    (prepId : QSSGPrepContextId) : ℚ × QSSGFrameData :=
  match frameData.currentLayer with
  | none => (0, frameData)
  | some layer =>
    match validModel frameData model with
    | none => (0, frameData)
    | some renderModel =>
      if prepId ≠ Uninitialized then
        ((frameData.layers layer).getGlobalOpacity prepId model,
          frameData.call (LayerCall.getGlobalOpacity layer prepId model))
      else (renderModel.globalOpacity, frameData)

/-- QSSGModelHelpers::getLocalOpacity (qssgrenderhelpers.cpp:277-283):
`frameData` is unused. -/
def getLocalOpacity (frameData : QSSGFrameData) (model : QSSGNodeId) : ℚ × QSSGFrameData :=
  match validModel frameData model with
  | none => (0, frameData)
  | some renderModel => (renderModel.localOpacity, frameData)

/-- QSSGModelHelpers::setGlobalTransform (qssgrenderhelpers.cpp:292-304). -/
def setGlobalTransform (frameData : QSSGFrameData) (renderablesId : QSSGRenderablesId)
    (model : QSSGNodeId) (transform : QMatrix4x4) : QSSGFrameData :=
  match frameData.currentLayer with
  | none => frameData
  | some layer =>
    match validModel frameData model with
    | none => frameData
    | some _ =>
      frameData.call (LayerCall.setGlobalTransform layer renderablesId model transform)

/-- QSSGModelHelpers::setGlobalOpacity (qssgrenderhelpers.cpp:313-322). -/
def setGlobalOpacity (frameData : QSSGFrameData) (renderablesId : QSSGRenderablesId)
    (model : QSSGNodeId) (opacity : ℚ) : QSSGFrameData :=
  match frameData.currentLayer with
  | none => frameData
  | some layer =>
    match validModel frameData model with
    | none => frameData
    | some _ => frameData.call (LayerCall.setGlobalOpacity layer renderablesId model opacity)

end QSSGModelHelpers

/-- A frame without an active layer in which the id 7 is a model with the
values of a newly constructed node. -/
def exampleNoLayerFrame : QSSGFrameData :=
  { currentLayer := none
    layers := fun _ =>
      { createRenderables := fun _ _ _ => 1
        getOrCreateExtensionContext := fun _ _ _ => 1
        prepareModelsForRender := fun _ _ _ => 1
        getGlobalTransform := fun _ _ => 1
        getGlobalOpacity := fun _ _ => 1 }
    nodes := fun id =>
      if id = 7 then some { type := GraphObjectType.Model }
      else if id = 8 then some { type := GraphObjectType.PerspectiveCamera }
      else none
    layerCalls := [] }

/-- The same frame with the layer 1 active. -/
def exampleLayerFrame : QSSGFrameData :=
  { exampleNoLayerFrame with currentLayer := some 1 }

/-! ## Global values of the node graph (qssgrendernode_p.h) -/

/-- The node graph: the node behind every pointer, and the nodes whose global
values were computed, in the order of computation. -/
structure Scene where
  nodes : Ptr → QSSGRenderNode
  resolved : List Ptr

/-- The scene with the node at `self` replaced. -/
def Scene.setNode (s : Scene) (self : Ptr) (node : QSSGRenderNode) : Scene :=
  { s with nodes := fun p => if p = self then node else s.nodes p }

/-- The node `a` is a proper ancestor of the node `n`: it is reached from `n`
by following `parent` one or more times. -/
inductive IsAncestor (s : Scene) : Ptr → Ptr → Prop where
  | parent {n p : Ptr} : (s.nodes n).parent = some p → IsAncestor s p n
  | step {n p a : Ptr} : (s.nodes n).parent = some p → IsAncestor s a p → IsAncestor s a n

/-- The graph is a forest of finite depth: `depth` decreases from every node to
its parent, so that no node is its own ancestor. -/
def Acyclic (s : Scene) (depth : Ptr → Nat) : Prop :=
  ∀ n p : Ptr, (s.nodes n).parent = some p → depth p < depth n

namespace QSSGRenderNode

/-- Modelled from the spec: clearDirty(dirtyFlag) clears the bits of
`dirtyFlag` in `flags`. -/
def clearDirty (node : QSSGRenderNode) (dirtyFlag : Nat) : QSSGRenderNode :=
  { node with flags := node.flags ^^^ (node.flags &&& dirtyFlag) }

/-- Modelled from the spec: the global transform and opacity of the node at
`self` are computed from its local values and the global values of its parent
(child global transform = parent global transform × child local transform; a
root takes its local values), and its Transform/Opacity/Active/Pickable dirty
bits are cleared. -/
def resolveGlobalValues (s : Scene) (self : Ptr) : Scene :=
  let node := s.nodes self
  let node := match node.parent with
    | none =>
      { node with globalTransform := node.localTransform, globalOpacity := node.localOpacity }
    | some p =>
      { node with
        globalTransform := (s.nodes p).globalTransform * node.localTransform
        globalOpacity := (s.nodes p).globalOpacity * node.localOpacity }
  { s.setNode self (clearDirty node DirtyFlag.GlobalValuesDirty) with
    resolved := s.resolved ++ [self] }

/-- Modelled from the spec: calculateGlobalVariables() on the node at `self`.
The ancestors are resolved first, by the call on the parent; if the node or an
ancestor had a GlobalValuesDirty bit, the global values of the node are
computed and its dirty bits cleared. The result says whether a change
occurred. `fuel` bounds the depth of the walk up the graph; the result is
`none` when it is used up. -/
def calculateGlobalVariables : Nat → Scene → Ptr → Option (Bool × Scene)
  | 0, _, _ => none
  | fuel + 1, s, self =>
    match (s.nodes self).parent with
    | none =>
      if isDirty (s.nodes self) DirtyFlag.GlobalValuesDirty then
        some (true, resolveGlobalValues s self)
      else some (false, s)
    | some p =>
      match calculateGlobalVariables fuel s p with
      | none => none
      | some (changed, s1) =>
        if changed || isDirty (s1.nodes self) DirtyFlag.GlobalValuesDirty then
          some (true, resolveGlobalValues s1 self)
        else some (false, s1)

end QSSGRenderNode

/-- The uniform scaling by `k` as a transform. -/
def scaling (k : ℚ) : QMatrix4x4 := Matrix.diagonal (fun _ => k)

/-- A chain of three nodes: 1 is the root, 2 its child, 3 the child of 2. The
root is dirty and scales by 2, the node 2 scales by 3 and the node 3 by 5;
the nodes 2 and 3 are not dirty. -/
def exampleChain : Scene :=
  { nodes := fun p =>
      if p = 1 then { localTransform := scaling 2 }
      else if p = 2 then { localTransform := scaling 3, flags := 0, parent := some 1 }
      else if p = 3 then { localTransform := scaling 5, flags := 0, parent := some 2 }
      else {}
    resolved := [] }

/-- What a call of calculateGlobalVariables on `n` that took the scene `s` to
`s1`, computing the global values of the nodes `l` in this order, has done. -/
structure GlobalsResolved (s : Scene) (n : Ptr) (changed : Bool) (s1 : Scene) (l : List Ptr) :
    Prop where
  trace : s1.resolved = s.resolved ++ l
  frame : ∀ m, m ≠ n → ¬ IsAncestor s m n → s1.nodes m = s.nodes m
  locals : ∀ m, (s1.nodes m).parent = (s.nodes m).parent
    ∧ (s1.nodes m).localTransform = (s.nodes m).localTransform
    ∧ (s1.nodes m).localOpacity = (s.nodes m).localOpacity
  clean : ∀ m, m = n ∨ IsAncestor s m n →
    (s1.nodes m).isDirty QSSGRenderNode.DirtyFlag.GlobalValuesDirty = false
  changed_iff : changed = true ↔
    ((s.nodes n).isDirty QSSGRenderNode.DirtyFlag.GlobalValuesDirty = true
      ∨ ∃ a, IsAncestor s a n
        ∧ (s.nodes a).isDirty QSSGRenderNode.DirtyFlag.GlobalValuesDirty = true)
  unchanged : changed = false → s1 = s ∧ l = []
  last : changed = true → ∃ l0, l = l0 ++ [n]
    ∧ (∀ m ∈ l0, IsAncestor s m n)
    ∧ ∀ a, IsAncestor s a n →
      (s.nodes a).isDirty QSSGRenderNode.DirtyFlag.GlobalValuesDirty = true → a ∈ l0
  topDown : l.Pairwise (IsAncestor s)
  members : ∀ m ∈ l, m = n ∨ IsAncestor s m n
  globals : ∀ m ∈ l,
    match (s1.nodes m).parent with
    | none => (s1.nodes m).globalTransform = (s1.nodes m).localTransform
    | some p =>
      (s1.nodes m).globalTransform = (s1.nodes p).globalTransform * (s1.nodes m).localTransform

end Quick3DRuntimeRender

/-! # Theorems -/

namespace Quick3DParticles

open QQuick3DParticleSystem QQuick3DParticleEmitter

/-! ## Rounding to binary32 -/

theorem roundHalfEven_cases (q : ℚ) :
    (roundHalfEven q = ⌊q⌋ ∧ q - ⌊q⌋ ≤ 1 / 2)
      ∨ (roundHalfEven q = ⌊q⌋ + 1 ∧ 1 / 2 ≤ q - ⌊q⌋) := by
  unfold roundHalfEven
  by_cases h1 : q - ⌊q⌋ < 1 / 2
  · rw [if_pos h1]
    exact Or.inl ⟨rfl, h1.le⟩
  · rw [if_neg h1]
    by_cases h2 : 1 / 2 < q - ⌊q⌋
    · rw [if_pos h2]
      exact Or.inr ⟨rfl, h2.le⟩
    · rw [if_neg h2]
      have heq : q - ⌊q⌋ = 1 / 2 := le_antisymm (not_lt.mp h2) (not_lt.mp h1)
      by_cases h3 : ⌊q⌋ % 2 = 0
      · rw [if_pos h3]
        exact Or.inl ⟨rfl, heq.le⟩
      · rw [if_neg h3]
        exact Or.inr ⟨rfl, heq.ge⟩

theorem roundHalfEven_intCast (n : Int) : roundHalfEven (n : ℚ) = n := by
  unfold roundHalfEven
  rw [Int.floor_intCast, sub_self, if_pos (by norm_num)]

theorem roundHalfEven_sub_le (q : ℚ) : |(roundHalfEven q : ℚ) - q| ≤ 1 / 2 := by
  have h0 := Int.floor_le q
  have h1 := Int.lt_floor_add_one q
  rcases roundHalfEven_cases q with ⟨h, hle⟩ | ⟨h, hle⟩
  · rw [h, abs_le]
    constructor <;> linarith
  · rw [h, abs_le]
    push_cast
    constructor <;> linarith

theorem roundHalfEven_nonneg (q : ℚ) (h : 0 ≤ q) : 0 ≤ roundHalfEven q := by
  have h0 : 0 ≤ ⌊q⌋ := Int.floor_nonneg.mpr h
  rcases roundHalfEven_cases q with ⟨h1, _⟩ | ⟨h1, _⟩
  · rw [h1]; exact h0
  · rw [h1]; omega

theorem roundHalfEven_le (q : ℚ) (B : Int) (h : q ≤ B) : roundHalfEven q ≤ B := by
  have h0 : ⌊q⌋ ≤ B := Int.floor_le_iff.mpr (by linarith [Int.floor_le q, Int.lt_floor_add_one q])
  rcases roundHalfEven_cases q with ⟨h1, _⟩ | ⟨h1, hle⟩
  · rw [h1]; exact h0
  · rw [h1]
    have hlt : (⌊q⌋ : ℚ) < B := by linarith
    have : ⌊q⌋ < B := by exact_mod_cast hlt
    omega

theorem roundHalfEven_ge (q : ℚ) (B : Int) (h : (B : ℚ) ≤ q) : B ≤ roundHalfEven q := by
  have h0 : B ≤ ⌊q⌋ := Int.le_floor.mpr h
  rcases roundHalfEven_cases q with ⟨h1, _⟩ | ⟨h1, _⟩
  · rw [h1]; exact h0
  · rw [h1]; omega

theorem two_zpow_pos (k : Int) : (0 : ℚ) < 2 ^ k := zpow_pos (by norm_num) k

theorem ulpExponent_ge (q : ℚ) : -149 ≤ ulpExponent q := by
  unfold ulpExponent
  have := le_max_right (Int.log 2 |q|) (-126)
  omega

theorem log_le_ulpExponent (q : ℚ) : Int.log 2 |q| ≤ ulpExponent q + 23 := by
  unfold ulpExponent
  have := le_max_left (Int.log 2 |q|) (-126)
  omega

theorem abs_lt_zpow_ulp (q : ℚ) : |q| < 2 ^ (ulpExponent q + 24) := by
  have h1 : |q| < ((2 : ℕ) : ℚ) ^ (Int.log 2 |q| + 1) := Int.lt_zpow_succ_log_self (by norm_num) _
  have h2 : ((2 : ℕ) : ℚ) ^ (Int.log 2 |q| + 1) ≤ ((2 : ℕ) : ℚ) ^ (ulpExponent q + 24) := by
    apply zpow_le_zpow_right₀ (by norm_num)
    have := log_le_ulpExponent q
    omega
  have h3 := lt_of_lt_of_le h1 h2
  simpa using h3

theorem ulpExponent_le (q : ℚ) (E : Int) (hE : -126 ≤ E) (hq : q ≠ 0)
    (h : |q| < 2 ^ (E + 1)) : ulpExponent q ≤ E - 23 := by
  have hpos : 0 < |q| := abs_pos.mpr hq
  have h1 : |q| < ((2 : ℕ) : ℚ) ^ (E + 1) := by simpa using h
  have h2 := (Int.lt_zpow_iff_log_lt (by norm_num : 1 < 2) hpos).mp h1
  unfold ulpExponent
  have : max (Int.log 2 |q|) (-126) ≤ E := max_le (by omega) hE
  omega

theorem ulpExponent_eq (q : ℚ) (E : Int) (hE : -126 ≤ E) (h1 : 2 ^ E ≤ |q|)
    (h2 : |q| < 2 ^ (E + 1)) : ulpExponent q = E - 23 := by
  have hpos : 0 < |q| := lt_of_lt_of_le (two_zpow_pos E) h1
  have hq : q ≠ 0 := abs_pos.mp hpos
  have hle := ulpExponent_le q E hE hq h2
  have h3 : ((2 : ℕ) : ℚ) ^ E ≤ |q| := by simpa using h1
  have h4 := (Int.zpow_le_iff_le_log (by norm_num : 1 < 2) hpos).mp h3
  have := log_le_ulpExponent q
  omega

theorem f32_zero : f32 0 = 0 := by
  unfold f32
  rw [zero_div]
  have : roundHalfEven 0 = 0 := by
    have := roundHalfEven_intCast 0
    simpa using this
  rw [this]
  simp

theorem f32_eq_of_ulp (q : ℚ) (e M : Int) (he : ulpExponent q = e)
    (hM : roundHalfEven (q / 2 ^ e) = M) : f32 q = M * 2 ^ e := by
  unfold f32
  rw [he, hM]

/-- The rounding of a value whose binade is known. -/
theorem f32_eval (q : ℚ) (E M : Int) (hE : -126 ≤ E) (h1 : 2 ^ E ≤ |q|)
    (h2 : |q| < 2 ^ (E + 1)) (hM : roundHalfEven (q / 2 ^ (E - 23)) = M) :
    f32 q = M * 2 ^ (E - 23) :=
  f32_eq_of_ulp q (E - 23) M (ulpExponent_eq q E hE h1 h2) hM

theorem f32_of_repr (m k : Int) (hm : |m| < 2 ^ 24) (hk : -149 ≤ k) :
    f32 ((m : ℚ) * 2 ^ k) = (m : ℚ) * 2 ^ k := by
  by_cases h0 : m = 0
  · subst h0
    simp [f32_zero]
  have hx : ((m : ℚ) * 2 ^ k) ≠ 0 := by
    apply mul_ne_zero
    · exact_mod_cast h0
    · exact (two_zpow_pos k).ne'
  have habs : |(m : ℚ) * 2 ^ k| < 2 ^ (k + 23 + 1) := by
    rw [abs_mul, abs_of_pos (two_zpow_pos k)]
    have h24 : (|(m : ℚ)|) < 2 ^ (24 : Int) := by
      have : ((|m| : Int) : ℚ) < ((2 ^ 24 : Int) : ℚ) := by exact_mod_cast hm
      rw [Int.cast_abs] at this
      have e24 : (((2 : Int) ^ 24 : Int) : ℚ) = (2 : ℚ) ^ (24 : Int) := by norm_num
      rw [e24] at this
      exact this
    have : (2 : ℚ) ^ (k + 23 + 1) = 2 ^ (24 : Int) * 2 ^ k := by
      rw [← zpow_add₀ (by norm_num : (2 : ℚ) ≠ 0)]
      congr 1
      ring
    rw [this]
    exact mul_lt_mul_of_pos_right h24 (two_zpow_pos k)
  have hle : ulpExponent ((m : ℚ) * 2 ^ k) ≤ k := by
    by_cases hk2 : -126 ≤ k + 23
    · have := ulpExponent_le _ (k + 23) hk2 hx habs
      omega
    · -- subnormal range
      have hA : |(m : ℚ) * 2 ^ k| < 2 ^ (-126 + 1 : Int) := by
        refine lt_of_lt_of_le habs ?_
        apply zpow_le_zpow_right₀ (by norm_num)
        omega
      have := ulpExponent_le _ (-126) (le_refl _) hx hA
      omega
  obtain ⟨d, hd⟩ : ∃ d : Nat, k = ulpExponent ((m : ℚ) * 2 ^ k) + d :=
    ⟨(k - ulpExponent ((m : ℚ) * 2 ^ k)).toNat, by omega⟩
  have hint : (m : ℚ) * 2 ^ k / 2 ^ ulpExponent ((m : ℚ) * 2 ^ k) = ((m * 2 ^ d : Int) : ℚ) := by
    generalize ulpExponent ((m : ℚ) * 2 ^ k) = e at hd
    subst hd
    rw [zpow_add₀ (by norm_num : (2 : ℚ) ≠ 0)]
    field_simp
    ring
  unfold f32
  rw [hint, roundHalfEven_intCast, ← hint]
  field_simp

theorem f32_repr (q : ℚ) :
    ∃ m k : Int, |m| ≤ 2 ^ 24 ∧ -149 ≤ k ∧ k = ulpExponent q ∧ f32 q = (m : ℚ) * 2 ^ k := by
  refine ⟨roundHalfEven (q / 2 ^ ulpExponent q), ulpExponent q, ?_, ulpExponent_ge q, rfl, rfl⟩
  have h := abs_lt_zpow_ulp q
  have hdiv : |q / 2 ^ ulpExponent q| < 2 ^ (24 : Int) := by
    rw [abs_div, abs_of_pos (two_zpow_pos _), div_lt_iff₀ (two_zpow_pos _),
      ← zpow_add₀ (by norm_num : (2 : ℚ) ≠ 0)]
    have : (24 : Int) + ulpExponent q = ulpExponent q + 24 := by ring
    rw [this]
    exact h
  have hb : |q / 2 ^ ulpExponent q| ≤ ((2 ^ 24 : Int) : ℚ) := by
    have e24 : (((2 : Int) ^ 24 : Int) : ℚ) = (2 : ℚ) ^ (24 : Int) := by norm_num
    rw [e24]
    exact hdiv.le
  rw [abs_le] at hb ⊢
  constructor
  · apply roundHalfEven_ge
    push_cast
    linarith [hb.1]
  · exact roundHalfEven_le _ _ hb.2

theorem f32_of_repr_le (m k : Int) (hm : |m| ≤ 2 ^ 24) (hk : -149 ≤ k) :
    f32 ((m : ℚ) * 2 ^ k) = (m : ℚ) * 2 ^ k := by
  rcases lt_or_eq_of_le hm with hlt | heq
  · exact f32_of_repr m k hlt hk
  · have hm2 : m = 2 ^ 24 ∨ m = -(2 ^ 24) := by
      rcases abs_eq (by norm_num : (0 : Int) ≤ 2 ^ 24) |>.mp heq with h1 | h1
      · exact Or.inl h1
      · exact Or.inr h1
    have key : ∀ s : Int, (s = 1 ∨ s = -1) →
        f32 (((s * 2 ^ 24 : Int) : ℚ) * 2 ^ k) = ((s * 2 ^ 24 : Int) : ℚ) * 2 ^ k := by
      intro s hs
      have e1 : ((s * 2 ^ 24 : Int) : ℚ) * 2 ^ k = ((s * 2 ^ 23 : Int) : ℚ) * 2 ^ (k + 1) := by
        rw [zpow_add₀ (by norm_num : (2 : ℚ) ≠ 0)]
        push_cast
        ring
      rw [e1]
      apply f32_of_repr
      · rcases hs with hs | hs <;> subst hs <;> norm_num
      · omega
    rcases hm2 with h1 | h1
    · have := key 1 (Or.inl rfl)
      rw [h1]
      simpa using this
    · have := key (-1) (Or.inr rfl)
      rw [h1]
      simpa using this

theorem f32_f32 (q : ℚ) : f32 (f32 q) = f32 q := by
  obtain ⟨m, k, hm, hk, _, h⟩ := f32_repr q
  rw [h]
  exact f32_of_repr_le m k hm hk

theorem f32_nonneg (q : ℚ) (h : 0 ≤ q) : 0 ≤ f32 q := by
  unfold f32
  apply mul_nonneg
  · have := roundHalfEven_nonneg (q / 2 ^ ulpExponent q) (div_nonneg h (two_zpow_pos _).le)
    exact_mod_cast this
  · exact (two_zpow_pos _).le

theorem f32_sub_le_ulp (q : ℚ) : |f32 q - q| ≤ 2 ^ ulpExponent q / 2 := by
  unfold f32
  have h := roundHalfEven_sub_le (q / 2 ^ ulpExponent q)
  have hp := two_zpow_pos (ulpExponent q)
  have : (roundHalfEven (q / 2 ^ ulpExponent q) : ℚ) * 2 ^ ulpExponent q - q
      = ((roundHalfEven (q / 2 ^ ulpExponent q) : ℚ) - q / 2 ^ ulpExponent q)
          * 2 ^ ulpExponent q := by
    field_simp
  rw [this, abs_mul, abs_of_pos hp]
  calc |(roundHalfEven (q / 2 ^ ulpExponent q) : ℚ) - q / 2 ^ ulpExponent q| * 2 ^ ulpExponent q
      ≤ 1 / 2 * 2 ^ ulpExponent q := mul_le_mul_of_nonneg_right h hp.le
    _ = 2 ^ ulpExponent q / 2 := by ring

theorem f32_sub_le (q : ℚ) (E : Int) (hE : -126 ≤ E) (h : |q| < 2 ^ (E + 1)) :
    |f32 q - q| ≤ 2 ^ (E - 24) := by
  by_cases hq : q = 0
  · subst hq
    rw [f32_zero, sub_zero, abs_zero]
    exact (two_zpow_pos _).le
  · have h1 := f32_sub_le_ulp q
    have h2 := ulpExponent_le q E hE hq h
    have h3 : (2 : ℚ) ^ ulpExponent q ≤ 2 ^ (E - 23) :=
      zpow_le_zpow_right₀ (by norm_num) h2
    have h4 : (2 : ℚ) ^ (E - 23) = 2 * 2 ^ (E - 24) := by
      have : E - 23 = 1 + (E - 24) := by ring
      rw [this, zpow_add₀ (by norm_num : (2 : ℚ) ≠ 0)]
      norm_num
    linarith

/-! ### Representable values -/

theorem f32_fix_repr (x : ℚ) (h : f32 x = x) :
    ∃ m k : Int, |m| ≤ 2 ^ 24 ∧ -149 ≤ k ∧ x = (m : ℚ) * 2 ^ k := by
  obtain ⟨m, k, hm, hk, _, hx⟩ := f32_repr x
  exact ⟨m, k, hm, hk, h ▸ hx⟩

theorem f32_intCast (n : Int) (h : |n| ≤ 2 ^ 24) : f32 (n : ℚ) = n := by
  have := f32_of_repr_le n 0 h (by norm_num)
  simpa using this

theorem f32_intCast_mul (m : Int) (j : Nat) (h : |m| ≤ 2 ^ 24) :
    f32 ((m * 2 ^ j : Int) : ℚ) = ((m * 2 ^ j : Int) : ℚ) := by
  have := f32_of_repr_le m j h (by omega)
  rw [zpow_natCast] at this
  push_cast
  exact this

theorem cast_abs_le (m : Int) (hm : |m| ≤ 2 ^ 24) : |(m : ℚ)| ≤ 16777216 := by
  have : ((|m| : Int) : ℚ) ≤ ((2 ^ 24 : Int) : ℚ) := by exact_mod_cast hm
  rw [Int.cast_abs] at this
  norm_num at this
  exact this

/-- A representable value of magnitude above 1/2 is a multiple of 2^-24. -/
theorem f32_fix_gt_half (x : ℚ) (h : f32 x = x) (h1 : 1 / 2 < |x|) :
    ∃ m k : Int, |m| ≤ 2 ^ 24 ∧ -24 ≤ k ∧ x = (m : ℚ) * 2 ^ k := by
  obtain ⟨m, k, hm, hk, hx⟩ := f32_fix_repr x h
  refine ⟨m, k, hm, ?_, hx⟩
  by_contra hlt
  push_neg at hlt
  have hk25 : k ≤ -25 := by omega
  have hm' := cast_abs_le m hm
  have h3 : (2 : ℚ) ^ k ≤ 2 ^ (-25 : Int) := zpow_le_zpow_right₀ (by norm_num) hk25
  have h4 : (2 : ℚ) ^ (-25 : Int) = 1 / 33554432 := by norm_num
  rw [h4] at h3
  have h2 : |x| ≤ 16777216 * (1 / 33554432) := by
    rw [hx, abs_mul, abs_of_pos (two_zpow_pos k)]
    exact mul_le_mul hm' h3 (two_zpow_pos k).le (by norm_num)
  norm_num at h2
  linarith

theorem f32_floor (x : ℚ) (h : f32 x = x) : f32 (⌊x⌋ : ℚ) = ⌊x⌋ := by
  obtain ⟨m, k, hm, hk, hx⟩ := f32_fix_repr x h
  by_cases hk0 : 0 ≤ k
  · obtain ⟨j, hj⟩ : ∃ j : Nat, k = j := ⟨k.toNat, by omega⟩
    have hxi : x = ((m * 2 ^ j : Int) : ℚ) := by
      rw [hx, hj, zpow_natCast]
      push_cast
      ring
    rw [hxi, Int.floor_intCast]
    exact f32_intCast_mul m j hm
  · apply f32_intCast
    have hk1 : k ≤ -1 := by omega
    have h2 : |x| ≤ 2 ^ (23 : Int) := by
      rw [hx, abs_mul, abs_of_pos (two_zpow_pos k)]
      have hm' : |(m : ℚ)| ≤ 2 ^ (24 : Int) := by
        have : ((|m| : Int) : ℚ) ≤ ((2 ^ 24 : Int) : ℚ) := by exact_mod_cast hm
        rw [Int.cast_abs] at this
        have e24 : (((2 : Int) ^ 24 : Int) : ℚ) = (2 : ℚ) ^ (24 : Int) := by norm_num
        rw [e24] at this
        exact this
      have hk' : (2 : ℚ) ^ k ≤ 2 ^ (-1 : Int) := zpow_le_zpow_right₀ (by norm_num) hk1
      calc |(m : ℚ)| * 2 ^ k ≤ 2 ^ (24 : Int) * 2 ^ (-1 : Int) :=
            mul_le_mul hm' hk' (two_zpow_pos k).le (two_zpow_pos 24).le
        _ = 2 ^ (23 : Int) := by norm_num
    have h3 : (2 : ℚ) ^ (23 : Int) = ((2 ^ 23 : Int) : ℚ) := by norm_num
    rw [h3, abs_le] at h2
    have hlo : (-(2 ^ 23) : Int) ≤ ⌊x⌋ := Int.le_floor.mpr (by push_cast; linarith [h2.1])
    have hhi : ⌊x⌋ ≤ (2 ^ 23 : Int) := by
      have := Int.floor_le x
      have : (⌊x⌋ : ℚ) ≤ ((2 ^ 23 : Int) : ℚ) := by linarith [h2.2]
      exact_mod_cast this
    rw [abs_le]
    constructor <;> omega

theorem f32_fract (x : ℚ) (h : f32 x = x) (h1 : 1 ≤ x) : f32 (x - ⌊x⌋) = x - ⌊x⌋ := by
  obtain ⟨m, k, hm, hk, hx⟩ := f32_fix_gt_half x h (by rw [abs_of_nonneg (by linarith)]; linarith)
  by_cases hk0 : 0 ≤ k
  · obtain ⟨j, hj⟩ : ∃ j : Nat, k = j := ⟨k.toNat, by omega⟩
    have hxi : x = ((m * 2 ^ j : Int) : ℚ) := by
      rw [hx, hj, zpow_natCast]
      push_cast
      ring
    rw [hxi, Int.floor_intCast, sub_self, f32_zero]
  · obtain ⟨j, hj⟩ : ∃ j : Nat, k = -(j : Int) := ⟨(-k).toNat, by omega⟩
    have hj24 : j ≤ 24 := by omega
    have hpow : (2 : ℚ) ^ k * 2 ^ j = 1 := by
      rw [hj, zpow_neg, zpow_natCast]
      field_simp
    have hfr : x - ⌊x⌋ = ((m - ⌊x⌋ * 2 ^ j : Int) : ℚ) * 2 ^ k := by
      push_cast
      rw [sub_mul, mul_assoc, mul_comm ((2 : ℚ) ^ j) _, hpow, mul_one, ← hx]
    rw [hfr]
    apply f32_of_repr_le _ _ _ (by omega)
    have h0 : (0 : ℚ) ≤ x - ⌊x⌋ := by linarith [Int.floor_le x]
    have h1' : x - ⌊x⌋ < 1 := by linarith [Int.lt_floor_add_one x]
    rw [hfr] at h0 h1'
    have hpk := two_zpow_pos k
    have hn0 : (0 : ℚ) ≤ ((m - ⌊x⌋ * 2 ^ j : Int) : ℚ) := by
      by_contra hneg
      push_neg at hneg
      have := mul_neg_of_neg_of_pos hneg hpk
      linarith
    have hn1 : ((m - ⌊x⌋ * 2 ^ j : Int) : ℚ) < 2 ^ j := by
      have : ((m - ⌊x⌋ * 2 ^ j : Int) : ℚ) * 2 ^ k * 2 ^ j < 1 * 2 ^ j :=
        mul_lt_mul_of_pos_right h1' (by positivity)
      rw [mul_assoc, hpow, mul_one, one_mul] at this
      exact this
    have hn0' : (0 : Int) ≤ m - ⌊x⌋ * 2 ^ j := by exact_mod_cast hn0
    have hn1' : m - ⌊x⌋ * 2 ^ j < 2 ^ j := by exact_mod_cast hn1
    have hpj : (2 : Int) ^ j ≤ 2 ^ 24 := pow_le_pow_right₀ (by norm_num) hj24
    rw [abs_of_nonneg hn0']
    omega

/-- The largest float below 1 is 1 - 2^-24. -/
theorem f32_fix_lt_one (x : ℚ) (h : f32 x = x) (h1 : x < 1) : x ≤ 1 - 1 / 16777216 := by
  by_cases hhalf : x ≤ 1 / 2
  · linarith
  push_neg at hhalf
  obtain ⟨m, k, hm, hk24, hx⟩ :=
    f32_fix_gt_half x h (by rw [abs_of_pos (by linarith)]; exact hhalf)
  obtain ⟨j, hj⟩ : ∃ j : Nat, k + 24 = j := ⟨(k + 24).toNat, by omega⟩
  have hx24 : x * 16777216 = ((m * 2 ^ j : Int) : ℚ) := by
    have hk' : k = (j : Int) + (-24) := by omega
    rw [hx, hk', zpow_add₀ (by norm_num : (2 : ℚ) ≠ 0), zpow_natCast]
    push_cast
    norm_num
    ring
  have hlt : ((m * 2 ^ j : Int) : ℚ) < ((16777216 : Int) : ℚ) := by
    rw [← hx24]
    push_cast
    linarith
  have hlt' : m * 2 ^ j < 16777216 := by exact_mod_cast hlt
  have hle' : m * 2 ^ j ≤ 16777215 := by omega
  have hle : ((m * 2 ^ j : Int) : ℚ) ≤ ((16777215 : Int) : ℚ) := by exact_mod_cast hle'
  rw [← hx24] at hle
  push_cast at hle
  linarith

/-! ## Alive window and the two evaluation loops -/

theorem evaluateModelRecord_isSome (w : World) (system particle : Ptr) (timeS : ℚ)
    (d : QQuick3DParticleData) :
    (evaluateModelRecord w system particle timeS d).isSome
      ↔ d.startTime ≤ timeS ∧ timeS ≤ f32 (d.startTime + d.lifetime) := by
  unfold evaluateModelRecord
  by_cases h : timeS < d.startTime ∨ timeS > f32 (d.startTime + d.lifetime)
  · simp only [h, if_true, Option.isSome_none, Bool.false_eq_true, false_iff, not_and, not_le]
    intro h1
    rcases h with h | h
    · exact absurd h (not_lt.mpr h1)
    · exact h
  · simp only [h, if_false, Option.isSome_some, true_iff]
    push_neg at h
    exact h

theorem evaluateSpriteRecord_isSome (w : World) (system particle : Ptr) (timeS : ℚ)
    (d : QQuick3DParticleData) :
    (evaluateSpriteRecord w system particle timeS d).isSome
      ↔ d.startTime ≤ timeS ∧ timeS ≤ f32 (d.startTime + d.lifetime) := by
  unfold evaluateSpriteRecord
  by_cases h : timeS < d.startTime ∨ timeS > f32 (d.startTime + d.lifetime)
  · simp only [h, if_true, Option.isSome_none, Bool.false_eq_true, false_iff, not_and, not_le]
    intro h1
    rcases h with h | h
    · exact absurd h (not_lt.mpr h1)
    · exact h
  · simp only [h, if_false, Option.isSome_some, true_iff]
    push_neg at h
    exact h

theorem evaluateModelRecord_setTable (w : World) (system particle : Ptr) (timeS : ℚ)
    (d : QQuick3DParticleData) (tbl : List ModelInstance) (b : Bool) :
    evaluateModelRecord
        (w.setParticle particle
          { w.particles particle with m_instanceTable := tbl, m_hasTransparency := b })
        system particle timeS d
      = evaluateModelRecord w system particle timeS d := by
  simp [evaluateModelRecord, World.setParticle, processParticleAlignment,
    processParticleFadeInOut, applyAffectors]

theorem processModel_loop (w0 : World) (calls0 : List TrailCall) (system particle : Ptr)
    (trailEmits : List TrailEmits) (timeS : ℚ) (n : Nat) :
    (List.range n).foldl (processModelStep system particle trailEmits timeS)
        (⟨w0.setParticle particle { w0.particles particle with m_instanceTable := [] }, calls0⟩,
          false)
      = (⟨w0.setParticle particle
            { w0.particles particle with
              m_instanceTable :=
                modelTable w0 system particle timeS ((w0.particles particle).m_particleData.take n) },
          calls0 ++ modelTrailCalls w0 system particle trailEmits timeS
            ((w0.particles particle).m_particleData.take n)⟩,
         modelSemiTransparent w0 system particle timeS
            ((w0.particles particle).m_particleData.take n)) := by
  induction n with
  | zero => simp [modelTable, modelTrailCalls, modelSemiTransparent]
  | succ n ih =>
    rw [List.range_succ, List.foldl_append, ih, List.take_succ]
    simp only [List.foldl_cons, List.foldl_nil]
    unfold processModelStep
    simp only [World.setParticle, Function.update_same]
    cases hd : (w0.particles particle).m_particleData[n]? with
    | none => simp
    | some d =>
      have hev := evaluateModelRecord_setTable w0 system particle timeS d
        (modelTable w0 system particle timeS ((w0.particles particle).m_particleData.take n))
        (w0.particles particle).m_hasTransparency
      simp only [World.setParticle] at hev
      simp only [hev]
      cases he : evaluateModelRecord w0 system particle timeS d with
      | none =>
        simp [modelTable, modelTrailCalls, modelSemiTransparent, List.filterMap_append, he]
      | some c =>
        simp [modelTable, modelTrailCalls, modelSemiTransparent, List.filterMap_append, he,
          Function.update_idem]

theorem evaluateSpriteRecord_setBuffer (w : World) (system particle : Ptr) (timeS : ℚ)
    (d : QQuick3DParticleData) (buf : Nat → SpriteParticleData) :
    evaluateSpriteRecord
        (w.setParticle particle { w.particles particle with m_spriteParticleData := buf })
        system particle timeS d
      = evaluateSpriteRecord w system particle timeS d := by
  simp [evaluateSpriteRecord, World.setParticle, processParticleAlignment,
    processParticleFadeInOut, applyAffectors]

theorem spriteBuffer_succ_some (w : World) (system particle : Ptr) (timeS : ℚ) (n : Nat)
    (d : QQuick3DParticleData) (hd : (w.particles particle).m_particleData[n]? = some d) :
    Function.update (spriteBuffer w system particle timeS n) n (spriteSlot w system particle timeS d)
      = spriteBuffer w system particle timeS (n + 1) := by
  funext j
  by_cases hj : j = n
  · subst hj
    simp [spriteBuffer, hd]
  · rw [Function.update_noteq hj]
    unfold spriteBuffer
    by_cases h1 : j < n
    · have h2 : j < n + 1 := by omega
      simp only [h1, h2, if_true]
    · have h2 : ¬ j < n + 1 := by omega
      simp only [h1, h2, if_false]

theorem spriteBuffer_succ_none (w : World) (system particle : Ptr) (timeS : ℚ) (n : Nat)
    (hd : (w.particles particle).m_particleData[n]? = none) :
    spriteBuffer w system particle timeS (n + 1) = spriteBuffer w system particle timeS n := by
  funext j
  unfold spriteBuffer
  by_cases hj : j = n
  · subst hj
    simp [hd]
  · by_cases h1 : j < n
    · have h2 : j < n + 1 := by omega
      simp only [h1, h2, if_true]
    · have h2 : ¬ j < n + 1 := by omega
      simp only [h1, h2, if_false]

theorem processSprite_loop (w0 : World) (calls0 : List TrailCall) (system particle : Ptr)
    (trailEmits : List TrailEmits) (timeS : ℚ) (n : Nat) :
    (List.range n).foldl (processSpriteStep system particle trailEmits timeS) ⟨w0, calls0⟩
      = ⟨w0.setParticle particle
            { w0.particles particle with
              m_spriteParticleData := spriteBuffer w0 system particle timeS n },
          calls0 ++ spriteTrailCalls w0 system particle trailEmits timeS
            ((w0.particles particle).m_particleData.take n)⟩ := by
  induction n with
  | zero =>
    have h : spriteBuffer w0 system particle timeS 0 = (w0.particles particle).m_spriteParticleData := by
      funext j
      simp [spriteBuffer]
    simp [spriteTrailCalls, World.setParticle, h]
  | succ n ih =>
    rw [List.range_succ, List.foldl_append, ih, List.take_succ]
    simp only [List.foldl_cons, List.foldl_nil]
    unfold processSpriteStep
    simp only [World.setParticle, Function.update_same]
    cases hd : (w0.particles particle).m_particleData[n]? with
    | none =>
      simp [spriteBuffer_succ_none w0 system particle timeS n hd]
    | some d =>
      have hev := evaluateSpriteRecord_setBuffer w0 system particle timeS d
        (spriteBuffer w0 system particle timeS n)
      simp only [World.setParticle] at hev
      simp only [hev]
      have hb := spriteBuffer_succ_some w0 system particle timeS n d hd
      cases he : evaluateSpriteRecord w0 system particle timeS d with
      | none =>
        simp only [spriteSlot, he] at hb
        simp [spriteTrailCalls, List.filterMap_append, he, Function.update_idem, hb]
      | some r =>
        obtain ⟨c, tc⟩ := r
        simp only [spriteSlot, he] at hb
        simp [spriteTrailCalls, List.filterMap_append, he, Function.update_idem, hb]

/-- The rounding of a positive value whose binade is known. -/
theorem f32_eval_pos (q : ℚ) (E M : Int) (hE : -126 ≤ E) (h1 : 2 ^ E ≤ q)
    (h2 : q < 2 ^ (E + 1)) (hM : roundHalfEven (q / 2 ^ (E - 23)) = M) :
    f32 q = M * 2 ^ (E - 23) := by
  have hq : 0 < q := lt_of_lt_of_le (two_zpow_pos E) h1
  exact f32_eval q E M hE (by rw [abs_of_pos hq]; exact h1) (by rw [abs_of_pos hq]; exact h2) hM

/-- The floats of the tick at 2400 ms and of a particle emitted by a burst at 1400 ms with a
life time of 1 s: `timeS = float(2400 / 1000.0f)`, `startTime = float(1400 / 1000.0f)`, and the
float sum `startTime + lifetime`, which is a tie rounded up to `timeS`. -/
theorem f32_tick_values :
    f32 (f32 (2400 : ℚ) / 1000) = 5033165 / 2097152
      ∧ f32 (f32 (1400 : ℚ) / 1000) = 11744051 / 8388608
      ∧ f32 (11744051 / 8388608 + 1) = 5033165 / 2097152
      ∧ f32 ((5033165 : ℚ) / 2097152 - 11744051 / 8388608) = 8388609 / 8388608
      ∧ f32 ((1 : ℚ) - 8388609 / 8388608) = -1 / 8388608 := by
  have i2400 : f32 (2400 : ℚ) = 2400 := by
    have := f32_intCast 2400 (by norm_num)
    simpa using this
  have i1400 : f32 (1400 : ℚ) = 1400 := by
    have := f32_intCast 1400 (by norm_num)
    simpa using this
  refine ⟨?_, ?_, ?_, ?_, ?_⟩
  · rw [i2400, f32_eval_pos (2400 / 1000) 1 10066330 (by norm_num) (by norm_num) (by norm_num)
      (by unfold roundHalfEven; norm_num)]
    norm_num
  · rw [i1400, f32_eval_pos (1400 / 1000) 0 11744051 (by norm_num) (by norm_num) (by norm_num)
      (by unfold roundHalfEven; norm_num)]
    norm_num
  · rw [f32_eval_pos (11744051 / 8388608 + 1) 1 10066330 (by norm_num) (by norm_num)
      (by norm_num) (by unfold roundHalfEven; norm_num)]
    norm_num
  · have := f32_of_repr_le 8388609 (-23) (by norm_num) (by norm_num)
    norm_num at this ⊢
    exact this
  · have := f32_of_repr_le (-1) (-23) (by norm_num) (by norm_num)
    norm_num at this ⊢
    exact this

/-- C1 (counterexample). A particle emitted by a burst at 1400 ms with a life time of 1 s has
the float start time `s = 1.4f`; at the tick of 2400 ms the float tick time is `t = 2.4f`. In
exact arithmetic `s + l < t`, so the record is outside the window `s ≤ t ≤ s + l`, yet the
float sum `s + l` is rounded up to `t` and both processModelParticle and processSpriteParticle
treat the record as alive. -/
theorem C1_alive_beyond_exact_window :
    f32 (f32 (1400 : ℚ) / 1000) = 11744051 / 8388608
      ∧ f32 (f32 (2400 : ℚ) / 1000) = 5033165 / 2097152
      ∧ ({ exampleRecord with startTime := 11744051 / 8388608, lifetime := 1 }
            : QQuick3DParticleData).startTime + 1 < 5033165 / 2097152
      ∧ (evaluateModelRecord exampleWorld 0 0 (5033165 / 2097152)
          { exampleRecord with startTime := 11744051 / 8388608, lifetime := 1 }).isSome = true
      ∧ (evaluateSpriteRecord exampleWorld 0 0 (5033165 / 2097152)
          { exampleRecord with startTime := 11744051 / 8388608, lifetime := 1 }).isSome
            = true := by
  obtain ⟨h1, h2, h3, _, _⟩ := f32_tick_values
  refine ⟨h2, h1, by norm_num, ?_, ?_⟩
  · rw [evaluateModelRecord_isSome]
    simp only []
    rw [h3]
    norm_num
  · rw [evaluateSpriteRecord_isSome]
    simp only []
    rw [h3]
    norm_num

/-- C1 (amended). A record with start time `s` and life time `l` is alive at the float tick
time `t` exactly when `s ≤ t ≤ fl(s + l)`, both ends included, `fl(s + l)` being the float
sum the source compares with. processModelParticle leaves an instance table holding one
instance per alive record (in slot order: position, scale, rotation and colour of its derived
state) and none for a record outside the window; processSpriteParticle writes every slot, for
an alive record the position, rotation, colour / 255, size `scale.x` and age of its derived
state, and the all-zero slot of size 0 for a record outside the window. Neither deletes or
changes a record of `m_particleData`. A record with `s = 2`, `l = 3` is hidden at `t = 1.9`
and `t = 5.1` and alive at `t = 2` and `t = 5`, also for the float tick times of 1900, 5100,
2000 and 5000 ms. -/
theorem C1_alive_window_float_sum (st : TickState) (system particle : Ptr)
    (trailEmits : List TrailEmits) (timeS : ℚ) :
    (∀ d, (evaluateModelRecord st.world system particle timeS d).isSome
        ↔ d.startTime ≤ timeS ∧ timeS ≤ f32 (d.startTime + d.lifetime))
    ∧ (∀ d, (evaluateSpriteRecord st.world system particle timeS d).isSome
        ↔ d.startTime ≤ timeS ∧ timeS ≤ f32 (d.startTime + d.lifetime))
    ∧ ((processModelParticle st system particle trailEmits timeS).world.particles
          particle).m_instanceTable
        = (((st.world.particles particle).m_particleData.take
              (st.world.particles particle).m_maxAmount.toNat).filterMap
            (fun d => (evaluateModelRecord st.world system particle timeS d).map
              (fun c => (⟨c.position, c.scale, c.rotation,
                ⟨c.color.r, c.color.g, c.color.b, c.color.a⟩⟩ : ModelInstance))))
    ∧ ((processModelParticle st system particle trailEmits timeS).world.particles
          particle).m_particleData
        = (st.world.particles particle).m_particleData
    ∧ (∀ i d, i < (st.world.particles particle).m_maxAmount.toNat →
        (st.world.particles particle).m_particleData[i]? = some d →
        ((processSpriteParticle st system particle trailEmits timeS).world.particles
            particle).m_spriteParticleData i
          = match evaluateSpriteRecord st.world system particle timeS d with
            | none => ⟨⟨0, 0, 0⟩, ⟨0, 0, 0⟩, ⟨0, 0, 0, 0⟩, 0, 0⟩
            | some r =>
              ⟨r.1.position, r.1.rotation,
                ⟨(r.1.color.r : ℚ) / 255, (r.1.color.g : ℚ) / 255, (r.1.color.b : ℚ) / 255,
                  (r.1.color.a : ℚ) / 255⟩,
                r.1.scale.x, r.2⟩)
    ∧ ((processSpriteParticle st system particle trailEmits timeS).world.particles
          particle).m_particleData
        = (st.world.particles particle).m_particleData
    ∧ (∀ d, d.startTime = 2 → d.lifetime = 3 →
        ∀ t1 t2 t3 t4 : ℚ,
        (t1 = 19 / 10 ∨ t1 = f32 (f32 (1900 : ℚ) / 1000)) →
        (t2 = 51 / 10 ∨ t2 = f32 (f32 (5100 : ℚ) / 1000)) →
        (t3 = 2 ∨ t3 = f32 (f32 (2000 : ℚ) / 1000)) →
        (t4 = 5 ∨ t4 = f32 (f32 (5000 : ℚ) / 1000)) →
        evaluateModelRecord st.world system particle t1 d = none
        ∧ evaluateModelRecord st.world system particle t2 d = none
        ∧ (evaluateModelRecord st.world system particle t3 d).isSome
        ∧ (evaluateModelRecord st.world system particle t4 d).isSome
        ∧ evaluateSpriteRecord st.world system particle t1 d = none
        ∧ evaluateSpriteRecord st.world system particle t2 d = none
        ∧ (evaluateSpriteRecord st.world system particle t3 d).isSome
        ∧ (evaluateSpriteRecord st.world system particle t4 d).isSome) := by
  have hm := processModel_loop st.world st.trailCalls system particle trailEmits timeS
    (st.world.particles particle).m_maxAmount.toNat
  have hs := processSprite_loop st.world st.trailCalls system particle trailEmits timeS
    (st.world.particles particle).m_maxAmount.toNat
  refine ⟨evaluateModelRecord_isSome st.world system particle timeS,
    evaluateSpriteRecord_isSome st.world system particle timeS, ?_, ?_, ?_, ?_, ?_⟩
  · simp only [processModelParticle]
    rw [hm]
    simp only [World.setParticle, Function.update_same]
    rfl
  · simp only [processModelParticle]
    rw [hm]
    simp only [World.setParticle, Function.update_same]
  · intro i d hi hd
    simp only [processSpriteParticle]
    rw [hs]
    simp only [World.setParticle, Function.update_same]
    simp only [spriteBuffer, hi, if_true, hd, spriteSlot]
    rfl
  · simp only [processSpriteParticle]
    rw [hs]
    simp only [World.setParticle, Function.update_same]
  · intro d h2 h3 t1 t2 t3 t4 ht1 ht2 ht3 ht4
    have h5 : f32 ((2 : ℚ) + 3) = 5 := by
      have := f32_intCast 5 (by norm_num)
      norm_num at this ⊢
      exact this
    have key : ∀ t : ℚ, (evaluateModelRecord st.world system particle t d).isSome
        ↔ (2 : ℚ) ≤ t ∧ t ≤ 5 := by
      intro t
      rw [evaluateModelRecord_isSome, h2, h3, h5]
    have keys : ∀ t : ℚ, (evaluateSpriteRecord st.world system particle t d).isSome
        ↔ (2 : ℚ) ≤ t ∧ t ≤ 5 := by
      intro t
      rw [evaluateSpriteRecord_isSome, h2, h3, h5]
    have fint : ∀ n : Int, |n| ≤ 2 ^ 24 → f32 (n : ℚ) = n := f32_intCast
    have e1900 : f32 (1900 : ℚ) = 1900 := by simpa using fint 1900 (by norm_num)
    have e5100 : f32 (5100 : ℚ) = 5100 := by simpa using fint 5100 (by norm_num)
    have e2000 : f32 (2000 : ℚ) = 2000 := by simpa using fint 2000 (by norm_num)
    have e5000 : f32 (5000 : ℚ) = 5000 := by simpa using fint 5000 (by norm_num)
    have e2 : f32 (f32 (2000 : ℚ) / 1000) = 2 := by
      rw [e2000]
      have := fint 2 (by norm_num)
      norm_num at this ⊢
      exact this
    have e5 : f32 (f32 (5000 : ℚ) / 1000) = 5 := by
      rw [e5000]
      have := fint 5 (by norm_num)
      norm_num at this ⊢
      exact this
    have b1 : f32 (f32 (1900 : ℚ) / 1000) < 2 := by
      rw [e1900]
      have := f32_sub_le (1900 / 1000) 0 (by norm_num)
        (by rw [abs_of_pos (by norm_num)]; norm_num)
      rw [abs_le] at this
      norm_num at this ⊢
      linarith [this.2]
    have b2 : 5 < f32 (f32 (5100 : ℚ) / 1000) := by
      rw [e5100]
      have := f32_sub_le (5100 / 1000) 2 (by norm_num)
        (by rw [abs_of_pos (by norm_num)]; norm_num)
      rw [abs_le] at this
      norm_num at this ⊢
      linarith [this.1]
    have c1 : t1 < 2 := by
      rcases ht1 with h | h <;> rw [h]
      · norm_num
      · exact b1
    have c2 : 5 < t2 := by
      rcases ht2 with h | h <;> rw [h]
      · norm_num
      · exact b2
    have c3 : t3 = 2 := by
      rcases ht3 with h | h <;> rw [h]
      exact e2
    have c4 : t4 = 5 := by
      rcases ht4 with h | h <;> rw [h]
      exact e5
    refine ⟨?_, ?_, ?_, ?_, ?_, ?_, ?_, ?_⟩
    · rw [← Option.not_isSome_iff_eq_none, key]
      intro h
      linarith [h.1]
    · rw [← Option.not_isSome_iff_eq_none, key]
      intro h
      linarith [h.2]
    · rw [key, c3]; norm_num
    · rw [key, c4]; norm_num
    · rw [← Option.not_isSome_iff_eq_none, keys]
      intro h
      linarith [h.1]
    · rw [← Option.not_isSome_iff_eq_none, keys]
      intro h
      linarith [h.2]
    · rw [keys, c3]; norm_num
    · rw [keys, c4]; norm_num

/-! ## The record written by `emitParticle` -/

theorem emitParticle_trace (w : World) (self : Ptr) (site : EmitSite) (particle : Ptr)
    (startTime : ℚ) (transform : QMatrix4x4) (centerPos : QVector3D) (sys : Ptr)
    (hsys : (w.emitters self).m_system = some sys) :
    (emitParticle w self site particle startTime transform centerPos).emitTrace
      = w.emitTrace ++
          [⟨self, site, particle, (w.particles particle).nextCurrentIndex.1,
            emitData (w.emitters self) (w.particles particle).nextCurrentIndex.2
              ((w.systems sys).m_rand (w.particles particle).nextCurrentIndex.1)
              (w.particles particle).nextCurrentIndex.1 startTime transform centerPos⟩] := by
  simp [emitParticle, hsys, World.setParticle]

theorem emitData_startTime (e : QQuick3DParticleEmitter) (particle : QQuick3DParticle)
    (rand : QPRand → ℚ) (particleIndex : Int) (startTime : ℚ) (transform : QMatrix4x4)
    (centerPos : QVector3D) :
    (emitData e particle rand particleIndex startTime transform centerPos).startTime
      = startTime := by
  unfold emitData
  cases e.m_velocity <;> rfl

theorem truncToInt_of_nonneg (q : ℚ) (h : 0 ≤ q) : truncToInt q = ⌊q⌋ := by
  simp [truncToInt, h]

theorem toUChar_of_range (q : ℚ) (h0 : 0 ≤ q) (h1 : q < 256) : toUChar q = ⌊q⌋ := by
  unfold toUChar
  rw [truncToInt_of_nonneg q h0]
  have hf0 : 0 ≤ ⌊q⌋ := Int.floor_nonneg.mpr h0
  have hf1 : ⌊q⌋ < 256 := by
    rw [Int.floor_lt]
    exact_mod_cast h1
  exact Int.emod_eq_of_lt hf0 hf1

/-! ## Fades -/

theorem processParticleFadeInOut_scale (currentData : QQuick3DParticleDataCurrent)
    (particle : QQuick3DParticle) (elapsed remaining : ℚ)
    (hfin : particle.m_fadeInEffect ≠ FadeType.FadeScale
      ∨ ¬ elapsed < (particle.m_fadeInDuration : ℚ) / 1000)
    (hfout : particle.m_fadeOutEffect ≠ FadeType.FadeScale
      ∨ ¬ remaining < (particle.m_fadeOutDuration : ℚ) / 1000) :
    (processParticleFadeInOut currentData particle elapsed remaining).scale
      = currentData.scale := by
  unfold processParticleFadeInOut
  simp only []
  split_ifs <;> first | rfl | (rcases hfin with h | h <;> rcases hfout with h2 | h2 <;> simp_all)

theorem applyAffectors_scale (w : World) (affectors : List Ptr) (particle : Ptr)
    (d : QQuick3DParticleData) (currentData : QQuick3DParticleDataCurrent) (particleTimeS : ℚ)
    (haff : ∀ a ∈ affectors, ∀ (d1 : QQuick3DParticleData) (c : QQuick3DParticleDataCurrent)
      (t : ℚ), ((w.affectors a).affectParticle d1 c t).scale = c.scale) :
    (applyAffectors w affectors particle d currentData particleTimeS).scale
      = currentData.scale := by
  unfold applyAffectors
  induction affectors generalizing currentData with
  | nil => rfl
  | cons a rest ih =>
    rw [List.foldl_cons]
    rw [ih _ (fun b hb => haff b (List.mem_cons_of_mem a hb))]
    dsimp only
    split_ifs
    · exact haff a (List.mem_cons_self a rest) d currentData particleTimeS
    · rfl

theorem processParticleAlignment_scale (w : World) (currentData : QQuick3DParticleDataCurrent)
    (particle : QQuick3DParticle) (d : QQuick3DParticleData) :
    (processParticleAlignment w currentData particle d).scale = currentData.scale := by
  unfold processParticleAlignment
  split_ifs <;> rfl

theorem lifeFraction_pos (t l : ℚ) (hl : 0 < l) : lifeFraction t l = max 0 (min 1 (t / l)) := by
  unfold lifeFraction
  rw [if_neg hl.ne']

theorem stateBeforeAffectors_scale (w : World) (particle : Ptr) (timeS : ℚ)
    (d : QQuick3DParticleData) (align : Bool) (scaleOf : ℚ → QVector3D)
    (hfin : (w.particles particle).m_fadeInEffect ≠ FadeType.FadeScale
      ∨ ¬ f32 (timeS - d.startTime) < ((w.particles particle).m_fadeInDuration : ℚ) / 1000)
    (hfout : (w.particles particle).m_fadeOutEffect ≠ FadeType.FadeScale
      ∨ ¬ f32 (d.lifetime - f32 (timeS - d.startTime))
          < ((w.particles particle).m_fadeOutDuration : ℚ) / 1000) :
    (stateBeforeAffectors w particle timeS d align scaleOf).scale
      = scaleOf (d.endSize * lifeFraction (f32 (timeS - d.startTime)) d.lifetime
          + d.startSize * (1 - lifeFraction (f32 (timeS - d.startTime)) d.lifetime)) := by
  unfold stateBeforeAffectors
  simp only []
  rw [processParticleFadeInOut_scale _ _ _ _ hfin hfout]

theorem evaluateRecord_eq (w : World) (system particle : Ptr) (timeS : ℚ)
    (d : QQuick3DParticleData) :
    (evaluateModelRecord w system particle timeS d
      = if timeS < d.startTime ∨ timeS > f32 (d.startTime + d.lifetime) then none
        else some (applyAffectors w (w.systems system).m_affectors particle d
          (stateBeforeAffectors w particle timeS d true (w.particles particle).m_initialScale.scale)
          (f32 (timeS - d.startTime))))
    ∧ (evaluateSpriteRecord w system particle timeS d
      = if timeS < d.startTime ∨ timeS > f32 (d.startTime + d.lifetime) then none
        else some (applyAffectors w (w.systems system).m_affectors particle d
          (stateBeforeAffectors w particle timeS d (!(w.particles particle).m_billboard)
            (fun s => ⟨s, s, s⟩))
          (f32 (timeS - d.startTime)),
          lifeFraction (f32 (timeS - d.startTime)) d.lifetime)) := by
  constructor
  · by_cases h : timeS < d.startTime ∨ timeS > f32 (d.startTime + d.lifetime)
    · simp only [evaluateModelRecord, h, if_true]
    · simp only [evaluateModelRecord, stateBeforeAffectors, h, if_false, if_true]
  · by_cases h : timeS < d.startTime ∨ timeS > f32 (d.startTime + d.lifetime)
    · simp only [evaluateSpriteRecord, h, if_true]
    · simp only [evaluateSpriteRecord, stateBeforeAffectors, h, if_false]

/-- C7. For an alive record with a positive life time, while no scale fade is in effect, the
derived scale set before the affector loop is `s = endSize * f + startSize * (1 - f)` with
`f = clamp(elapsed / lifetime, 0, 1)` and `elapsed` the float `timeS - startTime`: a sprite
particle gets `(s, s, s)`, a model particle gets `m_initialScale * s`. This state is what the
affector loop receives, and it is the committed scale when no affector changes the scale. `s`
is the start size at `elapsed = 0`, the end size at `elapsed = lifetime`, and lies between the
two sizes at every time in between. -/
theorem C7_scale_interpolation (w : World) (system particle : Ptr) (timeS : ℚ)
    (d : QQuick3DParticleData)
    (halive : d.startTime ≤ timeS ∧ timeS ≤ f32 (d.startTime + d.lifetime))
    (hl : 0 < d.lifetime)
    (hfin : (w.particles particle).m_fadeInEffect ≠ FadeType.FadeScale
      ∨ ¬ f32 (timeS - d.startTime) < ((w.particles particle).m_fadeInDuration : ℚ) / 1000)
    (hfout : (w.particles particle).m_fadeOutEffect ≠ FadeType.FadeScale
      ∨ ¬ f32 (d.lifetime - f32 (timeS - d.startTime))
          < ((w.particles particle).m_fadeOutDuration : ℚ) / 1000) :
    ∃ (f s : ℚ),
      f = max 0 (min 1 (f32 (timeS - d.startTime) / d.lifetime))
      ∧ s = d.endSize * f + d.startSize * (1 - f)
      ∧ (stateBeforeAffectors w particle timeS d (!(w.particles particle).m_billboard)
            (fun x => ⟨x, x, x⟩)).scale = ⟨s, s, s⟩
      ∧ (stateBeforeAffectors w particle timeS d true
            (w.particles particle).m_initialScale.scale).scale
          = (w.particles particle).m_initialScale.scale s
      ∧ evaluateSpriteRecord w system particle timeS d
          = some (applyAffectors w (w.systems system).m_affectors particle d
              (stateBeforeAffectors w particle timeS d (!(w.particles particle).m_billboard)
                (fun x => ⟨x, x, x⟩))
              (f32 (timeS - d.startTime)), f)
      ∧ evaluateModelRecord w system particle timeS d
          = some (applyAffectors w (w.systems system).m_affectors particle d
              (stateBeforeAffectors w particle timeS d true
                (w.particles particle).m_initialScale.scale)
              (f32 (timeS - d.startTime)))
      ∧ ((∀ a ∈ (w.systems system).m_affectors, ∀ (d1 : QQuick3DParticleData)
            (c : QQuick3DParticleDataCurrent) (t : ℚ),
            ((w.affectors a).affectParticle d1 c t).scale = c.scale) →
          ∃ cs cm : QQuick3DParticleDataCurrent,
            evaluateSpriteRecord w system particle timeS d = some (cs, f)
            ∧ evaluateModelRecord w system particle timeS d = some cm
            ∧ cs.scale = ⟨s, s, s⟩
            ∧ cm.scale = (w.particles particle).m_initialScale.scale s)
      ∧ (f32 (timeS - d.startTime) = 0 → s = d.startSize)
      ∧ (timeS = d.startTime → s = d.startSize)
      ∧ (f32 (timeS - d.startTime) = d.lifetime → s = d.endSize)
      ∧ min d.startSize d.endSize ≤ s
      ∧ s ≤ max d.startSize d.endSize := by
  have hnot : ¬ (timeS < d.startTime ∨ timeS > f32 (d.startTime + d.lifetime)) := by
    push_neg
    exact halive
  have hlf := lifeFraction_pos (f32 (timeS - d.startTime)) d.lifetime hl
  have hf0 : (0 : ℚ) ≤ max 0 (min 1 (f32 (timeS - d.startTime) / d.lifetime)) := le_max_left _ _
  have hf1 : max 0 (min 1 (f32 (timeS - d.startTime) / d.lifetime)) ≤ (1 : ℚ) :=
    max_le (by norm_num) (min_le_left _ _)
  obtain ⟨hM, hS⟩ := evaluateRecord_eq w system particle timeS d
  rw [if_neg hnot] at hM hS
  rw [hlf] at hS
  have hsS := stateBeforeAffectors_scale w particle timeS d (!(w.particles particle).m_billboard)
    (fun x => ⟨x, x, x⟩) hfin hfout
  have hsM := stateBeforeAffectors_scale w particle timeS d true
    (w.particles particle).m_initialScale.scale hfin hfout
  rw [hlf] at hsS hsM
  have hstart : f32 (timeS - d.startTime) = 0 →
      d.endSize * max 0 (min 1 (f32 (timeS - d.startTime) / d.lifetime))
        + d.startSize * (1 - max 0 (min 1 (f32 (timeS - d.startTime) / d.lifetime)))
        = d.startSize := by
    intro h
    rw [h]
    simp
  refine ⟨max 0 (min 1 (f32 (timeS - d.startTime) / d.lifetime)),
    d.endSize * max 0 (min 1 (f32 (timeS - d.startTime) / d.lifetime))
      + d.startSize * (1 - max 0 (min 1 (f32 (timeS - d.startTime) / d.lifetime))),
    rfl, rfl, hsS, hsM, hS, hM, ?_, hstart, ?_, ?_, ?_, ?_⟩
  · intro haff
    refine ⟨_, _, hS, hM, ?_, ?_⟩
    · rw [applyAffectors_scale w _ _ _ _ _ haff]
      exact hsS
    · rw [applyAffectors_scale w _ _ _ _ _ haff]
      exact hsM
  · intro h
    apply hstart
    rw [h, sub_self, f32_zero]
  · intro h
    rw [h]
    have : d.lifetime / d.lifetime = 1 := by
      field_simp
    rw [this]
    simp
  · generalize max 0 (min 1 (f32 (timeS - d.startTime) / d.lifetime)) = f at hf0 hf1
    rcases le_total d.startSize d.endSize with h | h
    · rw [min_eq_left h]
      nlinarith
    · rw [min_eq_right h]
      nlinarith
  · generalize max 0 (min 1 (f32 (timeS - d.startTime) / d.lifetime)) = f at hf0 hf1
    rcases le_total d.startSize d.endSize with h | h
    · rw [max_eq_right h]
      nlinarith
    · rw [max_eq_left h]
      nlinarith

/-- Witness for C7: the example record (alive from 2 s to 5 s, sizes 1 to 3) at tick time
3 s in the example scene, which fades the opacity only: a third of the life time has
elapsed and the size is 5/3. -/
theorem C7_scale_interpolation_witness :
    (exampleRecord.startTime ≤ 3 ∧ (3 : ℚ) ≤ f32 (exampleRecord.startTime + exampleRecord.lifetime))
    ∧ 0 < exampleRecord.lifetime
    ∧ f32 ((3 : ℚ) - exampleRecord.startTime) = 1
    ∧ ∃ (f s : ℚ),
      f = 1 / 3
      ∧ s = 5 / 3
      ∧ (stateBeforeAffectors exampleWorld 0 3 exampleRecord
            (!(exampleWorld.particles 0).m_billboard) (fun x => ⟨x, x, x⟩)).scale = ⟨s, s, s⟩
      ∧ min exampleRecord.startSize exampleRecord.endSize ≤ s
      ∧ s ≤ max exampleRecord.startSize exampleRecord.endSize := by
  have h5 : f32 (exampleRecord.startTime + exampleRecord.lifetime) = 5 := by
    have := f32_intCast 5 (by norm_num)
    norm_num [exampleRecord] at this ⊢
    exact this
  have h1 : f32 ((3 : ℚ) - exampleRecord.startTime) = 1 := by
    have := f32_intCast 1 (by norm_num)
    norm_num [exampleRecord] at this ⊢
    exact this
  have halive : exampleRecord.startTime ≤ 3
      ∧ (3 : ℚ) ≤ f32 (exampleRecord.startTime + exampleRecord.lifetime) := by
    rw [h5]
    norm_num [exampleRecord]
  have hl : 0 < exampleRecord.lifetime := by norm_num [exampleRecord]
  obtain ⟨f, s, hf, hs, h3, _, _, _, _, _, _, _, h4, h5'⟩ :=
    C7_scale_interpolation exampleWorld 0 0 3 exampleRecord halive hl (Or.inl (by decide))
      (Or.inl (by decide))
  have hf' : f = 1 / 3 := by
    rw [hf, h1]
    norm_num [exampleRecord]
  have hs' : s = 5 / 3 := by
    rw [hs, hf']
    norm_num [exampleRecord]
  exact ⟨halive, hl, h1, f, s, hf', hs', h3, h4, h5'⟩

/-! ## Compact rotation encoding -/

theorem truncToInt_intCast (n : Int) : truncToInt (n : ℚ) = n := by
  unfold truncToInt
  split_ifs <;> simp

theorem truncToInt_le_of_le (q : ℚ) (b : Int) (hb : 0 ≤ b) (h : q ≤ b) : truncToInt q ≤ b := by
  unfold truncToInt
  split_ifs with h0
  · have h1 : ⌊q⌋ ≤ ⌊(b : ℚ)⌋ := Int.floor_le_floor h
    rwa [Int.floor_intCast] at h1
  · push_neg at h0
    have : ⌈q⌉ ≤ 0 := Int.ceil_le.mpr (by exact_mod_cast h0.le)
    omega

theorem truncToInt_ge_of_ge (q : ℚ) (b : Int) (hb : b ≤ 0) (h : (b : ℚ) ≤ q) : b ≤ truncToInt q := by
  unfold truncToInt
  split_ifs with h0
  · have : 0 ≤ ⌊q⌋ := Int.floor_nonneg.mpr h0
    omega
  · have h1 : ⌈(b : ℚ)⌉ ≤ ⌈q⌉ := Int.ceil_le_ceil h
    rwa [Int.ceil_intCast] at h1

theorem toChar_of_range (q : ℚ) (h0 : -128 ≤ truncToInt q) (h1 : truncToInt q ≤ 127) :
    toChar q = truncToInt q := by
  unfold toChar
  omega

theorem truncToInt_le_of_lt (q : ℚ) (b : Int) (hb : 0 ≤ b) (h : q < b + 1) : truncToInt q ≤ b := by
  unfold truncToInt
  split_ifs with h0
  · have h1 : ⌊q⌋ < b + 1 := Int.floor_lt.mpr (by push_cast; exact h)
    omega
  · push_neg at h0
    have : ⌈q⌉ ≤ 0 := Int.ceil_le.mpr (by exact_mod_cast h0.le)
    omega

theorem truncToInt_ge_of_gt (q : ℚ) (b : Int) (hb : b ≤ 0) (h : (b : ℚ) - 1 < q) :
    b ≤ truncToInt q := by
  unfold truncToInt
  split_ifs with h0
  · have : 0 ≤ ⌊q⌋ := Int.floor_nonneg.mpr h0
    omega
  · have h1 : b - 1 < ⌈q⌉ := Int.lt_ceil.mpr (by push_cast; exact h)
    omega

/-- The float constant `step = 127.0f / 360.0f` of emitParticle. -/
theorem f32_step : f32 (127 / 360) = 5918629 / 16777216 := by
  rw [f32_eval_pos (127 / 360) (-2) 11837258 (by norm_num) (by norm_num) (by norm_num)
    (by unfold roundHalfEven; norm_num)]
  norm_num

/-- The float product `r * step` is within `2^-17` of the exact `r * 127 / 360`. -/
theorem f32_mul_step_sub_le (r : ℚ) (h : |r| ≤ 360) :
    |f32 (r * f32 (127 / 360)) - r * (127 / 360)| ≤ 1 / 131072 := by
  rw [f32_step]
  obtain ⟨hlo, hhi⟩ := abs_le.mp h
  have hp : |r * (5918629 / 16777216)| < 2 ^ ((6 : Int) + 1) := by
    rw [abs_lt]
    norm_num
    constructor <;> linarith
  have h1 := f32_sub_le (r * (5918629 / 16777216)) 6 (by norm_num) hp
  have e18 : (2 : ℚ) ^ ((6 : Int) - 24) = 1 / 262144 := by norm_num
  rw [e18] at h1
  obtain ⟨h2, h3⟩ := abs_le.mp h1
  rw [abs_le]
  constructor <;> linarith

theorem emitRotationAxis_no_variation (r rho : ℚ) (h : |r| ≤ 360) :
    emitRotationAxis r 0 rho = truncToInt (f32 (r * f32 (127 / 360)))
    ∧ -127 ≤ truncToInt (f32 (r * f32 (127 / 360)))
    ∧ truncToInt (f32 (r * f32 (127 / 360))) ≤ 127 := by
  obtain ⟨hlo, hhi⟩ := abs_le.mp h
  obtain ⟨h3, h4⟩ := abs_le.mp (f32_mul_step_sub_le r h)
  have h1 : -127 ≤ truncToInt (f32 (r * f32 (127 / 360))) :=
    truncToInt_ge_of_gt _ (-127) (by norm_num) (by push_cast; linarith)
  have h2 : truncToInt (f32 (r * f32 (127 / 360))) ≤ 127 :=
    truncToInt_le_of_lt _ 127 (by norm_num) (by push_cast; linarith)
  refine ⟨?_, h1, h2⟩
  unfold emitRotationAxis
  simp only []
  rw [toChar_of_range _ (by omega) h2]
  have hc : f32 ((truncToInt (f32 (r * f32 (127 / 360))) : Int) : ℚ)
      = ((truncToInt (f32 (r * f32 (127 / 360))) : Int) : ℚ) :=
    f32_intCast _ (by rw [abs_le]; constructor <;> omega)
  have : ((truncToInt (f32 (r * f32 (127 / 360))) : Int) : ℚ)
      + f32 (f32 (0 - f32 (f32 (2 * rho) * 0)) * f32 (127 / 360))
      = ((truncToInt (f32 (r * f32 (127 / 360))) : Int) : ℚ) := by
    rw [mul_zero, f32_zero, sub_zero, f32_zero, zero_mul, f32_zero, add_zero]
  rw [this, hc, toChar_of_range _ (by rw [truncToInt_intCast]; omega)
    (by rw [truncToInt_intCast]; exact h2), truncToInt_intCast]

/-- The stored value of the float rotations used below: 0, 360, -360, 90 degrees and
`8.50393677f`. -/
theorem f32_rotation_values :
    f32 (0 * f32 (127 / 360)) = 0
      ∧ f32 (360 * f32 (127 / 360)) = 127
      ∧ f32 (-360 * f32 (127 / 360)) = -127
      ∧ f32 (90 * f32 (127 / 360)) = 127 / 4
      ∧ f32 (278657 / 32768 * f32 (127 / 360)) = 3 := by
  rw [f32_step]
  refine ⟨?_, ?_, ?_, ?_, ?_⟩
  · rw [zero_mul, f32_zero]
  · rw [f32_eval_pos (360 * (5918629 / 16777216)) 6 16646144 (by norm_num) (by norm_num)
      (by norm_num) (by unfold roundHalfEven; norm_num)]
    norm_num
  · rw [f32_eval (-360 * (5918629 / 16777216)) 6 (-16646144) (by norm_num)
      (by rw [abs_of_neg (by norm_num)]; norm_num) (by rw [abs_of_neg (by norm_num)]; norm_num)
      (by unfold roundHalfEven; norm_num)]
    norm_num
  · rw [f32_eval_pos (90 * (5918629 / 16777216)) 4 16646144 (by norm_num) (by norm_num)
      (by norm_num) (by unfold roundHalfEven; norm_num)]
    norm_num
  · rw [f32_eval_pos (278657 / 32768 * (5918629 / 16777216)) 1 12582912 (by norm_num)
      (by norm_num) (by norm_num) (by unfold roundHalfEven; norm_num)]
    norm_num

/-- The stored value of a start rotation of 90 degrees is 31. -/
theorem emitRotationAxis_ninety : emitRotationAxis 90 0 (1 / 2) = 31 := by
  rw [(emitRotationAxis_no_variation 90 (1 / 2) (by norm_num)).1, f32_rotation_values.2.2.2.1]
  unfold truncToInt
  norm_num

/-! ## Rotation velocity compression -/

theorem setEnabled_false_eq (w : World) (self : Ptr) :
    setEnabled w self false
      = w.setEmitter self { w.emitters self with m_enabled := false } := by
  unfold setEnabled
  by_cases h : (w.emitters self).m_enabled = false
  · have he : ({ w.emitters self with m_enabled := false } : QQuick3DParticleEmitter)
        = w.emitters self := by
      cases hw : w.emitters self
      rw [hw] at h
      simp only at h
      simp [h]
    simp only [h, if_true, he, World.setEmitter, Function.update_eq_self]
  · simp only [h, if_false]
    cases hs : (w.emitters self).m_system <;> simp [hs]

/-- C6. An emitter without a system, without a particle, or whose particle
belongs to another system is inert: emitParticles, emitParticlesBurst, burst
and generateEmitBursts return the world unchanged (no record written, no
particle state changed), and getEmitAmount returns 0 without a system. While
`enabled` is false, getEmitAmount returns 0 and emitParticles and burst change
nothing. `setEnabled(false)` changes the `enabled` flag of the emitter and
nothing else: all particles, with every record emitted so far, all systems
and the trace stay as they are. -/
theorem C6_inert_emitter (w : World) (self : Ptr) :
    (((w.emitters self).m_system = none
        ∨ (w.emitters self).m_particle = none
        ∨ (∃ sys particle, (w.emitters self).m_system = some sys
            ∧ (w.emitters self).m_particle = some particle
            ∧ (w.particles particle).m_system ≠ some sys)) →
      emitParticles w self = w
      ∧ (∀ b : QQuick3DParticleEmitBurstData, emitParticlesBurst w self b = w)
      ∧ (∀ (count duration : Int) (position : QVector3D),
          burst w self count duration position = w)
      ∧ generateEmitBursts w self = w)
    ∧ ((w.emitters self).m_system = none → getEmitAmount w self = (0, w))
    ∧ ((w.emitters self).m_enabled = false →
      getEmitAmount w self = (0, w)
      ∧ emitParticles w self = w
      ∧ (∀ (count duration : Int) (position : QVector3D),
          burst w self count duration position = w))
    ∧ setEnabled w self false
        = w.setEmitter self { w.emitters self with m_enabled := false }
    ∧ (setEnabled w self false).particles = w.particles
    ∧ (setEnabled w self false).systems = w.systems
    ∧ (setEnabled w self false).emitTrace = w.emitTrace
    ∧ (∀ other, other ≠ self → (setEnabled w self false).emitters other = w.emitters other) := by
  refine ⟨?_, ?_, ?_, setEnabled_false_eq w self, ?_, ?_, ?_, ?_⟩
  · rintro (h | h | ⟨sys, particle, h1, h2, h3⟩)
    · refine ⟨?_, ?_, ?_, ?_⟩
      · simp [emitParticles, h]
      · intro b; simp [emitParticlesBurst, h]
      · intro c d p; simp [burst, h]
      · simp [generateEmitBursts, h]
    · refine ⟨?_, ?_, ?_, ?_⟩
      · unfold emitParticles
        cases hs : (w.emitters self).m_system <;> simp [h, hs]
      · intro b
        unfold emitParticlesBurst
        cases hs : (w.emitters self).m_system <;> simp [h, hs]
      · intro c d p
        unfold burst emitParticlesBurst
        cases hs : (w.emitters self).m_system <;> simp [h, hs]
      · unfold generateEmitBursts
        cases hs : (w.emitters self).m_system <;> simp [h, hs]
    · refine ⟨?_, ?_, ?_, ?_⟩
      · simp [emitParticles, h1, h2, h3]
      · intro b; simp [emitParticlesBurst, h1, h2, h3]
      · intro c d p; simp [burst, emitParticlesBurst, h1, h2, h3]
      · simp [generateEmitBursts, h1, h2, h3]
  · intro h
    simp [getEmitAmount, h]
  · intro h
    refine ⟨?_, ?_, ?_⟩
    · unfold getEmitAmount
      cases hs : (w.emitters self).m_system <;> simp [h, hs]
    · unfold emitParticles
      cases hs : (w.emitters self).m_system <;> simp [h, hs]
    · intro c d p
      unfold burst emitParticlesBurst
      cases hs : (w.emitters self).m_system <;> simp [h, hs]
  · rw [setEnabled_false_eq]; rfl
  · rw [setEnabled_false_eq]; rfl
  · rw [setEnabled_false_eq]; rfl
  · intro other ho
    rw [setEnabled_false_eq]
    simp [World.setEmitter, Function.update_noteq ho]

/-! ## Frame and trace of the emission loops -/

theorem EmitFrame.refl (w : World) : EmitFrame w w :=
  ⟨rfl, rfl, fun _ => rfl, fun _ => rfl⟩

theorem EmitFrame.trans {w w1 w2 : World} (h1 : EmitFrame w w1) (h2 : EmitFrame w1 w2) :
    EmitFrame w w2 :=
  ⟨h2.systems.trans h1.systems, h2.emitters.trans h1.emitters,
    fun p => (h2.maxAmount p).trans (h1.maxAmount p),
    fun p => (h2.psystem p).trans (h1.psystem p)⟩

theorem emitParticle_frame (w : World) (self : Ptr) (site : EmitSite) (particle : Ptr)
    (startTime : ℚ) (transform : QMatrix4x4) (centerPos : QVector3D) :
    EmitFrame w (emitParticle w self site particle startTime transform centerPos) := by
  cases hs : (w.emitters self).m_system with
  | none =>
    simp only [emitParticle, hs]
    exact EmitFrame.refl w
  | some sys =>
    simp only [emitParticle, hs]
    refine ⟨rfl, rfl, ?_, ?_⟩
    · intro p
      by_cases hp : p = particle
      · subst hp
        simp [World.setParticle, QQuick3DParticle.nextCurrentIndex]
      · simp [World.setParticle, Function.update_noteq hp]
    · intro p
      by_cases hp : p = particle
      · subst hp
        simp [World.setParticle, QQuick3DParticle.nextCurrentIndex]
      · simp [World.setParticle, Function.update_noteq hp]

theorem emitParticle_startTimes (w : World) (self : Ptr) (site : EmitSite) (particle : Ptr)
    (startTime : ℚ) (transform : QMatrix4x4) (centerPos : QVector3D) (sys : Ptr)
    (hsys : (w.emitters self).m_system = some sys) (e : Ptr) (s : EmitSite) :
    emittedStartTimes (emitParticle w self site particle startTime transform centerPos) e s
      = emittedStartTimes w e s ++ (if self = e ∧ site = s then [startTime] else []) := by
  unfold emittedStartTimes
  rw [emitParticle_trace w self site particle startTime transform centerPos sys hsys,
    List.filter_append, List.map_append]
  congr 1
  by_cases h : self = e ∧ site = s
  · simp [h, emitData_startTime]
  · simp [h]

theorem emitLoop_spec (self : Ptr) (site : EmitSite) (particle : Ptr) (transform : QMatrix4x4)
    (centerPos : QVector3D) (f : Nat → ℚ) (sys : Ptr) (n : Nat) (w : World)
    (hsys : (w.emitters self).m_system = some sys) :
    EmitFrame w
        ((List.range n).foldl
          (fun w1 i => emitParticle w1 self site particle (f i) transform centerPos) w)
    ∧ ∀ (e : Ptr) (s : EmitSite),
        emittedStartTimes
            ((List.range n).foldl
              (fun w1 i => emitParticle w1 self site particle (f i) transform centerPos) w) e s
          = emittedStartTimes w e s
            ++ (if self = e ∧ site = s then (List.range n).map f else []) := by
  induction n with
  | zero =>
    refine ⟨EmitFrame.refl w, ?_⟩
    intro e s
    simp
  | succ n ih =>
    obtain ⟨hf, ht⟩ := ih
    rw [List.range_succ, List.foldl_append]
    simp only [List.foldl_cons, List.foldl_nil]
    have hsys1 : (((List.range n).foldl
        (fun w1 i => emitParticle w1 self site particle (f i) transform centerPos) w).emitters
          self).m_system = some sys := by
      rw [hf.emitters]; exact hsys
    refine ⟨hf.trans (emitParticle_frame _ _ _ _ _ _ _), ?_⟩
    intro e s
    rw [emitParticle_startTimes _ _ _ _ _ _ _ sys hsys1, ht]
    by_cases h : self = e ∧ site = s
    · simp [h]
    · simp [h]

theorem setParticle_frame (w : World) (particle : Ptr) (v : QQuick3DParticle)
    (h1 : v.m_maxAmount = (w.particles particle).m_maxAmount)
    (h2 : v.m_system = (w.particles particle).m_system) :
    EmitFrame w (w.setParticle particle v) := by
  refine ⟨rfl, rfl, ?_, ?_⟩
  · intro p
    by_cases hp : p = particle
    · subst hp
      simp [World.setParticle, h1]
    · simp [World.setParticle, Function.update_noteq hp]
  · intro p
    by_cases hp : p = particle
    · subst hp
      simp [World.setParticle, h2]
    · simp [World.setParticle, Function.update_noteq hp]

theorem burstInner_spec (self particle : Ptr) (transform : QMatrix4x4) (centerPos : QVector3D)
    (timeStep : ℚ) (sys : Ptr) (n : Nat) (w : World) (startTime : ℚ)
    (hsys : (w.emitters self).m_system = some sys) :
    EmitFrame w
        ((List.range n).foldl
          (fun (acc : World × ℚ) _ =>
            (emitParticle acc.1 self EmitSite.declaredBurst particle acc.2 transform centerPos,
             acc.2 + timeStep))
          (w, startTime)).1
    ∧ ((List.range n).foldl
          (fun (acc : World × ℚ) _ =>
            (emitParticle acc.1 self EmitSite.declaredBurst particle acc.2 transform centerPos,
             acc.2 + timeStep))
          (w, startTime)).2 = startTime + n * timeStep
    ∧ ∀ (e : Ptr) (s : EmitSite),
        emittedStartTimes
            ((List.range n).foldl
              (fun (acc : World × ℚ) _ =>
                (emitParticle acc.1 self EmitSite.declaredBurst particle acc.2 transform centerPos,
                 acc.2 + timeStep))
              (w, startTime)).1 e s
          = emittedStartTimes w e s
            ++ (if self = e ∧ EmitSite.declaredBurst = s
                then (List.range n).map (fun (i : Nat) => startTime + i * timeStep)
                else []) := by
  induction n with
  | zero =>
    refine ⟨EmitFrame.refl w, by simp, ?_⟩
    intro e s
    simp
  | succ n ih =>
    obtain ⟨hf, h2, ht⟩ := ih
    rw [List.range_succ, List.foldl_append]
    simp only [List.foldl_cons, List.foldl_nil]
    have hsys1 : (((List.range n).foldl
        (fun (acc : World × ℚ) _ =>
          (emitParticle acc.1 self EmitSite.declaredBurst particle acc.2 transform centerPos,
           acc.2 + timeStep))
        (w, startTime)).1.emitters self).m_system = some sys := by
      rw [hf.emitters]; exact hsys
    refine ⟨hf.trans (emitParticle_frame _ _ _ _ _ _ _), ?_, ?_⟩
    · rw [h2]
      push_cast
      ring
    · intro e s
      rw [emitParticle_startTimes _ _ _ _ _ _ _ sys hsys1, ht, h2]
      by_cases h : self = e ∧ EmitSite.declaredBurst = s
      · simp [h]
      · simp [h]

theorem generateBurstLoop_spec (self particle : Ptr) (transform : QMatrix4x4)
    (centerPos : QVector3D) (sys : Ptr) (bursts : List QQuick3DParticleEmitBurst) (w : World)
    (hsys : (w.emitters self).m_system = some sys) :
    EmitFrame w (generateBurstLoop self particle transform centerPos w bursts).1
    ∧ ∀ (e : Ptr) (s : EmitSite), s ≠ EmitSite.declaredBurst →
        emittedStartTimes (generateBurstLoop self particle transform centerPos w bursts).1 e s
          = emittedStartTimes w e s := by
  induction bursts generalizing w with
  | nil =>
    simp only [generateBurstLoop]
    exact ⟨EmitFrame.refl w, by intros; first | rfl | trivial⟩
  | cons b rest ih =>
    simp only [generateBurstLoop]
    by_cases hb : b.amount ≤ 0
    · simp only [hb, if_true]
      exact ⟨EmitFrame.refl w, by intros; first | rfl | trivial⟩
    · simp only [hb, if_false]
      obtain ⟨hf, _, ht⟩ := burstInner_spec self particle transform centerPos
        ((b.duration : ℚ) / 1000 / b.amount) sys b.amount.toNat w ((b.time : ℚ) / 1000) hsys
      have hf2 := hf.trans (setParticle_frame _ particle
        ((((List.range b.amount.toNat).foldl
          (fun (acc : World × ℚ) _ =>
            (emitParticle acc.1 self EmitSite.declaredBurst particle acc.2 transform centerPos,
             acc.2 + (b.duration : ℚ) / 1000 / b.amount))
          (w, (b.time : ℚ) / 1000)).1.particles particle).updateBurstIndex b.amount) rfl rfl)
      have hsys2 := hsys
      rw [← hf2.emitters] at hsys2
      obtain ⟨hf3, ht3⟩ := ih _ hsys2
      refine ⟨hf2.trans hf3, ?_⟩
      intro e s hs
      rw [ht3 e s hs]
      have := ht e s
      have hne : ¬ (self = e ∧ EmitSite.declaredBurst = s) := fun h => hs h.2.symm
      rw [if_neg hne, List.append_nil] at this
      exact this

theorem setEmitter_self (w : World) (self : Ptr) : w.setEmitter self (w.emitters self) = w := by
  simp [World.setEmitter]

theorem generateEmitBursts_spec (w : World) (self sys : Ptr)
    (hsys : (w.emitters self).m_system = some sys) :
    (generateEmitBursts w self).systems = w.systems
    ∧ (∃ b, (generateEmitBursts w self).emitters
        = Function.update w.emitters self { w.emitters self with m_burstGenerated := b })
    ∧ (∀ p, ((generateEmitBursts w self).particles p).m_maxAmount = (w.particles p).m_maxAmount)
    ∧ (∀ p, ((generateEmitBursts w self).particles p).m_system = (w.particles p).m_system)
    ∧ ∀ (e : Ptr) (s : EmitSite), s ≠ EmitSite.declaredBurst →
        emittedStartTimes (generateEmitBursts w self) e s = emittedStartTimes w e s := by
  have hkeep : ∃ b, w.emitters
      = Function.update w.emitters self { w.emitters self with m_burstGenerated := b } :=
    ⟨(w.emitters self).m_burstGenerated, by simp⟩
  have hsame : w.systems = w.systems
      ∧ (∃ b, w.emitters
          = Function.update w.emitters self { w.emitters self with m_burstGenerated := b })
      ∧ (∀ p, (w.particles p).m_maxAmount = (w.particles p).m_maxAmount)
      ∧ (∀ p, (w.particles p).m_system = (w.particles p).m_system)
      ∧ ∀ (e : Ptr) (s : EmitSite), s ≠ EmitSite.declaredBurst →
          emittedStartTimes w e s = emittedStartTimes w e s :=
    ⟨rfl, hkeep, fun _ => rfl, fun _ => rfl, fun _ _ _ => rfl⟩
  rcases Option.eq_none_or_eq_some (w.emitters self).m_particle with hp | ⟨particle, hp⟩
  · have : generateEmitBursts w self = w := by
      simp only [generateEmitBursts, hsys, hp]
    rw [this]
    exact hsame
  · by_cases hps : (w.particles particle).m_system ≠ some sys
    · have : generateEmitBursts w self = w := by
        simp only [generateEmitBursts, hsys, hp]
        rw [if_pos hps]
      rw [this]
      exact hsame
    · by_cases hempty : (w.emitters self).m_emitBursts.isEmpty = true
      · have : generateEmitBursts w self
            = w.setEmitter self { w.emitters self with m_burstGenerated := true } := by
          simp only [generateEmitBursts, hsys, hp]
          rw [if_neg hps, if_pos hempty]
        rw [this]
        exact ⟨rfl, ⟨true, rfl⟩, fun _ => rfl, fun _ => rfl, fun _ _ _ => rfl⟩
      · have hf0 := setParticle_frame w particle ((w.particles particle).reset w.defaultData)
          rfl rfl
        have hsys0 : ((w.setParticle particle ((w.particles particle).reset
            w.defaultData)).emitters self).m_system = some sys := hsys
        obtain ⟨hf1, ht1⟩ := generateBurstLoop_spec self particle
          (w.emitters self).particleTransform (w.emitters self).position sys
          (w.emitters self).m_emitBursts _ hsys0
        have hf := hf0.trans hf1
        have hem : (generateBurstLoop self particle (w.emitters self).particleTransform
            (w.emitters self).position
            (w.setParticle particle ((w.particles particle).reset w.defaultData))
            (w.emitters self).m_emitBursts).1.emitters = w.emitters := hf.emitters
        by_cases hdone : (generateBurstLoop self particle (w.emitters self).particleTransform
            (w.emitters self).position
            (w.setParticle particle ((w.particles particle).reset w.defaultData))
            (w.emitters self).m_emitBursts).2 = true
        · have : generateEmitBursts w self
              = (generateBurstLoop self particle (w.emitters self).particleTransform
                  (w.emitters self).position
                  (w.setParticle particle ((w.particles particle).reset w.defaultData))
                  (w.emitters self).m_emitBursts).1.setEmitter self
                  { w.emitters self with m_burstGenerated := true } := by
            simp only [generateEmitBursts, hsys, hp]
            rw [if_neg hps, if_neg hempty, if_pos hdone]
            simp only [hem, hsys, hp]
          rw [this]
          refine ⟨hf.systems, ⟨true, ?_⟩, hf.maxAmount, hf.psystem, ?_⟩
          · simp only [World.setEmitter, hem]
          · intro e s hs
            exact ht1 e s hs
        · have : generateEmitBursts w self
              = (generateBurstLoop self particle (w.emitters self).particleTransform
                  (w.emitters self).position
                  (w.setParticle particle ((w.particles particle).reset w.defaultData))
                  (w.emitters self).m_emitBursts).1 := by
            simp only [generateEmitBursts, hsys, hp]
            rw [if_neg hps, if_neg hempty, if_neg hdone]
          rw [this]
          refine ⟨hf.systems, ?_, hf.maxAmount, hf.psystem, ?_⟩
          · rw [hem]
            exact hkeep
          · intro e s hs
            exact ht1 e s hs

theorem getEmitAmount_eq (w : World) (self sys : Ptr)
    (hsys : (w.emitters self).m_system = some sys)
    (hen : (w.emitters self).m_enabled = true)
    (hrate : 0 < (w.emitters self).m_emitRate) :
    getEmitAmount w self
      = ((emitAmountAt (w.emitters self) (w.systems sys).m_time).1,
          w.setEmitter self
            { w.emitters self with
              m_unemittedF := (emitAmountAt (w.emitters self) (w.systems sys).m_time).2 }) := by
  unfold getEmitAmount emitAmountAt emitAmountOf
  generalize he : w.emitters self = e at hsys hen hrate ⊢
  cases e
  simp only at hsys hen hrate
  subst hsys hen
  simp only [Bool.not_true, Bool.false_eq_true, if_false, not_le.mpr hrate]
  split_ifs
  · rfl
  · rfl
  · rw [← he, setEmitter_self]

theorem emitRateParticles_spec (w1 : World) (self sys particle : Ptr)
    (hsys : (w1.emitters self).m_system = some sys)
    (hen : (w1.emitters self).m_enabled = true)
    (hrate : 0 < (w1.emitters self).m_emitRate) :
    (emitRateParticles w1 self sys particle).systems = w1.systems
    ∧ (emitRateParticles w1 self sys particle).emitters
        = Function.update w1.emitters self
            { w1.emitters self with
              m_unemittedF := (emitAmountAt (w1.emitters self) (w1.systems sys).m_time).2
              m_prevEmitTime :=
                if 1 ≤ (emitAmountAt (w1.emitters self) (w1.systems sys).m_time).1
                then (w1.systems sys).m_time else (w1.emitters self).m_prevEmitTime }
    ∧ (∀ p, ((emitRateParticles w1 self sys particle).particles p).m_maxAmount
        = (w1.particles p).m_maxAmount)
    ∧ (∀ p, ((emitRateParticles w1 self sys particle).particles p).m_system
        = (w1.particles p).m_system)
    ∧ ∀ (e : Ptr) (s : EmitSite),
        emittedStartTimes (emitRateParticles w1 self sys particle) e s
          = emittedStartTimes w1 e s
            ++ (if self = e ∧ EmitSite.rate = s then
                  (if 1 ≤ (emitAmountAt (w1.emitters self) (w1.systems sys).m_time).1 then
                    (List.range
                      (min (emitAmountAt (w1.emitters self) (w1.systems sys).m_time).1
                        (w1.particles particle).m_maxAmount).toNat).map
                      (distributeStartTime (w1.emitters self).m_prevEmitTime
                        ((w1.systems sys).m_time - (w1.emitters self).m_prevEmitTime)
                        (min (emitAmountAt (w1.emitters self) (w1.systems sys).m_time).1
                          (w1.particles particle).m_maxAmount))
                  else [])
                else []) := by
  unfold emitRateParticles
  rw [getEmitAmount_eq w1 self sys hsys hen hrate]
  simp only []
  by_cases hk : (emitAmountAt (w1.emitters self) (w1.systems sys).m_time).1 < 1
  · have hk1 : ¬ 1 ≤ (emitAmountAt (w1.emitters self) (w1.systems sys).m_time).1 := not_le.mpr hk
    rw [if_pos hk]
    simp only [hk1, if_false]
    refine ⟨rfl, rfl, fun _ => rfl, fun _ => rfl, ?_⟩
    intro e s
    have : emittedStartTimes (w1.setEmitter self
        { w1.emitters self with
          m_unemittedF := (emitAmountAt (w1.emitters self) (w1.systems sys).m_time).2 }) e s
        = emittedStartTimes w1 e s := rfl
    rw [this]
    split_ifs <;> simp
  · have hk1 : 1 ≤ (emitAmountAt (w1.emitters self) (w1.systems sys).m_time).1 := not_lt.mp hk
    rw [if_neg hk]
    simp only [hk1, if_true]
    have hsys2 : ((w1.setEmitter self
        { w1.emitters self with
          m_unemittedF := (emitAmountAt (w1.emitters self) (w1.systems sys).m_time).2 }).emitters
          self).m_system = some sys := by
      simp [World.setEmitter, hsys]
    obtain ⟨hf, ht⟩ := emitLoop_spec self EmitSite.rate particle
      (w1.emitters self).particleTransform (w1.emitters self).position
      (distributeStartTime (w1.emitters self).m_prevEmitTime
        ((w1.systems sys).m_time - (w1.emitters self).m_prevEmitTime)
        (min (emitAmountAt (w1.emitters self) (w1.systems sys).m_time).1
          (w1.particles particle).m_maxAmount))
      sys
      (min (emitAmountAt (w1.emitters self) (w1.systems sys).m_time).1
        (w1.particles particle).m_maxAmount).toNat
      (w1.setEmitter self
        { w1.emitters self with
          m_unemittedF := (emitAmountAt (w1.emitters self) (w1.systems sys).m_time).2 })
      hsys2
    simp only [World.setEmitter, Function.update_same] at hf ht ⊢
    refine ⟨hf.systems, ?_, hf.maxAmount, hf.psystem, ?_⟩
    · rw [hf.emitters]
      simp [Function.update_idem]
    · intro e s
      exact ht e s

theorem emitParticles_spec (w : World) (self sys particle : Ptr)
    (hsys : (w.emitters self).m_system = some sys)
    (hen : (w.emitters self).m_enabled = true)
    (hp : (w.emitters self).m_particle = some particle)
    (hps : (w.particles particle).m_system = some sys)
    (hrate : 0 < (w.emitters self).m_emitRate) :
    (emitParticles w self).systems = w.systems
    ∧ (∃ b, (emitParticles w self).emitters
        = Function.update w.emitters self
            { w.emitters self with
              m_burstGenerated := b
              m_unemittedF := (emitAmountAt (w.emitters self) (w.systems sys).m_time).2
              m_prevEmitTime :=
                if 1 ≤ (emitAmountAt (w.emitters self) (w.systems sys).m_time).1
                then (w.systems sys).m_time else (w.emitters self).m_prevEmitTime })
    ∧ (∀ p, ((emitParticles w self).particles p).m_maxAmount = (w.particles p).m_maxAmount)
    ∧ (∀ p, ((emitParticles w self).particles p).m_system = (w.particles p).m_system)
    ∧ ∀ (e : Ptr),
        emittedStartTimes (emitParticles w self) e EmitSite.rate
          = emittedStartTimes w e EmitSite.rate
            ++ (if self = e then
                  (if 1 ≤ (emitAmountAt (w.emitters self) (w.systems sys).m_time).1 then
                    (List.range
                      (min (emitAmountAt (w.emitters self) (w.systems sys).m_time).1
                        (w.particles particle).m_maxAmount).toNat).map
                      (distributeStartTime (w.emitters self).m_prevEmitTime
                        ((w.systems sys).m_time - (w.emitters self).m_prevEmitTime)
                        (min (emitAmountAt (w.emitters self) (w.systems sys).m_time).1
                          (w.particles particle).m_maxAmount))
                  else [])
                else []) := by
  have hunf : emitParticles w self
      = emitRateParticles
          (if (!(w.emitters self).m_burstGenerated) = true then generateEmitBursts w self else w)
          self sys particle := by
    unfold emitParticles
    simp only [hsys, hp, hen, hps]
    simp
  rw [hunf]
  have hw1 : ∀ w1 : World, w1.systems = w.systems →
      (∃ b, w1.emitters
        = Function.update w.emitters self { w.emitters self with m_burstGenerated := b }) →
      (∀ p, (w1.particles p).m_maxAmount = (w.particles p).m_maxAmount) →
      (∀ p, (w1.particles p).m_system = (w.particles p).m_system) →
      (∀ (e : Ptr), emittedStartTimes w1 e EmitSite.rate = emittedStartTimes w e EmitSite.rate) →
      (emitRateParticles w1 self sys particle).systems = w.systems
      ∧ (∃ b, (emitRateParticles w1 self sys particle).emitters
          = Function.update w.emitters self
              { w.emitters self with
                m_burstGenerated := b
                m_unemittedF := (emitAmountAt (w.emitters self) (w.systems sys).m_time).2
                m_prevEmitTime :=
                  if 1 ≤ (emitAmountAt (w.emitters self) (w.systems sys).m_time).1
                  then (w.systems sys).m_time else (w.emitters self).m_prevEmitTime })
      ∧ (∀ p, ((emitRateParticles w1 self sys particle).particles p).m_maxAmount
          = (w.particles p).m_maxAmount)
      ∧ (∀ p, ((emitRateParticles w1 self sys particle).particles p).m_system
          = (w.particles p).m_system)
      ∧ ∀ (e : Ptr),
          emittedStartTimes (emitRateParticles w1 self sys particle) e EmitSite.rate
            = emittedStartTimes w e EmitSite.rate
              ++ (if self = e then
                    (if 1 ≤ (emitAmountAt (w.emitters self) (w.systems sys).m_time).1 then
                      (List.range
                        (min (emitAmountAt (w.emitters self) (w.systems sys).m_time).1
                          (w.particles particle).m_maxAmount).toNat).map
                        (distributeStartTime (w.emitters self).m_prevEmitTime
                          ((w.systems sys).m_time - (w.emitters self).m_prevEmitTime)
                          (min (emitAmountAt (w.emitters self) (w.systems sys).m_time).1
                            (w.particles particle).m_maxAmount))
                    else [])
                  else []) := by
    intro w1 h1 h2 h3 h4 h5
    obtain ⟨b, hb⟩ := h2
    have he1 : w1.emitters self = { w.emitters self with m_burstGenerated := b } := by
      rw [hb, Function.update_same]
    have hsys1 : (w1.emitters self).m_system = some sys := by rw [he1]; exact hsys
    have hen1 : (w1.emitters self).m_enabled = true := by rw [he1]; exact hen
    have hrate1 : 0 < (w1.emitters self).m_emitRate := by rw [he1]; exact hrate
    obtain ⟨g1, g2, g3, g4, g5⟩ := emitRateParticles_spec w1 self sys particle hsys1 hen1 hrate1
    have hamt : emitAmountAt (w1.emitters self) (w1.systems sys).m_time
        = emitAmountAt (w.emitters self) (w.systems sys).m_time := by
      rw [he1, h1]
      rfl
    have hprev : (w1.emitters self).m_prevEmitTime = (w.emitters self).m_prevEmitTime := by
      rw [he1]
    refine ⟨g1.trans h1, ⟨b, ?_⟩, fun p => (g3 p).trans (h3 p), fun p => (g4 p).trans (h4 p), ?_⟩
    · rw [g2, hamt, hprev, h1, hb, Function.update_idem]
      simp only [Function.update_same]
    · intro e
      rw [g5 e EmitSite.rate, hamt, hprev, h1, h3 particle, h5 e]
      simp
  by_cases hbg : (!(w.emitters self).m_burstGenerated) = true
  · rw [if_pos hbg]
    obtain ⟨q1, q2, q3, q4, q5⟩ := generateEmitBursts_spec w self sys hsys
    exact hw1 _ q1 q2 q3 q4 (fun e => q5 e EmitSite.rate (by decide))
  · rw [if_neg hbg]
    exact hw1 w rfl ⟨(w.emitters self).m_burstGenerated, by simp⟩ (fun _ => rfl) (fun _ => rfl)
      (fun _ => rfl)

theorem emitParticlesBurst_spec (w : World) (self sys particle : Ptr)
    (hsys : (w.emitters self).m_system = some sys)
    (hen : (w.emitters self).m_enabled = true)
    (hp : (w.emitters self).m_particle = some particle)
    (hps : (w.particles particle).m_system = some sys)
    (b : QQuick3DParticleEmitBurstData) :
    EmitFrame w (emitParticlesBurst w self b)
    ∧ ∀ (e : Ptr) (s : EmitSite),
        emittedStartTimes (emitParticlesBurst w self b) e s
          = emittedStartTimes w e s
            ++ (if self = e ∧ EmitSite.burst = s then
                  (List.range (min b.amount (w.particles particle).m_maxAmount).toNat).map
                    (distributeStartTime b.time b.duration
                      (min b.amount (w.particles particle).m_maxAmount))
                else []) := by
  have hunf : emitParticlesBurst w self b
      = (List.range (min b.amount (w.particles particle).m_maxAmount).toNat).foldl
          (fun w1 i =>
            emitParticle w1 self EmitSite.burst particle
              (distributeStartTime b.time b.duration
                (min b.amount (w.particles particle).m_maxAmount) i)
              (w.emitters self).particleTransform ((w.emitters self).position.add b.position))
          w := by
    unfold emitParticlesBurst
    simp only [hsys, hp, hen, hps]
    simp
  rw [hunf]
  exact emitLoop_spec self EmitSite.burst particle (w.emitters self).particleTransform
    ((w.emitters self).position.add b.position)
    (distributeStartTime b.time b.duration (min b.amount (w.particles particle).m_maxAmount))
    sys _ w hsys

theorem distributeStartTime_props (a span : Int) (n i : Nat) (hi : i < n) (hspan : 0 ≤ span) :
    distributeStartTime a span n i
        = (a : ℚ) / 1000 + (((i : ℚ) + 1) / n) * ((span : ℚ) / 1000)
    ∧ (a : ℚ) / 1000 ≤ distributeStartTime a span n i
    ∧ distributeStartTime a span n i ≤ ((a + span : Int) : ℚ) / 1000
    ∧ distributeStartTime a span n (i + 1) - distributeStartTime a span n i
        = (span : ℚ) / 1000 / n
    ∧ distributeStartTime a span n i ≤ distributeStartTime a span n (i + 1)
    ∧ (i + 1 = n → distributeStartTime a span n i = ((a + span : Int) : ℚ) / 1000)
    ∧ (0 < span → i + 1 < n → distributeStartTime a span n i < ((a + span : Int) : ℚ) / 1000) := by
  have hn : (0 : ℚ) < (n : ℚ) := by
    have : 0 < n := lt_of_le_of_lt (Nat.zero_le i) hi
    exact_mod_cast this
  have hs : (0 : ℚ) ≤ (span : ℚ) / 1000 := by
    have : (0 : ℚ) ≤ (span : ℚ) := by exact_mod_cast hspan
    positivity
  have hi1 : ((i : ℚ) + 1) / n ≤ 1 := by
    rw [div_le_one hn]
    exact_mod_cast hi
  have hi0 : (0 : ℚ) ≤ ((i : ℚ) + 1) / n := by positivity
  have hdef : ∀ j : Nat, distributeStartTime a span n j
      = (a : ℚ) / 1000 + (((j : ℚ) + 1) / n) * ((span : ℚ) / 1000) := by
    intro j
    unfold distributeStartTime
    push_cast
    ring
  rw [hdef i, hdef (i + 1)]
  push_cast
  refine ⟨rfl, ?_, ?_, ?_, ?_, ?_, ?_⟩
  · nlinarith
  · have : ((a : ℚ) + span) / 1000 = (a : ℚ) / 1000 + 1 * ((span : ℚ) / 1000) := by ring
    rw [this]
    nlinarith
  · field_simp
    ring
  · have : ((i : ℚ) + 1) / n ≤ ((i : ℚ) + 1 + 1) / n := by
      apply div_le_div_of_nonneg_right _ hn.le
      linarith
    nlinarith
  · intro h
    have : ((i : ℚ) + 1) / n = 1 := by
      rw [div_eq_one_iff_eq hn.ne']
      exact_mod_cast h
    rw [this]
    ring
  · intro hpos hlt
    have h1 : ((i : ℚ) + 1) / n < 1 := by
      rw [div_lt_one hn]
      exact_mod_cast hlt
    have h2 : (0 : ℚ) < (span : ℚ) / 1000 := by
      have : (0 : ℚ) < (span : ℚ) := by exact_mod_cast hpos
      positivity
    have : ((a : ℚ) + span) / 1000 = (a : ℚ) / 1000 + 1 * ((span : ℚ) / 1000) := by ring
    rw [this]
    nlinarith

/-! ## The slots claimed by successive emissions -/

theorem claimedIndex_data (k : Nat) (p : QQuick3DParticle) (data : List QQuick3DParticleData) :
    QQuick3DParticle.claimedIndex { p with m_particleData := data } k
      = QQuick3DParticle.claimedIndex p k := by
  induction k generalizing p with
  | zero => rfl
  | succ k ih =>
    show QQuick3DParticle.claimedIndex
        ({ p with m_particleData := data } : QQuick3DParticle).nextCurrentIndex.2 k
      = QQuick3DParticle.claimedIndex p.nextCurrentIndex.2 k
    exact ih p.nextCurrentIndex.2

theorem nextCurrentIndex_ready (p : QQuick3DParticle) (h : PoolReady p) :
    p.m_lastBurstIndex ≤ p.nextCurrentIndex.1 ∧ p.nextCurrentIndex.1 < p.m_maxAmount
      ∧ PoolReady p.nextCurrentIndex.2
      ∧ p.nextCurrentIndex.2.m_lastBurstIndex = p.m_lastBurstIndex
      ∧ p.nextCurrentIndex.2.m_maxAmount = p.m_maxAmount
      ∧ p.nextCurrentIndex.2.m_particleData = p.m_particleData
      ∧ p.nextCurrentIndex.2.m_currentIndex = p.nextCurrentIndex.1 := by
  obtain ⟨h1, h2, h3, h4, h5⟩ := h
  unfold PoolReady
  simp only [QQuick3DParticle.nextCurrentIndex]
  split_ifs with hc
  · simp only [and_true]
    exact ⟨by omega, by omega, h1, h2, h3, by omega, by omega⟩
  · simp only [and_true]
    exact ⟨le_rfl, h3, h1, h2, h3, by omega, h3⟩

theorem nextCurrentIndex_eq (p : QQuick3DParticle) (h : PoolReady p) :
    p.nextCurrentIndex.1
      = p.m_lastBurstIndex
        + (p.m_currentIndex + 1 - p.m_lastBurstIndex) % (p.m_maxAmount - p.m_lastBurstIndex) := by
  obtain ⟨h1, h2, h3, h4, h5⟩ := h
  simp only [QQuick3DParticle.nextCurrentIndex]
  split_ifs with hc
  · rw [Int.emod_eq_of_lt (by omega) (by omega)]
    omega
  · have : p.m_currentIndex + 1 - p.m_lastBurstIndex = p.m_maxAmount - p.m_lastBurstIndex := by
      omega
    rw [this, Int.emod_self]
    omega

/-- The claimed indices run through the free slots in a ring. -/
theorem claimedIndex_eq (k : Nat) (p : QQuick3DParticle) (h : PoolReady p) :
    QQuick3DParticle.claimedIndex p k
      = p.m_lastBurstIndex
        + (p.m_currentIndex + 1 - p.m_lastBurstIndex + k) % (p.m_maxAmount - p.m_lastBurstIndex) := by
  induction k generalizing p with
  | zero =>
    show p.nextCurrentIndex.1 = _
    rw [nextCurrentIndex_eq p h]
    simp
  | succ k ih =>
    obtain ⟨n1, n2, n3, n4, n5, _, n7⟩ := nextCurrentIndex_ready p h
    show QQuick3DParticle.claimedIndex p.nextCurrentIndex.2 k = _
    rw [ih p.nextCurrentIndex.2 n3, n4, n5, n7, nextCurrentIndex_eq p h]
    congr 1
    have e : p.m_lastBurstIndex
        + (p.m_currentIndex + 1 - p.m_lastBurstIndex) % (p.m_maxAmount - p.m_lastBurstIndex)
        + 1 - p.m_lastBurstIndex + (k : Int)
        = (p.m_currentIndex + 1 - p.m_lastBurstIndex) % (p.m_maxAmount - p.m_lastBurstIndex)
          + (1 + (k : Int)) := by ring
    rw [e, Int.emod_add_emod]
    congr 1
    push_cast
    ring

theorem claimedIndex_range (k : Nat) (p : QQuick3DParticle) (h : PoolReady p) :
    p.m_lastBurstIndex ≤ QQuick3DParticle.claimedIndex p k
      ∧ QQuick3DParticle.claimedIndex p k < p.m_maxAmount := by
  rw [claimedIndex_eq k p h]
  obtain ⟨h1, h2, h3, h4, h5⟩ := h
  have hR : 0 < p.m_maxAmount - p.m_lastBurstIndex := by omega
  have e1 := Int.emod_nonneg (p.m_currentIndex + 1 - p.m_lastBurstIndex + k) hR.ne'
  have e2 := Int.emod_lt_of_pos (p.m_currentIndex + 1 - p.m_lastBurstIndex + k) hR
  constructor <;> omega

/-- Fewer calls than free slots claim distinct slots. -/
theorem claimedIndex_injective (p : QQuick3DParticle) (h : PoolReady p) (n : Nat)
    (hn : (n : Int) ≤ p.m_maxAmount - p.m_lastBurstIndex) (i j : Nat) (hij : i < j) (hj : j < n) :
    QQuick3DParticle.claimedIndex p i ≠ QQuick3DParticle.claimedIndex p j := by
  rw [claimedIndex_eq i p h, claimedIndex_eq j p h]
  intro heq
  have h1 : (p.m_currentIndex + 1 - p.m_lastBurstIndex + i) % (p.m_maxAmount - p.m_lastBurstIndex)
      = (p.m_currentIndex + 1 - p.m_lastBurstIndex + j) % (p.m_maxAmount - p.m_lastBurstIndex) := by
    omega
  have h3 : (p.m_maxAmount - p.m_lastBurstIndex)
      ∣ (p.m_currentIndex + 1 - p.m_lastBurstIndex + j)
        - (p.m_currentIndex + 1 - p.m_lastBurstIndex + i) :=
    Int.ModEq.dvd h1
  have h4 : (p.m_currentIndex + 1 - p.m_lastBurstIndex + j)
      - (p.m_currentIndex + 1 - p.m_lastBurstIndex + i) = (j : Int) - i := by ring
  rw [h4] at h3
  have h5 := Int.le_of_dvd (by omega) h3
  omega

theorem emitData_index (e : QQuick3DParticleEmitter) (particle : QQuick3DParticle)
    (rand : QPRand → ℚ) (particleIndex : Int) (startTime : ℚ) (transform : QMatrix4x4)
    (centerPos : QVector3D) :
    (emitData e particle rand particleIndex startTime transform centerPos).index
      = particleIndex := by
  unfold emitData
  cases e.m_velocity <;> rfl

theorem emitParticle_pool (w : World) (self : Ptr) (site : EmitSite) (particle : Ptr)
    (startTime : ℚ) (transform : QMatrix4x4) (centerPos : QVector3D) (sys : Ptr)
    (hsys : (w.emitters self).m_system = some sys) :
    (∀ q, q ≠ particle →
      (emitParticle w self site particle startTime transform centerPos).particles q
        = w.particles q)
    ∧ ∃ d : QQuick3DParticleData, d.startTime = startTime
        ∧ d.index = (w.particles particle).nextCurrentIndex.1
        ∧ (emitParticle w self site particle startTime transform centerPos).particles particle
          = { (w.particles particle).nextCurrentIndex.2 with
              m_particleData :=
                if 0 ≤ (w.particles particle).nextCurrentIndex.1 then
                  (w.particles particle).nextCurrentIndex.2.m_particleData.set
                    (w.particles particle).nextCurrentIndex.1.toNat d
                else (w.particles particle).nextCurrentIndex.2.m_particleData } := by
  constructor
  · intro q hq
    simp [emitParticle, hsys, World.setParticle, Function.update_noteq hq]
  · refine ⟨emitData (w.emitters self) (w.particles particle).nextCurrentIndex.2
      ((w.systems sys).m_rand (w.particles particle).nextCurrentIndex.1)
      (w.particles particle).nextCurrentIndex.1 startTime transform centerPos,
      emitData_startTime _ _ _ _ _ _ _, emitData_index _ _ _ _ _ _ _, ?_⟩
    simp [emitParticle, hsys, World.setParticle]

theorem claimedIndex_succ (p : QQuick3DParticle) (k : Nat) :
    QQuick3DParticle.claimedIndex p (k + 1)
      = QQuick3DParticle.claimedIndex p.nextCurrentIndex.2 k := rfl

/-- The records left by a sequence of emitParticle calls with the start times `ts`. -/
theorem emitList_records (self : Ptr) (site : EmitSite) (particle : Ptr) (transform : QMatrix4x4)
    (centerPos : QVector3D) (sys : Ptr) (ts : List ℚ) (w : World)
    (hsys : (w.emitters self).m_system = some sys)
    (hready : PoolReady (w.particles particle)) :
    PoolReady ((ts.foldl
        (fun w1 t => emitParticle w1 self site particle t transform centerPos) w).particles
          particle)
    ∧ ((ts.foldl
        (fun w1 t => emitParticle w1 self site particle t transform centerPos) w).particles
          particle).m_lastBurstIndex = (w.particles particle).m_lastBurstIndex
    ∧ ((ts.foldl
        (fun w1 t => emitParticle w1 self site particle t transform centerPos) w).particles
          particle).m_currentIndex
        = (if ts.length = 0 then (w.particles particle).m_currentIndex
           else QQuick3DParticle.claimedIndex (w.particles particle) (ts.length - 1))
    ∧ (∀ q, q ≠ particle →
        (ts.foldl
          (fun w1 t => emitParticle w1 self site particle t transform centerPos) w).particles q
          = w.particles q)
    ∧ (∀ (i : Nat) (t : ℚ), ts[i]? = some t →
        (∀ j, i < j → j < ts.length →
          QQuick3DParticle.claimedIndex (w.particles particle) j
            ≠ QQuick3DParticle.claimedIndex (w.particles particle) i) →
        ∃ d, ((ts.foldl
            (fun w1 t => emitParticle w1 self site particle t transform centerPos) w).particles
              particle).m_particleData[
                (QQuick3DParticle.claimedIndex (w.particles particle) i).toNat]? = some d
          ∧ d.startTime = t
          ∧ d.index = QQuick3DParticle.claimedIndex (w.particles particle) i)
    ∧ (∀ slot : Nat,
        (∀ i, i < ts.length →
          (QQuick3DParticle.claimedIndex (w.particles particle) i).toNat ≠ slot) →
        ((ts.foldl
            (fun w1 t => emitParticle w1 self site particle t transform centerPos) w).particles
              particle).m_particleData[slot]?
          = (w.particles particle).m_particleData[slot]?) := by
  induction ts generalizing w with
  | nil =>
    refine ⟨hready, rfl, rfl, fun _ _ => rfl, ?_, fun _ _ => rfl⟩
    intro i t ht
    simp at ht
  | cons t rest ih =>
    obtain ⟨n1, n2, n3, n4, n5, n6, n7⟩ := nextCurrentIndex_ready (w.particles particle) hready
    obtain ⟨hother, d0, hd0t, hd0i, hpool⟩ :=
      emitParticle_pool w self site particle t transform centerPos sys hsys
    have hidx0 : (0 : Int) ≤ (w.particles particle).nextCurrentIndex.1 :=
      le_trans hready.2.1 n1
    rw [if_pos hidx0] at hpool
    have hsys1 : ((emitParticle w self site particle t transform centerPos).emitters
        self).m_system = some sys := by
      have hf := emitParticle_frame w self site particle t transform centerPos
      rw [hf.emitters]
      exact hsys
    have hready1 : PoolReady
        ((emitParticle w self site particle t transform centerPos).particles particle) := by
      rw [hpool]
      obtain ⟨r1, r2, r3, r4, r5⟩ := n3
      exact ⟨by simpa using r1, r2, r3, r4, r5⟩
    have hclaim : ∀ k, QQuick3DParticle.claimedIndex
        ((emitParticle w self site particle t transform centerPos).particles particle) k
        = QQuick3DParticle.claimedIndex (w.particles particle) (k + 1) := by
      intro k
      rw [hpool, claimedIndex_data, claimedIndex_succ]
    have hlen0 : (w.particles particle).nextCurrentIndex.1.toNat
        < (w.particles particle).nextCurrentIndex.2.m_particleData.length := by
      have := n3.1
      omega
    obtain ⟨i1, i2, i3, i4, i5, i6⟩ :=
      ih (emitParticle w self site particle t transform centerPos) hsys1 hready1
    simp only [List.foldl_cons]
    refine ⟨i1, ?_, ?_, ?_, ?_, ?_⟩
    · rw [i2, hpool]
      exact n4
    · rw [i3]
      by_cases hr : rest.length = 0
      · rw [if_pos hr, hpool]
        simp only [List.length_cons, hr]
        exact n7
      · rw [if_neg hr, hclaim]
        simp only [List.length_cons, Nat.add_one_ne_zero, if_false]
        congr 1
        omega
    · intro q hq
      rw [i4 q hq, hother q hq]
    · intro i ti hti hlater
      cases i with
      | zero =>
        simp only [List.getElem?_cons_zero, Option.some.injEq] at hti
        have hslot := i6 (w.particles particle).nextCurrentIndex.1.toNat (by
          intro k hk
          rw [hclaim]
          have hne := hlater (k + 1) (by omega) (by simp only [List.length_cons]; omega)
          have hr := claimedIndex_range (k + 1) (w.particles particle) hready
          intro heq
          apply hne
          show QQuick3DParticle.claimedIndex (w.particles particle) (k + 1)
            = (w.particles particle).nextCurrentIndex.1
          have h0 := hready.2.1
          omega)
        refine ⟨d0, ?_, by rw [hd0t, hti], hd0i⟩
        show _[(w.particles particle).nextCurrentIndex.1.toNat]? = some d0
        rw [hslot, hpool]
        simp only [List.getElem?_set_self hlen0]
      | succ i =>
        simp only [List.getElem?_cons_succ] at hti
        obtain ⟨d, h1, h2, h3⟩ := i5 i ti hti (by
          intro j hij hj
          rw [hclaim, hclaim]
          exact hlater (j + 1) (by omega) (by simp only [List.length_cons]; omega))
        rw [hclaim] at h1 h3
        exact ⟨d, h1, h2, h3⟩
    · intro slot hslot
      have hs := i6 slot (by
        intro k hk
        rw [hclaim]
        exact hslot (k + 1) (by simp only [List.length_cons]; omega))
      rw [hs, hpool]
      have h0 := hslot 0 (by simp)
      have h0b : (w.particles particle).nextCurrentIndex.1.toNat ≠ slot := h0
      simp only [List.getElem?_set_ne h0b]
      rw [n6]

/-- The records left by a loop of `n` emitParticle calls with the start times `f i`. -/
theorem emitLoop_records (self : Ptr) (site : EmitSite) (particle : Ptr) (transform : QMatrix4x4)
    (centerPos : QVector3D) (f : Nat → ℚ) (sys : Ptr) (n : Nat) (w : World)
    (hsys : (w.emitters self).m_system = some sys)
    (hready : PoolReady (w.particles particle)) :
    RecordsWritten (w.particles particle)
        (((List.range n).foldl
          (fun w1 i => emitParticle w1 self site particle (f i) transform centerPos) w).particles
            particle) n f
    ∧ PoolReady (((List.range n).foldl
          (fun w1 i => emitParticle w1 self site particle (f i) transform centerPos) w).particles
            particle)
    ∧ (((List.range n).foldl
          (fun w1 i => emitParticle w1 self site particle (f i) transform centerPos) w).particles
            particle).m_lastBurstIndex = (w.particles particle).m_lastBurstIndex
    ∧ (((List.range n).foldl
          (fun w1 i => emitParticle w1 self site particle (f i) transform centerPos) w).particles
            particle).m_currentIndex
        = (if n = 0 then (w.particles particle).m_currentIndex
           else QQuick3DParticle.claimedIndex (w.particles particle) (n - 1))
    ∧ (∀ q, q ≠ particle →
        ((List.range n).foldl
          (fun w1 i => emitParticle w1 self site particle (f i) transform centerPos) w).particles q
          = w.particles q) := by
  have hfold : (List.range n).foldl
      (fun w1 i => emitParticle w1 self site particle (f i) transform centerPos) w
      = ((List.range n).map f).foldl
          (fun w1 t => emitParticle w1 self site particle t transform centerPos) w := by
    rw [List.foldl_map]
  rw [hfold]
  obtain ⟨h1, h2, h3, h4, h5, h6⟩ := emitList_records self site particle transform centerPos sys
    ((List.range n).map f) w hsys hready
  simp only [List.length_map, List.length_range] at h3 h5 h6
  refine ⟨⟨fun i _ => claimedIndex_range i _ hready, ?_, ?_, h6⟩, h1, h2, h3, h4⟩
  · intro i hi hlater
    exact h5 i (f i) (by simp [hi]) hlater
  · intro hn i j hij hj
    exact claimedIndex_injective _ hready n hn i j hij hj

theorem getEmitAmount_world (w : World) (self : Ptr) :
    ∃ u, (getEmitAmount w self).2
      = w.setEmitter self { w.emitters self with m_unemittedF := u } := by
  have hkeep : w = w.setEmitter self
      { w.emitters self with m_unemittedF := (w.emitters self).m_unemittedF } := by
    simp [World.setEmitter]
  unfold getEmitAmount
  dsimp only
  split
  · exact ⟨_, hkeep⟩
  · split_ifs
    · exact ⟨_, hkeep⟩
    · exact ⟨_, hkeep⟩
    · exact ⟨_, rfl⟩
    · exact ⟨_, rfl⟩
    · exact ⟨_, hkeep⟩

theorem emitParticles_eq_rate (w : World) (self sys particle : Ptr)
    (hsys : (w.emitters self).m_system = some sys)
    (hen : (w.emitters self).m_enabled = true)
    (hp : (w.emitters self).m_particle = some particle)
    (hps : (w.particles particle).m_system = some sys) :
    emitParticles w self = emitRateParticles (afterPendingBursts w self) self sys particle := by
  have hps2 : ¬ (w.particles particle).m_system ≠ some sys := not_not.mpr hps
  simp only [emitParticles, afterPendingBursts, hsys, hp, hen, Bool.not_true, Bool.false_eq_true,
    if_false]
  rw [if_neg hps2]

theorem afterPendingBursts_frame (w : World) (self sys : Ptr)
    (hsys : (w.emitters self).m_system = some sys) :
    (afterPendingBursts w self).systems = w.systems
    ∧ ((afterPendingBursts w self).emitters self).m_system = some sys
    ∧ ((afterPendingBursts w self).emitters self).m_prevEmitTime
        = (w.emitters self).m_prevEmitTime
    ∧ (∀ p, ((afterPendingBursts w self).particles p).m_maxAmount = (w.particles p).m_maxAmount) := by
  unfold afterPendingBursts
  split_ifs
  · obtain ⟨h1, ⟨b, hb⟩, h3, -, -⟩ := generateEmitBursts_spec w self sys hsys
    refine ⟨h1, ?_, ?_, h3⟩
    · rw [hb]; simp [hsys]
    · rw [hb]; simp
  · exact ⟨rfl, hsys, rfl, fun _ => rfl⟩

theorem getEmitAmount_afterPendingBursts (w : World) (self sys : Ptr)
    (hsys : (w.emitters self).m_system = some sys) :
    (getEmitAmount (afterPendingBursts w self) self).1 = (getEmitAmount w self).1 := by
  unfold afterPendingBursts
  split_ifs
  · obtain ⟨h1, ⟨b, hb⟩, -, -, -⟩ := generateEmitBursts_spec w self sys hsys
    have he : (generateEmitBursts w self).emitters self
        = { w.emitters self with m_burstGenerated := b } := by
      rw [hb]; simp
    unfold getEmitAmount
    simp only [he, h1]
    split
    · rfl
    · split_ifs <;> rfl
  · rfl

theorem burst_eq_loop (w : World) (self sys particle : Ptr)
    (hsys : (w.emitters self).m_system = some sys)
    (hen : (w.emitters self).m_enabled = true)
    (hp : (w.emitters self).m_particle = some particle)
    (hps : (w.particles particle).m_system = some sys)
    (count duration : Int) (position : QVector3D) :
    burst w self count duration position
      = (List.range (min count (w.particles particle).m_maxAmount).toNat).foldl
          (fun w1 i =>
            emitParticle w1 self EmitSite.burst particle
              (distributeStartTime (w.systems sys).m_time duration
                (min count (w.particles particle).m_maxAmount) i)
              (w.emitters self).particleTransform ((w.emitters self).position.add position))
          w := by
  unfold burst emitParticlesBurst
  simp only [hsys, hp, hen, hps]
  simp

theorem emitRateParticles_records (w1 : World) (self sys particle : Ptr)
    (hsys : (w1.emitters self).m_system = some sys)
    (hready : PoolReady (w1.particles particle)) :
    ((getEmitAmount w1 self).1 < 1 →
      (emitRateParticles w1 self sys particle).particles = w1.particles)
    ∧ (1 ≤ (getEmitAmount w1 self).1 →
      RecordsWritten (w1.particles particle)
          ((emitRateParticles w1 self sys particle).particles particle)
          (min (getEmitAmount w1 self).1 (w1.particles particle).m_maxAmount).toNat
          (distributeStartTime (w1.emitters self).m_prevEmitTime
            ((w1.systems sys).m_time - (w1.emitters self).m_prevEmitTime)
            (min (getEmitAmount w1 self).1 (w1.particles particle).m_maxAmount))
        ∧ (∀ q, q ≠ particle →
            (emitRateParticles w1 self sys particle).particles q = w1.particles q))
    ∧ PoolReady ((emitRateParticles w1 self sys particle).particles particle)
    ∧ ((emitRateParticles w1 self sys particle).particles particle).m_lastBurstIndex
        = (w1.particles particle).m_lastBurstIndex := by
  obtain ⟨u, hu⟩ := getEmitAmount_world w1 self
  have hsys2 : ((getEmitAmount w1 self).2.emitters self).m_system = some sys := by
    rw [hu]; simp [World.setEmitter, hsys]
  have hprev : ((getEmitAmount w1 self).2.emitters self).m_prevEmitTime
      = (w1.emitters self).m_prevEmitTime := by
    rw [hu]; simp [World.setEmitter]
  have hpart : (getEmitAmount w1 self).2.particles = w1.particles := by
    rw [hu]; rfl
  have hsystems : (getEmitAmount w1 self).2.systems = w1.systems := by
    rw [hu]; rfl
  have hready2 : PoolReady ((getEmitAmount w1 self).2.particles particle) := by
    rw [hpart]; exact hready
  by_cases hlt : (getEmitAmount w1 self).1 < 1
  · have hE : emitRateParticles w1 self sys particle = (getEmitAmount w1 self).2 := by
      unfold emitRateParticles
      simp only [hlt, if_true]
    rw [hE, hpart]
    exact ⟨fun _ => rfl, fun h => absurd hlt (not_lt.mpr h), hready, rfl⟩
  · obtain ⟨r1, r2, r3, -, r5⟩ := emitLoop_records self EmitSite.rate particle
      ((getEmitAmount w1 self).2.emitters self).particleTransform
      ((getEmitAmount w1 self).2.emitters self).position
      (distributeStartTime ((getEmitAmount w1 self).2.emitters self).m_prevEmitTime
        (((getEmitAmount w1 self).2.systems sys).m_time
          - ((getEmitAmount w1 self).2.emitters self).m_prevEmitTime)
        (min (getEmitAmount w1 self).1 ((getEmitAmount w1 self).2.particles particle).m_maxAmount))
      sys (min (getEmitAmount w1 self).1
        ((getEmitAmount w1 self).2.particles particle).m_maxAmount).toNat
      (getEmitAmount w1 self).2 hsys2 hready2
    rw [hprev, hsystems, hpart] at r1 r2 r3 r5
    have hE : (emitRateParticles w1 self sys particle).particles
        = ((List.range (min (getEmitAmount w1 self).1
              (w1.particles particle).m_maxAmount).toNat).foldl
            (fun w3 i => emitParticle w3 self EmitSite.rate particle
              (distributeStartTime (w1.emitters self).m_prevEmitTime
                ((w1.systems sys).m_time - (w1.emitters self).m_prevEmitTime)
                (min (getEmitAmount w1 self).1 (w1.particles particle).m_maxAmount) i)
              ((getEmitAmount w1 self).2.emitters self).particleTransform
              ((getEmitAmount w1 self).2.emitters self).position)
            (getEmitAmount w1 self).2).particles := by
      unfold emitRateParticles
      simp only [hlt, if_false, World.setEmitter, hprev, hsystems, hpart]
    rw [hE]
    exact ⟨fun h => absurd h hlt, fun _ => ⟨r1, r5⟩, r2, r3⟩

/-- The records written by emitParticles: those of the rate based loop, on top of the pool
that the generation of pending declared bursts has left. -/
theorem emitParticles_records (w : World) (self sys particle : Ptr)
    (hsys : (w.emitters self).m_system = some sys)
    (hen : (w.emitters self).m_enabled = true)
    (hp : (w.emitters self).m_particle = some particle)
    (hps : (w.particles particle).m_system = some sys)
    (hready : PoolReady ((afterPendingBursts w self).particles particle)) :
    ((getEmitAmount (afterPendingBursts w self) self).1 < 1 →
      (emitParticles w self).particles = (afterPendingBursts w self).particles)
    ∧ (1 ≤ (getEmitAmount (afterPendingBursts w self) self).1 →
      RecordsWritten ((afterPendingBursts w self).particles particle)
          ((emitParticles w self).particles particle)
          (min (getEmitAmount (afterPendingBursts w self) self).1
            (w.particles particle).m_maxAmount).toNat
          (distributeStartTime (w.emitters self).m_prevEmitTime
            ((w.systems sys).m_time - (w.emitters self).m_prevEmitTime)
            (min (getEmitAmount (afterPendingBursts w self) self).1
              (w.particles particle).m_maxAmount))
        ∧ (∀ q, q ≠ particle →
            (emitParticles w self).particles q = (afterPendingBursts w self).particles q))
    ∧ PoolReady ((emitParticles w self).particles particle)
    ∧ ((emitParticles w self).particles particle).m_lastBurstIndex
        = ((afterPendingBursts w self).particles particle).m_lastBurstIndex := by
  obtain ⟨f1, f2, f3, f4⟩ := afterPendingBursts_frame w self sys hsys
  have h := emitRateParticles_records (afterPendingBursts w self) self sys particle f2 hready
  rw [f1, f3, f4 particle] at h
  rw [emitParticles_eq_rate w self sys particle hsys hen hp hps]
  exact h

/-- The records written by emitParticlesBurst. -/
theorem emitParticlesBurst_records (w : World) (self sys particle : Ptr)
    (hsys : (w.emitters self).m_system = some sys)
    (hen : (w.emitters self).m_enabled = true)
    (hp : (w.emitters self).m_particle = some particle)
    (hps : (w.particles particle).m_system = some sys)
    (hready : PoolReady (w.particles particle)) (b : QQuick3DParticleEmitBurstData) :
    RecordsWritten (w.particles particle) ((emitParticlesBurst w self b).particles particle)
        (min b.amount (w.particles particle).m_maxAmount).toNat
        (distributeStartTime b.time b.duration (min b.amount (w.particles particle).m_maxAmount))
    ∧ PoolReady ((emitParticlesBurst w self b).particles particle)
    ∧ ((emitParticlesBurst w self b).particles particle).m_lastBurstIndex
        = (w.particles particle).m_lastBurstIndex
    ∧ (∀ q, q ≠ particle → (emitParticlesBurst w self b).particles q = w.particles q) := by
  have hE : emitParticlesBurst w self b
      = (List.range (min b.amount (w.particles particle).m_maxAmount).toNat).foldl
          (fun w1 i =>
            emitParticle w1 self EmitSite.burst particle
              (distributeStartTime b.time b.duration
                (min b.amount (w.particles particle).m_maxAmount) i)
              (w.emitters self).particleTransform ((w.emitters self).position.add b.position))
          w := by
    unfold emitParticlesBurst
    simp only [hsys, hp, hen, hps]
    simp
  rw [hE]
  obtain ⟨r1, r2, r3, -, r5⟩ := emitLoop_records self EmitSite.burst particle
    (w.emitters self).particleTransform ((w.emitters self).position.add b.position)
    (distributeStartTime b.time b.duration (min b.amount (w.particles particle).m_maxAmount))
    sys (min b.amount (w.particles particle).m_maxAmount).toNat w hsys hready
  exact ⟨r1, r2, r3, r5⟩

/-! ## Start times of an emission -/

theorem f32_nonpos (q : ℚ) (h : q ≤ 0) : f32 q ≤ 0 := by
  unfold f32
  have hp := two_zpow_pos (ulpExponent q)
  have h1 : q / 2 ^ ulpExponent q ≤ ((0 : Int) : ℚ) := by
    rw [Int.cast_zero]
    exact div_nonpos_of_nonpos_of_nonneg h hp.le
  have h2 : ((roundHalfEven (q / 2 ^ ulpExponent q) : Int) : ℚ) ≤ 0 := by
    exact_mod_cast roundHalfEven_le _ 0 h1
  exact mul_nonpos_of_nonpos_of_nonneg h2 hp.le

/-- The float amount of getEmitAmount is a float. -/
theorem emitAmountFloat_fix (r : ℚ) (prev t : Int) :
    f32 (emitAmountFloat r prev t) = emitAmountFloat r prev t := by
  unfold emitAmountFloat
  simp only []
  split_ifs
  · exact f32_zero
  · exact f32_f32 _

theorem emitAmountFloat_nonpos (r : ℚ) (prev t : Int) (hr : 0 < r) (h : t ≤ prev) :
    emitAmountFloat r prev t ≤ 0 := by
  unfold emitAmountFloat
  simp only []
  split_ifs
  · exact le_rfl
  · apply f32_nonpos
    have h1 : f32 ((t - prev : Int) : ℚ) ≤ 0 :=
      f32_nonpos _ (by exact_mod_cast (by omega : t - prev ≤ 0))
    have h2 : 0 ≤ f32 (1000 / r) := f32_nonneg _ (div_nonneg (by norm_num) hr.le)
    exact div_nonpos_of_nonpos_of_nonneg h1 h2

theorem floatToInt_intCast (n : Int) :
    floatToInt (n : ℚ) = if -2147483648 ≤ n ∧ n ≤ 2147483647 then n else -2147483648 := by
  unfold floatToInt
  rw [truncToInt_intCast]

/-- The result of getEmitAmount in terms of the float amount `F = emitAmountF`: when at
least one particle is emitted, `floor F` fits an `int`, the amount is `floor F` or
`floor F + 1`, and amount plus stored fraction equal the fraction before plus `F` up to one
rounding of at most `2^-24`; otherwise the fraction is unchanged. The stored fraction is a
float in `[0, 1)`. -/
theorem emitAmountOf_spec (r : ℚ) (prev : Int) (u : ℚ) (t : Int) (hu0 : 0 ≤ u) (hu1 : u < 1)
    (hfix : f32 u = u) :
    (1 ≤ (emitAmountOf r prev u t).1 →
      1 ≤ ⌊emitAmountFloat r prev t⌋ ∧ ⌊emitAmountFloat r prev t⌋ ≤ 2147483647
      ∧ ((emitAmountOf r prev u t).1 = ⌊emitAmountFloat r prev t⌋
          ∨ (emitAmountOf r prev u t).1 = ⌊emitAmountFloat r prev t⌋ + 1)
      ∧ |((emitAmountOf r prev u t).1 : ℚ) + (emitAmountOf r prev u t).2
          - (u + emitAmountFloat r prev t)| ≤ 1 / 16777216)
    ∧ ((emitAmountOf r prev u t).1 < 1 →
        (emitAmountOf r prev u t).2 = u
        ∧ (emitAmountOf r prev u t).1 = floatToInt (⌊emitAmountFloat r prev t⌋ : ℚ)
        ∧ (⌊emitAmountFloat r prev t⌋ < 1 ∨ 2147483647 < ⌊emitAmountFloat r prev t⌋))
    ∧ 0 ≤ (emitAmountOf r prev u t).2
    ∧ (emitAmountOf r prev u t).2 < 1
    ∧ f32 (emitAmountOf r prev u t).2 = (emitAmountOf r prev u t).2 := by
  have hF := emitAmountFloat_fix r prev t
  unfold emitAmountOf
  simp only []
  generalize emitAmountFloat r prev t = F at hF ⊢
  rw [floatToInt_intCast]
  by_cases hin : -2147483648 ≤ ⌊F⌋ ∧ ⌊F⌋ ≤ 2147483647
  · rw [if_pos hin]
    by_cases h0 : 0 < ⌊F⌋
    · rw [if_pos h0]
      have hF1 : 1 ≤ F := by
        have := Int.floor_pos.mp h0
        exact this
      have hfl : f32 ((⌊F⌋ : Int) : ℚ) = ((⌊F⌋ : Int) : ℚ) := f32_floor F hF
      have hfr : f32 (F - ⌊F⌋) = F - ⌊F⌋ := f32_fract F hF hF1
      rw [hfl, hfr]
      have hφ0 : 0 ≤ F - ⌊F⌋ := by linarith [Int.floor_le F]
      have hφ1 : F - ⌊F⌋ < 1 := by linarith [Int.lt_floor_add_one F]
      have hu2 := f32_fix_lt_one u hfix hu1
      have hφ2 := f32_fix_lt_one (F - ⌊F⌋) hfr hφ1
      have e2 : (2 : ℚ) ^ ((0 : Int) + 1) = 2 := by norm_num
      have hsum : |u + (F - ⌊F⌋)| < 2 ^ ((0 : Int) + 1) := by
        rw [abs_of_nonneg (by linarith), e2]
        linarith
      have herr := f32_sub_le (u + (F - ⌊F⌋)) 0 (by norm_num) hsum
      have e24 : (2 : ℚ) ^ ((0 : Int) - 24) = 1 / 16777216 := by norm_num
      rw [e24] at herr
      obtain ⟨herr1, herr2⟩ := abs_le.mp herr
      have hU0 : 0 ≤ f32 (u + (F - ⌊F⌋)) := f32_nonneg _ (by linarith)
      have hUfix : f32 (f32 (u + (F - ⌊F⌋))) = f32 (u + (F - ⌊F⌋)) := f32_f32 _
      by_cases h1 : 1 ≤ f32 (u + (F - ⌊F⌋))
      · rw [if_pos h1]
        have hU2 : f32 (u + (F - ⌊F⌋)) < 2 := by
          norm_num at hu2 hφ2
          linarith
        have hflU : ⌊f32 (u + (F - ⌊F⌋))⌋ = 1 := by
          rw [Int.floor_eq_iff]
          constructor
          · exact_mod_cast h1
          · norm_num
            exact hU2
        have hsub : f32 (f32 (u + (F - ⌊F⌋)) - 1) = f32 (u + (F - ⌊F⌋)) - 1 := by
          have := f32_fract _ hUfix h1
          rw [hflU] at this
          simpa using this
        rw [hsub]
        refine ⟨fun _ => ⟨h0, hin.2, Or.inr rfl, ?_⟩, fun hk => ?_, ?_, ?_, ?_⟩
        · dsimp only
          rw [abs_le]
          push_cast
          constructor <;> linarith
        · dsimp only at hk
          omega
        · dsimp only
          linarith
        · dsimp only
          linarith
        · dsimp only
          rw [← hsub, f32_f32]
      · rw [if_neg h1]
        push_neg at h1
        refine ⟨fun _ => ⟨h0, hin.2, Or.inl rfl, ?_⟩, fun hk => ?_, hU0, h1, hUfix⟩
        · dsimp only
          rw [abs_le]
          constructor <;> linarith
        · dsimp only at hk
          omega
    · rw [if_neg h0]
      refine ⟨fun hk => ?_, fun _ => ⟨rfl, rfl, Or.inl (by omega)⟩, hu0, hu1, hfix⟩
      dsimp only at hk
      omega
  · rw [if_neg hin]
    have hneg : ¬ (0 : Int) < -2147483648 := by norm_num
    rw [if_neg hneg]
    refine ⟨fun hk => ?_, fun _ => ⟨rfl, rfl, ?_⟩, hu0, hu1, hfix⟩
    · dsimp only at hk
      omega
    by_cases h : ⌊F⌋ < 1
    · exact Or.inl h
    · right
      push_neg at h hin
      by_contra hc
      push_neg at hc
      have := hin (by omega)
      omega

theorem emitAmountOf_floor_pos (r : ℚ) (prev : Int) (u : ℚ) (t : Int)
    (hk : 1 ≤ (emitAmountOf r prev u t).1) :
    1 ≤ ⌊emitAmountFloat r prev t⌋ ∧ ⌊emitAmountFloat r prev t⌋ ≤ 2147483647 := by
  unfold emitAmountOf at hk
  simp only [] at hk
  rw [floatToInt_intCast] at hk
  by_cases hin : -2147483648 ≤ ⌊emitAmountFloat r prev t⌋
      ∧ ⌊emitAmountFloat r prev t⌋ ≤ 2147483647
  · rw [if_pos hin] at hk
    by_cases h0 : 0 < ⌊emitAmountFloat r prev t⌋
    · exact ⟨h0, hin.2⟩
    · rw [if_neg h0] at hk
      dsimp only at hk
      omega
  · rw [if_neg hin] at hk
    have hneg : ¬ (0 : Int) < -2147483648 := by norm_num
    rw [if_neg hneg] at hk
    dsimp only at hk
    omega

theorem emitAmountOf_pos (r : ℚ) (prev : Int) (u : ℚ) (t : Int) (hr : 0 < r)
    (hk : 1 ≤ (emitAmountOf r prev u t).1) : prev < t := by
  obtain ⟨h1, -⟩ := emitAmountOf_floor_pos r prev u t hk
  by_contra hle
  push_neg at hle
  have h2 := emitAmountFloat_nonpos r prev t hr hle
  have h3 : (1 : ℚ) ≤ emitAmountFloat r prev t := by
    have := Int.floor_pos.mp h1
    exact this
  linarith

/-- The float amount of an emit rate of 2.5 over 1000 ms: every float operation is exact. -/
theorem emitAmountFloat_example (prev t : Int) (h : t - prev = 1000) :
    emitAmountFloat (5 / 2) prev t = 5 / 2 := by
  have e1 : f32 ((1000 : Int) : ℚ) = ((1000 : Int) : ℚ) := f32_intCast 1000 (by norm_num)
  have e2 : f32 (1000 / (5 / 2)) = 400 := by
    have := f32_intCast 400 (by norm_num)
    norm_num at this ⊢
    exact this
  have e3 : f32 (1000 / 400) = 5 / 2 := by
    have := f32_of_repr_le 5 (-1) (by norm_num) (by norm_num)
    norm_num at this ⊢
    exact this
  have hmax : ¬ f32Max < 400 := by
    unfold f32Max
    norm_num
  unfold emitAmountFloat
  simp only []
  rw [h, e1, e2, if_neg hmax]
  push_cast
  exact e3

theorem emitAmountOf_example (prev t : Int) (h : t - prev = 1000) :
    emitAmountOf (5 / 2) prev 0 t = (2, 1 / 2)
      ∧ emitAmountOf (5 / 2) prev (1 / 2) t = (3, 0) := by
  have hfl : ⌊(5 / 2 : ℚ)⌋ = 2 := by
    rw [Int.floor_eq_iff]
    norm_num
  have h2 : f32 ((2 : Int) : ℚ) = ((2 : Int) : ℚ) := f32_intCast 2 (by norm_num)
  have hhalf : f32 (1 / 2) = 1 / 2 := by
    have := f32_of_repr_le 1 (-1) (by norm_num) (by norm_num)
    norm_num at this ⊢
    exact this
  have hone : f32 (1 : ℚ) = 1 := by
    have := f32_intCast 1 (by norm_num)
    norm_num at this
    exact this
  have hsub : (5 / 2 : ℚ) - ((2 : Int) : ℚ) = 1 / 2 := by norm_num
  unfold emitAmountOf
  simp only []
  rw [emitAmountFloat_example prev t h, hfl, floatToInt_intCast,
    if_pos (by norm_num : (-2147483648 : Int) ≤ 2 ∧ (2 : Int) ≤ 2147483647),
    if_pos (by norm_num : (0 : Int) < 2), h2, hsub, hhalf]
  constructor
  · rw [zero_add, hhalf, if_neg (by norm_num)]
  · have e : (1 / 2 : ℚ) + 1 / 2 = 1 := by norm_num
    rw [e, hone, if_pos le_rfl, sub_self, f32_zero]
    rfl

/-- The float amount of an emit rate of 13 over 1000 ms: `1000.0f / 13.0f` is rounded up, so
the quotient `1000.0f / (1000.0f / 13.0f)` is below 13. -/
theorem emitAmountFloat_thirteen (prev t : Int) (h : t - prev = 1000) :
    emitAmountFloat 13 prev t = 13631487 / 1048576 := by
  have e1 : f32 ((1000 : Int) : ℚ) = ((1000 : Int) : ℚ) := f32_intCast 1000 (by norm_num)
  have e2 : f32 (1000 / 13) = 5041231 / 65536 := by
    rw [f32_eval_pos (1000 / 13) 6 10082462 (by norm_num) (by norm_num) (by norm_num)
      (by unfold roundHalfEven; norm_num)]
    norm_num
  have e3 : f32 (1000 / (5041231 / 65536)) = 13631487 / 1048576 := by
    rw [f32_eval_pos (1000 / (5041231 / 65536)) 3 13631487 (by norm_num) (by norm_num)
      (by norm_num) (by unfold roundHalfEven; norm_num)]
    norm_num
  have hmax : ¬ f32Max < 5041231 / 65536 := by
    unfold f32Max
    norm_num
  unfold emitAmountFloat
  simp only []
  rw [h, e1, e2, if_neg hmax]
  push_cast
  exact e3

theorem emitAmountOf_thirteen (prev t : Int) (h : t - prev = 1000) :
    emitAmountOf 13 prev 0 t = (12, 1048575 / 1048576) := by
  have hfl : ⌊(13631487 / 1048576 : ℚ)⌋ = 12 := by
    rw [Int.floor_eq_iff]
    norm_num
  have h12 : f32 ((12 : Int) : ℚ) = ((12 : Int) : ℚ) := f32_intCast 12 (by norm_num)
  have hfr : f32 (1048575 / 1048576) = 1048575 / 1048576 := by
    have := f32_of_repr_le 1048575 (-20) (by norm_num) (by norm_num)
    norm_num at this ⊢
    exact this
  have hsub : (13631487 / 1048576 : ℚ) - ((12 : Int) : ℚ) = 1048575 / 1048576 := by norm_num
  unfold emitAmountOf
  simp only []
  rw [emitAmountFloat_thirteen prev t h, hfl, floatToInt_intCast,
    if_pos (by norm_num : (-2147483648 : Int) ≤ 12 ∧ (12 : Int) ≤ 2147483647),
    if_pos (by norm_num : (0 : Int) < 12), h12, hsub, hfr, zero_add, hfr,
    if_neg (by norm_num)]

/-- C4. The particles emitted by one call get start times spread evenly over
the interval of the call. For emitParticles the interval starts at
`a = prevEmitTime` and spans `b - a` with `b` the system time; for
emitParticlesBurst it starts at `burst.time` and spans `burst.duration`. With
`n` the emitted amount, particle `i` (from 0) starts at
`a / 1000 + ((i + 1) / n) * (b - a) / 1000` (`distributeStartTime`): these are
the start times of the emitParticle calls made, in order, and of the records
that the calls leave in `m_particleData` of the particle, call `i` in the
`i`-th slot claimed, the `n` slots being distinct when `n` is at most the
number of free slots (`RecordsWritten`, for a pool whose claimed indices are
slots of the list). For `b ≥ a` these times are equally spaced by
`(b - a) / 1000 / n`, non-decreasing, within `[a / 1000, b / 1000]`, the last
one is `b / 1000`, and every one but the last is before `b / 1000` when
`b > a`. An emitting emitParticles call always has `b > a`. -/
theorem C4_start_times_spread_evenly (w : World) (self sys particle : Ptr)
    (hsys : (w.emitters self).m_system = some sys)
    (hen : (w.emitters self).m_enabled = true)
    (hp : (w.emitters self).m_particle = some particle)
    (hps : (w.particles particle).m_system = some sys) :
    (0 < (w.emitters self).m_emitRate →
      1 ≤ (getEmitAmount w self).1 →
      emittedStartTimes (emitParticles w self) self EmitSite.rate
          = emittedStartTimes w self EmitSite.rate
            ++ (List.range
                  (min (getEmitAmount w self).1 (w.particles particle).m_maxAmount).toNat).map
                (distributeStartTime (w.emitters self).m_prevEmitTime
                  ((w.systems sys).m_time - (w.emitters self).m_prevEmitTime)
                  (min (getEmitAmount w self).1 (w.particles particle).m_maxAmount))
      ∧ (w.emitters self).m_prevEmitTime < (w.systems sys).m_time
      ∧ (PoolReady ((afterPendingBursts w self).particles particle) →
          RecordsWritten ((afterPendingBursts w self).particles particle)
            ((emitParticles w self).particles particle)
            (min (getEmitAmount w self).1 (w.particles particle).m_maxAmount).toNat
            (distributeStartTime (w.emitters self).m_prevEmitTime
              ((w.systems sys).m_time - (w.emitters self).m_prevEmitTime)
              (min (getEmitAmount w self).1 (w.particles particle).m_maxAmount))))
    ∧ (∀ b : QQuick3DParticleEmitBurstData,
        emittedStartTimes (emitParticlesBurst w self b) self EmitSite.burst
          = emittedStartTimes w self EmitSite.burst
            ++ (List.range (min b.amount (w.particles particle).m_maxAmount).toNat).map
                (distributeStartTime b.time b.duration
                  (min b.amount (w.particles particle).m_maxAmount))
        ∧ (PoolReady (w.particles particle) →
            RecordsWritten (w.particles particle)
              ((emitParticlesBurst w self b).particles particle)
              (min b.amount (w.particles particle).m_maxAmount).toNat
              (distributeStartTime b.time b.duration
                (min b.amount (w.particles particle).m_maxAmount))))
    ∧ (∀ (a span : Int) (n i : Nat), i < n → 0 ≤ span →
        distributeStartTime a span n i
            = (a : ℚ) / 1000 + (((i : ℚ) + 1) / n) * ((span : ℚ) / 1000)
        ∧ (a : ℚ) / 1000 ≤ distributeStartTime a span n i
        ∧ distributeStartTime a span n i ≤ ((a + span : Int) : ℚ) / 1000
        ∧ distributeStartTime a span n (i + 1) - distributeStartTime a span n i
            = (span : ℚ) / 1000 / n
        ∧ distributeStartTime a span n i ≤ distributeStartTime a span n (i + 1)
        ∧ (i + 1 = n → distributeStartTime a span n i = ((a + span : Int) : ℚ) / 1000)
        ∧ (0 < span → i + 1 < n →
            distributeStartTime a span n i < ((a + span : Int) : ℚ) / 1000)) := by
  refine ⟨?_, ?_, ?_⟩
  · intro hrate hk
    have hget := getEmitAmount_eq w self sys hsys hen hrate
    have hk1 : 1 ≤ (emitAmountAt (w.emitters self) (w.systems sys).m_time).1 := by
      rw [hget] at hk
      exact hk
    obtain ⟨_, _, _, _, h5⟩ := emitParticles_spec w self sys particle hsys hen hp hps hrate
    have h6 := h5 self
    rw [if_pos rfl, if_pos hk1] at h6
    have hfst : (getEmitAmount w self).1
        = (emitAmountAt (w.emitters self) (w.systems sys).m_time).1 := by
      rw [hget]
    refine ⟨by rw [hfst]; exact h6, emitAmountOf_pos _ _ _ _ hrate hk1, ?_⟩
    intro hready
    have hrec := (emitParticles_records w self sys particle hsys hen hp hps hready).2.1
    rw [getEmitAmount_afterPendingBursts w self sys hsys] at hrec
    exact (hrec hk).1
  · intro b
    obtain ⟨_, h2⟩ := emitParticlesBurst_spec w self sys particle hsys hen hp hps b
    have h3 := h2 self EmitSite.burst
    rw [if_pos ⟨rfl, rfl⟩] at h3
    exact ⟨h3, fun hready =>
      (emitParticlesBurst_records w self sys particle hsys hen hp hps hready b).1⟩
  · intro a span n i hi hspan
    exact distributeStartTime_props a span n i hi hspan

theorem example_getEmitAmount :
    (getEmitAmount (exampleWorldAt 1000) 0).1 = 2 := by
  rw [getEmitAmount_eq (exampleWorldAt 1000) 0 0 rfl rfl
    (by norm_num [exampleWorldAt, exampleWorld, exampleEmitter])]
  have h := (emitAmountOf_example 0 1000 (by norm_num)).1
  have e : emitAmountAt ((exampleWorldAt 1000).emitters 0) ((exampleWorldAt 1000).systems 0).m_time
      = emitAmountOf (5 / 2) 0 0 1000 := rfl
  rw [e, h]

theorem example_poolReady : PoolReady exampleParticle := by
  unfold PoolReady
  simp [exampleParticle]

theorem example_claimedIndex (i : Nat) (hi : i < 100) :
    QQuick3DParticle.claimedIndex exampleParticle i = (i : Int) := by
  have h : QQuick3DParticle.claimedIndex exampleParticle i
      = 0 + ((-1 : Int) + 1 - 0 + i) % (100 - 0) :=
    claimedIndex_eq i exampleParticle example_poolReady
  rw [h]
  omega

/-- Witness for C4: in the example scene at 1000 ms the rate based emission
(2.5 per second since time 0) emits two particles starting at 0.5 s and 1 s,
whose records are in slots 0 and 1 of the pool afterwards, and a burst of 4
particles over 2000 ms starts them at 1.5, 2, 2.5 and 3 s. -/
theorem C4_start_times_spread_evenly_witness :
    ((exampleWorldAt 1000).emitters 0).m_system = some 0
    ∧ ((exampleWorldAt 1000).emitters 0).m_enabled = true
    ∧ ((exampleWorldAt 1000).emitters 0).m_particle = some 0
    ∧ ((exampleWorldAt 1000).particles 0).m_system = some 0
    ∧ emittedStartTimes (emitParticles (exampleWorldAt 1000) 0) 0 EmitSite.rate = [1 / 2, 1]
    ∧ (∃ d0 d1,
        ((emitParticles (exampleWorldAt 1000) 0).particles 0).m_particleData[0]? = some d0
        ∧ d0.startTime = 1 / 2
        ∧ ((emitParticles (exampleWorldAt 1000) 0).particles 0).m_particleData[1]? = some d1
        ∧ d1.startTime = 1)
    ∧ emittedStartTimes (emitParticlesBurst (exampleWorldAt 1000) 0 ⟨1000, 4, 2000, ⟨0, 0, 0⟩⟩)
        0 EmitSite.burst = [3 / 2, 2, 5 / 2, 3] := by
  have h := C4_start_times_spread_evenly (exampleWorldAt 1000) 0 0 0 rfl rfl rfl rfl
  have hrate := h.1 (by norm_num [exampleWorldAt, exampleWorld, exampleEmitter])
    (by rw [example_getEmitAmount]; norm_num)
  refine ⟨rfl, rfl, rfl, rfl, ?_, ?_, ?_⟩
  · have h1 := hrate.1
    rw [h1, example_getEmitAmount]
    have e2 : Int.toNat 2 = 2 := rfl
    norm_num [emittedStartTimes, exampleWorldAt, exampleWorld, exampleParticle, exampleEmitter,
      exampleSystemAt, e2]
    norm_num [distributeStartTime, List.range_succ]
  · have hpool : (afterPendingBursts (exampleWorldAt 1000) 0).particles 0 = exampleParticle := rfl
    have hrec := hrate.2.2 (by rw [hpool]; exact example_poolReady)
    rw [hpool, example_getEmitAmount] at hrec
    have hn : (min (2 : Int) ((exampleWorldAt 1000).particles 0).m_maxAmount).toNat = 2 := rfl
    rw [hn] at hrec
    obtain ⟨-, hwr, hdist, -⟩ := hrec
    have hd := hdist (by norm_num [exampleParticle])
    obtain ⟨d0, a1, a2, -⟩ := hwr 0 (by norm_num) (fun j h1 h2 => (hd 0 j h1 h2).symm)
    obtain ⟨d1, b1, b2, -⟩ := hwr 1 (by norm_num) (fun j h1 h2 => (hd 1 j h1 h2).symm)
    have c0 : (QQuick3DParticle.claimedIndex exampleParticle 0).toNat = 0 := rfl
    have c1 : (QQuick3DParticle.claimedIndex exampleParticle 1).toNat = 1 := rfl
    rw [c0] at a1
    rw [c1] at b1
    refine ⟨d0, d1, a1, ?_, b1, ?_⟩
    · rw [a2]
      norm_num [distributeStartTime, exampleWorldAt, exampleWorld, exampleEmitter,
        exampleSystemAt, exampleParticle]
    · rw [b2]
      norm_num [distributeStartTime, exampleWorldAt, exampleWorld, exampleEmitter,
        exampleSystemAt, exampleParticle]
  · have h2 := (h.2.1 ⟨1000, 4, 2000, ⟨0, 0, 0⟩⟩).1
    rw [h2]
    have e4 : Int.toNat 4 = 4 := rfl
    norm_num [emittedStartTimes, exampleWorldAt, exampleWorld, exampleParticle, e4]
    norm_num [distributeStartTime, List.range_succ]

/-! ## The emit rate accumulator -/

theorem setTime_active (w : World) (self sys particle : Ptr) (r : ℚ) (t : Int)
    (h : ActiveEmitter w self sys particle r) :
    ActiveEmitter (w.setTime sys t) self sys particle r :=
  ⟨h.hasSystem, h.isEnabled, h.hasParticle, h.sameSystem, h.hasRate, h.ratePos⟩

theorem setTime_time (w : World) (sys : Ptr) (t : Int) :
    ((w.setTime sys t).systems sys).m_time = t := by
  simp [World.setTime, World.setSystem]

theorem emitTick_spec (w : World) (self sys particle : Ptr) (r : ℚ) (t : Int)
    (h : ActiveEmitter w self sys particle r) :
    ActiveEmitter (emitTick w sys self t) self sys particle r
    ∧ (getEmitAmount (w.setTime sys t) self).1
        = (emitAmountOf r (w.emitters self).m_prevEmitTime (w.emitters self).m_unemittedF t).1
    ∧ ((emitTick w sys self t).emitters self).m_prevEmitTime
        = (if 1 ≤ (emitAmountOf r (w.emitters self).m_prevEmitTime
              (w.emitters self).m_unemittedF t).1
           then t else (w.emitters self).m_prevEmitTime)
    ∧ ((emitTick w sys self t).emitters self).m_unemittedF
        = (emitAmountOf r (w.emitters self).m_prevEmitTime (w.emitters self).m_unemittedF t).2
    ∧ ((emitTick w sys self t).particles particle).m_maxAmount
        = (w.particles particle).m_maxAmount
    ∧ emittedStartTimes (emitTick w sys self t) self EmitSite.rate
        = emittedStartTimes w self EmitSite.rate
          ++ (if 1 ≤ (emitAmountOf r (w.emitters self).m_prevEmitTime
                (w.emitters self).m_unemittedF t).1 then
                (List.range
                  (min (emitAmountOf r (w.emitters self).m_prevEmitTime
                      (w.emitters self).m_unemittedF t).1
                    (w.particles particle).m_maxAmount).toNat).map
                  (distributeStartTime (w.emitters self).m_prevEmitTime
                    (t - (w.emitters self).m_prevEmitTime)
                    (min (emitAmountOf r (w.emitters self).m_prevEmitTime
                        (w.emitters self).m_unemittedF t).1
                      (w.particles particle).m_maxAmount))
              else []) := by
  have ha := setTime_active w self sys particle r t h
  have hr : 0 < ((w.setTime sys t).emitters self).m_emitRate := by
    rw [ha.hasRate]; exact h.ratePos
  obtain ⟨h1, ⟨b, h2⟩, h3, h4, h5⟩ := emitParticles_spec (w.setTime sys t) self sys particle
    ha.hasSystem ha.isEnabled ha.hasParticle ha.sameSystem hr
  have hget := getEmitAmount_eq (w.setTime sys t) self sys ha.hasSystem ha.isEnabled hr
  have hamt : emitAmountAt ((w.setTime sys t).emitters self) ((w.setTime sys t).systems sys).m_time
      = emitAmountOf r (w.emitters self).m_prevEmitTime (w.emitters self).m_unemittedF t := by
    rw [setTime_time]
    unfold emitAmountAt
    rw [ha.hasRate]
    rfl
  rw [hamt] at h2 h5 hget
  rw [setTime_time] at h2 h5
  have he : (emitTick w sys self t).emitters self
      = { (w.setTime sys t).emitters self with
          m_burstGenerated := b
          m_unemittedF := (emitAmountOf r (w.emitters self).m_prevEmitTime
            (w.emitters self).m_unemittedF t).2
          m_prevEmitTime :=
            if 1 ≤ (emitAmountOf r (w.emitters self).m_prevEmitTime
              (w.emitters self).m_unemittedF t).1
            then t else ((w.setTime sys t).emitters self).m_prevEmitTime } := by
    unfold emitTick
    rw [h2, Function.update_same]
  refine ⟨⟨?_, ?_, ?_, ?_, ?_, h.ratePos⟩, ?_, ?_, ?_, ?_, ?_⟩
  · rw [he]; exact h.hasSystem
  · rw [he]; exact h.isEnabled
  · rw [he]; exact h.hasParticle
  · unfold emitTick
    rw [h4 particle]
    exact h.sameSystem
  · rw [he]; exact h.hasRate
  · rw [hget]
  · rw [he]; rfl
  · rw [he]
  · unfold emitTick
    rw [h3 particle]
    rfl
  · have h6 := h5 self
    rw [if_pos rfl] at h6
    exact h6

theorem emitTicks_cons (w : World) (sys self : Ptr) (t : Int) (ts : List Int) :
    emitTicks w sys self (t :: ts) = emitTicks (emitTick w sys self t) sys self ts := rfl

theorem emitTicks_singleton (w : World) (sys self : Ptr) (t : Int) :
    emitTicks w sys self [t] = emitTick w sys self t := rfl

theorem emitTicks_active (self sys particle : Ptr) (r : ℚ) (ts : List Int) (w : World)
    (h : ActiveEmitter w self sys particle r) :
    ActiveEmitter (emitTicks w sys self ts) self sys particle r
    ∧ ((emitTicks w sys self ts).particles particle).m_maxAmount
        = (w.particles particle).m_maxAmount
    ∧ (((emitTicks w sys self ts).emitters self).m_prevEmitTime,
        ((emitTicks w sys self ts).emitters self).m_unemittedF)
        = rateRun r ((w.emitters self).m_prevEmitTime, (w.emitters self).m_unemittedF) ts := by
  induction ts generalizing w with
  | nil => exact ⟨h, rfl, rfl⟩
  | cons t ts ih =>
    obtain ⟨h1, _, h3, h4, h5, _⟩ := emitTick_spec w self sys particle r t h
    obtain ⟨g1, g2, g3⟩ := ih (emitTick w sys self t) h1
    rw [emitTicks_cons]
    refine ⟨g1, g2.trans h5, ?_⟩
    rw [g3, h3, h4]
    rfl

theorem neverLimited_iff (self sys particle : Ptr) (r : ℚ) (ts : List Int) (w : World)
    (h : ActiveEmitter w self sys particle r) :
    neverLimited sys self particle w ts
      ↔ rateLimitFree r (w.particles particle).m_maxAmount
          ((w.emitters self).m_prevEmitTime, (w.emitters self).m_unemittedF) ts := by
  induction ts generalizing w with
  | nil => simp [neverLimited, rateLimitFree]
  | cons t ts ih =>
    obtain ⟨h1, h2, h3, h4, h5, _⟩ := emitTick_spec w self sys particle r t h
    simp only [neverLimited, rateLimitFree]
    rw [ih (emitTick w sys self t) h1, h2, h3, h4, h5]

theorem neverLimited_take (sys self particle : Ptr) (ts : List Int) (w : World) (j : Nat)
    (h : neverLimited sys self particle w ts) :
    neverLimited sys self particle w (ts.take j) := by
  induction ts generalizing w j with
  | nil => simpa using h
  | cons t ts ih =>
    cases j with
    | zero => simp [neverLimited]
    | succ j =>
      simp only [List.take_succ_cons, neverLimited] at h ⊢
      exact ⟨h.1, ih _ j h.2⟩

theorem rateEmitTicks_le (r : ℚ) (ts : List Int) (s : Int × ℚ) :
    rateEmitTicks r s ts ≤ ts.length := by
  induction ts generalizing s with
  | nil => exact le_rfl
  | cons t ts ih =>
    simp only [rateEmitTicks, List.length_cons]
    have := ih (if 1 ≤ (emitAmountOf r s.1 s.2 t).1 then t else s.1, (emitAmountOf r s.1 s.2 t).2)
    by_cases hk : 1 ≤ (emitAmountOf r s.1 s.2 t).1
    · simp only [if_pos hk] at this ⊢
      omega
    · simp only [if_neg hk] at this ⊢
      omega

/-- The emit rate accumulator over a sequence of ticks: the number of particles emitted
plus the carried fraction follows the sum of the float amounts, up to one rounding of at most
`2^-24` for every tick that emits. -/
theorem emitTicks_accumulator (self sys particle : Ptr) (r : ℚ) (ts : List Int) (w : World)
    (h : ActiveEmitter w self sys particle r)
    (hu0 : 0 ≤ (w.emitters self).m_unemittedF) (hu1 : (w.emitters self).m_unemittedF < 1)
    (hfix : f32 (w.emitters self).m_unemittedF = (w.emitters self).m_unemittedF)
    (hlim : neverLimited sys self particle w ts) :
    |(rateEmitted (emitTicks w sys self ts) self : ℚ)
        + ((emitTicks w sys self ts).emitters self).m_unemittedF
        - ((rateEmitted w self : ℚ) + (w.emitters self).m_unemittedF
            + rateFloatSum r ((w.emitters self).m_prevEmitTime, (w.emitters self).m_unemittedF)
                ts)|
      ≤ (rateEmitTicks r ((w.emitters self).m_prevEmitTime, (w.emitters self).m_unemittedF) ts
          : ℚ) / 16777216
    ∧ 0 ≤ ((emitTicks w sys self ts).emitters self).m_unemittedF
    ∧ ((emitTicks w sys self ts).emitters self).m_unemittedF < 1
    ∧ f32 ((emitTicks w sys self ts).emitters self).m_unemittedF
        = ((emitTicks w sys self ts).emitters self).m_unemittedF := by
  induction ts generalizing w with
  | nil =>
    refine ⟨?_, hu0, hu1, hfix⟩
    simp [emitTicks, rateFloatSum, rateEmitTicks]
  | cons t ts ih =>
    obtain ⟨h1, h2, h3, h4, h5, h6⟩ := emitTick_spec w self sys particle r t h
    obtain ⟨s1, s2, s3, s4, s5⟩ := emitAmountOf_spec r (w.emitters self).m_prevEmitTime
      (w.emitters self).m_unemittedF t hu0 hu1 hfix
    simp only [neverLimited] at hlim
    obtain ⟨hl1, hl2⟩ := hlim
    rw [h2] at hl1
    rw [emitTicks_cons]
    obtain ⟨g1, g2, g3, g4⟩ := ih (emitTick w sys self t) h1 (by rw [h4]; exact s3)
      (by rw [h4]; exact s4) (by rw [h4]; exact s5) hl2
    refine ⟨?_, g2, g3, g4⟩
    rw [h3, h4] at g1
    simp only [rateFloatSum, rateEmitTicks]
    have hE : (rateEmitted (emitTick w sys self t) self : ℚ)
        = (rateEmitted w self : ℚ)
          + (if 1 ≤ (emitAmountOf r (w.emitters self).m_prevEmitTime
                (w.emitters self).m_unemittedF t).1
             then ((emitAmountOf r (w.emitters self).m_prevEmitTime
                (w.emitters self).m_unemittedF t).1 : ℚ) else 0) := by
      unfold rateEmitted
      rw [h6]
      by_cases hk : 1 ≤ (emitAmountOf r (w.emitters self).m_prevEmitTime
          (w.emitters self).m_unemittedF t).1
      · rw [if_pos hk, if_pos hk, List.length_append, List.length_map, List.length_range,
          min_eq_left hl1]
        have := Int.toNat_of_nonneg (by omega : 0 ≤ (emitAmountOf r
          (w.emitters self).m_prevEmitTime (w.emitters self).m_unemittedF t).1)
        push_cast
        congr 1
        exact_mod_cast this
      · rw [if_neg hk, if_neg hk, List.append_nil, add_zero]
    rw [hE] at g1
    obtain ⟨ga, gb⟩ := abs_le.mp g1
    by_cases hk : 1 ≤ (emitAmountOf r (w.emitters self).m_prevEmitTime
        (w.emitters self).m_unemittedF t).1
    · simp only [if_pos hk] at ga gb ⊢
      obtain ⟨-, -, -, herr⟩ := s1 hk
      obtain ⟨ea, eb⟩ := abs_le.mp herr
      rw [abs_le]
      push_cast
      constructor <;> linarith
    · simp only [if_neg hk] at ga gb ⊢
      have e1 := (s2 (not_le.mp hk)).1
      rw [abs_le]
      push_cast
      constructor <;> linarith

/-! ## The example emitter over ten ticks -/

theorem example_active : ActiveEmitter exampleWorld 0 0 0 (5 / 2) :=
  ⟨rfl, rfl, rfl, rfl, rfl, by norm_num⟩

theorem rateRun_cons (r : ℚ) (s : Int × ℚ) (t : Int) (ts : List Int) :
    rateRun r s (t :: ts)
      = rateRun r
          (if 1 ≤ (emitAmountOf r s.1 s.2 t).1 then t else s.1, (emitAmountOf r s.1 s.2 t).2)
          ts := rfl

theorem rateFloatSum_cons (r : ℚ) (s : Int × ℚ) (t : Int) (ts : List Int) :
    rateFloatSum r s (t :: ts)
      = (if 1 ≤ (emitAmountOf r s.1 s.2 t).1 then emitAmountFloat r s.1 t else 0)
        + rateFloatSum r
          (if 1 ≤ (emitAmountOf r s.1 s.2 t).1 then t else s.1, (emitAmountOf r s.1 s.2 t).2)
          ts := rfl

theorem rateEmitTicks_cons (r : ℚ) (s : Int × ℚ) (t : Int) (ts : List Int) :
    rateEmitTicks r s (t :: ts)
      = (if 1 ≤ (emitAmountOf r s.1 s.2 t).1 then 1 else 0)
        + rateEmitTicks r
          (if 1 ≤ (emitAmountOf r s.1 s.2 t).1 then t else s.1, (emitAmountOf r s.1 s.2 t).2)
          ts := rfl

theorem rateRun_example_0 (p t : Int) (ts : List Int) (h : t - p = 1000) :
    rateRun (5 / 2) (p, 0) (t :: ts) = rateRun (5 / 2) (t, 1 / 2) ts := by
  rw [rateRun_cons]
  dsimp only
  rw [(emitAmountOf_example p t h).1]
  dsimp only
  rw [if_pos (by norm_num)]

theorem rateRun_example_1 (p t : Int) (ts : List Int) (h : t - p = 1000) :
    rateRun (5 / 2) (p, 1 / 2) (t :: ts) = rateRun (5 / 2) (t, 0) ts := by
  rw [rateRun_cons]
  dsimp only
  rw [(emitAmountOf_example p t h).2]
  dsimp only
  rw [if_pos (by norm_num)]

theorem rateFloatSum_example_0 (p t : Int) (ts : List Int) (h : t - p = 1000) :
    rateFloatSum (5 / 2) (p, 0) (t :: ts) = 5 / 2 + rateFloatSum (5 / 2) (t, 1 / 2) ts := by
  rw [rateFloatSum_cons]
  dsimp only
  rw [(emitAmountOf_example p t h).1]
  dsimp only
  rw [if_pos (by norm_num), if_pos (by norm_num)]
  rw [emitAmountFloat_example p t h]

theorem rateFloatSum_example_1 (p t : Int) (ts : List Int) (h : t - p = 1000) :
    rateFloatSum (5 / 2) (p, 1 / 2) (t :: ts) = 5 / 2 + rateFloatSum (5 / 2) (t, 0) ts := by
  rw [rateFloatSum_cons]
  dsimp only
  rw [(emitAmountOf_example p t h).2]
  dsimp only
  rw [if_pos (by norm_num), if_pos (by norm_num)]
  rw [emitAmountFloat_example p t h]

theorem rateEmitTicks_example_0 (p t : Int) (ts : List Int) (h : t - p = 1000) :
    rateEmitTicks (5 / 2) (p, 0) (t :: ts) = 1 + rateEmitTicks (5 / 2) (t, 1 / 2) ts := by
  rw [rateEmitTicks_cons]
  dsimp only
  rw [(emitAmountOf_example p t h).1]
  dsimp only
  rw [if_pos (by norm_num), if_pos (by norm_num)]

theorem rateEmitTicks_example_1 (p t : Int) (ts : List Int) (h : t - p = 1000) :
    rateEmitTicks (5 / 2) (p, 1 / 2) (t :: ts) = 1 + rateEmitTicks (5 / 2) (t, 0) ts := by
  rw [rateEmitTicks_cons]
  dsimp only
  rw [(emitAmountOf_example p t h).2]
  dsimp only
  rw [if_pos (by norm_num), if_pos (by norm_num)]

theorem example_run_0 :
    rateRun (5 / 2) (0, 0) (exampleTicks.take 0) = (0, 0)
      ∧ rateFloatSum (5 / 2) (0, 0) (exampleTicks.take 0) = 0
      ∧ rateEmitTicks (5 / 2) (0, 0) (exampleTicks.take 0) = 0 := by
  have ht : exampleTicks.take 0 = [] := rfl
  rw [ht]
  refine ⟨?_, ?_, ?_⟩
  · rfl
  · rfl
  · rfl

theorem example_run_1 :
    rateRun (5 / 2) (0, 0) (exampleTicks.take 1) = (1000, 1 / 2)
      ∧ rateFloatSum (5 / 2) (0, 0) (exampleTicks.take 1) = 5 / 2
      ∧ rateEmitTicks (5 / 2) (0, 0) (exampleTicks.take 1) = 1 := by
  have ht : exampleTicks.take 1 = [1000] := rfl
  rw [ht]
  refine ⟨?_, ?_, ?_⟩
  · rw [rateRun_example_0 0 1000 _ (by norm_num)]
    rfl
  · rw [rateFloatSum_example_0 0 1000 _ (by norm_num)]
    norm_num [rateFloatSum]
  · rw [rateEmitTicks_example_0 0 1000 _ (by norm_num)]
    rfl

theorem example_run_2 :
    rateRun (5 / 2) (0, 0) (exampleTicks.take 2) = (2000, 0)
      ∧ rateFloatSum (5 / 2) (0, 0) (exampleTicks.take 2) = 5
      ∧ rateEmitTicks (5 / 2) (0, 0) (exampleTicks.take 2) = 2 := by
  have ht : exampleTicks.take 2 = [1000, 2000] := rfl
  rw [ht]
  refine ⟨?_, ?_, ?_⟩
  · rw [rateRun_example_0 0 1000 _ (by norm_num), rateRun_example_1 1000 2000 _ (by norm_num)]
    rfl
  · rw [rateFloatSum_example_0 0 1000 _ (by norm_num), rateFloatSum_example_1 1000 2000 _ (by norm_num)]
    norm_num [rateFloatSum]
  · rw [rateEmitTicks_example_0 0 1000 _ (by norm_num), rateEmitTicks_example_1 1000 2000 _ (by norm_num)]
    rfl

theorem example_run_3 :
    rateRun (5 / 2) (0, 0) (exampleTicks.take 3) = (3000, 1 / 2)
      ∧ rateFloatSum (5 / 2) (0, 0) (exampleTicks.take 3) = 15 / 2
      ∧ rateEmitTicks (5 / 2) (0, 0) (exampleTicks.take 3) = 3 := by
  have ht : exampleTicks.take 3 = [1000, 2000, 3000] := rfl
  rw [ht]
  refine ⟨?_, ?_, ?_⟩
  · rw [rateRun_example_0 0 1000 _ (by norm_num), rateRun_example_1 1000 2000 _ (by norm_num), rateRun_example_0 2000 3000 _ (by norm_num)]
    rfl
  · rw [rateFloatSum_example_0 0 1000 _ (by norm_num), rateFloatSum_example_1 1000 2000 _ (by norm_num), rateFloatSum_example_0 2000 3000 _ (by norm_num)]
    norm_num [rateFloatSum]
  · rw [rateEmitTicks_example_0 0 1000 _ (by norm_num), rateEmitTicks_example_1 1000 2000 _ (by norm_num), rateEmitTicks_example_0 2000 3000 _ (by norm_num)]
    rfl

theorem example_run_4 :
    rateRun (5 / 2) (0, 0) (exampleTicks.take 4) = (4000, 0)
      ∧ rateFloatSum (5 / 2) (0, 0) (exampleTicks.take 4) = 10
      ∧ rateEmitTicks (5 / 2) (0, 0) (exampleTicks.take 4) = 4 := by
  have ht : exampleTicks.take 4 = [1000, 2000, 3000, 4000] := rfl
  rw [ht]
  refine ⟨?_, ?_, ?_⟩
  · rw [rateRun_example_0 0 1000 _ (by norm_num), rateRun_example_1 1000 2000 _ (by norm_num), rateRun_example_0 2000 3000 _ (by norm_num), rateRun_example_1 3000 4000 _ (by norm_num)]
    rfl
  · rw [rateFloatSum_example_0 0 1000 _ (by norm_num), rateFloatSum_example_1 1000 2000 _ (by norm_num), rateFloatSum_example_0 2000 3000 _ (by norm_num), rateFloatSum_example_1 3000 4000 _ (by norm_num)]
    norm_num [rateFloatSum]
  · rw [rateEmitTicks_example_0 0 1000 _ (by norm_num), rateEmitTicks_example_1 1000 2000 _ (by norm_num), rateEmitTicks_example_0 2000 3000 _ (by norm_num), rateEmitTicks_example_1 3000 4000 _ (by norm_num)]
    rfl

theorem example_run_5 :
    rateRun (5 / 2) (0, 0) (exampleTicks.take 5) = (5000, 1 / 2)
      ∧ rateFloatSum (5 / 2) (0, 0) (exampleTicks.take 5) = 25 / 2
      ∧ rateEmitTicks (5 / 2) (0, 0) (exampleTicks.take 5) = 5 := by
  have ht : exampleTicks.take 5 = [1000, 2000, 3000, 4000, 5000] := rfl
  rw [ht]
  refine ⟨?_, ?_, ?_⟩
  · rw [rateRun_example_0 0 1000 _ (by norm_num), rateRun_example_1 1000 2000 _ (by norm_num), rateRun_example_0 2000 3000 _ (by norm_num), rateRun_example_1 3000 4000 _ (by norm_num), rateRun_example_0 4000 5000 _ (by norm_num)]
    rfl
  · rw [rateFloatSum_example_0 0 1000 _ (by norm_num), rateFloatSum_example_1 1000 2000 _ (by norm_num), rateFloatSum_example_0 2000 3000 _ (by norm_num), rateFloatSum_example_1 3000 4000 _ (by norm_num), rateFloatSum_example_0 4000 5000 _ (by norm_num)]
    norm_num [rateFloatSum]
  · rw [rateEmitTicks_example_0 0 1000 _ (by norm_num), rateEmitTicks_example_1 1000 2000 _ (by norm_num), rateEmitTicks_example_0 2000 3000 _ (by norm_num), rateEmitTicks_example_1 3000 4000 _ (by norm_num), rateEmitTicks_example_0 4000 5000 _ (by norm_num)]
    rfl

theorem example_run_6 :
    rateRun (5 / 2) (0, 0) (exampleTicks.take 6) = (6000, 0)
      ∧ rateFloatSum (5 / 2) (0, 0) (exampleTicks.take 6) = 15
      ∧ rateEmitTicks (5 / 2) (0, 0) (exampleTicks.take 6) = 6 := by
  have ht : exampleTicks.take 6 = [1000, 2000, 3000, 4000, 5000, 6000] := rfl
  rw [ht]
  refine ⟨?_, ?_, ?_⟩
  · rw [rateRun_example_0 0 1000 _ (by norm_num), rateRun_example_1 1000 2000 _ (by norm_num), rateRun_example_0 2000 3000 _ (by norm_num), rateRun_example_1 3000 4000 _ (by norm_num), rateRun_example_0 4000 5000 _ (by norm_num), rateRun_example_1 5000 6000 _ (by norm_num)]
    rfl
  · rw [rateFloatSum_example_0 0 1000 _ (by norm_num), rateFloatSum_example_1 1000 2000 _ (by norm_num), rateFloatSum_example_0 2000 3000 _ (by norm_num), rateFloatSum_example_1 3000 4000 _ (by norm_num), rateFloatSum_example_0 4000 5000 _ (by norm_num), rateFloatSum_example_1 5000 6000 _ (by norm_num)]
    norm_num [rateFloatSum]
  · rw [rateEmitTicks_example_0 0 1000 _ (by norm_num), rateEmitTicks_example_1 1000 2000 _ (by norm_num), rateEmitTicks_example_0 2000 3000 _ (by norm_num), rateEmitTicks_example_1 3000 4000 _ (by norm_num), rateEmitTicks_example_0 4000 5000 _ (by norm_num), rateEmitTicks_example_1 5000 6000 _ (by norm_num)]
    rfl

theorem example_run_7 :
    rateRun (5 / 2) (0, 0) (exampleTicks.take 7) = (7000, 1 / 2)
      ∧ rateFloatSum (5 / 2) (0, 0) (exampleTicks.take 7) = 35 / 2
      ∧ rateEmitTicks (5 / 2) (0, 0) (exampleTicks.take 7) = 7 := by
  have ht : exampleTicks.take 7 = [1000, 2000, 3000, 4000, 5000, 6000, 7000] := rfl
  rw [ht]
  refine ⟨?_, ?_, ?_⟩
  · rw [rateRun_example_0 0 1000 _ (by norm_num), rateRun_example_1 1000 2000 _ (by norm_num), rateRun_example_0 2000 3000 _ (by norm_num), rateRun_example_1 3000 4000 _ (by norm_num), rateRun_example_0 4000 5000 _ (by norm_num), rateRun_example_1 5000 6000 _ (by norm_num), rateRun_example_0 6000 7000 _ (by norm_num)]
    rfl
  · rw [rateFloatSum_example_0 0 1000 _ (by norm_num), rateFloatSum_example_1 1000 2000 _ (by norm_num), rateFloatSum_example_0 2000 3000 _ (by norm_num), rateFloatSum_example_1 3000 4000 _ (by norm_num), rateFloatSum_example_0 4000 5000 _ (by norm_num), rateFloatSum_example_1 5000 6000 _ (by norm_num), rateFloatSum_example_0 6000 7000 _ (by norm_num)]
    norm_num [rateFloatSum]
  · rw [rateEmitTicks_example_0 0 1000 _ (by norm_num), rateEmitTicks_example_1 1000 2000 _ (by norm_num), rateEmitTicks_example_0 2000 3000 _ (by norm_num), rateEmitTicks_example_1 3000 4000 _ (by norm_num), rateEmitTicks_example_0 4000 5000 _ (by norm_num), rateEmitTicks_example_1 5000 6000 _ (by norm_num), rateEmitTicks_example_0 6000 7000 _ (by norm_num)]
    rfl

theorem example_run_8 :
    rateRun (5 / 2) (0, 0) (exampleTicks.take 8) = (8000, 0)
      ∧ rateFloatSum (5 / 2) (0, 0) (exampleTicks.take 8) = 20
      ∧ rateEmitTicks (5 / 2) (0, 0) (exampleTicks.take 8) = 8 := by
  have ht : exampleTicks.take 8 = [1000, 2000, 3000, 4000, 5000, 6000, 7000, 8000] := rfl
  rw [ht]
  refine ⟨?_, ?_, ?_⟩
  · rw [rateRun_example_0 0 1000 _ (by norm_num), rateRun_example_1 1000 2000 _ (by norm_num), rateRun_example_0 2000 3000 _ (by norm_num), rateRun_example_1 3000 4000 _ (by norm_num), rateRun_example_0 4000 5000 _ (by norm_num), rateRun_example_1 5000 6000 _ (by norm_num), rateRun_example_0 6000 7000 _ (by norm_num), rateRun_example_1 7000 8000 _ (by norm_num)]
    rfl
  · rw [rateFloatSum_example_0 0 1000 _ (by norm_num), rateFloatSum_example_1 1000 2000 _ (by norm_num), rateFloatSum_example_0 2000 3000 _ (by norm_num), rateFloatSum_example_1 3000 4000 _ (by norm_num), rateFloatSum_example_0 4000 5000 _ (by norm_num), rateFloatSum_example_1 5000 6000 _ (by norm_num), rateFloatSum_example_0 6000 7000 _ (by norm_num), rateFloatSum_example_1 7000 8000 _ (by norm_num)]
    norm_num [rateFloatSum]
  · rw [rateEmitTicks_example_0 0 1000 _ (by norm_num), rateEmitTicks_example_1 1000 2000 _ (by norm_num), rateEmitTicks_example_0 2000 3000 _ (by norm_num), rateEmitTicks_example_1 3000 4000 _ (by norm_num), rateEmitTicks_example_0 4000 5000 _ (by norm_num), rateEmitTicks_example_1 5000 6000 _ (by norm_num), rateEmitTicks_example_0 6000 7000 _ (by norm_num), rateEmitTicks_example_1 7000 8000 _ (by norm_num)]
    rfl

theorem example_run_9 :
    rateRun (5 / 2) (0, 0) (exampleTicks.take 9) = (9000, 1 / 2)
      ∧ rateFloatSum (5 / 2) (0, 0) (exampleTicks.take 9) = 45 / 2
      ∧ rateEmitTicks (5 / 2) (0, 0) (exampleTicks.take 9) = 9 := by
  have ht : exampleTicks.take 9 = [1000, 2000, 3000, 4000, 5000, 6000, 7000, 8000, 9000] := rfl
  rw [ht]
  refine ⟨?_, ?_, ?_⟩
  · rw [rateRun_example_0 0 1000 _ (by norm_num), rateRun_example_1 1000 2000 _ (by norm_num), rateRun_example_0 2000 3000 _ (by norm_num), rateRun_example_1 3000 4000 _ (by norm_num), rateRun_example_0 4000 5000 _ (by norm_num), rateRun_example_1 5000 6000 _ (by norm_num), rateRun_example_0 6000 7000 _ (by norm_num), rateRun_example_1 7000 8000 _ (by norm_num), rateRun_example_0 8000 9000 _ (by norm_num)]
    rfl
  · rw [rateFloatSum_example_0 0 1000 _ (by norm_num), rateFloatSum_example_1 1000 2000 _ (by norm_num), rateFloatSum_example_0 2000 3000 _ (by norm_num), rateFloatSum_example_1 3000 4000 _ (by norm_num), rateFloatSum_example_0 4000 5000 _ (by norm_num), rateFloatSum_example_1 5000 6000 _ (by norm_num), rateFloatSum_example_0 6000 7000 _ (by norm_num), rateFloatSum_example_1 7000 8000 _ (by norm_num), rateFloatSum_example_0 8000 9000 _ (by norm_num)]
    norm_num [rateFloatSum]
  · rw [rateEmitTicks_example_0 0 1000 _ (by norm_num), rateEmitTicks_example_1 1000 2000 _ (by norm_num), rateEmitTicks_example_0 2000 3000 _ (by norm_num), rateEmitTicks_example_1 3000 4000 _ (by norm_num), rateEmitTicks_example_0 4000 5000 _ (by norm_num), rateEmitTicks_example_1 5000 6000 _ (by norm_num), rateEmitTicks_example_0 6000 7000 _ (by norm_num), rateEmitTicks_example_1 7000 8000 _ (by norm_num), rateEmitTicks_example_0 8000 9000 _ (by norm_num)]
    rfl

theorem example_run_10 :
    rateRun (5 / 2) (0, 0) (exampleTicks.take 10) = (10000, 0)
      ∧ rateFloatSum (5 / 2) (0, 0) (exampleTicks.take 10) = 25
      ∧ rateEmitTicks (5 / 2) (0, 0) (exampleTicks.take 10) = 10 := by
  have ht : exampleTicks.take 10 = [1000, 2000, 3000, 4000, 5000, 6000, 7000, 8000, 9000, 10000] := rfl
  rw [ht]
  refine ⟨?_, ?_, ?_⟩
  · rw [rateRun_example_0 0 1000 _ (by norm_num), rateRun_example_1 1000 2000 _ (by norm_num), rateRun_example_0 2000 3000 _ (by norm_num), rateRun_example_1 3000 4000 _ (by norm_num), rateRun_example_0 4000 5000 _ (by norm_num), rateRun_example_1 5000 6000 _ (by norm_num), rateRun_example_0 6000 7000 _ (by norm_num), rateRun_example_1 7000 8000 _ (by norm_num), rateRun_example_0 8000 9000 _ (by norm_num), rateRun_example_1 9000 10000 _ (by norm_num)]
    rfl
  · rw [rateFloatSum_example_0 0 1000 _ (by norm_num), rateFloatSum_example_1 1000 2000 _ (by norm_num), rateFloatSum_example_0 2000 3000 _ (by norm_num), rateFloatSum_example_1 3000 4000 _ (by norm_num), rateFloatSum_example_0 4000 5000 _ (by norm_num), rateFloatSum_example_1 5000 6000 _ (by norm_num), rateFloatSum_example_0 6000 7000 _ (by norm_num), rateFloatSum_example_1 7000 8000 _ (by norm_num), rateFloatSum_example_0 8000 9000 _ (by norm_num), rateFloatSum_example_1 9000 10000 _ (by norm_num)]
    norm_num [rateFloatSum]
  · rw [rateEmitTicks_example_0 0 1000 _ (by norm_num), rateEmitTicks_example_1 1000 2000 _ (by norm_num), rateEmitTicks_example_0 2000 3000 _ (by norm_num), rateEmitTicks_example_1 3000 4000 _ (by norm_num), rateEmitTicks_example_0 4000 5000 _ (by norm_num), rateEmitTicks_example_1 5000 6000 _ (by norm_num), rateEmitTicks_example_0 6000 7000 _ (by norm_num), rateEmitTicks_example_1 7000 8000 _ (by norm_num), rateEmitTicks_example_0 8000 9000 _ (by norm_num), rateEmitTicks_example_1 9000 10000 _ (by norm_num)]
    rfl

theorem rateLimitFree_cons (r : ℚ) (maxAmount : Int) (s : Int × ℚ) (t : Int) (ts : List Int) :
    rateLimitFree r maxAmount s (t :: ts)
      = ((emitAmountOf r s.1 s.2 t).1 ≤ maxAmount
          ∧ rateLimitFree r maxAmount
              (if 1 ≤ (emitAmountOf r s.1 s.2 t).1 then t else s.1,
               (emitAmountOf r s.1 s.2 t).2) ts) := rfl

theorem rateLimitFree_example_0 (p t : Int) (ts : List Int) (h : t - p = 1000) :
    rateLimitFree (5 / 2) 100 (p, 0) (t :: ts) = rateLimitFree (5 / 2) 100 (t, 1 / 2) ts := by
  rw [rateLimitFree_cons]
  dsimp only
  rw [(emitAmountOf_example p t h).1]
  dsimp only
  rw [if_pos (by norm_num)]
  exact propext ⟨fun hx => hx.2, fun hx => ⟨by norm_num, hx⟩⟩

theorem rateLimitFree_example_1 (p t : Int) (ts : List Int) (h : t - p = 1000) :
    rateLimitFree (5 / 2) 100 (p, 1 / 2) (t :: ts) = rateLimitFree (5 / 2) 100 (t, 0) ts := by
  rw [rateLimitFree_cons]
  dsimp only
  rw [(emitAmountOf_example p t h).2]
  dsimp only
  rw [if_pos (by norm_num)]
  exact propext ⟨fun hx => hx.2, fun hx => ⟨by norm_num, hx⟩⟩

theorem example_neverLimited : neverLimited 0 0 0 exampleWorld exampleTicks := by
  rw [neverLimited_iff 0 0 0 (5 / 2) _ exampleWorld example_active]
  have hm : (exampleWorld.particles 0).m_maxAmount = 100 := rfl
  have hp : (exampleWorld.emitters 0).m_prevEmitTime = 0 := rfl
  have hu : (exampleWorld.emitters 0).m_unemittedF = 0 := rfl
  have ht : exampleTicks = [1000, 2000, 3000, 4000, 5000, 6000, 7000, 8000, 9000, 10000] := rfl
  rw [hm, hp, hu, ht, rateLimitFree_example_0 0 1000 _ (by norm_num),
    rateLimitFree_example_1 1000 2000 _ (by norm_num),
    rateLimitFree_example_0 2000 3000 _ (by norm_num),
    rateLimitFree_example_1 3000 4000 _ (by norm_num),
    rateLimitFree_example_0 4000 5000 _ (by norm_num),
    rateLimitFree_example_1 5000 6000 _ (by norm_num),
    rateLimitFree_example_0 6000 7000 _ (by norm_num),
    rateLimitFree_example_1 7000 8000 _ (by norm_num),
    rateLimitFree_example_0 8000 9000 _ (by norm_num),
    rateLimitFree_example_1 9000 10000 _ (by norm_num)]
  trivial

theorem example_rateEmitted (j c k : Nat) (p : Int) (u S : ℚ)
    (hrun : rateRun (5 / 2) (0, 0) (exampleTicks.take j) = (p, u)
      ∧ rateFloatSum (5 / 2) (0, 0) (exampleTicks.take j) = S
      ∧ rateEmitTicks (5 / 2) (0, 0) (exampleTicks.take j) = k)
    (hc : (c : ℚ) + u = S) (hk : k ≤ 10) :
    rateEmitted (emitTicks exampleWorld 0 0 (exampleTicks.take j)) 0 = c
      ∧ ((emitTicks exampleWorld 0 0 (exampleTicks.take j)).emitters 0).m_prevEmitTime = p := by
  have hlim : neverLimited 0 0 0 exampleWorld (exampleTicks.take j) :=
    neverLimited_take 0 0 0 exampleTicks exampleWorld j example_neverLimited
  have hu0 : (exampleWorld.emitters 0).m_unemittedF = 0 := rfl
  obtain ⟨h1, _, _⟩ := emitTicks_accumulator 0 0 0 (5 / 2) (exampleTicks.take j) exampleWorld
    example_active (by rw [hu0]) (by rw [hu0]; norm_num) (by rw [hu0]; exact f32_zero) hlim
  obtain ⟨_, _, h3⟩ := emitTicks_active 0 0 0 (5 / 2) (exampleTicks.take j) exampleWorld
    example_active
  have h4 : rateRun (5 / 2)
      ((exampleWorld.emitters 0).m_prevEmitTime, (exampleWorld.emitters 0).m_unemittedF)
      (exampleTicks.take j) = (p, u) := hrun.1
  have h5 : rateFloatSum (5 / 2)
      ((exampleWorld.emitters 0).m_prevEmitTime, (exampleWorld.emitters 0).m_unemittedF)
      (exampleTicks.take j) = S := hrun.2.1
  have h6 : rateEmitTicks (5 / 2)
      ((exampleWorld.emitters 0).m_prevEmitTime, (exampleWorld.emitters 0).m_unemittedF)
      (exampleTicks.take j) = k := hrun.2.2
  rw [h4] at h3
  have hp : ((emitTicks exampleWorld 0 0 (exampleTicks.take j)).emitters 0).m_prevEmitTime = p :=
    congrArg Prod.fst h3
  have hu : ((emitTicks exampleWorld 0 0 (exampleTicks.take j)).emitters 0).m_unemittedF = u :=
    congrArg Prod.snd h3
  have hnone : (rateEmitted exampleWorld 0 : ℚ) = 0 := by
    norm_num [rateEmitted, emittedStartTimes, exampleWorld]
  rw [hu, h5, h6, hnone, hu0] at h1
  obtain ⟨ha, hb⟩ := abs_le.mp h1
  have hkq : (k : ℚ) ≤ 10 := by exact_mod_cast hk
  refine ⟨?_, hp⟩
  have hlt : |((rateEmitted (emitTicks exampleWorld 0 0 (exampleTicks.take j)) 0 : Int) : ℚ)
      - ((c : Int) : ℚ)| < 1 := by
    rw [abs_lt]
    push_cast
    constructor <;> linarith
  have hz : |(rateEmitted (emitTicks exampleWorld 0 0 (exampleTicks.take j)) 0 : Int)
      - (c : Int)| < 1 := by
    have : ((|(rateEmitted (emitTicks exampleWorld 0 0 (exampleTicks.take j)) 0 : Int)
        - (c : Int)| : Int) : ℚ) < ((1 : Int) : ℚ) := by
      push_cast
      exact_mod_cast hlt
    exact_mod_cast this
  rw [abs_lt] at hz
  omega

/-! ## The accumulated emission -/

theorem afterPendingBursts_no_bursts (w : World) (self : Ptr)
    (h : (w.emitters self).m_emitBursts = []) :
    (afterPendingBursts w self).particles = w.particles := by
  unfold afterPendingBursts
  split_ifs
  · unfold generateEmitBursts
    dsimp only
    split
    · rfl
    · split
      · rfl
      · split_ifs with h1 h2
        · rfl
        · rfl
        · rw [h] at h2
          exact absurd rfl h2
        · rw [h] at h2
          exact absurd rfl h2
  · rfl

theorem RecordsWritten.none (p : QQuick3DParticle) (f : Nat → ℚ) : RecordsWritten p p 0 f :=
  ⟨fun i hi => absurd hi (Nat.not_lt_zero i), fun i hi => absurd hi (Nat.not_lt_zero i),
    fun _ _ j _ hj => absurd hj (Nat.not_lt_zero j), fun _ _ => rfl⟩

/-- The records written by one tick of an emitter without declared bursts. -/
theorem emitTick_records (w : World) (self sys particle : Ptr) (r : ℚ) (t : Int)
    (h : ActiveEmitter w self sys particle r)
    (hb : (w.emitters self).m_emitBursts = [])
    (hready : PoolReady (w.particles particle))
    (hl : (getEmitAmount (w.setTime sys t) self).1 ≤ (w.particles particle).m_maxAmount) :
    ((emitTick w sys self t).emitters self).m_emitBursts = []
    ∧ PoolReady ((emitTick w sys self t).particles particle)
    ∧ RecordsWritten (w.particles particle) ((emitTick w sys self t).particles particle)
        (rateEmitted (emitTick w sys self t) self - rateEmitted w self)
        (distributeStartTime (w.emitters self).m_prevEmitTime
          (t - (w.emitters self).m_prevEmitTime)
          ((rateEmitted (emitTick w sys self t) self - rateEmitted w self : ℕ) : Int)) := by
  have ha := setTime_active w self sys particle r t h
  have hr : 0 < ((w.setTime sys t).emitters self).m_emitRate := by
    rw [ha.hasRate]; exact h.ratePos
  obtain ⟨-, h2, -, -, -, h6⟩ := emitTick_spec w self sys particle r t h
  obtain ⟨-, ⟨b, hemit⟩, -, -, -⟩ := emitParticles_spec (w.setTime sys t) self sys particle
    ha.hasSystem ha.isEnabled ha.hasParticle ha.sameSystem hr
  have hpend : (afterPendingBursts (w.setTime sys t) self).particles = w.particles :=
    afterPendingBursts_no_bursts (w.setTime sys t) self hb
  have hready1 : PoolReady ((afterPendingBursts (w.setTime sys t) self).particles particle) := by
    rw [hpend]; exact hready
  obtain ⟨r1, r2, r3, -⟩ := emitParticles_records (w.setTime sys t) self sys particle
    ha.hasSystem ha.isEnabled ha.hasParticle ha.sameSystem hready1
  rw [getEmitAmount_afterPendingBursts (w.setTime sys t) self sys ha.hasSystem, hpend] at r1 r2
  rw [setTime_time] at r2
  have hmax : ((w.setTime sys t).particles particle).m_maxAmount
      = (w.particles particle).m_maxAmount := rfl
  have hprev : ((w.setTime sys t).emitters self).m_prevEmitTime
      = (w.emitters self).m_prevEmitTime := rfl
  rw [hmax, hprev] at r2
  rw [h2] at hl r1 r2
  have hcount : rateEmitted (emitTick w sys self t) self - rateEmitted w self
      = (if 1 ≤ (emitAmountOf r (w.emitters self).m_prevEmitTime
            (w.emitters self).m_unemittedF t).1
          then (emitAmountOf r (w.emitters self).m_prevEmitTime
            (w.emitters self).m_unemittedF t).1.toNat else 0) := by
    unfold rateEmitted
    rw [h6]
    split_ifs with hk
    · rw [List.length_append, List.length_map, List.length_range, min_eq_left hl]
      omega
    · simp
  refine ⟨?_, r3, ?_⟩
  · unfold emitTick
    rw [hemit, Function.update_same]
    exact hb
  · rw [hcount]
    by_cases hk : 1 ≤ (emitAmountOf r (w.emitters self).m_prevEmitTime
        (w.emitters self).m_unemittedF t).1
    · rw [if_pos hk]
      have hrec := (r2 hk).1
      rw [min_eq_left hl] at hrec
      rw [Int.toNat_of_nonneg (by omega)]
      exact hrec
    · rw [if_neg hk]
      have hsame : (emitTick w sys self t).particles = w.particles := r1 (not_le.mp hk)
      rw [hsame]
      exact RecordsWritten.none _ _

theorem emitTicks_take_succ (w : World) (sys self : Ptr) (ts : List Int) (j : Nat) (t : Int)
    (h : ts[j]? = some t) :
    emitTicks w sys self (ts.take (j + 1)) = emitTick (emitTicks w sys self (ts.take j)) sys self t := by
  have hj : j < ts.length := by
    by_contra hge
    rw [List.getElem?_eq_none (not_lt.mp hge)] at h
    exact absurd h (by simp)
  have hget : ts[j] = t := by
    rw [List.getElem?_eq_getElem hj] at h
    exact Option.some.inj h
  unfold emitTicks
  rw [List.take_succ, List.foldl_append, h]
  rfl

theorem neverLimited_drop (sys self particle : Ptr) (ts : List Int) (w : World) (j : Nat)
    (h : neverLimited sys self particle w ts) :
    neverLimited sys self particle (emitTicks w sys self (ts.take j)) (ts.drop j) := by
  induction ts generalizing w j with
  | nil => simpa [emitTicks] using h
  | cons t ts ih =>
    cases j with
    | zero => simpa [emitTicks] using h
    | succ j =>
      simp only [neverLimited] at h
      simp only [List.take_succ_cons, List.drop_succ_cons, emitTicks_cons]
      exact ih _ j h.2

/-- The pool stays usable over a sequence of ticks of an emitter without declared bursts. -/
theorem emitTicks_ready (self sys particle : Ptr) (r : ℚ) (ts : List Int) (w : World)
    (h : ActiveEmitter w self sys particle r)
    (hb : (w.emitters self).m_emitBursts = [])
    (hready : PoolReady (w.particles particle))
    (hlim : neverLimited sys self particle w ts) :
    ActiveEmitter (emitTicks w sys self ts) self sys particle r
    ∧ ((emitTicks w sys self ts).emitters self).m_emitBursts = []
    ∧ PoolReady ((emitTicks w sys self ts).particles particle) := by
  induction ts generalizing w with
  | nil => exact ⟨h, hb, hready⟩
  | cons t ts ih =>
    simp only [neverLimited] at hlim
    obtain ⟨h1, -⟩ := emitTick_spec w self sys particle r t h
    obtain ⟨e1, e2, -⟩ := emitTick_records w self sys particle r t h hb hready hlim.1
    rw [emitTicks_cons]
    exact ih _ h1 e1 e2 hlim.2

/-- The rounding of a value of normal size has a relative error of at most `2^-24`. -/
theorem f32_rel (q : ℚ) (hq : 2 ^ (-126 : Int) ≤ |q|) : |f32 q - q| ≤ |q| / 16777216 := by
  have hpos : 0 < |q| := lt_of_lt_of_le (two_zpow_pos _) hq
  have h1 : ((2 : ℕ) : ℚ) ^ (-126 : Int) ≤ |q| := by simpa using hq
  have hE : -126 ≤ Int.log 2 |q| := (Int.zpow_le_iff_le_log (by norm_num : 1 < 2) hpos).mp h1
  have h2 : |q| < ((2 : ℕ) : ℚ) ^ (Int.log 2 |q| + 1) :=
    Int.lt_zpow_succ_log_self (by norm_num) _
  have h3 : |q| < (2 : ℚ) ^ (Int.log 2 |q| + 1) := by simpa using h2
  have h4 := f32_sub_le q (Int.log 2 |q|) hE h3
  have h5 : ((2 : ℕ) : ℚ) ^ Int.log 2 |q| ≤ |q| := Int.zpow_log_le_self (by norm_num) hpos
  have h6 : (2 : ℚ) ^ Int.log 2 |q| ≤ |q| := by simpa using h5
  have h7 : (2 : ℚ) ^ (Int.log 2 |q| - 24) = 2 ^ Int.log 2 |q| / 16777216 := by
    rw [zpow_sub₀ (by norm_num : (2 : ℚ) ≠ 0)]
    norm_num
  rw [h7] at h4
  exact le_trans h4 (div_le_div_of_nonneg_right h6 (by norm_num))

theorem f32_rel_pos (q : ℚ) (hq : 2 ^ (-126 : Int) ≤ q) :
    q * (1 - 1 / 16777216) ≤ f32 q ∧ f32 q ≤ q * (1 + 1 / 16777216) := by
  have hpos : 0 < q := lt_of_lt_of_le (two_zpow_pos _) hq
  have h := f32_rel q (by rw [abs_of_pos hpos]; exact hq)
  rw [abs_of_pos hpos] at h
  obtain ⟨h1, h2⟩ := abs_le.mp h
  constructor <;> linarith

set_option maxRecDepth 10000 in
/-- The float amount of getEmitAmount against the exact `(time - prevEmitTime) * emitRate /
1000`: a relative error of at most `2^-22`. -/
theorem emitAmountFloat_rel (r : ℚ) (prev t : Int) (hr1 : 1 / 2 ^ 100 ≤ r) (hr2 : r ≤ 2 ^ 100)
    (ht : prev < t) :
    |emitAmountFloat r prev t - r * ((t : ℚ) - prev) / 1000|
      ≤ r * ((t : ℚ) - prev) / 1000 / 4194304 := by
  have hr : 0 < r := lt_of_lt_of_le (by positivity) hr1
  have hd1 : (1 : ℚ) ≤ ((t - prev : Int) : ℚ) := by exact_mod_cast (by omega : 1 ≤ t - prev)
  have e126 : (2 : ℚ) ^ (-126 : Int) = 1 / 2 ^ 126 := by
    rw [zpow_neg, one_div]
    norm_num
  obtain ⟨a1, a2⟩ := f32_rel_pos ((t - prev : Int) : ℚ) (by
    rw [e126]
    refine le_trans ?_ hd1
    norm_num)
  have hP0 : (1000 : ℚ) / 2 ^ 100 ≤ 1000 / r := by
    apply div_le_div_of_nonneg_left (by norm_num) hr hr2
  have hP1 : (1000 : ℚ) / r ≤ 1000 * 2 ^ 100 := by
    rw [div_le_iff₀ hr]
    have : (1 : ℚ) ≤ 2 ^ 100 * r := by
      have := mul_le_mul_of_nonneg_left hr1 (by positivity : (0 : ℚ) ≤ 2 ^ 100)
      rw [mul_one_div_cancel (by positivity)] at this
      exact this
    nlinarith
  obtain ⟨b1, b2⟩ := f32_rel_pos (1000 / r) (by
    rw [e126]
    refine le_trans ?_ hP0
    norm_num)
  have hPpos : (0 : ℚ) < 1000 / r := by positivity
  have hbpos : 0 < f32 (1000 / r) := by nlinarith
  have hapos : 0 < f32 ((t - prev : Int) : ℚ) := by nlinarith
  have hmax : ¬ f32Max < f32 (1000 / r) := by
    unfold f32Max
    push_neg
    have : (1000 : ℚ) * 2 ^ 100 * (1 + 1 / 16777216) ≤ 16777215 * 2 ^ 104 := by norm_num
    nlinarith
  have hq0 : 0 < f32 ((t - prev : Int) : ℚ) / f32 (1000 / r) := div_pos hapos hbpos
  have hqlow : 2 ^ (-126 : Int) ≤ f32 ((t - prev : Int) : ℚ) / f32 (1000 / r) := by
    rw [e126, le_div_iff₀ hbpos]
    have e : (2 : ℚ) ^ 126 = 2 ^ 100 * 67108864 := by norm_num
    rw [e]
    have hb2 : f32 (1000 / r) ≤ 1000 * 2 ^ 100 * (1 + 1 / 16777216) := by
      refine le_trans b2 ?_
      exact mul_le_mul_of_nonneg_right hP1 (by norm_num)
    have hK : (0 : ℚ) < 2 ^ 100 := by positivity
    generalize (2 : ℚ) ^ 100 = K at hb2 hK
    have h1 : 1 / (K * 67108864) * f32 (1000 / r)
        ≤ 1 / (K * 67108864) * (1000 * K * (1 + 1 / 16777216)) :=
      mul_le_mul_of_nonneg_left hb2 (by positivity)
    have h2 : 1 / (K * 67108864) * (1000 * K * (1 + 1 / 16777216))
        = 1000 * (1 + 1 / 16777216) / 67108864 := by
      field_simp
      ring
    rw [h2] at h1
    have h3 : (1000 : ℚ) * (1 + 1 / 16777216) / 67108864 ≤ 1 - 1 / 16777216 := by norm_num
    linarith
  obtain ⟨c1, c2⟩ := f32_rel_pos _ hqlow
  have hE : emitAmountFloat r prev t
      = f32 (f32 ((t - prev : Int) : ℚ) / f32 (1000 / r)) := by
    unfold emitAmountFloat
    simp only []
    rw [if_neg hmax]
  rw [hE]
  have hq1 : f32 ((t - prev : Int) : ℚ) / f32 (1000 / r) * f32 (1000 / r)
      = f32 ((t - prev : Int) : ℚ) := div_mul_cancel₀ _ hbpos.ne'
  have hF : r * ((t : ℚ) - prev) / 1000 * (1000 / r) = ((t - prev : Int) : ℚ) := by
    push_cast
    field_simp
  have hFpos : 0 < r * ((t : ℚ) - prev) / 1000 := by
    have : (0 : ℚ) < (t : ℚ) - prev := by
      have : (0 : ℚ) < ((t - prev : Int) : ℚ) := by linarith
      push_cast at this
      exact this
    positivity
  generalize f32 (f32 ((t - prev : Int) : ℚ) / f32 (1000 / r)) = F1 at c1 c2 ⊢
  generalize f32 ((t - prev : Int) : ℚ) / f32 (1000 / r) = q at c1 c2 hq0 hq1
  generalize f32 ((t - prev : Int) : ℚ) = a at a1 a2 hq1 hapos
  generalize f32 (1000 / r) = b at b1 b2 hq1 hbpos
  generalize r * ((t : ℚ) - prev) / 1000 = F at hF hFpos ⊢
  generalize (1000 : ℚ) / r = P at b1 b2 hF hPpos
  generalize ((t - prev : Int) : ℚ) = D at a1 a2 hF hd1
  -- q * b = a, F * P = D
  have hup : q * P * (1 - 1 / 16777216) ≤ D * (1 + 1 / 16777216) := by
    have h1 : q * (P * (1 - 1 / 16777216)) ≤ q * b := mul_le_mul_of_nonneg_left b1 hq0.le
    have h2 : q * (P * (1 - 1 / 16777216)) = q * P * (1 - 1 / 16777216) := by ring
    linarith
  have hlo : D * (1 - 1 / 16777216) ≤ q * P * (1 + 1 / 16777216) := by
    have h1 : q * b ≤ q * (P * (1 + 1 / 16777216)) := mul_le_mul_of_nonneg_left b2 hq0.le
    have h2 : q * (P * (1 + 1 / 16777216)) = q * P * (1 + 1 / 16777216) := by ring
    linarith
  rw [← hF] at hup hlo
  have hup2 : q * (1 - 1 / 16777216) ≤ F * (1 + 1 / 16777216) := by
    have h := hup
    have e1 : q * P * (1 - 1 / 16777216) = (q * (1 - 1 / 16777216)) * P := by ring
    have e2 : F * P * (1 + 1 / 16777216) = (F * (1 + 1 / 16777216)) * P := by ring
    rw [e1, e2] at h
    exact le_of_mul_le_mul_right h hPpos
  have hlo2 : F * (1 - 1 / 16777216) ≤ q * (1 + 1 / 16777216) := by
    have h := hlo
    have e1 : F * P * (1 - 1 / 16777216) = (F * (1 - 1 / 16777216)) * P := by ring
    have e2 : q * P * (1 + 1 / 16777216) = (q * (1 + 1 / 16777216)) * P := by ring
    rw [e1, e2] at h
    exact le_of_mul_le_mul_right h hPpos
  rw [abs_le]
  constructor
  · -- F1 ≥ q (1 - ε) ≥ F (1-ε)^2/(1+ε) ≥ F (1 - 4ε)
    have h1 : F * (1 - 1 / 16777216) * (1 - 1 / 16777216)
        ≤ q * (1 + 1 / 16777216) * (1 - 1 / 16777216) :=
      mul_le_mul_of_nonneg_right hlo2 (by norm_num)
    linarith
  · have h1 := mul_le_mul_of_nonneg_right hup2 (by norm_num : (0 : ℚ) ≤ 1 + 1 / 16777216)
    linarith

theorem sum_rel_aux (r F S a t p : ℚ)
    (hF : |F - r * (t - a) / 1000| ≤ r * (t - a) / 1000 / 4194304)
    (hS : |S - r * (p - t) / 1000| ≤ r * (p - t) / 1000 / 4194304) :
    |F + S - r * (p - a) / 1000| ≤ r * (p - a) / 1000 / 4194304 := by
  obtain ⟨a1, a2⟩ := abs_le.mp hF
  obtain ⟨b1, b2⟩ := abs_le.mp hS
  rw [abs_le]
  constructor <;> linarith

/-- The sum of the float amounts against the exact `emitRate * prevEmitTime / 1000`. -/
theorem rateFloatSum_rel (r : ℚ) (hr1 : 1 / 2 ^ 100 ≤ r) (hr2 : r ≤ 2 ^ 100) (ts : List Int)
    (s : Int × ℚ) :
    s.1 ≤ (rateRun r s ts).1
    ∧ |rateFloatSum r s ts - r * (((rateRun r s ts).1 : ℚ) - s.1) / 1000|
        ≤ r * (((rateRun r s ts).1 : ℚ) - s.1) / 1000 / 4194304 := by
  have hr : 0 < r := lt_of_lt_of_le (by positivity) hr1
  induction ts generalizing s with
  | nil =>
    refine ⟨le_rfl, ?_⟩
    have e1 : rateRun r s [] = s := rfl
    have e2 : rateFloatSum r s [] = 0 := rfl
    rw [e1, e2]
    simp
  | cons t ts ih =>
    rw [rateRun_cons, rateFloatSum_cons]
    by_cases hk : 1 ≤ (emitAmountOf r s.1 s.2 t).1
    · rw [if_pos hk, if_pos hk]
      obtain ⟨i1, i2⟩ := ih (t, (emitAmountOf r s.1 s.2 t).2)
      have hlt := emitAmountOf_pos r s.1 s.2 t hr hk
      have hF := emitAmountFloat_rel r s.1 t hr1 hr2 hlt
      exact ⟨le_trans hlt.le i1, sum_rel_aux r _ _ _ _ _ hF i2⟩
    · rw [if_neg hk, if_neg hk]
      obtain ⟨i1, i2⟩ := ih (s.1, (emitAmountOf r s.1 s.2 t).2)
      refine ⟨i1, ?_⟩
      rw [zero_add]
      exact i2

theorem example_records_slots :
    (∀ i, i < 12 → (QQuick3DParticle.claimedIndex exampleParticle i).toNat ≠ 12)
      ∧ (QQuick3DParticle.claimedIndex exampleParticle 11).toNat = 11 := by
  constructor
  · intro i hi
    rw [example_claimedIndex i (by omega)]
    omega
  · rw [example_claimedIndex 11 (by omega)]
    rfl

/-- C2 (counterexample). The example emitter with an emit rate of 13 starts from the reset
state and gets one tick at 1000 ms. The float `1000.0f / 13.0f` is rounded up, the float
amount `1000.0f / (1000.0f / 13.0f)` is below 13 and its floor is 12: twelve particles are
emitted, the last record written is in slot 11 with the start time 1 s, slot 12 still holds
the default record, and `m_prevEmitTime` is 1000. The total of 12 differs from
`13 * 1000 / 1000 = 13` by one particle, not by less than one. -/
theorem C2_thirteen_per_second_emits_twelve :
    (exampleRate13World.emitters 0).m_system = some 0
      ∧ (exampleRate13World.emitters 0).m_enabled = true
      ∧ (exampleRate13World.emitters 0).m_particle = some 0
      ∧ (exampleRate13World.particles 0).m_system = some 0
      ∧ (exampleRate13World.emitters 0).m_emitRate = 13
      ∧ (exampleRate13World.emitters 0).m_prevEmitTime = 0
      ∧ (exampleRate13World.emitters 0).m_unemittedF = 0
      ∧ rateEmitted exampleRate13World 0 = 0
      ∧ neverLimited 0 0 0 exampleRate13World [1000]
      ∧ emitAmountFloat 13 0 1000 = 13631487 / 1048576
      ∧ rateEmitted (emitTicks exampleRate13World 0 0 [1000]) 0 = 12
      ∧ ((emitTicks exampleRate13World 0 0 [1000]).emitters 0).m_prevEmitTime = 1000
      ∧ (∃ d, ((emitTicks exampleRate13World 0 0 [1000]).particles 0).m_particleData[11]?
            = some d ∧ d.startTime = 1)
      ∧ ((emitTicks exampleRate13World 0 0 [1000]).particles 0).m_particleData[12]?
          = some exampleData
      ∧ ¬ |(rateEmitted (emitTicks exampleRate13World 0 0 [1000]) 0 : ℚ)
            - 13 * ((emitTicks exampleRate13World 0 0 [1000]).emitters 0).m_prevEmitTime
              / 1000| < 1 := by
  have hact : ActiveEmitter exampleRate13World 0 0 0 13 :=
    ⟨rfl, rfl, rfl, rfl, rfl, by norm_num⟩
  have ha : emitAmountOf 13 (exampleRate13World.emitters 0).m_prevEmitTime
      (exampleRate13World.emitters 0).m_unemittedF 1000 = (12, 1048575 / 1048576) :=
    emitAmountOf_thirteen 0 1000 (by norm_num)
  obtain ⟨-, h2, h3, -, -, h6⟩ := emitTick_spec exampleRate13World 0 0 0 13 1000 hact
  rw [ha] at h2 h3 h6
  have hmax : (exampleRate13World.particles 0).m_maxAmount = 100 := rfl
  have hl : (getEmitAmount (exampleRate13World.setTime 0 1000) 0).1
      ≤ (exampleRate13World.particles 0).m_maxAmount := by
    rw [h2, hmax]
    norm_num
  have hE : emitTicks exampleRate13World 0 0 [1000] = emitTick exampleRate13World 0 0 1000 :=
    emitTicks_singleton exampleRate13World 0 0 1000
  have hcount : rateEmitted (emitTick exampleRate13World 0 0 1000) 0 = 12 := by
    unfold rateEmitted
    rw [h6, hmax]
    have h0 : emittedStartTimes exampleRate13World 0 EmitSite.rate = [] := rfl
    rw [h0]
    simp
  have hprev : ((emitTick exampleRate13World 0 0 1000).emitters 0).m_prevEmitTime = 1000 := by
    rw [h3]
    simp
  obtain ⟨-, -, hrec⟩ := emitTick_records exampleRate13World 0 0 0 13 1000 hact rfl
    example_poolReady hl
  have h0 : rateEmitted exampleRate13World 0 = 0 := rfl
  rw [hcount, h0] at hrec
  have hpool : exampleRate13World.particles 0 = exampleParticle := rfl
  rw [hpool] at hrec
  obtain ⟨-, hwr, -, hkeep⟩ := hrec
  obtain ⟨s1, s2⟩ := example_records_slots
  rw [hE]
  refine ⟨rfl, rfl, rfl, rfl, rfl, rfl, rfl, rfl, ⟨hl, trivial⟩,
    emitAmountFloat_thirteen 0 1000 (by norm_num), hcount, hprev, ?_, ?_, ?_⟩
  · obtain ⟨d, d1, d2, -⟩ := hwr 11 (by norm_num) (fun j h1 h2 => by omega)
    rw [s2] at d1
    refine ⟨d, d1, ?_⟩
    rw [d2]
    have : (exampleRate13World.emitters 0).m_prevEmitTime = 0 := rfl
    rw [this]
    norm_num [distributeStartTime]
  · rw [hkeep 12 s1]
    rfl
  · rw [hcount, hprev]
    norm_num

/-- C2 (amended). An enabled emitter with a system, a particle of that
system and a constant emit rate `r > 0` starts from the reset state
(`prevEmitTime = 0`, unemitted fraction 0, nothing emitted yet). After every
tick of any sequence of tick times in which the pool size never limits the
count, the number of particles emitted by the rate based emission plus the
carried fraction `m_unemittedF`, which stays in `[0, 1)`, equals the sum of
the float amounts `emitAmountF` of the ticks that emitted up to one rounding
of at most `2^-24` for each of these `k` ticks: the fraction is carried
forward, and the total differs from the sum of the float amounts by less than
`1 + k / 2^24`. For `2^-100 ≤ r ≤ 2^100` the float amounts have a relative
error of at most `2^-22`, so the total differs from `r * prevEmitTime / 1000`
by less than `1 + k / 2^24 + (r * prevEmitTime / 1000) / 2^22`. For an emitter
without declared bursts and a usable pool, the particles counted at a tick are
the records that the tick writes into `m_particleData` (`RecordsWritten`),
with the start times spread over the interval since the previous emission. In
the example scene (`r = 2.5`, ticks every 1000 ms) every float operation is
exact: the totals after 0..10 ticks are 0, 2, 5, 7, 10, 12, 15, 17, 20, 22,
25, that is 2, 3, 2, 3, ... per tick, each within one particle of
`r * prevEmitTime / 1000`. -/
theorem C2_emit_rate_accumulator (w : World) (self sys particle : Ptr) (r : ℚ) (ts : List Int)
    (hsys : (w.emitters self).m_system = some sys)
    (hen : (w.emitters self).m_enabled = true)
    (hp : (w.emitters self).m_particle = some particle)
    (hps : (w.particles particle).m_system = some sys)
    (hrate : (w.emitters self).m_emitRate = r) (hr : 0 < r)
    (hprev : (w.emitters self).m_prevEmitTime = 0)
    (hun : (w.emitters self).m_unemittedF = 0)
    (hnone : rateEmitted w self = 0)
    (hlim : neverLimited sys self particle w ts) :
    (∀ j : Nat,
      |(rateEmitted (emitTicks w sys self (ts.take j)) self : ℚ)
          + ((emitTicks w sys self (ts.take j)).emitters self).m_unemittedF
          - rateFloatSum r (0, 0) (ts.take j)|
        ≤ (rateEmitTicks r (0, 0) (ts.take j) : ℚ) / 16777216
      ∧ |(rateEmitted (emitTicks w sys self (ts.take j)) self : ℚ)
          - rateFloatSum r (0, 0) (ts.take j)|
        < 1 + (rateEmitTicks r (0, 0) (ts.take j) : ℚ) / 16777216
      ∧ 0 ≤ ((emitTicks w sys self (ts.take j)).emitters self).m_unemittedF
      ∧ ((emitTicks w sys self (ts.take j)).emitters self).m_unemittedF < 1
      ∧ rateEmitTicks r (0, 0) (ts.take j) ≤ j
      ∧ (1 / 2 ^ 100 ≤ r → r ≤ 2 ^ 100 →
          |(rateEmitted (emitTicks w sys self (ts.take j)) self : ℚ)
              - r * ((emitTicks w sys self (ts.take j)).emitters self).m_prevEmitTime / 1000|
            < 1 + (rateEmitTicks r (0, 0) (ts.take j) : ℚ) / 16777216
              + r * ((emitTicks w sys self (ts.take j)).emitters self).m_prevEmitTime / 1000
                / 4194304))
    ∧ ((w.emitters self).m_emitBursts = [] → PoolReady (w.particles particle) →
        ∀ (j : Nat) (t : Int), ts[j]? = some t →
          RecordsWritten ((emitTicks w sys self (ts.take j)).particles particle)
            ((emitTicks w sys self (ts.take (j + 1))).particles particle)
            (rateEmitted (emitTicks w sys self (ts.take (j + 1))) self
              - rateEmitted (emitTicks w sys self (ts.take j)) self)
            (distributeStartTime
              ((emitTicks w sys self (ts.take j)).emitters self).m_prevEmitTime
              (t - ((emitTicks w sys self (ts.take j)).emitters self).m_prevEmitTime)
              ((rateEmitted (emitTicks w sys self (ts.take (j + 1))) self
                - rateEmitted (emitTicks w sys self (ts.take j)) self : ℕ) : Int)))
    ∧ (List.range 11).map
        (fun j => rateEmitted (emitTicks exampleWorld 0 0 (exampleTicks.take j)) 0)
      = [0, 2, 5, 7, 10, 12, 15, 17, 20, 22, 25]
    ∧ (∀ j, j ≤ 10 →
        |(rateEmitted (emitTicks exampleWorld 0 0 (exampleTicks.take j)) 0 : ℚ)
          - 5 / 2 * ((emitTicks exampleWorld 0 0 (exampleTicks.take j)).emitters 0).m_prevEmitTime
            / 1000| < 1) := by
  have hact : ActiveEmitter w self sys particle r := ⟨hsys, hen, hp, hps, hrate, hr⟩
  have ex0 := example_rateEmitted 0 0 0 0 0 0 example_run_0 (by norm_num) (by norm_num)
  have ex1 := example_rateEmitted 1 2 1 1000 (1 / 2) (5 / 2) example_run_1 (by norm_num)
    (by norm_num)
  have ex2 := example_rateEmitted 2 5 2 2000 0 5 example_run_2 (by norm_num) (by norm_num)
  have ex3 := example_rateEmitted 3 7 3 3000 (1 / 2) (15 / 2) example_run_3 (by norm_num)
    (by norm_num)
  have ex4 := example_rateEmitted 4 10 4 4000 0 10 example_run_4 (by norm_num) (by norm_num)
  have ex5 := example_rateEmitted 5 12 5 5000 (1 / 2) (25 / 2) example_run_5 (by norm_num)
    (by norm_num)
  have ex6 := example_rateEmitted 6 15 6 6000 0 15 example_run_6 (by norm_num) (by norm_num)
  have ex7 := example_rateEmitted 7 17 7 7000 (1 / 2) (35 / 2) example_run_7 (by norm_num)
    (by norm_num)
  have ex8 := example_rateEmitted 8 20 8 8000 0 20 example_run_8 (by norm_num) (by norm_num)
  have ex9 := example_rateEmitted 9 22 9 9000 (1 / 2) (45 / 2) example_run_9 (by norm_num)
    (by norm_num)
  have ex10 := example_rateEmitted 10 25 10 10000 0 25 example_run_10 (by norm_num)
    (by norm_num)
  refine ⟨?_, ?_, ?_, ?_⟩
  · intro j
    obtain ⟨h1, h2, h3, -⟩ := emitTicks_accumulator self sys particle r (ts.take j) w hact
      (by rw [hun]) (by rw [hun]; norm_num) (by rw [hun]; exact f32_zero)
      (neverLimited_take sys self particle ts w j hlim)
    rw [hnone, hun, hprev] at h1
    simp only [Nat.cast_zero, add_zero, zero_add] at h1
    obtain ⟨a1, a2⟩ := abs_le.mp h1
    have hk : rateEmitTicks r (0, 0) (ts.take j) ≤ j :=
      le_trans (rateEmitTicks_le r (ts.take j) (0, 0)) (by simp)
    have hlt : |(rateEmitted (emitTicks w sys self (ts.take j)) self : ℚ)
        - rateFloatSum r (0, 0) (ts.take j)|
        < 1 + (rateEmitTicks r (0, 0) (ts.take j) : ℚ) / 16777216 := by
      rw [abs_lt]
      constructor <;> linarith
    refine ⟨h1, hlt, h2, h3, hk, ?_⟩
    intro hr1 hr2
    obtain ⟨-, -, g3⟩ := emitTicks_active self sys particle r (ts.take j) w hact
    rw [hprev, hun] at g3
    have hp1 : ((emitTicks w sys self (ts.take j)).emitters self).m_prevEmitTime
        = (rateRun r (0, 0) (ts.take j)).1 := congrArg Prod.fst g3
    obtain ⟨q1, q2⟩ := rateFloatSum_rel r hr1 hr2 (ts.take j) (0, 0)
    rw [← hp1] at q2
    simp only [Int.cast_zero, sub_zero] at q2
    obtain ⟨b1, b2⟩ := abs_le.mp q2
    obtain ⟨c1, c2⟩ := abs_lt.mp hlt
    rw [abs_lt]
    constructor <;> linarith
  · intro hb hready j t ht
    have hlimj := neverLimited_take sys self particle ts w j hlim
    obtain ⟨i1, i2, i3⟩ := emitTicks_ready self sys particle r (ts.take j) w hact hb hready hlimj
    have hdrop := neverLimited_drop sys self particle ts w j hlim
    have hj : j < ts.length := by
      by_contra hge
      rw [List.getElem?_eq_none (not_lt.mp hge)] at ht
      exact absurd ht (by simp)
    have hd : ts.drop j = t :: ts.drop (j + 1) := by
      rw [List.drop_eq_getElem_cons hj]
      congr 1
      rw [List.getElem?_eq_getElem hj] at ht
      exact Option.some.inj ht
    rw [hd] at hdrop
    simp only [neverLimited] at hdrop
    rw [emitTicks_take_succ w sys self ts j t ht]
    exact (emitTick_records _ self sys particle r t i1 i2 i3 hdrop.1).2.2
  · simp only [List.range_succ, List.range_zero, List.nil_append, List.cons_append, List.map_cons,
      List.map_nil, List.cons.injEq, and_true]
    exact ⟨ex0.1, ex1.1, ex2.1, ex3.1, ex4.1, ex5.1, ex6.1, ex7.1, ex8.1, ex9.1, ex10.1⟩
  · intro j hj
    interval_cases j
    · rw [ex0.1, ex0.2, abs_lt]
      constructor <;> norm_num
    · rw [ex1.1, ex1.2, abs_lt]
      constructor <;> norm_num
    · rw [ex2.1, ex2.2, abs_lt]
      constructor <;> norm_num
    · rw [ex3.1, ex3.2, abs_lt]
      constructor <;> norm_num
    · rw [ex4.1, ex4.2, abs_lt]
      constructor <;> norm_num
    · rw [ex5.1, ex5.2, abs_lt]
      constructor <;> norm_num
    · rw [ex6.1, ex6.2, abs_lt]
      constructor <;> norm_num
    · rw [ex7.1, ex7.2, abs_lt]
      constructor <;> norm_num
    · rw [ex8.1, ex8.2, abs_lt]
      constructor <;> norm_num
    · rw [ex9.1, ex9.2, abs_lt]
      constructor <;> norm_num
    · rw [ex10.1, ex10.2, abs_lt]
      constructor <;> norm_num

/-- Witness for C2: the example emitter (2.5 particles per second) over the
ten example ticks. -/
theorem C2_emit_rate_accumulator_witness :
    (exampleWorld.emitters 0).m_system = some 0
    ∧ (exampleWorld.emitters 0).m_enabled = true
    ∧ (exampleWorld.emitters 0).m_particle = some 0
    ∧ (exampleWorld.particles 0).m_system = some 0
    ∧ (exampleWorld.emitters 0).m_emitRate = 5 / 2
    ∧ (exampleWorld.emitters 0).m_prevEmitTime = 0
    ∧ (exampleWorld.emitters 0).m_unemittedF = 0
    ∧ rateEmitted exampleWorld 0 = 0
    ∧ neverLimited 0 0 0 exampleWorld exampleTicks
    ∧ |(rateEmitted (emitTicks exampleWorld 0 0 (exampleTicks.take 10)) 0 : ℚ)
        - rateFloatSum (5 / 2) (0, 0) (exampleTicks.take 10)|
        < 1 + (rateEmitTicks (5 / 2) (0, 0) (exampleTicks.take 10) : ℚ) / 16777216 :=
  ⟨rfl, rfl, rfl, rfl, rfl, rfl, rfl, rfl, example_neverLimited,
    ((C2_emit_rate_accumulator exampleWorld 0 0 0 (5 / 2) exampleTicks rfl rfl rfl rfl rfl
      (by norm_num) rfl rfl rfl example_neverLimited).1 10).2.1⟩

/-! ## Shared particles -/

theorem isSharedLoop_spec (w : World) (particle : Option Ptr) (es : List Ptr) (count : Nat)
    (hc : count ≤ 1) :
    isSharedLoop w particle es count
      = if 1 < count + es.countP (fun e => decide ((w.emitters e).m_particle = particle)) then none
        else some (count + es.countP (fun e => decide ((w.emitters e).m_particle = particle))) := by
  induction es generalizing count with
  | nil => simp [isSharedLoop]; omega
  | cons e rest ih =>
    simp only [isSharedLoop, List.countP_cons]
    by_cases hp : (w.emitters e).m_particle = particle
    · simp only [hp, if_true, decide_True]
      by_cases h1 : count + 1 > 1
      · have : 1 < count + (List.countP (fun e => decide ((w.emitters e).m_particle = particle)) rest + 1) := by
          omega
        simp [h1, this]
      · rw [if_neg h1, ih (count + 1) (by omega)]
        simp only [Nat.add_assoc, Nat.add_comm 1]
    · simp only [hp, if_false, decide_False, Nat.add_zero]
      have h1 : ¬ count > 1 := by omega
      rw [if_neg h1, ih count hc]
      simp

/-- C18. isShared(p) is true exactly when at least two registered emitters
have p as their particle(), counted over `m_emitters` and `m_trailEmitters`
together. It is false when at most one emitter targets p, and true when a
plain emitter and a trail emitter both target p. -/
theorem C18_isShared_iff_two_emitters (w : World) (self : Ptr) (particle : Option Ptr) :
    (isShared w self particle = true
      ↔ 2 ≤ ((w.systems self).m_emitters ++ (w.systems self).m_trailEmitters).countP
              (fun e => decide ((w.emitters e).m_particle = particle)))
    ∧ (((w.systems self).m_emitters ++ (w.systems self).m_trailEmitters).countP
          (fun e => decide ((w.emitters e).m_particle = particle)) ≤ 1
        → isShared w self particle = false)
    ∧ (∀ e t, e ∈ (w.systems self).m_emitters → t ∈ (w.systems self).m_trailEmitters →
        (w.emitters e).m_particle = particle → (w.emitters t).m_particle = particle →
        isShared w self particle = true) := by
  have key : isShared w self particle = true
      ↔ 2 ≤ ((w.systems self).m_emitters ++ (w.systems self).m_trailEmitters).countP
              (fun e => decide ((w.emitters e).m_particle = particle)) := by
    rw [List.countP_append]
    unfold isShared
    rw [isSharedLoop_spec w particle _ 0 (by omega)]
    by_cases h1 : 1 < 0 + (w.systems self).m_emitters.countP
        (fun e => decide ((w.emitters e).m_particle = particle))
    · simp only [h1, if_true]
      simp
      omega
    · simp only [h1, if_false]
      rw [isSharedLoop_spec w particle _ _ (by omega)]
      by_cases h2 : 1 < 0 + (w.systems self).m_emitters.countP
          (fun e => decide ((w.emitters e).m_particle = particle))
          + (w.systems self).m_trailEmitters.countP
          (fun e => decide ((w.emitters e).m_particle = particle))
      · simp only [h2, if_true]
        simp
        omega
      · simp only [h2, if_false]
        simp
        omega
  refine ⟨key, ?_, ?_⟩
  · intro h
    cases hb : isShared w self particle with
    | false => rfl
    | true =>
      have := key.mp hb
      omega
  · intro e t he ht hpe hpt
    rw [key, List.countP_append]
    have h1 : 0 < (w.systems self).m_emitters.countP
        (fun e => decide ((w.emitters e).m_particle = particle)) :=
      List.countP_pos_iff.mpr ⟨e, he, by simp [hpe]⟩
    have h2 : 0 < (w.systems self).m_trailEmitters.countP
        (fun e => decide ((w.emitters e).m_particle = particle)) :=
      List.countP_pos_iff.mpr ⟨t, ht, by simp [hpt]⟩
    omega

/-! ## Run state -/

theorem setSystem_systems_self (w : World) (self : Ptr) (v : QQuick3DParticleSystem) :
    (w.setSystem self v).systems self = v := by
  simp [World.setSystem]

theorem setPaused_flags (w : World) (self : Ptr) (paused : Bool) :
    ((setPaused w self paused).systems self).m_paused = paused
    ∧ ((setPaused w self paused).systems self).m_running = (w.systems self).m_running
    ∧ (((w.systems self).m_animation = AnimationState.Stopped)
        → ((setPaused w self paused).systems self).m_animation = AnimationState.Stopped)
    ∧ (((setPaused w self paused).systems self).m_animation ≠ AnimationState.Stopped
        → (w.systems self).m_animation ≠ AnimationState.Stopped) := by
  unfold setPaused
  by_cases h : ((w.systems self).m_paused != paused) = true
  · simp only [h, if_true, setSystem_systems_self]
    refine ⟨trivial, trivial, ?_, ?_⟩
    · intro ha
      simp [ha]
    · intro hne ha
      apply hne
      simp [ha]
  · simp only [h]
    simp only [bne_iff_ne, ne_eq, not_not] at h
    simp [h]

theorem resetEmitters_eq (es : List Ptr) (w : World) :
    es.foldl (fun w0 e => QQuick3DParticleEmitter.reset w0 e) w
      = { w with
          emitters := fun e =>
            if e ∈ es then { w.emitters e with m_prevEmitTime := 0, m_unemittedF := 0 }
            else w.emitters e } := by
  induction es generalizing w with
  | nil => simp
  | cons a rest ih =>
    rw [List.foldl_cons, ih]
    simp only [QQuick3DParticleEmitter.reset, World.setEmitter]
    congr 1
    funext e
    by_cases he : e = a
    · subst he
      by_cases hr : e ∈ rest
      · simp [hr]
      · simp [hr]
    · by_cases hr : e ∈ rest
      · simp [hr, he, Function.update_noteq he]
      · simp [hr, he, Function.update_noteq he]

theorem resetParticles_eq (ps : List Ptr) (w : World) :
    ps.foldl (fun w0 p => w0.setParticle p ((w0.particles p).reset w0.defaultData)) w
      = { w with
          particles := fun p =>
            if p ∈ ps then (w.particles p).reset w.defaultData else w.particles p } := by
  induction ps generalizing w with
  | nil => simp
  | cons a rest ih =>
    rw [List.foldl_cons, ih]
    simp only [World.setParticle]
    congr 1
    funext p
    by_cases hp : p = a
    · subst hp
      by_cases hr : p ∈ rest
      · simp [hr, QQuick3DParticle.reset]
      · simp [hr]
    · by_cases hr : p ∈ rest
      · simp [hr, hp, Function.update_noteq hp]
      · simp [hr, hp, Function.update_noteq hp]

theorem setRunning_true_eq (w : World) (self : Ptr) (generated : Nat)
    (h : (w.systems self).m_running = false) :
    setRunning w self true generated
      = { w with
          systems := Function.update w.systems self
            { w.systems self with
              m_running := true
              m_paused := false
              m_animation := AnimationState.Running
              m_particleIdIndex := 0 }
          emitters := fun e =>
            if e ∈ (w.systems self).m_emitters ∨ e ∈ (w.systems self).m_trailEmitters then
              { w.emitters e with m_prevEmitTime := 0, m_unemittedF := 0 }
            else w.emitters e
          particles := fun p =>
            if p ∈ (w.systems self).m_particles then (w.particles p).reset w.defaultData
            else w.particles p } := by
  unfold setRunning
  have hne : ((w.systems self).m_running != true) = true := by simp [h]
  simp only [hne, if_true]
  by_cases hp : (w.systems self).m_paused = true
  · simp only [setPaused, setSystem_systems_self, hp, resetEmitters_eq, resetParticles_eq]
    simp [World.setSystem, AnimationState.start]
    funext e
    by_cases h1 : e ∈ (w.systems self).m_emitters
    · by_cases h2 : e ∈ (w.systems self).m_trailEmitters <;> simp [h1, h2]
    · by_cases h2 : e ∈ (w.systems self).m_trailEmitters <;> simp [h1, h2]
  · simp only [Bool.not_eq_true] at hp
    simp only [setPaused, setSystem_systems_self, hp, resetEmitters_eq, resetParticles_eq]
    simp [World.setSystem, AnimationState.start]
    funext e
    by_cases h1 : e ∈ (w.systems self).m_emitters
    · by_cases h2 : e ∈ (w.systems self).m_trailEmitters <;> simp [h1, h2]
    · by_cases h2 : e ∈ (w.systems self).m_trailEmitters <;> simp [h1, h2]

theorem setRunning_flags (w : World) (self : Ptr) (running : Bool) (generated : Nat)
    (h : (w.systems self).m_running ≠ running) :
    ((setRunning w self running generated).systems self).m_running = running
    ∧ ((setRunning w self running generated).systems self).m_paused = false
    ∧ ((setRunning w self running generated).systems self).m_animation
        = if running then AnimationState.Running else AnimationState.Stopped := by
  cases running with
  | true =>
    have h0 : (w.systems self).m_running = false := by simpa using h
    rw [setRunning_true_eq w self generated h0]
    simp
  | false =>
    have h0 : (w.systems self).m_running = true := by simpa using h
    unfold setRunning
    have hne : ((w.systems self).m_running != false) = true := by simp [h0]
    simp only [hne, if_true]
    obtain ⟨hp1, hp2, -, -⟩ :=
      setPaused_flags (w.setSystem self { w.systems self with m_running := false }) self false
    have hr : ((setPaused (w.setSystem self { w.systems self with m_running := false }) self
        false).systems self).m_running = false := by
      rw [hp2]
      simp [World.setSystem]
    generalize setPaused (w.setSystem self { w.systems self with m_running := false }) self false
      = w2 at hp1 hr ⊢
    simp only [hr, Bool.false_eq_true, if_false, Bool.not_false, Bool.and_true]
    by_cases hc : ((w2.systems self).m_componentComplete && (w2.systems self).m_useRandomSeed) = true
    · simp only [hc, if_true, doSeedRandomization, setSeed]
      split
      · simp only [setSystem_systems_self, hr]
        exact ⟨trivial, hp1, by simp [AnimationState.stop]⟩
      · simp only [setSystem_systems_self, hr]
        exact ⟨trivial, hp1, by simp [AnimationState.stop]⟩
    · rw [if_neg hc]
      simp only [setSystem_systems_self, hr]
      exact ⟨trivial, hp1, by simp [AnimationState.stop]⟩


theorem reset_flags (w : World) (self : Ptr) :
    ((QQuick3DParticleSystem.reset w self).systems self).m_paused = (w.systems self).m_paused
    ∧ ((QQuick3DParticleSystem.reset w self).systems self).m_running = (w.systems self).m_running
    ∧ (((QQuick3DParticleSystem.reset w self).systems self).m_animation ≠ AnimationState.Stopped
        → (w.systems self).m_animation ≠ AnimationState.Stopped ∨ (w.systems self).m_running = true) := by
  unfold QQuick3DParticleSystem.reset
  by_cases hc : (w.systems self).m_componentComplete = true
  · simp only [hc, Bool.not_true, Bool.false_eq_true, if_false, setSystem_systems_self]
    refine ⟨trivial, trivial, ?_⟩
    cases hr : (w.systems self).m_running with
    | true => intro _; exact Or.inr rfl
    | false =>
      cases ha : (w.systems self).m_animation <;> cases hp : (w.systems self).m_paused <;>
        simp [AnimationState.stop, AnimationState.pause]
  · simp only [Bool.not_eq_true] at hc
    simp only [hc, Bool.not_false, if_true]
    exact ⟨trivial, trivial, fun h => Or.inl h⟩

theorem runCalls_cons (w : World) (self : Ptr) (c : RunCall) (cs : List RunCall) :
    runCalls w self (c :: cs) = runCalls (c.apply w self) self cs := rfl

theorem apply_animation_running (w : World) (self : Ptr) (c : RunCall)
    (h : (w.systems self).m_animation ≠ AnimationState.Stopped → (w.systems self).m_running = true) :
    ((c.apply w self).systems self).m_animation ≠ AnimationState.Stopped
      → ((c.apply w self).systems self).m_running = true := by
  cases c with
  | setRunning running generated =>
    simp only [RunCall.apply]
    by_cases hr : (w.systems self).m_running = running
    · have : setRunning w self running generated = w := by
        simp [setRunning, hr]
      rw [this]
      exact h
    · obtain ⟨h1, -, h3⟩ := setRunning_flags w self running generated hr
      rw [h1, h3]
      cases running <;> simp
  | setPaused paused =>
    simp only [RunCall.apply]
    obtain ⟨-, h2, -, h4⟩ := setPaused_flags w self paused
    intro ha
    rw [h2]
    exact h (h4 ha)
  | reset =>
    simp only [RunCall.apply]
    obtain ⟨-, h2, h3⟩ := reset_flags w self
    intro ha
    rw [h2]
    rcases h3 ha with h5 | h5
    · exact h h5
    · exact h5

theorem apply_paused_running (w : World) (self : Ptr) (c : RunCall)
    (h : (w.systems self).m_paused = true → (w.systems self).m_running = true)
    (hc : c = RunCall.setPaused true → (w.systems self).m_running = true) :
    ((c.apply w self).systems self).m_paused = true
      → ((c.apply w self).systems self).m_running = true := by
  cases c with
  | setRunning running generated =>
    simp only [RunCall.apply]
    by_cases hr : (w.systems self).m_running = running
    · have : setRunning w self running generated = w := by
        simp [setRunning, hr]
      rw [this]
      exact h
    · obtain ⟨-, h2, -⟩ := setRunning_flags w self running generated hr
      rw [h2]
      intro hf
      exact absurd hf (by simp)
  | setPaused paused =>
    simp only [RunCall.apply]
    obtain ⟨h1, h2, -, -⟩ := setPaused_flags w self paused
    rw [h1, h2]
    intro hp
    subst hp
    exact hc rfl
  | reset =>
    simp only [RunCall.apply]
    obtain ⟨h1, h2, -⟩ := reset_flags w self
    rw [h1, h2]
    exact h

/-- C20, counterexample. From the initial state (running = true, paused =
false) the calls setRunning(false), setPaused(true) lead to a state with
paused = true and running = false: setPaused stores the flag whether or not
the system runs, only the call on the animation is guarded. -/
theorem C20_paused_while_stopped :
    (exampleWorld.systems 0).m_running = true
    ∧ (exampleWorld.systems 0).m_paused = false
    ∧ ((runCalls exampleWorld 0 [RunCall.setRunning false 0, RunCall.setPaused true]).systems
          0).m_paused = true
    ∧ ((runCalls exampleWorld 0 [RunCall.setRunning false 0, RunCall.setPaused true]).systems
          0).m_running = false
    ∧ ¬ (((runCalls exampleWorld 0 [RunCall.setRunning false 0, RunCall.setPaused true]).systems
          0).m_paused = true
        → ((runCalls exampleWorld 0 [RunCall.setRunning false 0, RunCall.setPaused true]).systems
          0).m_running = true) := by
  have h1 : ((runCalls exampleWorld 0 [RunCall.setRunning false 0, RunCall.setPaused true]).systems
      0).m_paused = true := by
    simp [runCalls, RunCall.apply, setRunning, setPaused, exampleWorld, exampleSystem,
      World.setSystem, AnimationState.stop]
  have h2 : ((runCalls exampleWorld 0 [RunCall.setRunning false 0, RunCall.setPaused true]).systems
      0).m_running = false := by
    simp [runCalls, RunCall.apply, setRunning, setPaused, exampleWorld, exampleSystem,
      World.setSystem, AnimationState.stop]
  refine ⟨rfl, rfl, h1, h2, ?_⟩
  intro h
  have := h h1
  rw [h2] at this
  exact absurd this (by simp)

/-- C20, amended. In every state reached from a state with running = true and
paused = false by any sequence of setRunning, setPaused and reset calls, the
animation that drives the clock is stopped whenever running = false, so it is
never paused while the system is stopped. The flag paused = true implies
running = true after every sequence in which setPaused(true) is only called
while the system is running. -/
theorem C20_run_state_invariant (w : World) (self : Ptr) (calls : List RunCall)
    (hr : (w.systems self).m_running = true) (hp : (w.systems self).m_paused = false) :
    (((runCalls w self calls).systems self).m_running = false
        → ((runCalls w self calls).systems self).m_animation = AnimationState.Stopped)
    ∧ (((runCalls w self calls).systems self).m_animation = AnimationState.Paused
        → ((runCalls w self calls).systems self).m_running = true)
    ∧ (pausedOnlyWhileRunning self w calls →
        ((runCalls w self calls).systems self).m_paused = true
          → ((runCalls w self calls).systems self).m_running = true) := by
  have hA : ∀ (cs : List RunCall) (w0 : World),
      ((w0.systems self).m_animation ≠ AnimationState.Stopped → (w0.systems self).m_running = true)
      → (((runCalls w0 self cs).systems self).m_animation ≠ AnimationState.Stopped
        → ((runCalls w0 self cs).systems self).m_running = true) := by
    intro cs
    induction cs with
    | nil => intro w0 h; exact h
    | cons c cs ih =>
      intro w0 h
      rw [runCalls_cons]
      exact ih _ (apply_animation_running w0 self c h)
  have hP : ∀ (cs : List RunCall) (w0 : World),
      ((w0.systems self).m_paused = true → (w0.systems self).m_running = true)
      → pausedOnlyWhileRunning self w0 cs
      → (((runCalls w0 self cs).systems self).m_paused = true
        → ((runCalls w0 self cs).systems self).m_running = true) := by
    intro cs
    induction cs with
    | nil => intro w0 h _; exact h
    | cons c cs ih =>
      intro w0 h hg
      rw [runCalls_cons]
      exact ih _ (apply_paused_running w0 self c h hg.1) hg.2
  have hA0 := hA calls w (fun _ => hr)
  refine ⟨?_, ?_, ?_⟩
  · intro hf
    by_contra hne
    have := hA0 hne
    rw [hf] at this
    exact absurd this (by simp)
  · intro ha
    exact hA0 (by rw [ha]; simp)
  · intro hg
    exact hP calls w (fun h => by rw [hp] at h; exact absurd h (by simp)) hg

theorem C20_run_state_invariant_witness :
    (exampleWorld.systems 0).m_running = true
    ∧ (exampleWorld.systems 0).m_paused = false
    ∧ pausedOnlyWhileRunning 0 exampleWorld
        [RunCall.setPaused true, RunCall.reset, RunCall.setRunning false 0]
    ∧ (((runCalls exampleWorld 0
          [RunCall.setPaused true, RunCall.reset, RunCall.setRunning false 0]).systems
            0).m_paused = true
        → ((runCalls exampleWorld 0
          [RunCall.setPaused true, RunCall.reset, RunCall.setRunning false 0]).systems
            0).m_running = true) := by
  have hg : pausedOnlyWhileRunning 0 exampleWorld
      [RunCall.setPaused true, RunCall.reset, RunCall.setRunning false 0] := by
    unfold pausedOnlyWhileRunning
    refine ⟨fun _ => rfl, ?_⟩
    unfold pausedOnlyWhileRunning
    refine ⟨fun h => RunCall.noConfusion h, ?_⟩
    unfold pausedOnlyWhileRunning
    exact ⟨fun h => RunCall.noConfusion h, trivial⟩
  exact ⟨rfl, rfl, hg, (C20_run_state_invariant exampleWorld 0 _ rfl rfl).2.2 hg⟩

/-- C19. Setting a stopped system to running resets every registered emitter
and trail emitter (`m_prevEmitTime = 0`, `m_unemittedF = 0`, as
QQuick3DParticleEmitter::reset does), resets every registered particle, sets
`m_particleIdIndex` to 0, and leaves paused = false and running = true;
objects that are not registered keep their state. setRunning(r) with r equal
to the current value changes nothing. -/
theorem C19_setRunning_true_resets (w : World) (self : Ptr) (generated : Nat)
    (h : (w.systems self).m_running = false) :
    (∀ e, e ∈ (w.systems self).m_emitters ∨ e ∈ (w.systems self).m_trailEmitters →
        (setRunning w self true generated).emitters e
            = (QQuick3DParticleEmitter.reset w e).emitters e
        ∧ ((setRunning w self true generated).emitters e).m_prevEmitTime = 0
        ∧ ((setRunning w self true generated).emitters e).m_unemittedF = 0)
    ∧ (∀ e, ¬ (e ∈ (w.systems self).m_emitters ∨ e ∈ (w.systems self).m_trailEmitters) →
        (setRunning w self true generated).emitters e = w.emitters e)
    ∧ (∀ p, p ∈ (w.systems self).m_particles →
        (setRunning w self true generated).particles p = (w.particles p).reset w.defaultData)
    ∧ (∀ p, p ∉ (w.systems self).m_particles →
        (setRunning w self true generated).particles p = w.particles p)
    ∧ ((setRunning w self true generated).systems self).m_particleIdIndex = 0
    ∧ ((setRunning w self true generated).systems self).m_paused = false
    ∧ ((setRunning w self true generated).systems self).m_running = true
    ∧ (∀ (w0 : World) (r : Bool) (g : Nat), (w0.systems self).m_running = r →
        setRunning w0 self r g = w0) := by
  rw [setRunning_true_eq w self generated h]
  refine ⟨?_, ?_, ?_, ?_, ?_, ?_, ?_, ?_⟩
  · intro e he
    simp [he, QQuick3DParticleEmitter.reset, World.setEmitter]
  · intro e he
    simp [he]
  · intro p hp
    simp [hp]
  · intro p hp
    simp [hp]
  · simp
  · simp
  · simp
  · intro w0 r g hr
    simp [setRunning, hr]

theorem C19_setRunning_true_resets_witness :
    (exampleStoppedWorld.systems 0).m_running = false
    ∧ ((setRunning exampleStoppedWorld 0 true 0).emitters 0).m_prevEmitTime = 0
    ∧ ((setRunning exampleStoppedWorld 0 true 0).emitters 0).m_unemittedF = 0
    ∧ (setRunning exampleStoppedWorld 0 true 0).particles 0
        = (exampleStoppedWorld.particles 0).reset exampleStoppedWorld.defaultData
    ∧ ((setRunning exampleStoppedWorld 0 true 0).systems 0).m_particleIdIndex = 0
    ∧ ((setRunning exampleStoppedWorld 0 true 0).systems 0).m_paused = false
    ∧ ((setRunning exampleStoppedWorld 0 true 0).systems 0).m_running = true :=
  have h := C19_setRunning_true_resets exampleStoppedWorld 0 0 rfl
  have he : (0 : Ptr) ∈ (exampleStoppedWorld.systems 0).m_emitters
      ∨ (0 : Ptr) ∈ (exampleStoppedWorld.systems 0).m_trailEmitters :=
    Or.inl (List.mem_singleton.mpr rfl)
  ⟨rfl, (h.1 0 he).2.1, (h.1 0 he).2.2, h.2.2.1 0 (List.mem_singleton.mpr rfl),
    h.2.2.2.2.1, h.2.2.2.2.2.1, h.2.2.2.2.2.2.1⟩

/-! ## Registration -/

theorem count_filter_ne_self (l : List Ptr) (e : Ptr) :
    (l.filter (fun x => x != e)).count e = 0 := by
  rw [List.count_eq_zero]
  intro h
  simpa using (List.mem_filter.mp h).2

theorem count_filter_ne_other (l : List Ptr) (e x : Ptr) (h : x ≠ e) :
    (l.filter (fun y => y != e)).count x = l.count x := by
  induction l with
  | nil => rfl
  | cons a rest ih =>
    by_cases ha : a = e
    · subst ha
      have : a ≠ x := fun h1 => h h1.symm
      simp [List.filter_cons, List.count_cons, ih, this]
    · by_cases hx : a = x
      · subst hx
        simp [List.filter_cons, ha, ih]
      · simp [List.filter_cons, ha, List.count_cons, hx, ih]

theorem setSystem_same (w : World) (self : Ptr) (system : Option Ptr)
    (h : (w.emitters self).m_system = system) :
    QQuick3DParticleEmitter.setSystem w self system = w := by
  simp [QQuick3DParticleEmitter.setSystem, h]

theorem setSystem_emitters (w : World) (self : Ptr) (system : Option Ptr) :
    (QQuick3DParticleEmitter.setSystem w self system).emitters
      = Function.update w.emitters self { w.emitters self with m_system := system } := by
  unfold QQuick3DParticleEmitter.setSystem
  by_cases h : (w.emitters self).m_system = system
  · simp only [h, if_true]
    subst h
    simp
  · simp only [h, if_false]
    cases hold : (w.emitters self).m_system with
    | none =>
      cases system with
      | none => rfl
      | some new =>
        simp only [registerParticleEmitter, World.setSystem, World.setEmitter]
        split <;> rfl
    | some old =>
      cases system with
      | none =>
        simp only [unRegisterParticleEmitter, World.setSystem, World.setEmitter]
        split <;> rfl
      | some new =>
        simp only [unRegisterParticleEmitter, registerParticleEmitter, World.setSystem,
          World.setEmitter]
        split <;> split <;> rfl

theorem setSystem_systems (w : World) (self : Ptr) (system : Option Ptr)
    (h : (w.emitters self).m_system ≠ system) (S : Ptr) :
    (QQuick3DParticleEmitter.setSystem w self system).systems S
      = if (w.emitters self).isTrailEmitter = true then
          { w.systems S with
            m_trailEmitters :=
              (if (w.emitters self).m_system = some S then
                (w.systems S).m_trailEmitters.filter (fun x => x != self)
               else (w.systems S).m_trailEmitters)
              ++ (if system = some S then [self] else []) }
        else
          { w.systems S with
            m_emitters :=
              (if (w.emitters self).m_system = some S then
                (w.systems S).m_emitters.filter (fun x => x != self)
               else (w.systems S).m_emitters)
              ++ (if system = some S then [self] else []) } := by
  unfold QQuick3DParticleEmitter.setSystem
  simp only [h, if_false]
  cases hold : (w.emitters self).m_system with
  | none =>
    cases system with
    | none => exact absurd hold h
    | some new =>
      simp only [registerParticleEmitter, World.setSystem, World.setEmitter, Function.update_same]
      by_cases ht : (w.emitters self).isTrailEmitter = true
      · by_cases hS : new = S
        · subst hS
          simp [ht]
        · have hS2 : S ≠ new := fun h1 => hS h1.symm
          simp [ht, hS, Function.update_noteq hS2]
      · by_cases hS : new = S
        · subst hS
          simp [ht]
        · have hS2 : S ≠ new := fun h1 => hS h1.symm
          simp [ht, hS, Function.update_noteq hS2]
  | some old =>
    cases system with
    | none =>
      simp only [unRegisterParticleEmitter, World.setSystem, World.setEmitter]
      by_cases ht : (w.emitters self).isTrailEmitter = true
      · by_cases hS : old = S
        · subst hS
          simp [ht]
        · have hS2 : S ≠ old := fun h1 => hS h1.symm
          simp [ht, hS, Function.update_noteq hS2]
      · by_cases hS : old = S
        · subst hS
          simp [ht]
        · have hS2 : S ≠ old := fun h1 => hS h1.symm
          simp [ht, hS, Function.update_noteq hS2]
    | some new =>
      have hne : old ≠ new := by
        intro h1
        apply h
        rw [hold, h1]
      simp only [unRegisterParticleEmitter, registerParticleEmitter, World.setSystem,
        World.setEmitter, Function.update_same]
      by_cases ht : (w.emitters self).isTrailEmitter = true
      · by_cases hS : old = S
        · subst hS
          have hS3 : new ≠ old := fun h1 => hne h1.symm
          simp [ht, hS3, Function.update_noteq hne, hne]
        · have hS2 : S ≠ old := fun h1 => hS h1.symm
          by_cases hN : new = S
          · subst hN
            simp [ht, hS, Function.update_noteq hS2]
          · have hN2 : S ≠ new := fun h1 => hN h1.symm
            simp [ht, hS, hN, Function.update_noteq hS2, Function.update_noteq hN2]
      · by_cases hS : old = S
        · subst hS
          have hS3 : new ≠ old := fun h1 => hne h1.symm
          simp [ht, hS3, Function.update_noteq hne, hne]
        · have hS2 : S ≠ old := fun h1 => hS h1.symm
          by_cases hN : new = S
          · subst hN
            simp [ht, hS, Function.update_noteq hS2]
          · have hN2 : S ≠ new := fun h1 => hN h1.symm
            simp [ht, hS, hN, Function.update_noteq hS2, Function.update_noteq hN2]

theorem setSystem_preserves (w : World) (self : Ptr) (system : Option Ptr)
    (h : RegistrationFollowsSystem w) :
    RegistrationFollowsSystem (QQuick3DParticleEmitter.setSystem w self system) := by
  by_cases hsame : (w.emitters self).m_system = system
  · rw [setSystem_same w self system hsame]
    exact h
  · intro e S
    rw [setSystem_systems w self system hsame S, setSystem_emitters]
    obtain ⟨h1, h2⟩ := h e S
    by_cases he : e = self
    · subst he
      simp only [Function.update_same]
      by_cases ht : (w.emitters e).isTrailEmitter = true
      · simp only [ht, if_true] at h1 h2 ⊢
        refine ⟨by simpa using h1, ?_⟩
        rw [List.count_append]
        by_cases hc : (w.emitters e).m_system = some S
        · have hs : system ≠ some S := fun h3 => hsame (hc.trans h3.symm)
          simp [hc, hs, count_filter_ne_self]
        · simp only [hc, if_false, and_false] at h2 ⊢
          by_cases hs : system = some S
          · simp [hs, h2]
          · simp [hs, h2]
      · simp only [Bool.not_eq_true] at ht
        simp only [ht, Bool.false_eq_true, if_false, true_and, false_and] at h1 h2 ⊢
        refine ⟨?_, by simpa using h2⟩
        rw [List.count_append]
        by_cases hc : (w.emitters e).m_system = some S
        · have hs : system ≠ some S := fun h3 => hsame (hc.trans h3.symm)
          simp [hc, hs, count_filter_ne_self]
        · simp only [hc, if_false] at h1 ⊢
          by_cases hs : system = some S
          · simp [hs, h1]
          · simp [hs, h1]
    · simp only [Function.update_noteq he]
      have hes : self ≠ e := fun h3 => he h3.symm
      have hcs : List.count e [self] = 0 := List.count_eq_zero.mpr (by simp [he])
      by_cases ht : (w.emitters self).isTrailEmitter = true
      · simp only [ht, if_true]
        refine ⟨h1, ?_⟩
        rw [List.count_append, ← h2]
        by_cases hc : (w.emitters self).m_system = some S
        · by_cases hs : system = some S
          · simp [hc, hs, count_filter_ne_other _ _ _ he, hcs]
          · simp [hc, hs, count_filter_ne_other _ _ _ he]
        · by_cases hs : system = some S
          · simp [hc, hs, hcs]
          · simp [hc, hs]
      · simp only [Bool.not_eq_true] at ht
        simp only [ht, Bool.false_eq_true, if_false]
        refine ⟨?_, h2⟩
        rw [List.count_append, ← h1]
        by_cases hc : (w.emitters self).m_system = some S
        · by_cases hs : system = some S
          · simp [hc, hs, count_filter_ne_other _ _ _ he, hcs]
          · simp [hc, hs, count_filter_ne_other _ _ _ he]
        · by_cases hs : system = some S
          · simp [hc, hs, hcs]
          · simp [hc, hs]

theorem setSystems_preserves (calls : List (Ptr × Option Ptr)) (w : World)
    (h : RegistrationFollowsSystem w) : RegistrationFollowsSystem (setSystems w calls) := by
  induction calls generalizing w with
  | nil => exact h
  | cons c rest ih => exact ih _ (setSystem_preserves w c.1 c.2 h)

theorem registration_mem_iff (w : World) (h : RegistrationFollowsSystem w) (e S : Ptr) :
    (e ∈ (w.systems S).m_emitters ∨ e ∈ (w.systems S).m_trailEmitters)
      ↔ (w.emitters e).m_system = some S := by
  obtain ⟨h1, h2⟩ := h e S
  rw [← List.count_pos_iff, ← List.count_pos_iff, h1, h2]
  cases ht : (w.emitters e).isTrailEmitter <;>
    by_cases hc : (w.emitters e).m_system = some S <;> simp [hc]

/-- C17. For emitters registered only through setSystem (every emitter occurs
once in the list of its kind of the system it points to, and nowhere else):
after setSystem(s2) the emitter points to s2, is in no emitter list of its
previous system s1 ≠ s2 and, when s2 is not null, occurs exactly once in the
list of its kind of s2 (`m_trailEmitters` for a trail emitter, `m_emitters`
otherwise) and not in the other list; the registration of every emitter still
follows its system pointer. setSystem(s) with s the current system changes
nothing. Hence after any sequence of setSystem calls on a scene that starts
with no emitter registered, an emitter is in an emitter list of S exactly
when its system() is S. -/
theorem C17_registration_follows_setSystem (w : World) (self : Ptr) (s2 : Option Ptr)
    (h : RegistrationFollowsSystem w) :
    ((QQuick3DParticleEmitter.setSystem w self s2).emitters self).m_system = s2
    ∧ (∀ s1, (w.emitters self).m_system = some s1 → some s1 ≠ s2 →
        self ∉ ((QQuick3DParticleEmitter.setSystem w self s2).systems s1).m_emitters
        ∧ self ∉ ((QQuick3DParticleEmitter.setSystem w self s2).systems s1).m_trailEmitters)
    ∧ (∀ S, s2 = some S →
        ((QQuick3DParticleEmitter.setSystem w self s2).systems S).m_emitters.count self
            = (if (w.emitters self).isTrailEmitter = true then 0 else 1)
        ∧ ((QQuick3DParticleEmitter.setSystem w self s2).systems S).m_trailEmitters.count self
            = (if (w.emitters self).isTrailEmitter = true then 1 else 0))
    ∧ RegistrationFollowsSystem (QQuick3DParticleEmitter.setSystem w self s2)
    ∧ (∀ (w0 : World) (e : Ptr) (s : Option Ptr), (w0.emitters e).m_system = s →
        QQuick3DParticleEmitter.setSystem w0 e s = w0)
    ∧ (∀ (w0 : World) (calls : List (Ptr × Option Ptr)),
        (∀ e, (w0.emitters e).m_system = none) →
        (∀ S, (w0.systems S).m_emitters = [] ∧ (w0.systems S).m_trailEmitters = []) →
        ∀ e S, (e ∈ ((setSystems w0 calls).systems S).m_emitters
                ∨ e ∈ ((setSystems w0 calls).systems S).m_trailEmitters)
              ↔ ((setSystems w0 calls).emitters e).m_system = some S) := by
  have hreg := setSystem_preserves w self s2 h
  have hsys : ((QQuick3DParticleEmitter.setSystem w self s2).emitters self).m_system = s2 := by
    rw [setSystem_emitters]
    simp
  have htrail : ((QQuick3DParticleEmitter.setSystem w self s2).emitters self).isTrailEmitter
      = (w.emitters self).isTrailEmitter := by
    rw [setSystem_emitters]
    simp
  refine ⟨hsys, ?_, ?_, hreg, ?_, ?_⟩
  · intro s1 _ hne
    have hn : ¬ ((QQuick3DParticleEmitter.setSystem w self s2).emitters self).m_system = some s1 := by
      rw [hsys]
      exact fun h3 => hne h3.symm
    have := (registration_mem_iff _ hreg self s1).not.mpr hn
    exact ⟨fun h3 => this (Or.inl h3), fun h3 => this (Or.inr h3)⟩
  · intro S hS
    obtain ⟨h1, h2⟩ := hreg self S
    rw [h1, h2, hsys, htrail]
    cases (w.emitters self).isTrailEmitter <;> simp [hS]
  · intro w0 e s hs
    exact setSystem_same w0 e s hs
  · intro w0 calls hnone hempty e S
    apply registration_mem_iff
    apply setSystems_preserves
    intro e1 S1
    simp [hnone e1, (hempty S1).1, (hempty S1).2]

theorem C17_registration_follows_setSystem_witness :
    RegistrationFollowsSystem exampleUnregisteredWorld
    ∧ ((QQuick3DParticleEmitter.setSystem exampleUnregisteredWorld 0 (some 0)).emitters
          0).m_system = some 0
    ∧ ((QQuick3DParticleEmitter.setSystem exampleUnregisteredWorld 0 (some 0)).systems
          0).m_emitters.count 0 = 1
    ∧ ((QQuick3DParticleEmitter.setSystem exampleUnregisteredWorld 0 (some 0)).systems
          0).m_trailEmitters.count 0 = 0 := by
  have h0 : RegistrationFollowsSystem exampleUnregisteredWorld := by
    intro e S
    simp [exampleUnregisteredWorld]
  have h := C17_registration_follows_setSystem exampleUnregisteredWorld 0 (some 0) h0
  exact ⟨h0, h.1, (h.2.2.1 0 rfl).1, (h.2.2.1 0 rfl).2⟩

/-! ## The affector loop -/

theorem applyAffectors_cons (w : World) (a : Ptr) (rest : List Ptr) (particle : Ptr)
    (d : QQuick3DParticleData) (currentData : QQuick3DParticleDataCurrent) (particleTimeS : ℚ) :
    applyAffectors w (a :: rest) particle d currentData particleTimeS
      = applyAffectors w rest particle d
          (if (w.affectors a).m_enabled
              && ((w.affectors a).m_particles.isEmpty || (w.affectors a).m_particles.contains particle)
            then (w.affectors a).affectParticle d currentData particleTimeS
            else currentData)
          particleTimeS := by
  simp [applyAffectors]

theorem affectorCalls_map_fst (w : World) (particle : Ptr) (d : QQuick3DParticleData)
    (particleTimeS : ℚ) (affectors : List Ptr) (currentData : QQuick3DParticleDataCurrent) :
    (affectorCalls w particle d particleTimeS affectors currentData).map Prod.fst
      = affectors.filter (fun a =>
          (w.affectors a).m_enabled
            && ((w.affectors a).m_particles.isEmpty || (w.affectors a).m_particles.contains particle)) := by
  induction affectors generalizing currentData with
  | nil => rfl
  | cons a rest ih =>
    simp only [affectorCalls, List.filter_cons]
    split
    · simp [ih]
    · exact ih _

theorem applyAffectors_eq_calls (w : World) (particle : Ptr) (d : QQuick3DParticleData)
    (particleTimeS : ℚ) (affectors : List Ptr) (currentData : QQuick3DParticleDataCurrent) :
    applyAffectors w affectors particle d currentData particleTimeS
      = match (affectorCalls w particle d particleTimeS affectors currentData).getLast? with
        | none => currentData
        | some c => (w.affectors c.1).affectParticle d c.2 particleTimeS := by
  induction affectors generalizing currentData with
  | nil => rfl
  | cons a rest ih =>
    rw [applyAffectors_cons]
    simp only [affectorCalls]
    split
    · rw [ih]
      cases hc : affectorCalls w particle d particleTimeS rest
          ((w.affectors a).affectParticle d currentData particleTimeS) with
      | nil => simp
      | cons c cs =>
        rw [List.getLast?_cons_cons, List.getLast?_eq_getLast _ (List.cons_ne_nil c cs)]
    · exact ih _

theorem affectorCalls_chain (w : World) (particle : Ptr) (d : QQuick3DParticleData)
    (particleTimeS : ℚ) (affectors : List Ptr) (currentData : QQuick3DParticleDataCurrent) :
    ((affectorCalls w particle d particleTimeS affectors currentData).head?.map Prod.snd
        = if affectorCalls w particle d particleTimeS affectors currentData = [] then none
          else some currentData)
    ∧ ∀ (k : Nat) (c c1 : Ptr × QQuick3DParticleDataCurrent),
        (affectorCalls w particle d particleTimeS affectors currentData)[k]? = some c →
        (affectorCalls w particle d particleTimeS affectors currentData)[k + 1]? = some c1 →
        c1.2 = (w.affectors c.1).affectParticle d c.2 particleTimeS := by
  induction affectors generalizing currentData with
  | nil => simp [affectorCalls]
  | cons a rest ih =>
    simp only [affectorCalls]
    split
    · refine ⟨by simp, ?_⟩
      intro k c c1 hk hk1
      obtain ⟨ih1, ih2⟩ := ih ((w.affectors a).affectParticle d currentData particleTimeS)
      cases k with
      | zero =>
        simp only [List.getElem?_cons_zero, Option.some.injEq] at hk
        simp only [zero_add, List.getElem?_cons_succ] at hk1
        subst hk
        have h0 : (affectorCalls w particle d particleTimeS rest
            ((w.affectors a).affectParticle d currentData particleTimeS)).head? = some c1 := by
          rw [← hk1]
          exact (List.head?_eq_getElem? _)
        rw [h0] at ih1
        by_cases hnil : affectorCalls w particle d particleTimeS rest
            ((w.affectors a).affectParticle d currentData particleTimeS) = []
        · rw [hnil] at h0
          simp at h0
        · simp only [hnil, if_false, Option.map_some', Option.some.injEq] at ih1
          exact ih1
      | succ k =>
        simp only [List.getElem?_cons_succ] at hk hk1
        exact ih2 k c c1 hk hk1
    · exact ih currentData

/-- C12. Every alive record of particle P (alive by the float test
`startTime ≤ timeS ≤ float(startTime + lifetime)`) enters the affector loop
with the derived state left by common processing, alignment, scale and fades
and with the float elapsed time `timeS - startTime`, and the result of the
loop is what is committed. In the loop affectParticle is called
for exactly the registered affectors that are enabled and whose particle list
is empty or contains P, in list order and as often as they are registered
(once for an affector registered once); the first call receives the state
before the loop, every later call the state returned by the call before it,
and the state after the loop is the one returned by the last call. A disabled
affector or one restricted to other particles is never called.
registerParticleAffector appends to the list, so list order is registration
order. -/
theorem C12_affectors_in_registration_order (w : World) (system particle : Ptr) (timeS : ℚ)
    (d : QQuick3DParticleData) :
    (evaluateModelRecord w system particle timeS d
      = if timeS < d.startTime ∨ timeS > f32 (d.startTime + d.lifetime) then none
        else some (applyAffectors w (w.systems system).m_affectors particle d
          (stateBeforeAffectors w particle timeS d true (w.particles particle).m_initialScale.scale)
          (f32 (timeS - d.startTime))))
    ∧ (evaluateSpriteRecord w system particle timeS d
      = if timeS < d.startTime ∨ timeS > f32 (d.startTime + d.lifetime) then none
        else some (applyAffectors w (w.systems system).m_affectors particle d
          (stateBeforeAffectors w particle timeS d (!(w.particles particle).m_billboard)
            (fun s => ⟨s, s, s⟩))
          (f32 (timeS - d.startTime)),
          lifeFraction (f32 (timeS - d.startTime)) d.lifetime))
    ∧ (∀ (affectors : List Ptr) (currentData : QQuick3DParticleDataCurrent) (t : ℚ),
        ((affectorCalls w particle d t affectors currentData).map Prod.fst
          = affectors.filter (fun a =>
              (w.affectors a).m_enabled
                && ((w.affectors a).m_particles.isEmpty
                    || (w.affectors a).m_particles.contains particle)))
        ∧ (∀ a, ((affectorCalls w particle d t affectors currentData).map Prod.fst).count a
            = if (w.affectors a).m_enabled = true
                ∧ ((w.affectors a).m_particles = [] ∨ particle ∈ (w.affectors a).m_particles)
              then affectors.count a else 0)
        ∧ ((affectorCalls w particle d t affectors currentData).head?.map Prod.snd
            = if affectorCalls w particle d t affectors currentData = [] then none
              else some currentData)
        ∧ (∀ (k : Nat) (c c1 : Ptr × QQuick3DParticleDataCurrent),
            (affectorCalls w particle d t affectors currentData)[k]? = some c →
            (affectorCalls w particle d t affectors currentData)[k + 1]? = some c1 →
            c1.2 = (w.affectors c.1).affectParticle d c.2 t)
        ∧ applyAffectors w affectors particle d currentData t
            = match (affectorCalls w particle d t affectors currentData).getLast? with
              | none => currentData
              | some c => (w.affectors c.1).affectParticle d c.2 t)
    ∧ (∀ a, ((registerParticleAffector w system a).systems system).m_affectors
        = (w.systems system).m_affectors ++ [a]) := by
  refine ⟨(evaluateRecord_eq w system particle timeS d).1,
    (evaluateRecord_eq w system particle timeS d).2, ?_, ?_⟩
  · intro affectors currentData t
    have hmap := affectorCalls_map_fst w particle d t affectors currentData
    refine ⟨hmap, ?_, (affectorCalls_chain w particle d t affectors currentData).1,
      (affectorCalls_chain w particle d t affectors currentData).2,
      applyAffectors_eq_calls w particle d t affectors currentData⟩
    intro a
    rw [hmap]
    by_cases ha : (w.affectors a).m_enabled = true
        ∧ ((w.affectors a).m_particles = [] ∨ particle ∈ (w.affectors a).m_particles)
    · rw [if_pos ha]
      apply List.count_filter
      obtain ⟨h1, h2⟩ := ha
      rcases h2 with h2 | h2
      · simp [h1, h2]
      · simp [h1, h2]
    · rw [if_neg ha, List.count_eq_zero]
      intro hmem
      apply ha
      have := (List.mem_filter.mp hmem).2
      simpa [List.isEmpty_iff] using this
  · intro a
    simp [registerParticleAffector, World.setSystem]

/-! ## What the evaluation of a tick writes -/

theorem getEmitAmount_congr (w1 w2 : World) (self : Ptr)
    (he : w1.emitters self = w2.emitters self) (hs : w1.systems = w2.systems) :
    (getEmitAmount w1 self).1 = (getEmitAmount w2 self).1 := by
  unfold getEmitAmount
  simp only [he, hs]
  split
  · rfl
  · split_ifs <;> rfl

theorem collectTrailStep_fst (particle : Ptr) (acc : World × List TrailEmits) (emitter : Ptr) :
    (collectTrailStep particle acc emitter).1
      = if (acc.1.emitters emitter).m_follow = some particle then
          (getEmitAmount acc.1 emitter).2
        else acc.1 := by
  unfold collectTrailStep
  dsimp only
  by_cases h : (acc.1.emitters emitter).m_follow = some particle
  · simp only [h, if_true]
    split <;> rfl
  · simp only [h, if_false]

theorem collectTrailStep_world (particle : Ptr) (w : World) (acc : World × List TrailEmits)
    (emitter : Ptr) (h : ∃ E, acc.1 = { w with emitters := E }) :
    ∃ E, (collectTrailStep particle acc emitter).1 = { w with emitters := E } := by
  obtain ⟨E, hE⟩ := h
  rw [collectTrailStep_fst]
  obtain ⟨u, hu⟩ := getEmitAmount_world acc.1 emitter
  split_ifs
  · rw [hu, hE]
    exact ⟨_, rfl⟩
  · exact ⟨E, hE⟩

theorem collectTrailEmits_world (w : World) (self particle : Ptr) :
    ∃ E, (collectTrailEmits w self particle).1 = { w with emitters := E } := by
  unfold collectTrailEmits
  have key : ∀ (l : List Ptr) (acc : World × List TrailEmits),
      (∃ E, acc.1 = { w with emitters := E }) →
      ∃ E, (l.foldl (collectTrailStep particle) acc).1 = { w with emitters := E } := by
    intro l
    induction l with
    | nil => intro acc h; exact h
    | cons a rest ih =>
      intro acc h
      exact ih _ (collectTrailStep_world particle w acc a h)
  exact key _ _ ⟨w.emitters, rfl⟩

theorem evaluateModelRecord_emitters (w : World) (E : Ptr → QQuick3DParticleEmitter)
    (system particle : Ptr) (timeS : ℚ) (d : QQuick3DParticleData) :
    evaluateModelRecord { w with emitters := E } system particle timeS d
      = evaluateModelRecord w system particle timeS d := by
  simp [evaluateModelRecord, processParticleAlignment, processParticleFadeInOut, applyAffectors]

theorem evaluateSpriteRecord_emitters (w : World) (E : Ptr → QQuick3DParticleEmitter)
    (system particle : Ptr) (timeS : ℚ) (d : QQuick3DParticleData) :
    evaluateSpriteRecord { w with emitters := E } system particle timeS d
      = evaluateSpriteRecord w system particle timeS d := by
  simp [evaluateSpriteRecord, processParticleAlignment, processParticleFadeInOut, applyAffectors]

theorem processModelParticle_eq (st : TickState) (system particle : Ptr)
    (trailEmits : List TrailEmits) (timeS : ℚ) :
    processModelParticle st system particle trailEmits timeS
      = { world := st.world.setParticle particle
            { st.world.particles particle with
              m_instanceTable := modelTable st.world system particle timeS
                ((st.world.particles particle).m_particleData.take
                  (st.world.particles particle).m_maxAmount.toNat)
              m_hasTransparency := modelSemiTransparent st.world system particle timeS
                ((st.world.particles particle).m_particleData.take
                  (st.world.particles particle).m_maxAmount.toNat) }
          trailCalls := st.trailCalls ++ modelTrailCalls st.world system particle trailEmits timeS
            ((st.world.particles particle).m_particleData.take
              (st.world.particles particle).m_maxAmount.toNat) } := by
  simp only [processModelParticle]
  rw [processModel_loop st.world st.trailCalls system particle trailEmits timeS
    (st.world.particles particle).m_maxAmount.toNat]
  simp [World.setParticle]

theorem processSpriteParticle_eq (st : TickState) (system particle : Ptr)
    (trailEmits : List TrailEmits) (timeS : ℚ) :
    processSpriteParticle st system particle trailEmits timeS
      = { world := st.world.setParticle particle
            { st.world.particles particle with
              m_spriteParticleData := spriteBuffer st.world system particle timeS
                (st.world.particles particle).m_maxAmount.toNat }
          trailCalls := st.trailCalls ++ spriteTrailCalls st.world system particle trailEmits timeS
            ((st.world.particles particle).m_particleData.take
              (st.world.particles particle).m_maxAmount.toNat) } := by
  simp only [processSpriteParticle]
  exact processSprite_loop st.world st.trailCalls system particle trailEmits timeS
    (st.world.particles particle).m_maxAmount.toNat

theorem setParticle_particleData (w : World) (particle : Ptr) (v : QQuick3DParticle)
    (h : v.m_particleData = (w.particles particle).m_particleData) (q : Ptr) :
    ((w.setParticle particle v).particles q).m_particleData = (w.particles q).m_particleData := by
  by_cases hq : q = particle
  · subst hq
    simp [World.setParticle, h]
  · simp [World.setParticle, Function.update_noteq hq]

theorem animateParticle_particleData (self : Ptr) (timeS : ℚ) (st : TickState) (particle : Ptr)
    (q : Ptr) :
    ((animateParticle self timeS st particle).world.particles q).m_particleData
      = (st.world.particles q).m_particleData := by
  obtain ⟨E, hE⟩ := collectTrailEmits_world st.world self particle
  have hp : (collectTrailEmits st.world self particle).1.particles = st.world.particles := by
    rw [hE]
  unfold animateParticle
  simp only
  split
  · rw [processSpriteParticle_eq]
    refine (setParticle_particleData _ _ _ ?_ q).trans ?_
    · rfl
    · simp only [hp]
  · rw [processModelParticle_eq]
    refine (setParticle_particleData _ _ _ ?_ q).trans ?_
    · rfl
    · simp only [hp]

theorem animateParticle_noTrail (self : Ptr) (timeS : ℚ) (st : TickState) (particle : Ptr)
    (h : (st.world.systems self).m_trailEmitters = []) :
    (animateParticle self timeS st particle).trailCalls = st.trailCalls
    ∧ (animateParticle self timeS st particle).world.systems = st.world.systems := by
  have hc : collectTrailEmits st.world self particle = (st.world, []) := by
    simp [collectTrailEmits, h]
  unfold animateParticle
  simp only [hc]
  split
  · rw [processSpriteParticle_eq]
    simp [spriteTrailCalls, emitTrails, World.setParticle]
  · rw [processModelParticle_eq]
    simp [modelTrailCalls, emitTrails, World.setParticle]

theorem animateParticles_noTrail (self : Ptr) (timeS : ℚ) (ps : List Ptr) (st : TickState)
    (h : (st.world.systems self).m_trailEmitters = []) :
    (ps.foldl (animateParticle self timeS) st).trailCalls = st.trailCalls
    ∧ ∀ q, ((ps.foldl (animateParticle self timeS) st).world.particles q).m_particleData
        = (st.world.particles q).m_particleData := by
  induction ps generalizing st with
  | nil => exact ⟨rfl, fun _ => rfl⟩
  | cons p rest ih =>
    obtain ⟨h1, h2⟩ := animateParticle_noTrail self timeS st p h
    have h3 : ((animateParticle self timeS st p).world.systems self).m_trailEmitters = [] := by
      rw [h2]
      exact h
    obtain ⟨i1, i2⟩ := ih (animateParticle self timeS st p) h3
    rw [List.foldl_cons]
    refine ⟨i1.trans h1, ?_⟩
    intro q
    rw [i2 q]
    exact animateParticle_particleData self timeS st p q

/-- C11. Evaluating a particle at tick time T, with no trail emits passed for
it, changes nothing but the particle's instance table and transparency flag
(model particle) or its sprite buffer (sprite particle): the records of
`m_particleData` of every particle, that is start position, velocity,
rotation, rotation velocity, start and end size, start colour, start time and
life time, stay as they are, and no emitTrailParticles call is made. Whatever
trail emits are passed, the writes of processModelParticle and
processSpriteParticle themselves leave the records of the processed particle
as they are. The same holds for the whole loop over the particles of a tick
of a system without trail emitters. -/
theorem C11_evaluation_keeps_emission_attributes (st : TickState) (system particle : Ptr)
    (timeS : ℚ) :
    (processModelParticle st system particle [] timeS
      = { world := st.world.setParticle particle
            { st.world.particles particle with
              m_instanceTable := modelTable st.world system particle timeS
                ((st.world.particles particle).m_particleData.take
                  (st.world.particles particle).m_maxAmount.toNat)
              m_hasTransparency := modelSemiTransparent st.world system particle timeS
                ((st.world.particles particle).m_particleData.take
                  (st.world.particles particle).m_maxAmount.toNat) }
          trailCalls := st.trailCalls })
    ∧ (processSpriteParticle st system particle [] timeS
      = { world := st.world.setParticle particle
            { st.world.particles particle with
              m_spriteParticleData := spriteBuffer st.world system particle timeS
                (st.world.particles particle).m_maxAmount.toNat }
          trailCalls := st.trailCalls })
    ∧ (∀ q, ((processModelParticle st system particle [] timeS).world.particles q).m_particleData
        = (st.world.particles q).m_particleData)
    ∧ (∀ q, ((processSpriteParticle st system particle [] timeS).world.particles q).m_particleData
        = (st.world.particles q).m_particleData)
    ∧ (∀ trailEmits,
        ((processModelParticle st system particle trailEmits timeS).world.particles
            particle).m_particleData = (st.world.particles particle).m_particleData
        ∧ ((processSpriteParticle st system particle trailEmits timeS).world.particles
            particle).m_particleData = (st.world.particles particle).m_particleData)
    ∧ ((st.world.systems system).m_trailEmitters = [] →
        ∀ (ps : List Ptr),
          (ps.foldl (animateParticle system timeS) st).trailCalls = st.trailCalls
          ∧ ∀ q, ((ps.foldl (animateParticle system timeS) st).world.particles q).m_particleData
              = (st.world.particles q).m_particleData) := by
  refine ⟨?_, ?_, ?_, ?_, ?_, ?_⟩
  · rw [processModelParticle_eq]
    simp [modelTrailCalls, emitTrails]
  · rw [processSpriteParticle_eq]
    simp [spriteTrailCalls, emitTrails]
  · intro q
    rw [processModelParticle_eq]
    refine setParticle_particleData _ _ _ ?_ q
    rfl
  · intro q
    rw [processSpriteParticle_eq]
    refine setParticle_particleData _ _ _ ?_ q
    rfl
  · intro trailEmits
    rw [processModelParticle_eq, processSpriteParticle_eq]
    refine ⟨setParticle_particleData _ _ _ ?_ particle, setParticle_particleData _ _ _ ?_ particle⟩
    · rfl
    · rfl
  · intro h ps
    exact animateParticles_noTrail system timeS ps st h

/-! ## Trail emission -/

theorem collectTrailStep_snd (particle : Ptr) (acc : World × List TrailEmits) (emitter : Ptr) :
    (collectTrailStep particle acc emitter).2
      = if (acc.1.emitters emitter).m_follow = some particle
            ∧ (0 < (getEmitAmount acc.1 emitter).1
                ∨ (acc.1.emitters emitter).hasBursts = true) then
          acc.2 ++ [⟨emitter, (getEmitAmount acc.1 emitter).1⟩]
        else acc.2 := by
  obtain ⟨u, hu⟩ := getEmitAmount_world acc.1 emitter
  have hb : ((getEmitAmount acc.1 emitter).2.emitters emitter).hasBursts
      = (acc.1.emitters emitter).hasBursts := by
    rw [hu]
    simp [World.setEmitter, hasBursts]
  unfold collectTrailStep
  dsimp only
  rw [hb]
  by_cases h : (acc.1.emitters emitter).m_follow = some particle
  · simp only [h, if_true, true_and]
    by_cases h2 : 0 < (getEmitAmount acc.1 emitter).1
        ∨ (acc.1.emitters emitter).hasBursts = true
    · have h3 : (decide ((getEmitAmount acc.1 emitter).1 > 0)
          || (acc.1.emitters emitter).hasBursts) = true := by
        simpa using h2
      simp only [h3, if_true, h2]
    · have h3 : ¬ (decide ((getEmitAmount acc.1 emitter).1 > 0)
          || (acc.1.emitters emitter).hasBursts) = true := by
        simpa using h2
      simp only [h3, if_false, h2, Bool.false_eq_true]
  · simp only [h, if_false, false_and]

theorem collectTrailEmits_eq (w : World) (self particle : Ptr)
    (hnd : (w.systems self).m_trailEmitters.Nodup) :
    (collectTrailEmits w self particle).2 = trailEmitsOf w self particle := by
  unfold collectTrailEmits trailEmitsOf
  have key : ∀ (l : List Ptr) (acc : World × List TrailEmits), l.Nodup →
      acc.1.systems = w.systems → (∀ e ∈ l, acc.1.emitters e = w.emitters e) →
      (l.foldl (collectTrailStep particle) acc).2
        = acc.2 ++ l.filterMap (fun emitter =>
            if (w.emitters emitter).m_follow = some particle
                ∧ (0 < (getEmitAmount w emitter).1 ∨ (w.emitters emitter).hasBursts = true) then
              some ⟨emitter, (getEmitAmount w emitter).1⟩
            else none) := by
    intro l
    induction l with
    | nil => intro acc _ _ _; simp
    | cons a rest ih =>
      intro acc hn hs he
      rw [List.foldl_cons]
      have hn2 := List.nodup_cons.mp hn
      have hea := he a (List.mem_cons_self a rest)
      have hamt : (getEmitAmount acc.1 a).1 = (getEmitAmount w a).1 :=
        getEmitAmount_congr acc.1 w a hea hs
      have h1 : (collectTrailStep particle acc a).1.systems = w.systems := by
        rw [collectTrailStep_fst]
        obtain ⟨u, hu⟩ := getEmitAmount_world acc.1 a
        split_ifs
        · rw [hu]
          exact hs
        · exact hs
      have h2 : ∀ e ∈ rest, (collectTrailStep particle acc a).1.emitters e = w.emitters e := by
        intro e hmem
        have hne : e ≠ a := fun h3 => hn2.1 (h3 ▸ hmem)
        rw [collectTrailStep_fst]
        obtain ⟨u, hu⟩ := getEmitAmount_world acc.1 a
        split_ifs
        · rw [hu]
          simp only [World.setEmitter, Function.update_noteq hne]
          exact he e (List.mem_cons_of_mem a hmem)
        · exact he e (List.mem_cons_of_mem a hmem)
      rw [ih _ hn2.2 h1 h2, collectTrailStep_snd, hamt, hea, List.filterMap_cons]
      by_cases hc : (w.emitters a).m_follow = some particle
          ∧ (0 < (getEmitAmount w a).1 ∨ (w.emitters a).hasBursts = true)
      · simp only [hc, and_self, if_true, List.append_assoc, List.singleton_append]
      · simp only [hc, if_false]
  have := key (w.systems self).m_trailEmitters (w, []) hnd rfl (fun _ _ => rfl)
  simpa using this

theorem mem_trailEmitsOf (w : World) (self particle : Ptr) (t : TrailEmits) :
    t ∈ trailEmitsOf w self particle
      ↔ t.emitter ∈ (w.systems self).m_trailEmitters
        ∧ (w.emitters t.emitter).m_follow = some particle
        ∧ t.amount = (getEmitAmount w t.emitter).1
        ∧ (0 < (getEmitAmount w t.emitter).1 ∨ (w.emitters t.emitter).hasBursts = true) := by
  unfold trailEmitsOf
  rw [List.mem_filterMap]
  constructor
  · rintro ⟨e, he, h⟩
    split_ifs at h with hc
    simp only [Option.some.injEq] at h
    subst h
    exact ⟨he, hc.1, rfl, hc.2⟩
  · rintro ⟨h1, h2, h3, h4⟩
    refine ⟨t.emitter, h1, ?_⟩
    rw [if_pos ⟨h2, h4⟩, ← h3]

theorem mem_take_iff_index {α : Type} (l : List α) (n : Nat) (a : α) :
    a ∈ l.take n ↔ ∃ i, i < n ∧ l[i]? = some a := by
  rw [List.mem_iff_getElem?]
  constructor
  · rintro ⟨i, hi⟩
    rw [List.getElem?_take] at hi
    split_ifs at hi with h
    exact ⟨i, h, hi⟩
  · rintro ⟨i, h, hi⟩
    exact ⟨i, by rw [List.getElem?_take, if_pos h]; exact hi⟩

theorem mem_emitTrails_flatMap (states : List QQuick3DParticleDataCurrent)
    (trailEmits : List TrailEmits) (tc : TrailCall) :
    tc ∈ states.flatMap (emitTrails trailEmits)
      ↔ tc.currentData ∈ states ∧ (⟨tc.emitter, tc.amount⟩ : TrailEmits) ∈ trailEmits := by
  simp only [List.mem_flatMap, emitTrails, List.mem_map]
  constructor
  · rintro ⟨c, hc, t, ht, rfl⟩
    exact ⟨hc, ht⟩
  · rintro ⟨hc, ht⟩
    exact ⟨tc.currentData, hc, ⟨tc.emitter, tc.amount⟩, ht, rfl⟩

theorem animateParticle_model (self : Ptr) (timeS : ℚ) (st : TickState) (particle : Ptr)
    (hnd : (st.world.systems self).m_trailEmitters.Nodup)
    (hk : (st.world.particles particle).kind = ParticleKind.ModelParticle) :
    (animateParticle self timeS st particle).trailCalls
        = st.trailCalls ++ modelTrailCalls st.world self particle
            (trailEmitsOf st.world self particle) timeS
            ((st.world.particles particle).m_particleData.take
              (st.world.particles particle).m_maxAmount.toNat)
    ∧ ((animateParticle self timeS st particle).world.particles particle).m_instanceTable
        = modelTable st.world self particle timeS
            ((st.world.particles particle).m_particleData.take
              (st.world.particles particle).m_maxAmount.toNat) := by
  obtain ⟨E, hE⟩ := collectTrailEmits_world st.world self particle
  have hc2 := collectTrailEmits_eq st.world self particle hnd
  have hev : evaluateModelRecord (collectTrailEmits st.world self particle).1 self particle timeS
      = evaluateModelRecord st.world self particle timeS := by
    funext d
    rw [hE]
    exact evaluateModelRecord_emitters st.world E self particle timeS d
  have hp : (collectTrailEmits st.world self particle).1.particles = st.world.particles := by
    rw [hE]
  unfold animateParticle
  simp only [hp, hk]
  rw [processModelParticle_eq]
  simp only [hp, hc2, modelTrailCalls, modelTable, hev, World.setParticle, Function.update_same,
    and_self]

theorem animateParticle_sprite (self : Ptr) (timeS : ℚ) (st : TickState) (particle : Ptr)
    (hnd : (st.world.systems self).m_trailEmitters.Nodup)
    (hk : (st.world.particles particle).kind = ParticleKind.SpriteParticle) :
    (animateParticle self timeS st particle).trailCalls
        = st.trailCalls ++ spriteTrailCalls st.world self particle
            (trailEmitsOf st.world self particle) timeS
            ((st.world.particles particle).m_particleData.take
              (st.world.particles particle).m_maxAmount.toNat)
    ∧ ((animateParticle self timeS st particle).world.particles particle).m_spriteParticleData
        = spriteBuffer st.world self particle timeS
            (st.world.particles particle).m_maxAmount.toNat := by
  obtain ⟨E, hE⟩ := collectTrailEmits_world st.world self particle
  have hc2 := collectTrailEmits_eq st.world self particle hnd
  have hev : evaluateSpriteRecord (collectTrailEmits st.world self particle).1 self particle timeS
      = evaluateSpriteRecord st.world self particle timeS := by
    funext d
    rw [hE]
    exact evaluateSpriteRecord_emitters st.world E self particle timeS d
  have hp : (collectTrailEmits st.world self particle).1.particles = st.world.particles := by
    rw [hE]
  unfold animateParticle
  simp only [hp, hk]
  rw [processSpriteParticle_eq]
  simp only [hp, hc2, spriteTrailCalls, hev, World.setParticle, Function.update_same, true_and]
  funext j
  simp only [spriteBuffer, spriteSlot, hp, hev]

/-- C13. While the tick processes particle P (every trail emitter registered
once), the trail emits collected are, in list order, the registered trail
emitters E with E.follow() = P and E.getEmitAmount() > 0 or E.hasBursts(),
each with the amount getEmitAmount() returned. emitTrailParticles is called
once for every alive record of P (in slot order) and every collected trail
emit, and for no other pair; the state passed is the derived state of that
record after common processing, alignment, scale, fades and all affectors,
the same state that is committed to the instance table (model particle) or
the sprite slot (sprite particle). -/
theorem C13_trail_emission_uses_derived_state (st : TickState) (self particle : Ptr) (timeS : ℚ)
    (hnd : (st.world.systems self).m_trailEmitters.Nodup) :
    (collectTrailEmits st.world self particle).2 = trailEmitsOf st.world self particle
    ∧ ((st.world.particles particle).kind = ParticleKind.ModelParticle →
        (animateParticle self timeS st particle).trailCalls
            = st.trailCalls
              ++ (((st.world.particles particle).m_particleData.take
                    (st.world.particles particle).m_maxAmount.toNat).filterMap
                  (evaluateModelRecord st.world self particle timeS)).flatMap
                (fun c => (trailEmitsOf st.world self particle).map
                  (fun t => (⟨t.emitter, c, t.amount⟩ : TrailCall)))
        ∧ ((animateParticle self timeS st particle).world.particles particle).m_instanceTable
            = (((st.world.particles particle).m_particleData.take
                  (st.world.particles particle).m_maxAmount.toNat).filterMap
                (evaluateModelRecord st.world self particle timeS)).map instanceOfCurrent
        ∧ ∀ tc : TrailCall,
            tc ∈ modelTrailCalls st.world self particle (trailEmitsOf st.world self particle)
                  timeS ((st.world.particles particle).m_particleData.take
                    (st.world.particles particle).m_maxAmount.toNat)
              ↔ (tc.emitter ∈ (st.world.systems self).m_trailEmitters
                  ∧ (st.world.emitters tc.emitter).m_follow = some particle
                  ∧ tc.amount = (getEmitAmount st.world tc.emitter).1
                  ∧ (0 < (getEmitAmount st.world tc.emitter).1
                      ∨ (st.world.emitters tc.emitter).hasBursts = true))
                ∧ ∃ i d, i < (st.world.particles particle).m_maxAmount.toNat
                    ∧ (st.world.particles particle).m_particleData[i]? = some d
                    ∧ (d.startTime ≤ timeS ∧ timeS ≤ f32 (d.startTime + d.lifetime))
                    ∧ evaluateModelRecord st.world self particle timeS d = some tc.currentData)
    ∧ ((st.world.particles particle).kind = ParticleKind.SpriteParticle →
        (animateParticle self timeS st particle).trailCalls
            = st.trailCalls
              ++ (((st.world.particles particle).m_particleData.take
                    (st.world.particles particle).m_maxAmount.toNat).filterMap
                  (evaluateSpriteRecord st.world self particle timeS)).flatMap
                (fun r => (trailEmitsOf st.world self particle).map
                  (fun t => (⟨t.emitter, r.1, t.amount⟩ : TrailCall)))
        ∧ (∀ i d r, i < (st.world.particles particle).m_maxAmount.toNat →
            (st.world.particles particle).m_particleData[i]? = some d →
            evaluateSpriteRecord st.world self particle timeS d = some r →
            ((animateParticle self timeS st particle).world.particles
                particle).m_spriteParticleData i = spriteOfCurrent r.1 r.2)
        ∧ ∀ tc : TrailCall,
            tc ∈ spriteTrailCalls st.world self particle (trailEmitsOf st.world self particle)
                  timeS ((st.world.particles particle).m_particleData.take
                    (st.world.particles particle).m_maxAmount.toNat)
              ↔ (tc.emitter ∈ (st.world.systems self).m_trailEmitters
                  ∧ (st.world.emitters tc.emitter).m_follow = some particle
                  ∧ tc.amount = (getEmitAmount st.world tc.emitter).1
                  ∧ (0 < (getEmitAmount st.world tc.emitter).1
                      ∨ (st.world.emitters tc.emitter).hasBursts = true))
                ∧ ∃ i d timeChange, i < (st.world.particles particle).m_maxAmount.toNat
                    ∧ (st.world.particles particle).m_particleData[i]? = some d
                    ∧ (d.startTime ≤ timeS ∧ timeS ≤ f32 (d.startTime + d.lifetime))
                    ∧ evaluateSpriteRecord st.world self particle timeS d
                        = some (tc.currentData, timeChange)) := by
  refine ⟨collectTrailEmits_eq st.world self particle hnd, ?_, ?_⟩
  · intro hk
    obtain ⟨h1, h2⟩ := animateParticle_model self timeS st particle hnd hk
    refine ⟨?_, ?_, ?_⟩
    · rw [h1]
      rfl
    · rw [h2]
      simp only [modelTable, List.map_filterMap]
    · intro tc
      unfold modelTrailCalls
      rw [mem_emitTrails_flatMap, mem_trailEmitsOf, List.mem_filterMap]
      constructor
      · rintro ⟨⟨d, hd, he⟩, ht⟩
        obtain ⟨i, hi, hid⟩ := (mem_take_iff_index _ _ _).mp hd
        have halive := (evaluateModelRecord_isSome st.world self particle timeS d).mp
          (by rw [he]; rfl)
        exact ⟨ht, i, d, hi, hid, halive, he⟩
      · rintro ⟨ht, i, d, hi, hid, -, he⟩
        exact ⟨⟨d, (mem_take_iff_index _ _ _).mpr ⟨i, hi, hid⟩, he⟩, ht⟩
  · intro hk
    obtain ⟨h1, h2⟩ := animateParticle_sprite self timeS st particle hnd hk
    refine ⟨?_, ?_, ?_⟩
    · rw [h1]
      rfl
    · intro i d r hi hid he
      rw [h2]
      simp only [spriteBuffer, hi, if_true, hid, spriteSlot, he]
    · intro tc
      unfold spriteTrailCalls
      have hmem : tc ∈ (((st.world.particles particle).m_particleData.take
            (st.world.particles particle).m_maxAmount.toNat).filterMap
              (evaluateSpriteRecord st.world self particle timeS)).flatMap
            (fun r => emitTrails (trailEmitsOf st.world self particle) r.1)
          ↔ (∃ r, r ∈ ((st.world.particles particle).m_particleData.take
                (st.world.particles particle).m_maxAmount.toNat).filterMap
                  (evaluateSpriteRecord st.world self particle timeS) ∧ r.1 = tc.currentData)
            ∧ (⟨tc.emitter, tc.amount⟩ : TrailEmits) ∈ trailEmitsOf st.world self particle := by
        simp only [List.mem_flatMap, emitTrails, List.mem_map]
        constructor
        · rintro ⟨r, hr, t, ht, rfl⟩
          exact ⟨⟨r, hr, rfl⟩, ht⟩
        · rintro ⟨⟨r, hr, hrc⟩, ht⟩
          exact ⟨r, hr, ⟨tc.emitter, tc.amount⟩, ht, by rw [hrc]⟩
      rw [hmem, mem_trailEmitsOf]
      constructor
      · rintro ⟨⟨r, hr, hrc⟩, ht⟩
        obtain ⟨d, hd, he⟩ := List.mem_filterMap.mp hr
        obtain ⟨i, hi, hid⟩ := (mem_take_iff_index _ _ _).mp hd
        have halive := (evaluateSpriteRecord_isSome st.world self particle timeS d).mp
          (by rw [he]; rfl)
        refine ⟨ht, i, d, r.2, hi, hid, halive, ?_⟩
        rw [he, ← hrc]
      · rintro ⟨ht, i, d, timeChange, hi, hid, -, he⟩
        exact ⟨⟨(tc.currentData, timeChange),
          List.mem_filterMap.mpr ⟨d, (mem_take_iff_index _ _ _).mpr ⟨i, hi, hid⟩, he⟩, rfl⟩, ht⟩

theorem C13_trail_emission_uses_derived_state_witness :
    (exampleTrailWorld.systems 0).m_trailEmitters.Nodup
    ∧ (exampleTrailWorld.particles 0).m_particleData = [exampleMovingRecord]
    ∧ exampleMovingRecord.startPosition = ⟨0, 0, 0⟩
    ∧ (animateParticle 0 3 ⟨exampleTrailWorld, []⟩ 0).trailCalls
        = [⟨1, ⟨⟨1, 0, 0⟩, ⟨0, 0, 0⟩, ⟨1, 1, 1⟩, ⟨255, 255, 255, 255⟩⟩, 0⟩] := by
  have hnd : (exampleTrailWorld.systems 0).m_trailEmitters.Nodup := List.nodup_singleton 1
  have h := (C13_trail_emission_uses_derived_state ⟨exampleTrailWorld, []⟩ 0 0 3 hnd).2.2 rfl
  refine ⟨hnd, rfl, rfl, ?_⟩
  rw [h.1]
  have h5 : f32 ((2 : ℚ) + 3) = 5 := by
    have := f32_intCast 5 (by norm_num)
    norm_num at this ⊢
    exact this
  have h1 : f32 ((3 : ℚ) - 2) = 1 := by
    have := f32_intCast 1 (by norm_num)
    norm_num at this ⊢
    exact this
  have h2 : f32 ((3 : ℚ) - 1) = 2 := by
    have := f32_intCast 2 (by norm_num)
    norm_num at this ⊢
    exact this
  have he : evaluateSpriteRecord exampleTrailWorld 0 0 3 exampleMovingRecord
      = some (⟨⟨1, 0, 0⟩, ⟨0, 0, 0⟩, ⟨1, 1, 1⟩, ⟨255, 255, 255, 255⟩⟩, 1 / 3) := by
    simp only [evaluateSpriteRecord, exampleTrailWorld, exampleMovingRecord, exampleWorld,
      exampleParticle, exampleSystemAt, exampleSystem, processParticleCommon,
      processParticleFadeInOut, applyAffectors, QVector3D.add, QVector3D.scale,
      QQuick3DParticleDataCurrent.init, QVector3D.zero, h5, h1, h2, lifeFraction]
    norm_num
  have ht : trailEmitsOf exampleTrailWorld 0 0 = [⟨1, 0⟩] := by
    simp [trailEmitsOf, exampleTrailWorld, exampleSystemAt, exampleSystem, getEmitAmount,
      exampleEmitter, hasBursts]
  have hd : (exampleTrailWorld.particles 0).m_particleData.take
      (exampleTrailWorld.particles 0).m_maxAmount.toNat = [exampleMovingRecord] := rfl
  simp only [hd, List.filterMap_cons, List.filterMap_nil, he, ht]
  rfl

/-! ## Declared bursts, `burst()` and an emit rate of zero -/

theorem getEmitAmount_rate_nonpos (w : World) (self : Ptr)
    (h : (w.emitters self).m_emitRate ≤ 0) : getEmitAmount w self = (0, w) := by
  unfold getEmitAmount
  dsimp only
  split
  · rfl
  · split_ifs <;> rfl

theorem emitRateParticles_rate_nonpos (w1 : World) (self sys particle : Ptr)
    (h : (w1.emitters self).m_emitRate ≤ 0) : emitRateParticles w1 self sys particle = w1 := by
  unfold emitRateParticles
  rw [getEmitAmount_rate_nonpos w1 self h]
  simp

theorem generateBurstLoop_times (self particle : Ptr) (transform : QMatrix4x4)
    (centerPos : QVector3D) (sys : Ptr) (bursts : List QQuick3DParticleEmitBurst) (w : World)
    (hsys : (w.emitters self).m_system = some sys) :
    emittedStartTimes (generateBurstLoop self particle transform centerPos w bursts).1 self
        EmitSite.declaredBurst
      = emittedStartTimes w self EmitSite.declaredBurst
        ++ (bursts.takeWhile (fun b => decide (0 < b.amount))).flatMap declaredBurstStartTimes
    ∧ (generateBurstLoop self particle transform centerPos w bursts).2
        = bursts.all (fun b => decide (0 < b.amount)) := by
  induction bursts generalizing w with
  | nil => simp [generateBurstLoop]
  | cons b rest ih =>
    simp only [generateBurstLoop]
    by_cases hb : b.amount ≤ 0
    · have hb2 : ¬ 0 < b.amount := not_lt.mpr hb
      simp [hb, hb2, List.takeWhile_cons]
    · have hb2 : 0 < b.amount := not_le.mp hb
      simp only [hb, if_false]
      obtain ⟨hf, _, ht⟩ := burstInner_spec self particle transform centerPos
        ((b.duration : ℚ) / 1000 / b.amount) sys b.amount.toNat w ((b.time : ℚ) / 1000) hsys
      have hf2 := hf.trans (setParticle_frame _ particle
        ((((List.range b.amount.toNat).foldl
          (fun (acc : World × ℚ) _ =>
            (emitParticle acc.1 self EmitSite.declaredBurst particle acc.2 transform centerPos,
             acc.2 + (b.duration : ℚ) / 1000 / b.amount))
          (w, (b.time : ℚ) / 1000)).1.particles particle).updateBurstIndex b.amount) rfl rfl)
      have hsys2 := hsys
      rw [← hf2.emitters] at hsys2
      obtain ⟨ih1, ih2⟩ := ih _ hsys2
      refine ⟨?_, ?_⟩
      · rw [ih1]
        have hset : ∀ (w0 : World) (v : QQuick3DParticle),
            emittedStartTimes (w0.setParticle particle v) self EmitSite.declaredBurst
              = emittedStartTimes w0 self EmitSite.declaredBurst := fun _ _ => rfl
        rw [hset, ht self EmitSite.declaredBurst]
        simp [hb2, List.takeWhile_cons, declaredBurstStartTimes]
      · rw [ih2]
        simp [hb2]

theorem generateEmitBursts_eq (w : World) (self sys particle : Ptr)
    (hsys : (w.emitters self).m_system = some sys)
    (hp : (w.emitters self).m_particle = some particle)
    (hps : (w.particles particle).m_system = some sys)
    (hne : (w.emitters self).m_emitBursts ≠ []) :
    generateEmitBursts w self
      = if (generateBurstLoop self particle (w.emitters self).particleTransform
              (w.emitters self).position
              (w.setParticle particle ((w.particles particle).reset w.defaultData))
              (w.emitters self).m_emitBursts).2 = true then
          (generateBurstLoop self particle (w.emitters self).particleTransform
              (w.emitters self).position
              (w.setParticle particle ((w.particles particle).reset w.defaultData))
              (w.emitters self).m_emitBursts).1.setEmitter self
            { w.emitters self with m_burstGenerated := true }
        else
          (generateBurstLoop self particle (w.emitters self).particleTransform
              (w.emitters self).position
              (w.setParticle particle ((w.particles particle).reset w.defaultData))
              (w.emitters self).m_emitBursts).1 := by
  have hsys0 : ((w.setParticle particle ((w.particles particle).reset
      w.defaultData)).emitters self).m_system = some sys := hsys
  have hem : (generateBurstLoop self particle (w.emitters self).particleTransform
      (w.emitters self).position
      (w.setParticle particle ((w.particles particle).reset w.defaultData))
      (w.emitters self).m_emitBursts).1.emitters = w.emitters :=
    (generateBurstLoop_spec self particle (w.emitters self).particleTransform
      (w.emitters self).position sys (w.emitters self).m_emitBursts _ hsys0).1.emitters
  have hempty : ¬ (w.emitters self).m_emitBursts.isEmpty = true := by
    simpa [List.isEmpty_iff] using hne
  have hps2 : ¬ (w.particles particle).m_system ≠ some sys := not_not.mpr hps
  simp only [generateEmitBursts, hsys, hp]
  rw [if_neg hps2, if_neg hempty]
  simp only [hem, hsys, hp]

theorem generateEmitBursts_times (w : World) (self sys particle : Ptr)
    (hsys : (w.emitters self).m_system = some sys)
    (hp : (w.emitters self).m_particle = some particle)
    (hps : (w.particles particle).m_system = some sys)
    (hne : (w.emitters self).m_emitBursts ≠ []) :
    emittedStartTimes (generateEmitBursts w self) self EmitSite.declaredBurst
      = emittedStartTimes w self EmitSite.declaredBurst
        ++ ((w.emitters self).m_emitBursts.takeWhile (fun b => decide (0 < b.amount))).flatMap
            declaredBurstStartTimes
    ∧ ((generateEmitBursts w self).emitters self).m_burstGenerated
      = if (w.emitters self).m_emitBursts.all (fun b => decide (0 < b.amount)) = true then true
        else (w.emitters self).m_burstGenerated := by
  have hsys0 : ((w.setParticle particle ((w.particles particle).reset
      w.defaultData)).emitters self).m_system = some sys := hsys
  obtain ⟨h1, h2⟩ := generateBurstLoop_times self particle (w.emitters self).particleTransform
    (w.emitters self).position sys (w.emitters self).m_emitBursts _ hsys0
  have hem : (generateBurstLoop self particle (w.emitters self).particleTransform
      (w.emitters self).position
      (w.setParticle particle ((w.particles particle).reset w.defaultData))
      (w.emitters self).m_emitBursts).1.emitters = w.emitters :=
    (generateBurstLoop_spec self particle (w.emitters self).particleTransform
      (w.emitters self).position sys (w.emitters self).m_emitBursts _ hsys0).1.emitters
  rw [generateEmitBursts_eq w self sys particle hsys hp hps hne, h2]
  by_cases hall : (w.emitters self).m_emitBursts.all (fun b => decide (0 < b.amount)) = true
  · simp only [hall, if_true]
    refine ⟨?_, by simp [World.setEmitter]⟩
    exact h1
  · simp only [hall, if_false, Bool.false_eq_true]
    exact ⟨h1, by rw [hem]⟩

theorem emitParticles_generated (w0 : World) (self : Ptr)
    (hg : (w0.emitters self).m_burstGenerated = true) (e : Ptr) :
    emittedStartTimes (emitParticles w0 self) e EmitSite.declaredBurst
      = emittedStartTimes w0 e EmitSite.declaredBurst := by
  rcases Option.eq_none_or_eq_some (w0.emitters self).m_system with hs | ⟨sys, hs⟩
  · simp only [emitParticles, hs]
  · by_cases hen : (w0.emitters self).m_enabled = true
    · rcases Option.eq_none_or_eq_some (w0.emitters self).m_particle with hp | ⟨particle, hp⟩
      · simp only [emitParticles, hs, hp, hen, Bool.not_true, Bool.false_eq_true, if_false]
      · by_cases hps : (w0.particles particle).m_system ≠ some sys
        · simp only [emitParticles, hs, hp, hen, Bool.not_true, Bool.false_eq_true, if_false]
          rw [if_pos hps]
        · have : emitParticles w0 self = emitRateParticles w0 self sys particle := by
            simp only [emitParticles, hs, hp, hen, hg, Bool.not_true, Bool.false_eq_true, if_false]
            rw [if_neg hps]
          rw [this]
          by_cases hr : 0 < (w0.emitters self).m_emitRate
          · have := (emitRateParticles_spec w0 self sys particle hs hen hr).2.2.2.2 e
              EmitSite.declaredBurst
            rw [this]
            simp
          · rw [emitRateParticles_rate_nonpos w0 self sys particle (not_lt.mp hr)]
    · simp only [Bool.not_eq_true] at hen
      simp only [emitParticles, hs, hen, Bool.not_false, if_true]

theorem generateEmitBursts_reset_first (w : World) (self sys particle : Ptr)
    (hsys : (w.emitters self).m_system = some sys)
    (hp : (w.emitters self).m_particle = some particle)
    (hps : (w.particles particle).m_system = some sys)
    (hne : (w.emitters self).m_emitBursts ≠ []) :
    generateEmitBursts w self
      = generateEmitBursts
          (w.setParticle particle ((w.particles particle).reset w.defaultData)) self := by
  have hps1 : ((w.setParticle particle ((w.particles particle).reset w.defaultData)).particles
      particle).m_system = some sys := by
    simp [World.setParticle, QQuick3DParticle.reset, hps]
  have hw : (w.setParticle particle ((w.particles particle).reset w.defaultData)).setParticle
      particle (((w.setParticle particle ((w.particles particle).reset w.defaultData)).particles
        particle).reset
          (w.setParticle particle ((w.particles particle).reset w.defaultData)).defaultData)
      = w.setParticle particle ((w.particles particle).reset w.defaultData) := by
    simp [World.setParticle, QQuick3DParticle.reset]
  have hwe : (w.setParticle particle ((w.particles particle).reset w.defaultData)).emitters
      = w.emitters := rfl
  rw [generateEmitBursts_eq w self sys particle hsys hp hps hne,
    generateEmitBursts_eq (w.setParticle particle ((w.particles particle).reset w.defaultData))
      self sys particle hsys hp hps1 hne]
  simp only [hw, hwe]

/-- C14. For an emitter with a system, a particle of that system and a
non-empty list of declared bursts, generateEmitBursts starts from the reset
record set of the particle (the result does not depend on the records held
before). It then emits, in list order, the bursts in front of the first burst
whose amount is zero or less: each of them exactly its amount of particles,
the i-th at `time/1000 + i * (duration/1000)/amount`. When every amount is
positive this is every burst, and the bursts are marked as generated, after
which emitParticles emits no declared burst again; registerEmitBurst and
unRegisterEmitBurst clear the mark. At a burst whose amount is zero or less
the function returns: the bursts behind it are not emitted and the mark is
left as it was. -/
theorem C14_generateEmitBursts_stops_at_empty_burst (w : World) (self sys particle : Ptr)
    (hsys : (w.emitters self).m_system = some sys)
    (hp : (w.emitters self).m_particle = some particle)
    (hps : (w.particles particle).m_system = some sys)
    (hne : (w.emitters self).m_emitBursts ≠ []) :
    generateEmitBursts w self
        = generateEmitBursts
            (w.setParticle particle ((w.particles particle).reset w.defaultData)) self
    ∧ emittedStartTimes (generateEmitBursts w self) self EmitSite.declaredBurst
        = emittedStartTimes w self EmitSite.declaredBurst
          ++ ((w.emitters self).m_emitBursts.takeWhile (fun b => decide (0 < b.amount))).flatMap
              declaredBurstStartTimes
    ∧ ((∀ b ∈ (w.emitters self).m_emitBursts, 0 < b.amount) →
        emittedStartTimes (generateEmitBursts w self) self EmitSite.declaredBurst
            = emittedStartTimes w self EmitSite.declaredBurst
              ++ (w.emitters self).m_emitBursts.flatMap declaredBurstStartTimes
        ∧ ((generateEmitBursts w self).emitters self).m_burstGenerated = true)
    ∧ (∀ pre b0 rest, (w.emitters self).m_emitBursts = pre ++ b0 :: rest →
        (∀ b ∈ pre, 0 < b.amount) → b0.amount ≤ 0 →
        emittedStartTimes (generateEmitBursts w self) self EmitSite.declaredBurst
            = emittedStartTimes w self EmitSite.declaredBurst
              ++ pre.flatMap declaredBurstStartTimes
        ∧ ((generateEmitBursts w self).emitters self).m_burstGenerated
            = (w.emitters self).m_burstGenerated)
    ∧ (∀ (w0 : World), (w0.emitters self).m_burstGenerated = true → ∀ e,
        emittedStartTimes (emitParticles w0 self) e EmitSite.declaredBurst
          = emittedStartTimes w0 e EmitSite.declaredBurst)
    ∧ (∀ (w0 : World) (b : QQuick3DParticleEmitBurst),
        ((registerEmitBurst w0 self b).emitters self).m_burstGenerated = false
        ∧ ((unRegisterEmitBurst w0 self b).emitters self).m_burstGenerated = false) := by
  obtain ⟨h1, h2⟩ := generateEmitBursts_times w self sys particle hsys hp hps hne
  refine ⟨generateEmitBursts_reset_first w self sys particle hsys hp hps hne, h1, ?_, ?_,
    fun w0 hg e => emitParticles_generated w0 self hg e, ?_⟩
  · intro hall
    have htake : (w.emitters self).m_emitBursts.takeWhile (fun b => decide (0 < b.amount))
        = (w.emitters self).m_emitBursts := by
      rw [List.takeWhile_eq_self_iff]
      intro b hb
      simpa using hall b hb
    have hall2 : (w.emitters self).m_emitBursts.all (fun b => decide (0 < b.amount)) = true := by
      rw [List.all_eq_true]
      intro b hb
      simpa using hall b hb
    rw [h1, h2, htake, if_pos hall2]
    exact ⟨rfl, rfl⟩
  · intro pre b0 rest hb hpre hb0
    have hb0n : ¬ 0 < b0.amount := not_lt.mpr hb0
    have htake : (w.emitters self).m_emitBursts.takeWhile (fun b => decide (0 < b.amount))
        = pre := by
      rw [hb]
      have hpre2 : ∀ b ∈ pre, (fun b : QQuick3DParticleEmitBurst => decide (0 < b.amount)) b = true := by
        intro b hbm
        simpa using hpre b hbm
      rw [List.takeWhile_append_of_pos hpre2]
      simp [List.takeWhile_cons, hb0n]
    have hall2 : ¬ (w.emitters self).m_emitBursts.all (fun b => decide (0 < b.amount)) = true := by
      rw [hb, List.all_eq_true]
      intro hall
      have := hall b0 (by simp)
      simp [hb0n] at this
    rw [h1, h2, htake, if_neg hall2]
    exact ⟨rfl, rfl⟩
  · intro w0 b
    simp [registerEmitBurst, unRegisterEmitBurst, World.setEmitter]

theorem C14_generateEmitBursts_stops_at_empty_burst_witness :
    ((exampleEmptyBurstWorld.emitters 0).m_emitBursts = [⟨0, 0, 0, 1⟩, ⟨2000, 50, 0, 2⟩]
      ∧ emittedStartTimes (generateEmitBursts exampleEmptyBurstWorld 0) 0 EmitSite.declaredBurst
          = []
      ∧ ((generateEmitBursts exampleEmptyBurstWorld 0).emitters 0).m_burstGenerated = false)
    ∧ ((exampleBurstWorld.emitters 0).m_emitBursts = [⟨0, 100, 0, 1⟩, ⟨2000, 50, 0, 2⟩]
      ∧ emittedStartTimes (generateEmitBursts exampleBurstWorld 0) 0 EmitSite.declaredBurst
          = List.replicate 100 0 ++ List.replicate 50 2
      ∧ ((generateEmitBursts exampleBurstWorld 0).emitters 0).m_burstGenerated = true) := by
  have hbad := (C14_generateEmitBursts_stops_at_empty_burst exampleEmptyBurstWorld 0 0 0 rfl rfl
    rfl (List.cons_ne_nil _ _)).2.2.2.1 [] ⟨0, 0, 0, 1⟩ [⟨2000, 50, 0, 2⟩] rfl
    (fun _ h => absurd h (List.not_mem_nil _)) (le_refl _)
  have hgood := (C14_generateEmitBursts_stops_at_empty_burst exampleBurstWorld 0 0 0 rfl rfl rfl
    (List.cons_ne_nil _ _)).2.2.1 (by
      intro b hb
      have hb2 : b = ⟨0, 100, 0, 1⟩ ∨ b = ⟨2000, 50, 0, 2⟩ := by
        simpa [exampleBurstWorld] using hb
      rcases hb2 with rfl | rfl <;> norm_num)
  refine ⟨⟨rfl, ?_, ?_⟩, ⟨rfl, ?_, ?_⟩⟩
  · rw [hbad.1]
    rfl
  · rw [hbad.2]
    rfl
  · rw [hgood.1]
    have h0 : emittedStartTimes exampleBurstWorld 0 EmitSite.declaredBurst = [] := rfl
    have hl : (exampleBurstWorld.emitters 0).m_emitBursts = [⟨0, 100, 0, 1⟩, ⟨2000, 50, 0, 2⟩] := rfl
    rw [h0, hl]
    simp only [List.flatMap_cons, List.flatMap_nil, declaredBurstStartTimes, List.nil_append,
      List.append_nil]
    have e1 : Int.toNat 100 = 100 := rfl
    have e2 : Int.toNat 50 = 50 := rfl
    rw [e1, e2]
    congr 1
    · rw [List.eq_replicate_iff]
      refine ⟨by rw [List.length_map, List.length_range], ?_⟩
      intro x hx
      obtain ⟨i, -, rfl⟩ := List.mem_map.mp hx
      norm_num
    · rw [List.eq_replicate_iff]
      refine ⟨by rw [List.length_map, List.length_range], ?_⟩
      intro x hx
      obtain ⟨i, -, rfl⟩ := List.mem_map.mp hx
      norm_num
  · exact hgood.2

/-! ## The records of a declared burst -/

theorem burstInner_fold (self particle : Ptr) (transform : QMatrix4x4) (centerPos : QVector3D)
    (timeStep : ℚ) (n : Nat) (w : World) (startTime : ℚ) :
    (List.range n).foldl
        (fun (acc : World × ℚ) _ =>
          (emitParticle acc.1 self EmitSite.declaredBurst particle acc.2 transform centerPos,
           acc.2 + timeStep))
        (w, startTime)
      = (((List.range n).map (fun (i : Nat) => startTime + i * timeStep)).foldl
          (fun w1 t => emitParticle w1 self EmitSite.declaredBurst particle t transform centerPos)
          w, startTime + n * timeStep) := by
  induction n with
  | zero => simp
  | succ n ih =>
    rw [List.range_succ, List.foldl_append, ih, List.map_append, List.foldl_append]
    simp only [List.foldl_cons, List.foldl_nil, List.map_cons, List.map_nil]
    congr 1
    push_cast
    ring

theorem reset_poolReady (p : QQuick3DParticle) (defaultData : QQuick3DParticleData)
    (h : 0 < p.m_maxAmount) : PoolReady (p.reset defaultData) := by
  unfold PoolReady QQuick3DParticle.reset
  simp only [List.length_replicate]
  refine ⟨?_, le_rfl, h, by omega, by omega⟩
  omega

/-- The records left by generateEmitBursts for one declared burst with a positive amount:
the pool is reset and call `i` writes the record with the start time
`time / 1000 + i * (duration / 1000) / amount` into slot `i`. -/
theorem generateEmitBursts_single_records (w : World) (self sys particle : Ptr)
    (b : QQuick3DParticleEmitBurst)
    (hsys : (w.emitters self).m_system = some sys)
    (hp : (w.emitters self).m_particle = some particle)
    (hps : (w.particles particle).m_system = some sys)
    (hb : (w.emitters self).m_emitBursts = [b]) (hpos : 0 < b.amount)
    (hmax : 0 < (w.particles particle).m_maxAmount) :
    RecordsWritten ((w.particles particle).reset w.defaultData)
        ((generateEmitBursts w self).particles particle) b.amount.toNat
        (fun (i : Nat) => (b.time : ℚ) / 1000 + i * ((b.duration : ℚ) / 1000 / b.amount))
    ∧ ((generateEmitBursts w self).emitters self).m_burstGenerated = true := by
  have hne : (w.emitters self).m_emitBursts ≠ [] := by rw [hb]; exact List.cons_ne_nil _ _
  have hnb : ¬ b.amount ≤ 0 := not_le.mpr hpos
  have hloop : generateBurstLoop self particle (w.emitters self).particleTransform
      (w.emitters self).position
      (w.setParticle particle ((w.particles particle).reset w.defaultData)) [b]
      = ((((List.range b.amount.toNat).map
            (fun (i : Nat) => (b.time : ℚ) / 1000 + i * ((b.duration : ℚ) / 1000 / b.amount))).foldl
          (fun w1 t => emitParticle w1 self EmitSite.declaredBurst particle t
            (w.emitters self).particleTransform (w.emitters self).position)
          (w.setParticle particle ((w.particles particle).reset w.defaultData))).setParticle
            particle
            (((((List.range b.amount.toNat).map
              (fun (i : Nat) =>
                (b.time : ℚ) / 1000 + i * ((b.duration : ℚ) / 1000 / b.amount))).foldl
              (fun w1 t => emitParticle w1 self EmitSite.declaredBurst particle t
                (w.emitters self).particleTransform (w.emitters self).position)
              (w.setParticle particle ((w.particles particle).reset w.defaultData))).particles
                particle).updateBurstIndex b.amount), true) := by
    simp only [generateBurstLoop, hnb, if_false, burstInner_fold]
  have hsys0 : ((w.setParticle particle ((w.particles particle).reset
      w.defaultData)).emitters self).m_system = some sys := hsys
  have hready0 : PoolReady ((w.setParticle particle ((w.particles particle).reset
      w.defaultData)).particles particle) := by
    simp only [World.setParticle, Function.update_same]
    exact reset_poolReady _ _ hmax
  obtain ⟨-, -, -, -, r5, r6⟩ := emitList_records self EmitSite.declaredBurst particle
    (w.emitters self).particleTransform (w.emitters self).position sys
    ((List.range b.amount.toNat).map
      (fun (i : Nat) => (b.time : ℚ) / 1000 + i * ((b.duration : ℚ) / 1000 / b.amount)))
    (w.setParticle particle ((w.particles particle).reset w.defaultData)) hsys0 hready0
  have hpool0 : (w.setParticle particle ((w.particles particle).reset w.defaultData)).particles
      particle = (w.particles particle).reset w.defaultData := by
    simp only [World.setParticle, Function.update_same]
  rw [hpool0] at r5 r6
  simp only [List.length_map, List.length_range] at r5 r6
  have hready1 : PoolReady ((w.particles particle).reset w.defaultData) :=
    reset_poolReady _ _ hmax
  rw [generateEmitBursts_eq w self sys particle hsys hp hps hne, hb, hloop]
  simp only [if_true, World.setEmitter, World.setParticle, Function.update_same,
    QQuick3DParticle.updateBurstIndex]
  refine ⟨⟨fun i _ => claimedIndex_range i _ hready1, ?_, ?_, r6⟩, trivial⟩
  · intro i hi hlater
    exact r5 i _ (by simp [hi]) hlater
  · intro hn i j hij hj
    exact claimedIndex_injective _ hready1 b.amount.toNat hn i j hij hj

/-! ## The calls made by an emission loop -/

theorem emitLoop_calls (self : Ptr) (site : EmitSite) (particle : Ptr) (transform : QMatrix4x4)
    (centerPos : QVector3D) (f : Nat → ℚ) (sys : Ptr) (n : Nat) (w : World)
    (hsys : (w.emitters self).m_system = some sys) :
    ∃ calls : List EmitCall,
      ((List.range n).foldl
          (fun w1 i => emitParticle w1 self site particle (f i) transform centerPos) w).emitTrace
        = w.emitTrace ++ calls
      ∧ calls.length = n
      ∧ calls.map (fun c => c.data.startTime) = (List.range n).map f
      ∧ ∀ c ∈ calls, c.emitter = self ∧ c.site = site ∧ c.particle = particle := by
  induction n with
  | zero => exact ⟨[], by simp⟩
  | succ n ih =>
    obtain ⟨calls, h1, h2, h3, h4⟩ := ih
    have hf := (emitLoop_spec self site particle transform centerPos f sys n w hsys).1
    have hsys1 : (((List.range n).foldl
        (fun w1 i => emitParticle w1 self site particle (f i) transform centerPos) w).emitters
          self).m_system = some sys := by
      rw [hf.emitters]; exact hsys
    rw [List.range_succ, List.foldl_append]
    simp only [List.foldl_cons, List.foldl_nil]
    rw [emitParticle_trace _ _ _ _ _ _ _ sys hsys1, h1]
    refine ⟨calls ++ [_], by rw [List.append_assoc], by simp [h2], ?_, ?_⟩
    · rw [List.map_append, List.map_append, h3]
      simp [emitData_startTime]
    · intro c hc
      rcases List.mem_append.mp hc with hc | hc
      · exact h4 c hc
      · rw [List.mem_singleton] at hc
        subst hc
        exact ⟨rfl, rfl, rfl⟩

theorem distributeStartTime_zero_span (time emitAmount : Int) (i : Nat) :
    distributeStartTime time 0 emitAmount i = (time : ℚ) / 1000 := by
  simp [distributeStartTime]

theorem burst_records (w : World) (self sys particle : Ptr)
    (hsys : (w.emitters self).m_system = some sys)
    (hen : (w.emitters self).m_enabled = true)
    (hp : (w.emitters self).m_particle = some particle)
    (hps : (w.particles particle).m_system = some sys)
    (hready : PoolReady (w.particles particle)) (count : Int) :
    RecordsWritten (w.particles particle)
        ((burst w self count 0 QVector3D.zero).particles particle)
        (min count (w.particles particle).m_maxAmount).toNat
        (fun _ => ((w.systems sys).m_time : ℚ) / 1000)
    ∧ PoolReady ((burst w self count 0 QVector3D.zero).particles particle)
    ∧ (∀ q, q ≠ particle → (burst w self count 0 QVector3D.zero).particles q = w.particles q) := by
  have hb : burst w self count 0 QVector3D.zero
      = emitParticlesBurst w self ⟨(w.systems sys).m_time, count, 0, QVector3D.zero⟩ := by
    simp only [burst, hsys]
  obtain ⟨r1, r2, -, r4⟩ := emitParticlesBurst_records w self sys particle hsys hen hp hps hready
    ⟨(w.systems sys).m_time, count, 0, QVector3D.zero⟩
  rw [hb]
  refine ⟨?_, r2, r4⟩
  have hf : distributeStartTime (w.systems sys).m_time 0
      (min count (w.particles particle).m_maxAmount)
      = fun _ => ((w.systems sys).m_time : ℚ) / 1000 := by
    funext i
    exact distributeStartTime_zero_span _ _ i
  rw [← hf]
  exact r1

/-- C15, counterexample. The emitter of the example scene is enabled and has
a system and a particle of that system with a pool of 100 records;
burst(150) makes 100 emitParticle calls, not 150, and the pool holds 100
records afterwards. -/
theorem C15_burst_clamped_to_pool :
    (exampleWorld.emitters 0).m_enabled = true
    ∧ (exampleWorld.emitters 0).m_system = some 0
    ∧ (exampleWorld.emitters 0).m_particle = some 0
    ∧ (exampleWorld.particles 0).m_system = some 0
    ∧ (exampleWorld.particles 0).m_maxAmount = 100
    ∧ (burst exampleWorld 0 150 0 QVector3D.zero).emitTrace.length = 100
    ∧ (burst exampleWorld 0 150 0 QVector3D.zero).emitTrace.length ≠ 150
    ∧ ((burst exampleWorld 0 150 0 QVector3D.zero).particles 0).m_particleData.length = 100
    ∧ (∃ d, ((burst exampleWorld 0 150 0 QVector3D.zero).particles 0).m_particleData[99]?
          = some d ∧ d.startTime = 0)
    ∧ ((burst exampleWorld 0 150 0 QVector3D.zero).particles 0).m_particleData[100]? = none := by
  have hlen : (burst exampleWorld 0 150 0 QVector3D.zero).emitTrace.length = 100 := by
    rw [burst_eq_loop exampleWorld 0 0 0 rfl rfl rfl rfl 150 0 QVector3D.zero]
    obtain ⟨calls, h1, h2, -, -⟩ := emitLoop_calls 0 EmitSite.burst 0
      (exampleWorld.emitters 0).particleTransform
      ((exampleWorld.emitters 0).position.add QVector3D.zero)
      (distributeStartTime (exampleWorld.systems 0).m_time 0
        (min 150 (exampleWorld.particles 0).m_maxAmount)) 0
      (min 150 (exampleWorld.particles 0).m_maxAmount).toNat exampleWorld rfl
    rw [h1, List.length_append, h2]
    rfl
  have hpool : exampleWorld.particles 0 = exampleParticle := rfl
  obtain ⟨⟨-, hwr, -, -⟩, hready, -⟩ := burst_records exampleWorld 0 0 0 rfl rfl rfl rfl
    (by rw [hpool]; exact example_poolReady) 150
  have hn : (min (150 : Int) (exampleWorld.particles 0).m_maxAmount).toNat = 100 := rfl
  rw [hn, hpool] at hwr
  have hsize : ((burst exampleWorld 0 150 0 QVector3D.zero).particles 0).m_particleData.length
      = 100 := by
    have h1 := hready.1
    have h2 : ((burst exampleWorld 0 150 0 QVector3D.zero).particles 0).m_maxAmount = 100 := by
      rw [burst_eq_loop exampleWorld 0 0 0 rfl rfl rfl rfl 150 0 QVector3D.zero]
      exact (emitLoop_spec 0 EmitSite.burst 0 _ _ _ 0 _ exampleWorld rfl).1.maxAmount 0
    rw [h2] at h1
    omega
  have h99 : (QQuick3DParticle.claimedIndex exampleParticle 99).toNat = 99 := by
    rw [example_claimedIndex 99 (by omega)]
    omega
  refine ⟨rfl, rfl, rfl, rfl, rfl, hlen, ?_, hsize, ?_, ?_⟩
  · rw [hlen]
    decide
  · obtain ⟨d, d1, d2, -⟩ := hwr 99 (by norm_num) (fun j h1 h2 => by omega)
    rw [h99] at d1
    exact ⟨d, d1, by rw [d2]; norm_num [exampleWorld, exampleSystem]⟩
  · rw [List.getElem?_eq_none (by rw [hsize])]

/-- C15, amended. For an enabled emitter with a system and a particle of that
system and a count of zero or more, burst(count), which is
burst(count, 0, QVector3D()), emits min(count, maxAmount) particles, maxAmount
being the pool size of the particle: exactly that many emitParticle calls are
made, all by this emitter into its particle and with startTime = time/1000
for the current system time; these are exactly count calls when count is at
most maxAmount. When the indices that the pool hands out are slots of
`m_particleData` (`PoolReady`), call `i` writes its record, with that start
time, into the `i`-th free slot claimed; the slots are distinct, so that
exactly min(count, maxAmount) records are written, when this number is at most
the number of free slots `maxAmount - lastBurstIndex`; a slot claimed twice
holds the record of the later call; all other slots and all other particles
are left as they are. -/
theorem C15_burst_emits_count_up_to_pool (w : World) (self sys particle : Ptr) (count : Int)
    (hsys : (w.emitters self).m_system = some sys)
    (hen : (w.emitters self).m_enabled = true)
    (hp : (w.emitters self).m_particle = some particle)
    (hps : (w.particles particle).m_system = some sys)
    (hc : 0 ≤ count) :
    (∃ calls : List EmitCall,
      (burst w self count 0 QVector3D.zero).emitTrace = w.emitTrace ++ calls
      ∧ calls.length = (min count (w.particles particle).m_maxAmount).toNat
      ∧ (count ≤ (w.particles particle).m_maxAmount → (calls.length : Int) = count)
      ∧ ∀ c ∈ calls, c.emitter = self ∧ c.site = EmitSite.burst ∧ c.particle = particle
          ∧ c.data.startTime = ((w.systems sys).m_time : ℚ) / 1000)
    ∧ (PoolReady (w.particles particle) →
        RecordsWritten (w.particles particle)
          ((burst w self count 0 QVector3D.zero).particles particle)
          (min count (w.particles particle).m_maxAmount).toNat
          (fun _ => ((w.systems sys).m_time : ℚ) / 1000)
        ∧ (∀ q, q ≠ particle →
            (burst w self count 0 QVector3D.zero).particles q = w.particles q)) := by
  constructor
  · rw [burst_eq_loop w self sys particle hsys hen hp hps count 0 QVector3D.zero]
    obtain ⟨calls, h1, h2, h3, h4⟩ := emitLoop_calls self EmitSite.burst particle
      (w.emitters self).particleTransform ((w.emitters self).position.add QVector3D.zero)
      (distributeStartTime (w.systems sys).m_time 0 (min count (w.particles particle).m_maxAmount))
      sys (min count (w.particles particle).m_maxAmount).toNat w hsys
    refine ⟨calls, h1, h2, ?_, ?_⟩
    · intro hle
      rw [h2, min_eq_left hle]
      exact Int.toNat_of_nonneg hc
    · intro c hcm
      obtain ⟨e1, e2, e3⟩ := h4 c hcm
      refine ⟨e1, e2, e3, ?_⟩
      have hmem : c.data.startTime ∈ calls.map (fun c => c.data.startTime) :=
        List.mem_map_of_mem _ hcm
      rw [h3] at hmem
      obtain ⟨i, -, hi⟩ := List.mem_map.mp hmem
      rw [← hi, distributeStartTime_zero_span]
  · intro hready
    obtain ⟨r1, -, r3⟩ := burst_records w self sys particle hsys hen hp hps hready count
    exact ⟨r1, r3⟩

/-- Witness for C15: burst(7) in the example scene makes 7 calls and leaves 7 records with
the start time 0 in slots 0 to 6; slot 7 still holds the default record. -/
theorem C15_burst_emits_count_up_to_pool_witness :
    (exampleWorld.emitters 0).m_enabled = true
    ∧ (0 : Int) ≤ 7
    ∧ (∃ calls : List EmitCall,
        (burst exampleWorld 0 7 0 QVector3D.zero).emitTrace = exampleWorld.emitTrace ++ calls
        ∧ calls.length = 7
        ∧ ∀ c ∈ calls, c.data.startTime = ((exampleWorld.systems 0).m_time : ℚ) / 1000)
    ∧ (∀ i : Nat, i < 7 →
        ∃ d, ((burst exampleWorld 0 7 0 QVector3D.zero).particles 0).m_particleData[i]? = some d
          ∧ d.startTime = 0)
    ∧ ((burst exampleWorld 0 7 0 QVector3D.zero).particles 0).m_particleData[7]?
        = some exampleData := by
  obtain ⟨⟨calls, h1, h2, -, h4⟩, hrec⟩ :=
    C15_burst_emits_count_up_to_pool exampleWorld 0 0 0 7 rfl rfl rfl rfl (by decide)
  have hpool : exampleWorld.particles 0 = exampleParticle := rfl
  obtain ⟨⟨-, hwr, hdist, hkeep⟩, -⟩ := hrec (by rw [hpool]; exact example_poolReady)
  have hn : (min (7 : Int) (exampleWorld.particles 0).m_maxAmount).toNat = 7 := rfl
  rw [hn, hpool] at hwr hdist hkeep
  have hidx : ∀ i : Nat, i < 100 →
      (QQuick3DParticle.claimedIndex exampleParticle i).toNat = i := by
    intro i hi
    rw [example_claimedIndex i hi]
    omega
  have hd := hdist (by norm_num [exampleParticle])
  refine ⟨rfl, by decide, ⟨calls, h1, h2, fun c hc => (h4 c hc).2.2.2⟩, ?_, ?_⟩
  · intro i hi
    obtain ⟨d, d1, d2, -⟩ := hwr i hi (fun j h1 h2 => (hd i j h1 h2).symm)
    rw [hidx i (by omega)] at d1
    exact ⟨d, d1, by rw [d2]; norm_num [exampleWorld, exampleSystem]⟩
  · rw [hkeep 7 (fun i hi => by rw [hidx i (by omega)]; omega)]
    rfl

/-! ## An emit rate of zero -/

theorem emitParticles_rate_zero (w : World) (self sys particle : Ptr)
    (hsys : (w.emitters self).m_system = some sys)
    (hen : (w.emitters self).m_enabled = true)
    (hp : (w.emitters self).m_particle = some particle)
    (hps : (w.particles particle).m_system = some sys)
    (hrate : (w.emitters self).m_emitRate = 0) :
    emitParticles w self
      = if (w.emitters self).m_burstGenerated = true then w else generateEmitBursts w self := by
  have hps2 : ¬ (w.particles particle).m_system ≠ some sys := not_not.mpr hps
  have h1 : emitParticles w self
      = emitRateParticles
          (if (!(w.emitters self).m_burstGenerated) = true then generateEmitBursts w self else w)
          self sys particle := by
    simp only [emitParticles, hsys, hp, hen, Bool.not_true, Bool.false_eq_true, if_false]
    rw [if_neg hps2]
  rw [h1]
  by_cases hg : (w.emitters self).m_burstGenerated = true
  · simp only [hg, Bool.not_true, Bool.false_eq_true, if_false, if_true]
    exact emitRateParticles_rate_nonpos w self sys particle (le_of_eq hrate)
  · simp only [Bool.not_eq_true] at hg
    simp only [hg, Bool.not_false, if_true, Bool.false_eq_true, if_false]
    apply emitRateParticles_rate_nonpos
    obtain ⟨b, hb⟩ := (generateEmitBursts_spec w self sys hsys).2.1
    rw [hb]
    simp [hrate]

theorem generateEmitBursts_empty_first (w : World) (self sys particle : Ptr)
    (b0 : QQuick3DParticleEmitBurst) (rest : List QQuick3DParticleEmitBurst)
    (hsys : (w.emitters self).m_system = some sys)
    (hp : (w.emitters self).m_particle = some particle)
    (hps : (w.particles particle).m_system = some sys)
    (hb : (w.emitters self).m_emitBursts = b0 :: rest) (h0 : b0.amount ≤ 0) :
    generateEmitBursts w self
      = w.setParticle particle ((w.particles particle).reset w.defaultData) := by
  have hne : (w.emitters self).m_emitBursts ≠ [] := by rw [hb]; exact List.cons_ne_nil _ _
  rw [generateEmitBursts_eq w self sys particle hsys hp hps hne, hb]
  simp only [generateBurstLoop, h0, if_true, Bool.false_eq_true, if_false]

/-- C16. For an emitter with a system, a particle of that system and
emitRate = 0: while enabled, getEmitAmount returns 0, and emitParticles does
exactly the generation of the pending declared bursts (nothing when they are
already generated), so the rate based emission emits nothing and
`m_prevEmitTime` stays as it is. The pending declared bursts that are emitted
are those in front of the first burst whose amount is zero or less, and they
are marked as generated only when every amount is positive; burst() emits as
with any other rate, its records being written into the pool. While `enabled`
is false, emitParticles, burst() and emitParticlesBurst change nothing, so
neither declared bursts nor burst() emit. In the example scene with an emit
rate of 0 and the declared bursts (time 0, amount 0) and (time 2000,
amount 50), emitParticles resets the pool and emits nothing: the pending
burst of 50 particles is not generated, no record is written, and the bursts
stay pending at every later tick. -/
theorem C16_rate_zero_keeps_bursts (w : World) (self sys particle : Ptr)
    (hsys : (w.emitters self).m_system = some sys)
    (hp : (w.emitters self).m_particle = some particle)
    (hps : (w.particles particle).m_system = some sys)
    (hrate : (w.emitters self).m_emitRate = 0) :
    ((w.emitters self).m_enabled = true →
      getEmitAmount w self = (0, w)
      ∧ emitParticles w self
          = (if (w.emitters self).m_burstGenerated = true then w else generateEmitBursts w self)
      ∧ (∀ e, emittedStartTimes (emitParticles w self) e EmitSite.rate
            = emittedStartTimes w e EmitSite.rate)
      ∧ ((emitParticles w self).emitters self).m_prevEmitTime = (w.emitters self).m_prevEmitTime
      ∧ ((w.emitters self).m_burstGenerated = false → (w.emitters self).m_emitBursts ≠ [] →
          emittedStartTimes (emitParticles w self) self EmitSite.declaredBurst
              = emittedStartTimes w self EmitSite.declaredBurst
                ++ ((w.emitters self).m_emitBursts.takeWhile
                      (fun b => decide (0 < b.amount))).flatMap declaredBurstStartTimes
          ∧ ((emitParticles w self).emitters self).m_burstGenerated
              = (w.emitters self).m_emitBursts.all (fun b => decide (0 < b.amount)))
      ∧ (∀ (count duration : Int) (position : QVector3D),
          emittedStartTimes (burst w self count duration position) self EmitSite.burst
              = emittedStartTimes w self EmitSite.burst
                ++ (List.range (min count (w.particles particle).m_maxAmount).toNat).map
                    (distributeStartTime (w.systems sys).m_time duration
                      (min count (w.particles particle).m_maxAmount))
          ∧ (PoolReady (w.particles particle) →
              RecordsWritten (w.particles particle)
                ((burst w self count duration position).particles particle)
                (min count (w.particles particle).m_maxAmount).toNat
                (distributeStartTime (w.systems sys).m_time duration
                  (min count (w.particles particle).m_maxAmount)))))
    ∧ ((w.emitters self).m_enabled = false →
      emitParticles w self = w
      ∧ (∀ (count duration : Int) (position : QVector3D),
          burst w self count duration position = w)
      ∧ (∀ b : QQuick3DParticleEmitBurstData, emitParticlesBurst w self b = w))
    ∧ ((exampleRateZeroEmptyBurstWorld.emitters 0).m_enabled = true
      ∧ (exampleRateZeroEmptyBurstWorld.emitters 0).m_emitRate = 0
      ∧ (exampleRateZeroEmptyBurstWorld.emitters 0).m_burstGenerated = false
      ∧ (exampleRateZeroEmptyBurstWorld.emitters 0).m_emitBursts
          = [⟨0, 0, 0, 1⟩, ⟨2000, 50, 0, 2⟩]
      ∧ emittedStartTimes (emitParticles exampleRateZeroEmptyBurstWorld 0) 0
          EmitSite.declaredBurst = []
      ∧ ((emitParticles exampleRateZeroEmptyBurstWorld 0).particles 0).m_particleData
          = List.replicate 100 exampleData
      ∧ ((emitParticles exampleRateZeroEmptyBurstWorld 0).emitters 0).m_burstGenerated = false
      ∧ emitParticles (emitParticles exampleRateZeroEmptyBurstWorld 0) 0
          = emitParticles exampleRateZeroEmptyBurstWorld 0) := by
  refine ⟨?_, ?_, ?_⟩
  · intro hen
    have hE := emitParticles_rate_zero w self sys particle hsys hen hp hps hrate
    obtain ⟨_, ⟨b, hb⟩, _, _, hother⟩ := generateEmitBursts_spec w self sys hsys
    refine ⟨getEmitAmount_rate_nonpos w self (le_of_eq hrate), hE, ?_, ?_, ?_, ?_⟩
    · intro e
      rw [hE]
      split_ifs
      · rfl
      · exact hother e EmitSite.rate (by decide)
    · rw [hE]
      split_ifs
      · rfl
      · rw [hb]
        simp
    · intro hg hne
      have hg2 : ¬ (w.emitters self).m_burstGenerated = true := by simp [hg]
      rw [hE, if_neg hg2]
      obtain ⟨h1, h2⟩ := generateEmitBursts_times w self sys particle hsys hp hps hne
      refine ⟨h1, ?_⟩
      rw [h2]
      by_cases hall : (w.emitters self).m_emitBursts.all (fun b => decide (0 < b.amount)) = true
      · rw [if_pos hall, hall]
      · rw [if_neg hall, hg]
        simpa using hall
    · intro count duration position
      have hb1 : burst w self count duration position
          = emitParticlesBurst w self ⟨(w.systems sys).m_time, count, duration, position⟩ := by
        simp only [burst, hsys]
      rw [hb1]
      refine ⟨?_, fun hready =>
        (emitParticlesBurst_records w self sys particle hsys hen hp hps hready _).1⟩
      rw [(emitParticlesBurst_spec w self sys particle hsys hen hp hps _).2 self
        EmitSite.burst]
      simp
  · intro hen
    refine ⟨?_, ?_, ?_⟩
    · simp only [emitParticles, hsys, hen, Bool.not_false, if_true]
    · intro count duration position
      simp only [burst, emitParticlesBurst, hsys, hen, Bool.not_false, if_true]
    · intro b
      simp only [emitParticlesBurst, hsys, hen, Bool.not_false, if_true]
  · have hE := emitParticles_rate_zero exampleRateZeroEmptyBurstWorld 0 0 0 rfl rfl rfl rfl rfl
    have hg : ¬ (exampleRateZeroEmptyBurstWorld.emitters 0).m_burstGenerated = true := by
      simp [exampleRateZeroEmptyBurstWorld, exampleEmitter]
    rw [if_neg hg] at hE
    have hG := generateEmitBursts_empty_first exampleRateZeroEmptyBurstWorld 0 0 0 ⟨0, 0, 0, 1⟩
      [⟨2000, 50, 0, 2⟩] rfl rfl rfl rfl (le_refl _)
    rw [hG] at hE
    have hE2 : emitParticles (exampleRateZeroEmptyBurstWorld.setParticle 0
        ((exampleRateZeroEmptyBurstWorld.particles 0).reset
          exampleRateZeroEmptyBurstWorld.defaultData)) 0
        = exampleRateZeroEmptyBurstWorld.setParticle 0
          ((exampleRateZeroEmptyBurstWorld.particles 0).reset
            exampleRateZeroEmptyBurstWorld.defaultData) := by
      have h1 := emitParticles_rate_zero (exampleRateZeroEmptyBurstWorld.setParticle 0
        ((exampleRateZeroEmptyBurstWorld.particles 0).reset
          exampleRateZeroEmptyBurstWorld.defaultData)) 0 0 0 rfl rfl rfl rfl rfl
      have hg1 : ¬ ((exampleRateZeroEmptyBurstWorld.setParticle 0
          ((exampleRateZeroEmptyBurstWorld.particles 0).reset
            exampleRateZeroEmptyBurstWorld.defaultData)).emitters 0).m_burstGenerated = true := hg
      rw [if_neg hg1] at h1
      rw [h1, generateEmitBursts_empty_first _ 0 0 0 ⟨0, 0, 0, 1⟩ [⟨2000, 50, 0, 2⟩] rfl rfl rfl
        rfl (le_refl _)]
      simp [World.setParticle, QQuick3DParticle.reset]
    rw [hE]
    refine ⟨rfl, rfl, rfl, rfl, rfl, ?_, rfl, hE2⟩
    simp only [World.setParticle, Function.update_same, QQuick3DParticle.reset]
    rfl

/-- Witness for C16: in the example scene with an emit rate of 0 and the declared burst
(time 0, amount 2), emitParticles emits the two particles of the burst, whose records are in
slots 0 and 1 of the pool afterwards, and nothing through the rate; burst(3) emits three
particles. -/
theorem C16_rate_zero_keeps_bursts_witness :
    (exampleRateZeroWorld.emitters 0).m_emitRate = 0
    ∧ (exampleRateZeroWorld.emitters 0).m_enabled = true
    ∧ emittedStartTimes (emitParticles exampleRateZeroWorld 0) 0 EmitSite.declaredBurst = [0, 0]
    ∧ emittedStartTimes (emitParticles exampleRateZeroWorld 0) 0 EmitSite.rate = []
    ∧ ((emitParticles exampleRateZeroWorld 0).emitters 0).m_prevEmitTime = 0
    ∧ emittedStartTimes (burst exampleRateZeroWorld 0 3 0 QVector3D.zero) 0 EmitSite.burst
        = [0, 0, 0] := by
  have h := (C16_rate_zero_keeps_bursts exampleRateZeroWorld 0 0 0 rfl rfl rfl rfl).1 rfl
  obtain ⟨-, -, h3, h4, h5, h6⟩ := h
  have hd := (h5 rfl (List.cons_ne_nil _ _)).1
  refine ⟨rfl, rfl, ?_, ?_, ?_, ?_⟩
  · rw [hd]
    have h0 : emittedStartTimes exampleRateZeroWorld 0 EmitSite.declaredBurst = [] := rfl
    have hl : (exampleRateZeroWorld.emitters 0).m_emitBursts = [⟨0, 2, 0, 1⟩] := rfl
    rw [h0, hl]
    simp [declaredBurstStartTimes, List.takeWhile_cons, List.range_succ]
  · rw [h3 0]
    rfl
  · rw [h4]
    rfl
  · rw [(h6 3 0 QVector3D.zero).1]
    have h0 : emittedStartTimes exampleRateZeroWorld 0 EmitSite.burst = [] := rfl
    have hm : (min (3 : Int) (exampleRateZeroWorld.particles 0).m_maxAmount).toNat = 3 := rfl
    rw [h0, hm]
    simp [List.range_succ, distributeStartTime_zero_span, exampleRateZeroWorld, exampleWorld,
      exampleSystem]

/-! ## Seed randomisation -/

theorem bounded_range (generated : Nat) (hg : generated < 4294967296) :
    0 ≤ bounded generated (1 + (2147483647 - 1))
    ∧ bounded generated (1 + (2147483647 - 1)) < 2147483647
    ∧ (bounded generated (1 + (2147483647 - 1)) = 0 ↔ generated ≤ 2) := by
  unfold bounded
  refine ⟨by omega, by omega, ?_⟩
  constructor
  · intro h
    omega
  · intro h
    omega

theorem doSeedRandomization_seed (w : World) (self : Ptr) (generated : Nat) :
    ((doSeedRandomization w self generated).systems self).m_seed
      = bounded generated (1 + (2147483647 - 1)) := by
  unfold doSeedRandomization setSeed
  dsimp only
  by_cases h : (w.systems self).m_seed = bounded generated (1 + (2147483647 - 1))
  · rw [if_pos h]
    exact h
  · rw [if_neg h]
    simp [World.setSystem]

theorem setPaused_keeps (w : World) (self : Ptr) (paused : Bool) :
    ((setPaused w self paused).systems self).m_componentComplete
        = (w.systems self).m_componentComplete
    ∧ ((setPaused w self paused).systems self).m_useRandomSeed
        = (w.systems self).m_useRandomSeed := by
  unfold setPaused
  dsimp only
  by_cases h : ((w.systems self).m_paused != paused) = true
  · rw [if_pos h]
    simp [World.setSystem]
  · rw [if_neg h]
    exact ⟨rfl, rfl⟩

theorem setRunning_false_seed (w : World) (self : Ptr) (generated : Nat)
    (hr : (w.systems self).m_running = true)
    (hc : (w.systems self).m_componentComplete = true)
    (hu : (w.systems self).m_useRandomSeed = true) :
    ((setRunning w self false generated).systems self).m_seed
      = bounded generated (1 + (2147483647 - 1)) := by
  unfold setRunning
  have hne : ((w.systems self).m_running != false) = true := by simp [hr]
  simp only [hne, if_true]
  obtain ⟨-, hp2, -, -⟩ :=
    setPaused_flags (w.setSystem self { w.systems self with m_running := false }) self false
  obtain ⟨hk1, hk2⟩ :=
    setPaused_keeps (w.setSystem self { w.systems self with m_running := false }) self false
  have hrun : ((setPaused (w.setSystem self { w.systems self with m_running := false }) self
      false).systems self).m_running = false := by
    rw [hp2]
    simp [World.setSystem]
  have hcc : ((setPaused (w.setSystem self { w.systems self with m_running := false }) self
      false).systems self).m_componentComplete = true := by
    rw [hk1]
    simp [World.setSystem, hc]
  have hus : ((setPaused (w.setSystem self { w.systems self with m_running := false }) self
      false).systems self).m_useRandomSeed = true := by
    rw [hk2]
    simp [World.setSystem, hu]
  generalize setPaused (w.setSystem self { w.systems self with m_running := false }) self false
    = w2 at hrun hcc hus ⊢
  simp only [hrun, hcc, hus, Bool.false_eq_true, if_false, Bool.not_false, Bool.and_self, if_true,
    setSystem_systems_self]
  exact doSeedRandomization_seed w2 self generated

/-- C21. doSeedRandomization passes `bounded(1 + (INT32_MAX - 1))`, that is
`bounded(INT32_MAX)`, to setSeed: for every 32 bit value the global generator
draws the seed lies in 0..INT32_MAX - 1, never INT32_MAX, and it is 0 exactly
for the drawn values 0, 1 and 2. So the seed is not always in 1..INT32_MAX:
with one of these draws a system whose seed is the initial 0 is left as it is,
also when a completed, running system with useRandomSeed is stopped. -/
theorem C21_seed_randomization_can_be_zero (w : World) (self : Ptr) (generated : Nat)
    (hg : generated < 4294967296) :
    ((doSeedRandomization w self generated).systems self).m_seed
        = bounded generated (1 + (2147483647 - 1))
    ∧ 0 ≤ bounded generated (1 + (2147483647 - 1))
    ∧ bounded generated (1 + (2147483647 - 1)) < 2147483647
    ∧ (bounded generated (1 + (2147483647 - 1)) = 0 ↔ generated ≤ 2)
    ∧ (3 ≤ generated → 1 ≤ bounded generated (1 + (2147483647 - 1)))
    ∧ (generated ≤ 2 → (w.systems self).m_seed = 0 → doSeedRandomization w self generated = w)
    ∧ ((w.systems self).m_running = true → (w.systems self).m_componentComplete = true →
        (w.systems self).m_useRandomSeed = true →
        ((setRunning w self false generated).systems self).m_seed
          = bounded generated (1 + (2147483647 - 1))) := by
  obtain ⟨h0, h1, h2⟩ := bounded_range generated hg
  refine ⟨doSeedRandomization_seed w self generated, h0, h1, h2, ?_, ?_,
    setRunning_false_seed w self generated⟩
  · intro h3
    have : bounded generated (1 + (2147483647 - 1)) ≠ 0 := fun h => by
      have := h2.mp h
      omega
    omega
  · intro hle hs
    unfold doSeedRandomization setSeed
    rw [h2.mpr hle]
    simp [hs]

theorem C21_seed_randomization_can_be_zero_witness :
    (0 : Nat) < 4294967296
    ∧ (exampleWorld.systems 0).m_seed = 0
    ∧ bounded 0 (1 + (2147483647 - 1)) = 0
    ∧ ((doSeedRandomization exampleWorld 0 0).systems 0).m_seed = 0
    ∧ doSeedRandomization exampleWorld 0 0 = exampleWorld := by
  have h := C21_seed_randomization_can_be_zero exampleWorld 0 0 (by decide)
  have hb : bounded 0 (1 + (2147483647 - 1)) = 0 := h.2.2.2.1.mpr (by decide)
  refine ⟨by decide, rfl, hb, ?_, h.2.2.2.2.2.1 (by decide) rfl⟩
  rw [h.1, hb]

/-! ## The unemitted fraction -/

theorem getEmitAmount_no_system (w : World) (self : Ptr)
    (h : (w.emitters self).m_system = none) : getEmitAmount w self = (0, w) := by
  simp only [getEmitAmount, h]

theorem getEmitAmount_disabled (w : World) (self : Ptr)
    (h : (w.emitters self).m_enabled = false) : getEmitAmount w self = (0, w) := by
  unfold getEmitAmount
  dsimp only
  split
  · rfl
  · simp [h]

theorem emitAmountOf_count (r : ℚ) (prev : Int) (u : ℚ) (t : Int) :
    (1 ≤ ⌊emitAmountFloat r prev t⌋ → ⌊emitAmountFloat r prev t⌋ ≤ 2147483647 →
      1 ≤ (emitAmountOf r prev u t).1)
    ∧ (⌊emitAmountFloat r prev t⌋ < 1 → -2147483648 ≤ ⌊emitAmountFloat r prev t⌋ →
        (emitAmountOf r prev u t).1 = ⌊emitAmountFloat r prev t⌋
        ∧ (emitAmountOf r prev u t).2 = u)
    ∧ ((2147483647 < ⌊emitAmountFloat r prev t⌋ ∨ ⌊emitAmountFloat r prev t⌋ < -2147483648) →
        (emitAmountOf r prev u t).1 = -2147483648) := by
  unfold emitAmountOf
  simp only []
  rw [floatToInt_intCast]
  refine ⟨?_, ?_, ?_⟩
  · intro h1 h2
    have hin : -2147483648 ≤ ⌊emitAmountFloat r prev t⌋
        ∧ ⌊emitAmountFloat r prev t⌋ ≤ 2147483647 := ⟨by omega, h2⟩
    have hpos : 0 < ⌊emitAmountFloat r prev t⌋ := by omega
    rw [if_pos hin, if_pos hpos]
    split_ifs
    · dsimp only
      omega
    · exact h1
  · intro h1 h2
    have hin : -2147483648 ≤ ⌊emitAmountFloat r prev t⌋
        ∧ ⌊emitAmountFloat r prev t⌋ ≤ 2147483647 := ⟨h2, by omega⟩
    have hpos : ¬ 0 < ⌊emitAmountFloat r prev t⌋ := by omega
    rw [if_pos hin, if_neg hpos]
    exact ⟨rfl, rfl⟩
  · intro h
    have hn : ¬ (-2147483648 ≤ ⌊emitAmountFloat r prev t⌋
        ∧ ⌊emitAmountFloat r prev t⌋ ≤ 2147483647) := by
      rintro ⟨a, b⟩
      rcases h with h | h <;> omega
    have hneg : ¬ (0 : Int) < -2147483648 := by norm_num
    rw [if_neg hn, if_neg hneg]

/-- C26, counterexample. The emitter of the example scene with an emit rate of 13 is
enabled and has `m_unemittedF = 0`; at system time 1000 ms
`F = (1000 - 0) * 13 / 1000 = 13`, but the float `1000.0f / (1000.0f / 13.0f)` is below 13
and getEmitAmount returns 12, which is neither floor(F) = 13 nor floor(F) + 1 = 14. The
disabled emitter of the example scene, with `F = 2.5`, gets 0, which is neither 2 nor 3. -/
theorem C26_count_is_not_floor_of_exact_amount :
    ((exampleRate13World.setTime 0 1000).emitters 0).m_unemittedF = 0
    ∧ ((exampleRate13World.setTime 0 1000).emitters 0).m_enabled = true
    ∧ ((exampleRate13World.setTime 0 1000).emitters 0).m_system = some 0
    ∧ ⌊((((exampleRate13World.setTime 0 1000).systems 0).m_time
          - ((exampleRate13World.setTime 0 1000).emitters 0).m_prevEmitTime : Int) : ℚ)
        * ((exampleRate13World.setTime 0 1000).emitters 0).m_emitRate / 1000⌋ = 13
    ∧ (getEmitAmount (exampleRate13World.setTime 0 1000) 0).1 = 12
    ∧ (getEmitAmount (exampleRate13World.setTime 0 1000) 0).1 ≠ 13
    ∧ (getEmitAmount (exampleRate13World.setTime 0 1000) 0).1 ≠ 13 + 1
    ∧ (exampleDisabledWorld.emitters 0).m_unemittedF = 0
    ∧ ⌊(((exampleDisabledWorld.systems 0).m_time - (exampleDisabledWorld.emitters 0).m_prevEmitTime
          : Int) : ℚ) * (exampleDisabledWorld.emitters 0).m_emitRate / 1000⌋ = 2
    ∧ (getEmitAmount exampleDisabledWorld 0).1 = 0 := by
  have h12 : (getEmitAmount (exampleRate13World.setTime 0 1000) 0).1 = 12 := by
    rw [getEmitAmount_eq (exampleRate13World.setTime 0 1000) 0 0 rfl rfl
      (by norm_num [World.setTime, World.setSystem, exampleRate13World, exampleEmitter])]
    have e : emitAmountAt ((exampleRate13World.setTime 0 1000).emitters 0)
        ((exampleRate13World.setTime 0 1000).systems 0).m_time
        = emitAmountOf 13 0 0 1000 := by
      rw [setTime_time]
      rfl
    rw [e, emitAmountOf_thirteen 0 1000 (by norm_num)]
  have h0 : (getEmitAmount exampleDisabledWorld 0).1 = 0 := by
    rw [getEmitAmount_disabled exampleDisabledWorld 0 rfl]
  refine ⟨rfl, rfl, rfl, ?_, h12, ?_, ?_, rfl, ?_, h0⟩
  · rw [setTime_time]
    simp only [World.setTime, World.setSystem, exampleRate13World, exampleWorld, exampleEmitter]
    norm_num
  · rw [h12]; decide
  · rw [h12]; decide
  · simp only [exampleDisabledWorld, exampleWorldAt, exampleSystemAt, exampleEmitter]
    norm_num

/-- C26, amended. For every emitter state whose `m_unemittedF` is a float with
0 ≤ `m_unemittedF` < 1, getEmitAmount leaves a float with
0 ≤ `m_unemittedF` < 1. For an enabled emitter with a system and a positive
emit rate, with `F` the float amount `emitAmountF` that getEmitAmount computes
(`float(time - prevEmitTime) / (1000.0f / emitRate)`, every operation
rounded): when `floor(F)` is at least 1 and fits an `int`, the returned count
is `floor(F)` or `floor(F) + 1`, and count plus new fraction equal the old
fraction plus `F` up to one rounding of at most `2^-24`; when `floor(F)` is
less than 1 the count is `floor(F)` and nothing is changed; when `floor(F)`
does not fit an `int` the count is the result of the conversion (`INT_MIN`)
and nothing is changed. For `2^-100 ≤ emitRate ≤ 2^100` and
`time > prevEmitTime`, `F` is within a relative distance of `2^-22` of
`(time - prevEmitTime) * emitRate / 1000`. An emitter without a system, a
disabled emitter and an emitter with emitRate ≤ 0 get the count 0 and nothing
is changed. -/
theorem C26_unemitted_fraction_stays_proper (w : World) (self : Ptr)
    (hu0 : 0 ≤ (w.emitters self).m_unemittedF) (hu1 : (w.emitters self).m_unemittedF < 1)
    (hfix : f32 (w.emitters self).m_unemittedF = (w.emitters self).m_unemittedF) :
    (0 ≤ ((getEmitAmount w self).2.emitters self).m_unemittedF
      ∧ ((getEmitAmount w self).2.emitters self).m_unemittedF < 1
      ∧ f32 ((getEmitAmount w self).2.emitters self).m_unemittedF
          = ((getEmitAmount w self).2.emitters self).m_unemittedF)
    ∧ (∀ sys, (w.emitters self).m_system = some sys → (w.emitters self).m_enabled = true →
        0 < (w.emitters self).m_emitRate →
        (1 ≤ ⌊emitAmountFloat (w.emitters self).m_emitRate (w.emitters self).m_prevEmitTime
              (w.systems sys).m_time⌋ →
          ⌊emitAmountFloat (w.emitters self).m_emitRate (w.emitters self).m_prevEmitTime
              (w.systems sys).m_time⌋ ≤ 2147483647 →
          ((getEmitAmount w self).1
              = ⌊emitAmountFloat (w.emitters self).m_emitRate (w.emitters self).m_prevEmitTime
                  (w.systems sys).m_time⌋
            ∨ (getEmitAmount w self).1
              = ⌊emitAmountFloat (w.emitters self).m_emitRate (w.emitters self).m_prevEmitTime
                  (w.systems sys).m_time⌋ + 1)
          ∧ |((getEmitAmount w self).1 : ℚ)
                + ((getEmitAmount w self).2.emitters self).m_unemittedF
                - ((w.emitters self).m_unemittedF
                    + emitAmountFloat (w.emitters self).m_emitRate
                        (w.emitters self).m_prevEmitTime (w.systems sys).m_time)|
              ≤ 1 / 16777216)
        ∧ (⌊emitAmountFloat (w.emitters self).m_emitRate (w.emitters self).m_prevEmitTime
              (w.systems sys).m_time⌋ < 1 →
            -2147483648 ≤ ⌊emitAmountFloat (w.emitters self).m_emitRate
              (w.emitters self).m_prevEmitTime (w.systems sys).m_time⌋ →
            (getEmitAmount w self).1
              = ⌊emitAmountFloat (w.emitters self).m_emitRate (w.emitters self).m_prevEmitTime
                  (w.systems sys).m_time⌋
            ∧ (getEmitAmount w self).2 = w)
        ∧ ((2147483647 < ⌊emitAmountFloat (w.emitters self).m_emitRate
              (w.emitters self).m_prevEmitTime (w.systems sys).m_time⌋
            ∨ ⌊emitAmountFloat (w.emitters self).m_emitRate
              (w.emitters self).m_prevEmitTime (w.systems sys).m_time⌋ < -2147483648) →
            (getEmitAmount w self).1 = -2147483648 ∧ (getEmitAmount w self).2 = w)
        ∧ (1 / 2 ^ 100 ≤ (w.emitters self).m_emitRate → (w.emitters self).m_emitRate ≤ 2 ^ 100 →
            (w.emitters self).m_prevEmitTime < (w.systems sys).m_time →
            |emitAmountFloat (w.emitters self).m_emitRate (w.emitters self).m_prevEmitTime
                (w.systems sys).m_time
              - (w.emitters self).m_emitRate
                * (((w.systems sys).m_time : ℚ) - (w.emitters self).m_prevEmitTime) / 1000|
            ≤ (w.emitters self).m_emitRate
                * (((w.systems sys).m_time : ℚ) - (w.emitters self).m_prevEmitTime) / 1000
                / 4194304))
    ∧ (((w.emitters self).m_system = none ∨ (w.emitters self).m_enabled = false
          ∨ (w.emitters self).m_emitRate ≤ 0) →
        getEmitAmount w self = (0, w)) := by
  have hguard : ((w.emitters self).m_system = none ∨ (w.emitters self).m_enabled = false
      ∨ (w.emitters self).m_emitRate ≤ 0) → getEmitAmount w self = (0, w) := by
    rintro (h | h | h)
    · exact getEmitAmount_no_system w self h
    · exact getEmitAmount_disabled w self h
    · exact getEmitAmount_rate_nonpos w self h
  refine ⟨?_, ?_, hguard⟩
  · rcases Option.eq_none_or_eq_some (w.emitters self).m_system with hs | ⟨sys, hs⟩
    · rw [hguard (Or.inl hs)]
      exact ⟨hu0, hu1, hfix⟩
    · by_cases hen : (w.emitters self).m_enabled = true
      · by_cases hr : 0 < (w.emitters self).m_emitRate
        · rw [getEmitAmount_eq w self sys hs hen hr]
          obtain ⟨-, -, h3, h4, h5⟩ := emitAmountOf_spec (w.emitters self).m_emitRate
            (w.emitters self).m_prevEmitTime (w.emitters self).m_unemittedF
            (w.systems sys).m_time hu0 hu1 hfix
          simp only [World.setEmitter, Function.update_same, emitAmountAt]
          exact ⟨h3, h4, h5⟩
        · rw [hguard (Or.inr (Or.inr (not_lt.mp hr)))]
          exact ⟨hu0, hu1, hfix⟩
      · rw [hguard (Or.inr (Or.inl (by simpa using hen)))]
        exact ⟨hu0, hu1, hfix⟩
  · intro sys hs hen hr
    rw [getEmitAmount_eq w self sys hs hen hr]
    obtain ⟨s1, s2, -, -, -⟩ := emitAmountOf_spec (w.emitters self).m_emitRate
      (w.emitters self).m_prevEmitTime (w.emitters self).m_unemittedF
      (w.systems sys).m_time hu0 hu1 hfix
    have hcount := emitAmountOf_count (w.emitters self).m_emitRate
      (w.emitters self).m_prevEmitTime (w.emitters self).m_unemittedF (w.systems sys).m_time
    simp only [World.setEmitter, Function.update_same, emitAmountAt]
    refine ⟨?_, ?_, ?_, ?_⟩
    · intro h1 h2
      have hk := (hcount.1 h1 h2)
      obtain ⟨-, -, g3, g4⟩ := s1 hk
      exact ⟨g3, g4⟩
    · intro h1 h2
      obtain ⟨g1, g2⟩ := hcount.2.1 h1 h2
      refine ⟨g1, ?_⟩
      have hlt : (emitAmountOf (w.emitters self).m_emitRate (w.emitters self).m_prevEmitTime
          (w.emitters self).m_unemittedF (w.systems sys).m_time).1 < 1 := by
        rw [g1]; exact h1
      rw [(s2 hlt).1]
      exact setEmitter_self w self
    · intro h
      have g1 := hcount.2.2 h
      refine ⟨g1, ?_⟩
      have hlt : (emitAmountOf (w.emitters self).m_emitRate (w.emitters self).m_prevEmitTime
          (w.emitters self).m_unemittedF (w.systems sys).m_time).1 < 1 := by
        rw [g1]; norm_num
      rw [(s2 hlt).1]
      exact setEmitter_self w self
    · intro hr1 hr2 hlt
      exact emitAmountFloat_rel _ _ _ hr1 hr2 hlt

/-- Witness for C26: the example emitter at 1000 ms, whose fraction 0 becomes 1/2. -/
theorem C26_unemitted_fraction_stays_proper_witness :
    (0 : ℚ) ≤ ((exampleWorldAt 1000).emitters 0).m_unemittedF
    ∧ ((exampleWorldAt 1000).emitters 0).m_unemittedF < 1
    ∧ f32 ((exampleWorldAt 1000).emitters 0).m_unemittedF
        = ((exampleWorldAt 1000).emitters 0).m_unemittedF
    ∧ 0 ≤ ((getEmitAmount (exampleWorldAt 1000) 0).2.emitters 0).m_unemittedF
    ∧ ((getEmitAmount (exampleWorldAt 1000) 0).2.emitters 0).m_unemittedF < 1 := by
  have h0 : (0 : ℚ) ≤ ((exampleWorldAt 1000).emitters 0).m_unemittedF := le_refl _
  have h1 : ((exampleWorldAt 1000).emitters 0).m_unemittedF < 1 := by
    show (0 : ℚ) < 1
    norm_num
  have h2 : f32 ((exampleWorldAt 1000).emitters 0).m_unemittedF
      = ((exampleWorldAt 1000).emitters 0).m_unemittedF := f32_zero
  have h := (C26_unemitted_fraction_stays_proper (exampleWorldAt 1000) 0 h0 h1 h2).1
  exact ⟨h0, h1, h2, h.1, h.2.1⟩

/-! ## The rate based part of `emitParticles` -/

theorem emitRateParticles_calls (w1 : World) (self sys particle : Ptr)
    (hsys : (w1.emitters self).m_system = some sys) :
    ((getEmitAmount w1 self).1 < 1 →
      emitRateParticles w1 self sys particle = (getEmitAmount w1 self).2
      ∧ (emitRateParticles w1 self sys particle).emitTrace = w1.emitTrace
      ∧ ((emitRateParticles w1 self sys particle).emitters self).m_prevEmitTime
          = (w1.emitters self).m_prevEmitTime)
    ∧ (1 ≤ (getEmitAmount w1 self).1 →
      ∃ calls : List EmitCall,
        (emitRateParticles w1 self sys particle).emitTrace = w1.emitTrace ++ calls
        ∧ calls.length
            = (min (getEmitAmount w1 self).1 (w1.particles particle).m_maxAmount).toNat
        ∧ (∀ c ∈ calls, c.emitter = self ∧ c.site = EmitSite.rate ∧ c.particle = particle)
        ∧ ((emitRateParticles w1 self sys particle).emitters self).m_prevEmitTime
            = (w1.systems sys).m_time) := by
  obtain ⟨u, hu⟩ := getEmitAmount_world w1 self
  have hsys2 : ((getEmitAmount w1 self).2.emitters self).m_system = some sys := by
    rw [hu]; simp [World.setEmitter, hsys]
  have hprev : ((getEmitAmount w1 self).2.emitters self).m_prevEmitTime
      = (w1.emitters self).m_prevEmitTime := by
    rw [hu]; simp [World.setEmitter]
  have htrace : (getEmitAmount w1 self).2.emitTrace = w1.emitTrace := by
    rw [hu]; rfl
  have hpart : (getEmitAmount w1 self).2.particles = w1.particles := by
    rw [hu]; rfl
  have hsystems : (getEmitAmount w1 self).2.systems = w1.systems := by
    rw [hu]; rfl
  constructor
  · intro hlt
    have : emitRateParticles w1 self sys particle = (getEmitAmount w1 self).2 := by
      unfold emitRateParticles
      simp only [hlt, if_true]
    rw [this]
    exact ⟨rfl, htrace, hprev⟩
  · intro hge
    have hnlt : ¬ (getEmitAmount w1 self).1 < 1 := not_lt.mpr hge
    unfold emitRateParticles
    simp only [hnlt, if_false]
    obtain ⟨calls, h1, h2, -, h4⟩ := emitLoop_calls self EmitSite.rate particle
      ((getEmitAmount w1 self).2.emitters self).particleTransform
      ((getEmitAmount w1 self).2.emitters self).position
      (distributeStartTime ((getEmitAmount w1 self).2.emitters self).m_prevEmitTime
        (((getEmitAmount w1 self).2.systems sys).m_time
          - ((getEmitAmount w1 self).2.emitters self).m_prevEmitTime)
        (min (getEmitAmount w1 self).1 ((getEmitAmount w1 self).2.particles particle).m_maxAmount))
      sys (min (getEmitAmount w1 self).1
        ((getEmitAmount w1 self).2.particles particle).m_maxAmount).toNat
      (getEmitAmount w1 self).2 hsys2
    refine ⟨calls, ?_, ?_, h4, ?_⟩
    · simp only [World.setEmitter]
      rw [h1, htrace]
    · rw [h2, hpart]
    · simp only [World.setEmitter, Function.update_same, hsystems]

/-- C27, counterexample. In the example scene with emit rate 0 and one
declared burst (time 0, amount 2) that is not yet generated, getEmitAmount()
is 0, which is less than 1, yet emitParticles writes two records: those of the
declared burst, which are in slots 0 and 1 of the pool afterwards with the start
time 0, where the default record with the start time -1 was before. -/
theorem C27_pending_bursts_are_written :
    (exampleRateZeroWorld.emitters 0).m_enabled = true
    ∧ (getEmitAmount exampleRateZeroWorld 0).1 = 0
    ∧ (getEmitAmount (afterPendingBursts exampleRateZeroWorld 0) 0).1 = 0
    ∧ exampleRateZeroWorld.emitTrace = []
    ∧ emittedStartTimes (emitParticles exampleRateZeroWorld 0) 0 EmitSite.declaredBurst = [0, 0]
    ∧ (emitParticles exampleRateZeroWorld 0).emitTrace ≠ []
    ∧ (exampleRateZeroWorld.particles 0).m_particleData = List.replicate 100 exampleData
    ∧ exampleData.startTime = -1
    ∧ (∃ d0 d1,
        ((emitParticles exampleRateZeroWorld 0).particles 0).m_particleData[0]? = some d0
        ∧ d0.startTime = 0 ∧ d0.index = 0
        ∧ ((emitParticles exampleRateZeroWorld 0).particles 0).m_particleData[1]? = some d1
        ∧ d1.startTime = 0 ∧ d1.index = 1) := by
  have hE := emitParticles_rate_zero exampleRateZeroWorld 0 0 0 rfl rfl rfl rfl rfl
  have hg : ¬ (exampleRateZeroWorld.emitters 0).m_burstGenerated = true := by
    simp [exampleRateZeroWorld, exampleEmitter]
  rw [if_neg hg] at hE
  have ht := (generateEmitBursts_times exampleRateZeroWorld 0 0 0 rfl rfl rfl
    (List.cons_ne_nil _ _)).1
  have hl : (exampleRateZeroWorld.emitters 0).m_emitBursts = [⟨0, 2, 0, 1⟩] := rfl
  have h0 : emittedStartTimes exampleRateZeroWorld 0 EmitSite.declaredBurst = [] := rfl
  have htimes : emittedStartTimes (emitParticles exampleRateZeroWorld 0) 0 EmitSite.declaredBurst
      = [0, 0] := by
    rw [hE, ht, h0, hl]
    simp [declaredBurstStartTimes, List.takeWhile_cons, List.range_succ]
  have hrate1 : ((afterPendingBursts exampleRateZeroWorld 0).emitters 0).m_emitRate ≤ 0 := by
    obtain ⟨b, hb⟩ := (generateEmitBursts_spec exampleRateZeroWorld 0 0 rfl).2.1
    have : afterPendingBursts exampleRateZeroWorld 0 = generateEmitBursts exampleRateZeroWorld 0 := by
      simp [afterPendingBursts, exampleRateZeroWorld, exampleEmitter]
    rw [this, hb]
    simp [exampleRateZeroWorld, exampleEmitter]
  refine ⟨rfl, ?_, ?_, rfl, htimes, ?_, rfl, rfl, ?_⟩
  · rw [getEmitAmount_rate_nonpos exampleRateZeroWorld 0 (le_of_eq rfl)]
  · rw [getEmitAmount_rate_nonpos _ 0 hrate1]
  · intro hnil
    have : emittedStartTimes (emitParticles exampleRateZeroWorld 0) 0 EmitSite.declaredBurst
        = [] := by
      simp [emittedStartTimes, hnil]
    rw [htimes] at this
    exact absurd this (by simp)
  · have hmax : (0 : Int) < (exampleRateZeroWorld.particles 0).m_maxAmount := by
      show (0 : Int) < 100
      decide
    obtain ⟨⟨-, hwr, hdist, -⟩, -⟩ := generateEmitBursts_single_records exampleRateZeroWorld
      0 0 0 ⟨0, 2, 0, 1⟩ rfl rfl rfl rfl (by decide) hmax
    have hpool : (exampleRateZeroWorld.particles 0).reset exampleRateZeroWorld.defaultData
        = exampleParticle := rfl
    have hn : Int.toNat (2 : Int) = 2 := rfl
    rw [hpool] at hwr hdist
    dsimp only at hwr hdist
    rw [hn] at hwr hdist
    have hd := hdist (by norm_num [exampleParticle])
    obtain ⟨d0, a1, a2, a3⟩ := hwr 0 (by norm_num) (fun j h1 h2 => (hd 0 j h1 h2).symm)
    obtain ⟨d1, b1, b2, b3⟩ := hwr 1 (by norm_num) (fun j h1 h2 => (hd 1 j h1 h2).symm)
    rw [example_claimedIndex 0 (by norm_num)] at a1 a3
    rw [example_claimedIndex 1 (by norm_num)] at b1 b3
    rw [hE]
    refine ⟨d0, d1, a1, ?_, ?_, b1, ?_, ?_⟩
    · rw [a2]; norm_num
    · rw [a3]; rfl
    · rw [b2]; norm_num
    · rw [b3]; rfl

/-- C27, amended. For an enabled emitter with a system and a particle of that
system, emitParticles first generates the declared bursts that are pending
(none when `m_burstGenerated` is set) and then calls getEmitAmount(). When
the amount is at least 1 the rate based loop makes exactly
min(getEmitAmount(), maxAmount) calls of emitParticle, all by this emitter into
its particle, and sets `m_prevEmitTime` to the current system time; on a pool
in its working state (`PoolReady`) call `i` writes its record, with start time
`distributeStartTime i`, into the slot it claims, the slots are distinct while
the count fits between `m_lastBurstIndex` and `maxAmount` (a later call into
the same slot overwrites the earlier record), every other slot of the pool and
every other particle keep what the pending bursts left. When the amount is
less than 1 the rate based part makes no call, leaves every particle as the
pending bursts left it and leaves `m_prevEmitTime` unchanged. -/
theorem C27_rate_emission_bounded_by_pool (w : World) (self sys particle : Ptr)
    (hsys : (w.emitters self).m_system = some sys)
    (hen : (w.emitters self).m_enabled = true)
    (hp : (w.emitters self).m_particle = some particle)
    (hps : (w.particles particle).m_system = some sys) :
    (1 ≤ (getEmitAmount (afterPendingBursts w self) self).1 →
      (∃ calls : List EmitCall,
        (emitParticles w self).emitTrace = (afterPendingBursts w self).emitTrace ++ calls
        ∧ calls.length
            = (min (getEmitAmount (afterPendingBursts w self) self).1
                (w.particles particle).m_maxAmount).toNat
        ∧ (0 ≤ (w.particles particle).m_maxAmount →
            (calls.length : Int) = min (getEmitAmount (afterPendingBursts w self) self).1
                (w.particles particle).m_maxAmount
            ∧ (calls.length : Int) ≤ (w.particles particle).m_maxAmount)
        ∧ (∀ c ∈ calls, c.emitter = self ∧ c.site = EmitSite.rate ∧ c.particle = particle)
        ∧ ((emitParticles w self).emitters self).m_prevEmitTime = (w.systems sys).m_time)
      ∧ (PoolReady ((afterPendingBursts w self).particles particle) →
          RecordsWritten ((afterPendingBursts w self).particles particle)
              ((emitParticles w self).particles particle)
              (min (getEmitAmount (afterPendingBursts w self) self).1
                (w.particles particle).m_maxAmount).toNat
              (distributeStartTime (w.emitters self).m_prevEmitTime
                ((w.systems sys).m_time - (w.emitters self).m_prevEmitTime)
                (min (getEmitAmount (afterPendingBursts w self) self).1
                  (w.particles particle).m_maxAmount))
          ∧ (∀ q, q ≠ particle →
              (emitParticles w self).particles q = (afterPendingBursts w self).particles q)))
    ∧ ((getEmitAmount (afterPendingBursts w self) self).1 < 1 →
      (emitParticles w self).emitTrace = (afterPendingBursts w self).emitTrace
      ∧ ((emitParticles w self).emitters self).m_prevEmitTime
          = (w.emitters self).m_prevEmitTime
      ∧ (PoolReady ((afterPendingBursts w self).particles particle) →
          (emitParticles w self).particles = (afterPendingBursts w self).particles))
    ∧ (getEmitAmount (afterPendingBursts w self) self).1 = (getEmitAmount w self).1
    ∧ ((w.emitters self).m_burstGenerated = true → afterPendingBursts w self = w) := by
  obtain ⟨f1, f2, f3, f4⟩ := afterPendingBursts_frame w self sys hsys
  obtain ⟨hlt, hge⟩ := emitRateParticles_calls (afterPendingBursts w self) self sys particle f2
  have hrecs := emitParticles_records w self sys particle hsys hen hp hps
  rw [emitParticles_eq_rate w self sys particle hsys hen hp hps] at hrecs ⊢
  refine ⟨?_, ?_, getEmitAmount_afterPendingBursts w self sys hsys, ?_⟩
  · intro h
    refine ⟨?_, ?_⟩
    · obtain ⟨calls, h1, h2, h3, h4⟩ := hge h
      rw [f4 particle] at h2
      refine ⟨calls, h1, h2, ?_, h3, ?_⟩
      · intro hmax
        have hmin : 0 ≤ min (getEmitAmount (afterPendingBursts w self) self).1
            (w.particles particle).m_maxAmount := le_min (le_trans (by decide) h) hmax
        rw [h2, Int.toNat_of_nonneg hmin]
        exact ⟨rfl, min_le_right _ _⟩
      · rw [h4, f1]
    · intro hready
      exact (hrecs hready).2.1 h
  · intro h
    obtain ⟨-, h2, h3⟩ := hlt h
    exact ⟨h2, h3.trans f3, fun hready => (hrecs hready).1 h⟩
  · intro hg
    simp [afterPendingBursts, hg]

/-- Witness for C27: in the example scene at 1000 ms the amount is 2, two calls are made,
their records (start times 1/2 and 1) are in slots 0 and 1 of the pool afterwards and slot 2
still holds the default record. -/
theorem C27_rate_emission_bounded_by_pool_witness :
    ((exampleWorldAt 1000).emitters 0).m_system = some 0
    ∧ ((exampleWorldAt 1000).emitters 0).m_enabled = true
    ∧ ((exampleWorldAt 1000).emitters 0).m_particle = some 0
    ∧ ((exampleWorldAt 1000).particles 0).m_system = some 0
    ∧ (getEmitAmount (afterPendingBursts (exampleWorldAt 1000) 0) 0).1 = 2
    ∧ (∃ calls : List EmitCall,
        (emitParticles (exampleWorldAt 1000) 0).emitTrace
            = (afterPendingBursts (exampleWorldAt 1000) 0).emitTrace ++ calls
        ∧ calls.length = 2
        ∧ ((emitParticles (exampleWorldAt 1000) 0).emitters 0).m_prevEmitTime = 1000)
    ∧ (∃ d0 d1,
        ((emitParticles (exampleWorldAt 1000) 0).particles 0).m_particleData[0]? = some d0
        ∧ d0.startTime = 1 / 2
        ∧ ((emitParticles (exampleWorldAt 1000) 0).particles 0).m_particleData[1]? = some d1
        ∧ d1.startTime = 1)
    ∧ ((emitParticles (exampleWorldAt 1000) 0).particles 0).m_particleData[2]?
        = some exampleData := by
  have hC := C27_rate_emission_bounded_by_pool (exampleWorldAt 1000) 0 0 0 rfl rfl rfl rfl
  have hg : (getEmitAmount (afterPendingBursts (exampleWorldAt 1000) 0) 0).1 = 2 := by
    rw [hC.2.2.1]
    exact example_getEmitAmount
  obtain ⟨⟨calls, h1, h2, -, -, h5⟩, hrec⟩ := hC.1 (by rw [hg]; decide)
  have hpool : (afterPendingBursts (exampleWorldAt 1000) 0).particles 0 = exampleParticle := rfl
  obtain ⟨⟨-, hwr, hdist, hkeep⟩, -⟩ := hrec (by rw [hpool]; exact example_poolReady)
  rw [hpool, hg] at hwr hdist hkeep
  have hn : (min (2 : Int) ((exampleWorldAt 1000).particles 0).m_maxAmount).toNat = 2 := rfl
  rw [hn] at hwr hdist hkeep
  have hd := hdist (by norm_num [exampleParticle])
  obtain ⟨d0, a1, a2, -⟩ := hwr 0 (by norm_num) (fun j h1 h2 => (hd 0 j h1 h2).symm)
  obtain ⟨d1, b1, b2, -⟩ := hwr 1 (by norm_num) (fun j h1 h2 => (hd 1 j h1 h2).symm)
  have hidx : ∀ i : Nat, i < 100 →
      (QQuick3DParticle.claimedIndex exampleParticle i).toNat = i := by
    intro i hi
    rw [example_claimedIndex i hi]
    omega
  rw [hidx 0 (by norm_num)] at a1
  rw [hidx 1 (by norm_num)] at b1
  refine ⟨rfl, rfl, rfl, rfl, hg, ⟨calls, h1, ?_, h5⟩, ⟨d0, d1, a1, ?_, b1, ?_⟩, ?_⟩
  · rw [h2, hg]
    rfl
  · rw [a2]
    norm_num [distributeStartTime, exampleWorldAt, exampleWorld, exampleEmitter,
      exampleSystemAt, exampleParticle]
  · rw [b2]
    norm_num [distributeStartTime, exampleWorldAt, exampleWorld, exampleEmitter,
      exampleSystemAt, exampleParticle]
  · rw [hkeep 2 (fun i hi => by rw [hidx i (by omega)]; omega)]
    rfl

/-! ## Fade factors -/

theorem processParticleFadeInOut_eq (currentData : QQuick3DParticleDataCurrent)
    (particle : QQuick3DParticle) (elapsed remaining : ℚ) :
    processParticleFadeInOut currentData particle elapsed remaining
      = (if remaining < (particle.m_fadeOutDuration : ℚ) / 1000 then
          fadeBy particle.m_fadeOutEffect
            (if elapsed < (particle.m_fadeInDuration : ℚ) / 1000 then
              fadeBy particle.m_fadeInEffect currentData
                (elapsed / ((particle.m_fadeInDuration : ℚ) / 1000))
             else currentData)
            (remaining / ((particle.m_fadeOutDuration : ℚ) / 1000))
         else
          (if elapsed < (particle.m_fadeInDuration : ℚ) / 1000 then
            fadeBy particle.m_fadeInEffect currentData
              (elapsed / ((particle.m_fadeInDuration : ℚ) / 1000))
           else currentData)) := by
  unfold processParticleFadeInOut fadeBy
  rfl

theorem fadeFactor_proper (t d : ℚ) (ht : 0 ≤ t) (hlt : t < d) :
    0 < d ∧ 0 ≤ t / d ∧ t / d < 1 := by
  have hd : 0 < d := lt_of_le_of_lt ht hlt
  exact ⟨hd, div_nonneg ht (le_of_lt hd), (div_lt_one hd).mpr hlt⟩

theorem fadeBy_props (effect : FadeType) (c : QQuick3DParticleDataCurrent) (f : ℚ)
    (hf0 : 0 ≤ f) (hf1 : f < 1) (ha0 : 0 ≤ c.color.a) (ha1 : c.color.a ≤ 255) :
    (0 ≤ (fadeBy effect c f).color.a ∧ (fadeBy effect c f).color.a ≤ c.color.a)
    ∧ |(fadeBy effect c f).scale.x| ≤ |c.scale.x|
    ∧ |(fadeBy effect c f).scale.y| ≤ |c.scale.y|
    ∧ |(fadeBy effect c f).scale.z| ≤ |c.scale.z| := by
  have habs : ∀ x : ℚ, |x * f| ≤ |x| := by
    intro x
    rw [abs_mul, abs_of_nonneg hf0]
    exact mul_le_of_le_one_right (abs_nonneg x) (le_of_lt hf1)
  unfold fadeBy
  split_ifs
  · have hq0 : (0 : ℚ) ≤ (c.color.a : ℚ) * f := mul_nonneg (by exact_mod_cast ha0) hf0
    have hqa : (c.color.a : ℚ) * f ≤ c.color.a :=
      mul_le_of_le_one_right (by exact_mod_cast ha0) (le_of_lt hf1)
    have hq1 : (c.color.a : ℚ) * f < 256 := by
      have : (c.color.a : ℚ) ≤ 255 := by exact_mod_cast ha1
      linarith
    simp only [toUChar_of_range _ hq0 hq1]
    refine ⟨⟨Int.floor_nonneg.mpr hq0, ?_⟩, le_refl _, le_refl _, le_refl _⟩
    have := Int.floor_le ((c.color.a : ℚ) * f)
    have h2 : ((⌊(c.color.a : ℚ) * f⌋ : Int) : ℚ) ≤ (c.color.a : ℚ) := le_trans this hqa
    exact_mod_cast h2
  · simp only [QVector3D.scale]
    exact ⟨⟨ha0, le_refl _⟩, habs _, habs _, habs _⟩
  · exact ⟨⟨ha0, le_refl _⟩, le_refl _, le_refl _, le_refl _⟩

/-- With an elapsed time and a remaining life of zero or more, each fade block of
processParticleFadeInOut is entered only with a strictly positive duration and applies a
factor in [0, 1); the alpha and the magnitude of the scale do not increase. -/
theorem processParticleFadeInOut_props (currentData : QQuick3DParticleDataCurrent)
    (particle : QQuick3DParticle) (elapsed remaining : ℚ)
    (he : 0 ≤ elapsed) (hr : 0 ≤ remaining) :
    (elapsed < (particle.m_fadeInDuration : ℚ) / 1000 →
      0 < particle.m_fadeInDuration
      ∧ 0 < (particle.m_fadeInDuration : ℚ) / 1000
      ∧ 0 ≤ elapsed / ((particle.m_fadeInDuration : ℚ) / 1000)
      ∧ elapsed / ((particle.m_fadeInDuration : ℚ) / 1000) < 1)
    ∧ (remaining < (particle.m_fadeOutDuration : ℚ) / 1000 →
      0 < particle.m_fadeOutDuration
      ∧ 0 < (particle.m_fadeOutDuration : ℚ) / 1000
      ∧ 0 ≤ remaining / ((particle.m_fadeOutDuration : ℚ) / 1000)
      ∧ remaining / ((particle.m_fadeOutDuration : ℚ) / 1000) < 1)
    ∧ processParticleFadeInOut currentData particle elapsed remaining
        = (if remaining < (particle.m_fadeOutDuration : ℚ) / 1000 then
            fadeBy particle.m_fadeOutEffect
              (if elapsed < (particle.m_fadeInDuration : ℚ) / 1000 then
                fadeBy particle.m_fadeInEffect currentData
                  (elapsed / ((particle.m_fadeInDuration : ℚ) / 1000))
               else currentData)
              (remaining / ((particle.m_fadeOutDuration : ℚ) / 1000))
           else
            (if elapsed < (particle.m_fadeInDuration : ℚ) / 1000 then
              fadeBy particle.m_fadeInEffect currentData
                (elapsed / ((particle.m_fadeInDuration : ℚ) / 1000))
             else currentData))
    ∧ (particle.m_fadeInDuration = 0 → particle.m_fadeOutDuration = 0 →
        processParticleFadeInOut currentData particle elapsed remaining = currentData)
    ∧ (0 ≤ currentData.color.a → currentData.color.a ≤ 255 →
        0 ≤ (processParticleFadeInOut currentData particle elapsed remaining).color.a
        ∧ (processParticleFadeInOut currentData particle elapsed remaining).color.a
            ≤ currentData.color.a)
    ∧ |(processParticleFadeInOut currentData particle elapsed remaining).scale.x|
        ≤ |currentData.scale.x|
    ∧ |(processParticleFadeInOut currentData particle elapsed remaining).scale.y|
        ≤ |currentData.scale.y|
    ∧ |(processParticleFadeInOut currentData particle elapsed remaining).scale.z|
        ≤ |currentData.scale.z| := by
  have hposIn : elapsed < (particle.m_fadeInDuration : ℚ) / 1000 →
      0 < particle.m_fadeInDuration := by
    intro h
    have h1 := (fadeFactor_proper elapsed _ he h).1
    have h2 : (0 : ℚ) < (particle.m_fadeInDuration : ℚ) := by linarith
    exact_mod_cast h2
  have hposOut : remaining < (particle.m_fadeOutDuration : ℚ) / 1000 →
      0 < particle.m_fadeOutDuration := by
    intro h
    have h1 := (fadeFactor_proper remaining _ hr h).1
    have h2 : (0 : ℚ) < (particle.m_fadeOutDuration : ℚ) := by linarith
    exact_mod_cast h2
  have hIn : ∀ c : QQuick3DParticleDataCurrent, 0 ≤ c.color.a → c.color.a ≤ 255 →
      (0 ≤ (if elapsed < (particle.m_fadeInDuration : ℚ) / 1000 then
              fadeBy particle.m_fadeInEffect c (elapsed / ((particle.m_fadeInDuration : ℚ) / 1000))
            else c).color.a
        ∧ (if elapsed < (particle.m_fadeInDuration : ℚ) / 1000 then
              fadeBy particle.m_fadeInEffect c (elapsed / ((particle.m_fadeInDuration : ℚ) / 1000))
            else c).color.a ≤ c.color.a) := by
    intro c ha0 ha1
    split_ifs with h
    · obtain ⟨-, f0, f1⟩ := fadeFactor_proper elapsed _ he h
      exact (fadeBy_props _ c _ f0 f1 ha0 ha1).1
    · exact ⟨ha0, le_refl _⟩
  have hInS : ∀ c : QQuick3DParticleDataCurrent,
      |(if elapsed < (particle.m_fadeInDuration : ℚ) / 1000 then
            fadeBy particle.m_fadeInEffect c (elapsed / ((particle.m_fadeInDuration : ℚ) / 1000))
          else c).scale.x| ≤ |c.scale.x|
      ∧ |(if elapsed < (particle.m_fadeInDuration : ℚ) / 1000 then
            fadeBy particle.m_fadeInEffect c (elapsed / ((particle.m_fadeInDuration : ℚ) / 1000))
          else c).scale.y| ≤ |c.scale.y|
      ∧ |(if elapsed < (particle.m_fadeInDuration : ℚ) / 1000 then
            fadeBy particle.m_fadeInEffect c (elapsed / ((particle.m_fadeInDuration : ℚ) / 1000))
          else c).scale.z| ≤ |c.scale.z| := by
    intro c
    split_ifs with h
    · obtain ⟨-, f0, f1⟩ := fadeFactor_proper elapsed _ he h
      have hs : ∀ x : ℚ, |x * (elapsed / ((particle.m_fadeInDuration : ℚ) / 1000))| ≤ |x| := by
        intro x
        rw [abs_mul, abs_of_nonneg f0]
        exact mul_le_of_le_one_right (abs_nonneg x) (le_of_lt f1)
      unfold fadeBy
      split_ifs
      · exact ⟨le_refl _, le_refl _, le_refl _⟩
      · exact ⟨hs _, hs _, hs _⟩
      · exact ⟨le_refl _, le_refl _, le_refl _⟩
    · exact ⟨le_refl _, le_refl _, le_refl _⟩
  have hOutS : ∀ c : QQuick3DParticleDataCurrent,
      |(if remaining < (particle.m_fadeOutDuration : ℚ) / 1000 then
            fadeBy particle.m_fadeOutEffect c
              (remaining / ((particle.m_fadeOutDuration : ℚ) / 1000))
          else c).scale.x| ≤ |c.scale.x|
      ∧ |(if remaining < (particle.m_fadeOutDuration : ℚ) / 1000 then
            fadeBy particle.m_fadeOutEffect c
              (remaining / ((particle.m_fadeOutDuration : ℚ) / 1000))
          else c).scale.y| ≤ |c.scale.y|
      ∧ |(if remaining < (particle.m_fadeOutDuration : ℚ) / 1000 then
            fadeBy particle.m_fadeOutEffect c
              (remaining / ((particle.m_fadeOutDuration : ℚ) / 1000))
          else c).scale.z| ≤ |c.scale.z| := by
    intro c
    split_ifs with h
    · obtain ⟨-, f0, f1⟩ := fadeFactor_proper remaining _ hr h
      have hs : ∀ x : ℚ, |x * (remaining / ((particle.m_fadeOutDuration : ℚ) / 1000))| ≤ |x| := by
        intro x
        rw [abs_mul, abs_of_nonneg f0]
        exact mul_le_of_le_one_right (abs_nonneg x) (le_of_lt f1)
      unfold fadeBy
      split_ifs
      · exact ⟨le_refl _, le_refl _, le_refl _⟩
      · exact ⟨hs _, hs _, hs _⟩
      · exact ⟨le_refl _, le_refl _, le_refl _⟩
    · exact ⟨le_refl _, le_refl _, le_refl _⟩
  have hOut : ∀ c : QQuick3DParticleDataCurrent, 0 ≤ c.color.a → c.color.a ≤ 255 →
      (0 ≤ (if remaining < (particle.m_fadeOutDuration : ℚ) / 1000 then
              fadeBy particle.m_fadeOutEffect c
                (remaining / ((particle.m_fadeOutDuration : ℚ) / 1000))
            else c).color.a
        ∧ (if remaining < (particle.m_fadeOutDuration : ℚ) / 1000 then
              fadeBy particle.m_fadeOutEffect c
                (remaining / ((particle.m_fadeOutDuration : ℚ) / 1000))
            else c).color.a ≤ c.color.a) := by
    intro c ha0 ha1
    split_ifs with h
    · obtain ⟨-, f0, f1⟩ := fadeFactor_proper remaining _ hr h
      exact (fadeBy_props _ c _ f0 f1 ha0 ha1).1
    · exact ⟨ha0, le_refl _⟩
  have hform : processParticleFadeInOut currentData particle elapsed remaining
      = (if remaining < (particle.m_fadeOutDuration : ℚ) / 1000 then
          fadeBy particle.m_fadeOutEffect
            (if elapsed < (particle.m_fadeInDuration : ℚ) / 1000 then
              fadeBy particle.m_fadeInEffect currentData
                (elapsed / ((particle.m_fadeInDuration : ℚ) / 1000))
             else currentData)
            (remaining / ((particle.m_fadeOutDuration : ℚ) / 1000))
         else
          (if elapsed < (particle.m_fadeInDuration : ℚ) / 1000 then
            fadeBy particle.m_fadeInEffect currentData
              (elapsed / ((particle.m_fadeInDuration : ℚ) / 1000))
           else currentData)) := by
    exact processParticleFadeInOut_eq currentData particle elapsed remaining
  refine ⟨?_, ?_, processParticleFadeInOut_eq currentData particle elapsed remaining, ?_, ?_, ?_⟩
  · intro h
    exact ⟨hposIn h, fadeFactor_proper elapsed _ he h⟩
  · intro h
    exact ⟨hposOut h, fadeFactor_proper remaining _ hr h⟩
  · intro h1 h2
    rw [processParticleFadeInOut_eq, h1, h2]
    have e1 : ¬ elapsed < ((0 : Int) : ℚ) / 1000 := by
      simp only [Int.cast_zero, zero_div]
      exact not_lt.mpr he
    have e2 : ¬ remaining < ((0 : Int) : ℚ) / 1000 := by
      simp only [Int.cast_zero, zero_div]
      exact not_lt.mpr hr
    rw [if_neg e2, if_neg e1]
  · intro ha0 ha1
    rw [hform]
    obtain ⟨i0, i1⟩ := hIn currentData ha0 ha1
    obtain ⟨o0, o1⟩ := hOut _ i0 (le_trans i1 ha1)
    exact ⟨o0, le_trans o1 i1⟩
  · rw [hform]
    obtain ⟨ix, iy, iz⟩ := hInS currentData
    obtain ⟨ox, oy, oz⟩ := hOutS
      (if elapsed < (particle.m_fadeInDuration : ℚ) / 1000 then
        fadeBy particle.m_fadeInEffect currentData
          (elapsed / ((particle.m_fadeInDuration : ℚ) / 1000))
       else currentData)
    exact ⟨le_trans ox ix, le_trans oy iy, le_trans oz iz⟩

theorem fadeDivisors_pos (particle : QQuick3DParticle) (elapsed remaining : ℚ)
    (he : 0 ≤ elapsed) (hr : 0 ≤ remaining) :
    ∀ x ∈ fadeDivisors particle elapsed remaining, 0 < x := by
  intro x hx
  unfold fadeDivisors at hx
  simp only [List.mem_append] at hx
  rcases hx with hx | hx
  · split_ifs at hx with h
    · rw [List.mem_singleton] at hx
      rw [hx]
      exact lt_of_le_of_lt he h
    · exact absurd hx (List.not_mem_nil _)
  · split_ifs at hx with h
    · rw [List.mem_singleton] at hx
      rw [hx]
      exact lt_of_le_of_lt hr h
    · exact absurd hx (List.not_mem_nil _)

/-- C28. For a record that passes the alive test of the evaluation loops
(`startTime ≤ timeS ≤ float(startTime + lifetime)`), the loops call
processParticleFadeInOut with the elapsed time `float(timeS - startTime)` and
the remaining life `float(lifetime - elapsed)`. The elapsed time is zero or
more, so the fade-in block, the only place that divides by the fade-in
duration, is entered only when that duration is strictly positive, and its
factor lies in [0, 1). The alive test does not make the remaining life zero or
more. When the remaining life is zero or more, the fade-out block is entered
only with a strictly positive duration, its factor lies in [0, 1), every
divisor is strictly positive, the 8 bit alpha stays in range and does not
increase and no component of the scale grows in magnitude. When it is not: the
record with start time `1.4f` and life time 1 is alive at the tick time `2.4f`,
its remaining life is `-2^-23`, and with a fade-out duration of 0 the fade-out
block is entered and divides by zero. -/
theorem C28_fade_factors_proper (w : World) (particle : Ptr) (timeS : ℚ)
    (d : QQuick3DParticleData) (currentData : QQuick3DParticleDataCurrent)
    (halive : d.startTime ≤ timeS ∧ timeS ≤ f32 (d.startTime + d.lifetime)) :
    0 ≤ f32 (timeS - d.startTime)
    ∧ (∀ (align : Bool) (scaleOf : ℚ → QVector3D), ∃ c,
        stateBeforeAffectors w particle timeS d align scaleOf
          = processParticleFadeInOut c (w.particles particle) (f32 (timeS - d.startTime))
              (f32 (d.lifetime - f32 (timeS - d.startTime))))
    ∧ (f32 (timeS - d.startTime) < ((w.particles particle).m_fadeInDuration : ℚ) / 1000 →
        0 < (w.particles particle).m_fadeInDuration
        ∧ 0 < ((w.particles particle).m_fadeInDuration : ℚ) / 1000
        ∧ 0 ≤ f32 (timeS - d.startTime) / (((w.particles particle).m_fadeInDuration : ℚ) / 1000)
        ∧ f32 (timeS - d.startTime) / (((w.particles particle).m_fadeInDuration : ℚ) / 1000) < 1)
    ∧ (0 ≤ f32 (d.lifetime - f32 (timeS - d.startTime)) →
        (f32 (d.lifetime - f32 (timeS - d.startTime))
            < ((w.particles particle).m_fadeOutDuration : ℚ) / 1000 →
          0 < (w.particles particle).m_fadeOutDuration
          ∧ 0 < ((w.particles particle).m_fadeOutDuration : ℚ) / 1000
          ∧ 0 ≤ f32 (d.lifetime - f32 (timeS - d.startTime))
                / (((w.particles particle).m_fadeOutDuration : ℚ) / 1000)
          ∧ f32 (d.lifetime - f32 (timeS - d.startTime))
                / (((w.particles particle).m_fadeOutDuration : ℚ) / 1000) < 1)
        ∧ (∀ x ∈ fadeDivisors (w.particles particle) (f32 (timeS - d.startTime))
              (f32 (d.lifetime - f32 (timeS - d.startTime))), 0 < x)
        ∧ ((w.particles particle).m_fadeInDuration = 0 →
            (w.particles particle).m_fadeOutDuration = 0 →
            processParticleFadeInOut currentData (w.particles particle)
              (f32 (timeS - d.startTime)) (f32 (d.lifetime - f32 (timeS - d.startTime)))
              = currentData)
        ∧ (0 ≤ currentData.color.a → currentData.color.a ≤ 255 →
            0 ≤ (processParticleFadeInOut currentData (w.particles particle)
                  (f32 (timeS - d.startTime))
                  (f32 (d.lifetime - f32 (timeS - d.startTime)))).color.a
            ∧ (processParticleFadeInOut currentData (w.particles particle)
                  (f32 (timeS - d.startTime))
                  (f32 (d.lifetime - f32 (timeS - d.startTime)))).color.a
                ≤ currentData.color.a)
        ∧ |(processParticleFadeInOut currentData (w.particles particle)
              (f32 (timeS - d.startTime))
              (f32 (d.lifetime - f32 (timeS - d.startTime)))).scale.x| ≤ |currentData.scale.x|
        ∧ |(processParticleFadeInOut currentData (w.particles particle)
              (f32 (timeS - d.startTime))
              (f32 (d.lifetime - f32 (timeS - d.startTime)))).scale.y| ≤ |currentData.scale.y|
        ∧ |(processParticleFadeInOut currentData (w.particles particle)
              (f32 (timeS - d.startTime))
              (f32 (d.lifetime - f32 (timeS - d.startTime)))).scale.z| ≤ |currentData.scale.z|)
    ∧ (exampleLateRecord.startTime = f32 (f32 (1400 : ℚ) / 1000)
        ∧ exampleLateRecord.lifetime = 1
        ∧ f32 (f32 (2400 : ℚ) / 1000) = 5033165 / 2097152
        ∧ exampleLateRecord.startTime ≤ (5033165 / 2097152 : ℚ)
        ∧ (5033165 / 2097152 : ℚ) ≤ f32 (exampleLateRecord.startTime + exampleLateRecord.lifetime)
        ∧ (evaluateModelRecord exampleNoFadeOutWorld 0 0 (5033165 / 2097152)
            exampleLateRecord).isSome = true
        ∧ (evaluateSpriteRecord exampleNoFadeOutWorld 0 0 (5033165 / 2097152)
            exampleLateRecord).isSome = true
        ∧ f32 ((5033165 / 2097152 : ℚ) - exampleLateRecord.startTime) = 8388609 / 8388608
        ∧ f32 (exampleLateRecord.lifetime
            - f32 ((5033165 / 2097152 : ℚ) - exampleLateRecord.startTime)) = -1 / 8388608
        ∧ (exampleNoFadeOutWorld.particles 0).m_fadeOutDuration = 0
        ∧ fadeDivisors (exampleNoFadeOutWorld.particles 0)
            (f32 ((5033165 / 2097152 : ℚ) - exampleLateRecord.startTime))
            (f32 (exampleLateRecord.lifetime
              - f32 ((5033165 / 2097152 : ℚ) - exampleLateRecord.startTime))) = [0]) := by
  have he : 0 ≤ f32 (timeS - d.startTime) := f32_nonneg _ (sub_nonneg.mpr halive.1)
  obtain ⟨v1, v2, v3, v4, v5⟩ := f32_tick_values
  have hs : exampleLateRecord.startTime = 11744051 / 8388608 := rfl
  have hl : exampleLateRecord.lifetime = 1 := rfl
  have a1 : exampleLateRecord.startTime ≤ (5033165 / 2097152 : ℚ) := by
    rw [hs]; norm_num
  have a2 : (5033165 / 2097152 : ℚ)
      ≤ f32 (exampleLateRecord.startTime + exampleLateRecord.lifetime) := by
    rw [hs, hl, v3]
  have hnot : ¬ ((5033165 / 2097152 : ℚ) < exampleLateRecord.startTime
      ∨ (5033165 / 2097152 : ℚ) > f32 (exampleLateRecord.startTime + exampleLateRecord.lifetime)) := by
    rintro (h | h)
    · exact absurd a1 (not_le.mpr h)
    · exact absurd a2 (not_le.mpr h)
  have e1 : f32 ((5033165 / 2097152 : ℚ) - exampleLateRecord.startTime) = 8388609 / 8388608 := by
    rw [hs, v4]
  have e2 : f32 (exampleLateRecord.lifetime
      - f32 ((5033165 / 2097152 : ℚ) - exampleLateRecord.startTime)) = -1 / 8388608 := by
    rw [e1, hl, v5]
  refine ⟨he, fun _ _ => ⟨_, rfl⟩, ?_, ?_, ?_⟩
  · intro h
    have hp := fadeFactor_proper _ _ he h
    refine ⟨?_, hp⟩
    have h2 : (0 : ℚ) < ((w.particles particle).m_fadeInDuration : ℚ) := by linarith [hp.1]
    exact_mod_cast h2
  · intro hr
    obtain ⟨-, p2, -, p4, p5, p6⟩ := processParticleFadeInOut_props currentData
      (w.particles particle) _ _ he hr
    exact ⟨p2, fadeDivisors_pos _ _ _ he hr, p4, p5, p6⟩
  · refine ⟨?_, hl, v1, a1, a2, ?_, ?_, e1, e2, rfl, ?_⟩
    · rw [hs, v2]
    · rw [(evaluateRecord_eq exampleNoFadeOutWorld 0 0 (5033165 / 2097152) exampleLateRecord).1,
        if_neg hnot]
      rfl
    · rw [(evaluateRecord_eq exampleNoFadeOutWorld 0 0 (5033165 / 2097152) exampleLateRecord).2,
        if_neg hnot]
      rfl
    · rw [e2, e1]
      unfold fadeDivisors
      have q1 : ((exampleNoFadeOutWorld.particles 0).m_fadeInDuration : ℚ) / 1000 = 3 / 5 := by
        show ((600 : Int) : ℚ) / 1000 = 3 / 5
        norm_num
      have q2 : ((exampleNoFadeOutWorld.particles 0).m_fadeOutDuration : ℚ) / 1000 = 0 := by
        show ((0 : Int) : ℚ) / 1000 = 0
        norm_num
      simp only [q1, q2]
      norm_num

/-- Witness for C28: the record of the example scene that is alive from 2 s to 5 s, at
2.5 s: the elapsed time 0.5 s is less than the fade-in duration 0.6 s and the factor is in
[0, 1). -/
theorem C28_fade_factors_proper_witness :
    (exampleRecord.startTime ≤ (5 / 2 : ℚ)
      ∧ (5 / 2 : ℚ) ≤ f32 (exampleRecord.startTime + exampleRecord.lifetime))
    ∧ (exampleWorld.particles 0).m_fadeInDuration = 600
    ∧ f32 ((5 / 2 : ℚ) - exampleRecord.startTime) = 1 / 2
    ∧ (0 : ℚ) ≤ f32 ((5 / 2 : ℚ) - exampleRecord.startTime)
        / (((exampleWorld.particles 0).m_fadeInDuration : ℚ) / 1000)
    ∧ f32 ((5 / 2 : ℚ) - exampleRecord.startTime)
        / (((exampleWorld.particles 0).m_fadeInDuration : ℚ) / 1000) < 1 := by
  have hs : exampleRecord.startTime = 2 := rfl
  have hl : exampleRecord.lifetime = 3 := rfl
  have h5 : f32 ((2 : ℚ) + 3) = 5 := by
    have := f32_intCast 5 (by norm_num)
    norm_num at this ⊢
    exact this
  have hh : f32 ((5 / 2 : ℚ) - 2) = 1 / 2 := by
    have := f32_of_repr_le 1 (-1) (by norm_num) (by norm_num)
    norm_num at this ⊢
    exact this
  have halive : exampleRecord.startTime ≤ (5 / 2 : ℚ)
      ∧ (5 / 2 : ℚ) ≤ f32 (exampleRecord.startTime + exampleRecord.lifetime) := by
    rw [hs, hl, h5]
    constructor <;> norm_num
  have h := C28_fade_factors_proper exampleWorld 0 (5 / 2) exampleRecord
    QQuick3DParticleDataCurrent.init halive
  have e : f32 ((5 / 2 : ℚ) - exampleRecord.startTime) = 1 / 2 := by rw [hs, hh]
  have hd : ((exampleWorld.particles 0).m_fadeInDuration : ℚ) / 1000 = 3 / 5 := by
    show ((600 : Int) : ℚ) / 1000 = 3 / 5
    norm_num
  have hlt : f32 ((5 / 2 : ℚ) - exampleRecord.startTime)
      < ((exampleWorld.particles 0).m_fadeInDuration : ℚ) / 1000 := by
    rw [e, hd]; norm_num
  obtain ⟨-, -, f0, f1⟩ := h.2.2.1 hlt
  exact ⟨halive, rfl, e, f0, f1⟩

end Quick3DParticles

namespace Quick3DRuntimeRender

/-! ## Bit masks -/

theorem and_two_pow_ne_zero (x k : Nat) : (x &&& 2 ^ k ≠ 0) ↔ x.testBit k = true := by
  constructor
  · intro h
    by_contra hb
    apply h
    apply Nat.eq_of_testBit_eq
    intro i
    rw [Nat.testBit_and, Nat.testBit_two_pow, Nat.zero_testBit]
    by_cases hi : k = i
    · subst hi
      simp [hb]
    · simp [hi]
  · intro hb h
    have := Nat.testBit_and x (2 ^ k) k
    rw [h, Nat.zero_testBit, hb, Nat.testBit_two_pow_self] at this
    exact absurd this (by decide)

theorem testFlag_two_pow (flags k : Nat) : testFlag flags (1 <<< k) = flags.testBit k := by
  unfold testFlag
  rw [Nat.one_shiftLeft]
  by_cases h : flags.testBit k = true
  · rw [h]
    simpa using (and_two_pow_ne_zero flags k).mpr h
  · have h2 : flags &&& 2 ^ k = 0 := by
      by_contra hne
      exact h ((and_two_pow_ne_zero flags k).mp hne)
    simp only [Bool.not_eq_true] at h
    rw [h, h2]
    rfl

theorem testBit_setFlag (flags k j : Nat) (enabled : Bool) :
    (setFlag flags (1 <<< k) enabled).testBit j = if k = j then enabled else flags.testBit j := by
  unfold setFlag
  rw [Nat.one_shiftLeft]
  cases enabled with
  | true =>
    simp only [if_true, Nat.testBit_or, Nat.testBit_two_pow]
    by_cases h : k = j <;> simp [h]
  | false =>
    simp only [Bool.false_eq_true, if_false, Nat.testBit_xor, Nat.testBit_and, Nat.testBit_two_pow]
    by_cases h : k = j
    · simp [h]
    · simp [h]


/-! ## Preparation result flags -/

open QSSGLayerRenderPreparationResultFlag QSSGLayerRenderPreparationResultFlags

theorem requiresSsaoPass_testBit (flags : Nat) : requiresSsaoPass flags = flags.testBit 3 :=
  testFlag_two_pow flags 3

theorem requiresDepthTexture_testBit (flags : Nat) : requiresDepthTexture flags = flags.testBit 2 :=
  testFlag_two_pow flags 2

theorem apply_testBit (flags j : Nat) (c : FlagSetterCall) :
    (c.apply flags).testBit j =
      match c with
      | FlagSetterCall.setLayerDataDirty v => if 0 = j then v else flags.testBit j
      | FlagSetterCall.setWasDirty v => if 1 = j then v else flags.testBit j
      | FlagSetterCall.setRequiresDepthTexture v => if 2 = j then v else flags.testBit j
      | FlagSetterCall.setRequiresSsaoPass v => if 3 = j then v else flags.testBit j
      | FlagSetterCall.setRequiresShadowMapPass v => if 4 = j then v else flags.testBit j
      | FlagSetterCall.setRequiresScreenTexture v => if 5 = j then v else flags.testBit j
      | FlagSetterCall.setRequiresMipmapsForScreenTexture v => if 6 = j then v else flags.testBit j := by
  cases c <;> exact testBit_setFlag flags _ j _

theorem ssao_step (flags : Nat) (c : FlagSetterCall)
    (hinv : requiresSsaoPass flags = true → requiresDepthTexture flags = true)
    (h1 : c = FlagSetterCall.setRequiresSsaoPass true → requiresDepthTexture flags = true)
    (h2 : c = FlagSetterCall.setRequiresDepthTexture false → requiresSsaoPass flags = false) :
    requiresSsaoPass (c.apply flags) = true → requiresDepthTexture (c.apply flags) = true := by
  rw [requiresSsaoPass_testBit, requiresDepthTexture_testBit] at *
  rw [apply_testBit, apply_testBit]
  cases c with
  | setRequiresDepthTexture v =>
    cases v with
    | true => intro _; simp
    | false =>
      have := h2 rfl
      simp [this]
  | setRequiresSsaoPass v =>
    cases v with
    | true => intro _; simpa using h1 rfl
    | false => simp
  | _ => simpa using hinv

theorem ssao_invariant (calls : List FlagSetterCall) : ∀ (flags : Nat),
    (requiresSsaoPass flags = true → requiresDepthTexture flags = true) →
    ssaoAfterDepth flags calls →
    requiresSsaoPass (applySetters flags calls) = true →
      requiresDepthTexture (applySetters flags calls) = true := by
  induction calls with
  | nil => intro flags hinv _; exact hinv
  | cons c cs ih =>
    intro flags hinv h
    obtain ⟨h1, h2, h3⟩ := h
    exact ih (c.apply flags) (ssao_step flags c hinv h1 h2) h3

/-- C25 (counterexample). Starting from the empty flag value, the single call
`setRequiresSsaoPass(true)` yields a value in which `requiresSsaoPass()` holds and
`requiresDepthTexture()` does not: the setter touches the SSAO bit only. -/
theorem C25_ssao_set_without_depth :
    applySetters 0 [FlagSetterCall.setRequiresSsaoPass true] = 8
      ∧ requiresSsaoPass (applySetters 0 [FlagSetterCall.setRequiresSsaoPass true]) = true
      ∧ requiresDepthTexture (applySetters 0 [FlagSetterCall.setRequiresSsaoPass true]) = false := by
  decide

/-- C25 (amended). Every one of the seven setters of `QSSGLayerRenderPreparationResultFlags`
writes its own bit (bit 0 to bit 6, the bit that its getter reads) and leaves every other bit
as it was. Hence, from a value in which SSAO implies depth, a
sequence of setter calls in which `setRequiresSsaoPass(true)` is only called while the depth
flag is set and `setRequiresDepthTexture(false)` only while the SSAO flag is clear ends in a
value in which `requiresSsaoPass()` implies `requiresDepthTexture()`. -/
theorem C25_ssao_implies_depth_for_disciplined_callers (flags : Nat) (calls : List FlagSetterCall)
    (hinv : requiresSsaoPass flags = true → requiresDepthTexture flags = true)
    (hcalls : ssaoAfterDepth flags calls) :
    (requiresSsaoPass (applySetters flags calls) = true →
        requiresDepthTexture (applySetters flags calls) = true)
      ∧ (∀ (f : Nat) (v : Bool),
          requiresSsaoPass (setRequiresSsaoPass f v) = v
            ∧ requiresDepthTexture (setRequiresSsaoPass f v) = requiresDepthTexture f
            ∧ requiresDepthTexture (setRequiresDepthTexture f v) = v
            ∧ requiresSsaoPass (setRequiresDepthTexture f v) = requiresSsaoPass f)
      ∧ (∀ (f : Nat) (c : FlagSetterCall),
          c ≠ FlagSetterCall.setRequiresSsaoPass true →
          c ≠ FlagSetterCall.setRequiresSsaoPass false →
          requiresSsaoPass (c.apply f) = requiresSsaoPass f)
      ∧ (∀ (f j : Nat) (v : Bool),
          (setLayerDataDirty f v).testBit j = (if 0 = j then v else f.testBit j)
            ∧ (setWasDirty f v).testBit j = (if 1 = j then v else f.testBit j)
            ∧ (setRequiresDepthTexture f v).testBit j = (if 2 = j then v else f.testBit j)
            ∧ (setRequiresSsaoPass f v).testBit j = (if 3 = j then v else f.testBit j)
            ∧ (setRequiresShadowMapPass f v).testBit j = (if 4 = j then v else f.testBit j)
            ∧ (setRequiresScreenTexture f v).testBit j = (if 5 = j then v else f.testBit j)
            ∧ (setRequiresMipmapsForScreenTexture f v).testBit j
                = (if 6 = j then v else f.testBit j))
      ∧ (∀ f : Nat,
          wasLayerDataDirty f = f.testBit 0
            ∧ wasDirty f = f.testBit 1
            ∧ requiresDepthTexture f = f.testBit 2
            ∧ requiresSsaoPass f = f.testBit 3
            ∧ requiresShadowMapPass f = f.testBit 4
            ∧ requiresScreenTexture f = f.testBit 5
            ∧ requiresMipmapsForScreenTexture f = f.testBit 6) := by
  refine ⟨ssao_invariant calls flags hinv hcalls, ?_, ?_,
    fun f j v => ⟨apply_testBit f j (FlagSetterCall.setLayerDataDirty v),
      apply_testBit f j (FlagSetterCall.setWasDirty v),
      apply_testBit f j (FlagSetterCall.setRequiresDepthTexture v),
      apply_testBit f j (FlagSetterCall.setRequiresSsaoPass v),
      apply_testBit f j (FlagSetterCall.setRequiresShadowMapPass v),
      apply_testBit f j (FlagSetterCall.setRequiresScreenTexture v),
      apply_testBit f j (FlagSetterCall.setRequiresMipmapsForScreenTexture v)⟩,
    fun f => ⟨testFlag_two_pow f 0, testFlag_two_pow f 1, testFlag_two_pow f 2,
      testFlag_two_pow f 3, testFlag_two_pow f 4, testFlag_two_pow f 5, testFlag_two_pow f 6⟩⟩
  · intro f v
    have a := apply_testBit f 3 (FlagSetterCall.setRequiresSsaoPass v)
    have b := apply_testBit f 2 (FlagSetterCall.setRequiresSsaoPass v)
    have c := apply_testBit f 2 (FlagSetterCall.setRequiresDepthTexture v)
    have d := apply_testBit f 3 (FlagSetterCall.setRequiresDepthTexture v)
    simp only [FlagSetterCall.apply] at a b c d
    simp only [requiresSsaoPass_testBit, requiresDepthTexture_testBit]
    refine ⟨?_, ?_, ?_, ?_⟩
    · simpa using a
    · simpa using b
    · simpa using c
    · simpa using d
  · intro f c h1 h2
    rw [requiresSsaoPass_testBit, requiresSsaoPass_testBit, apply_testBit]
    cases c with
    | setRequiresSsaoPass v =>
      cases v
      · exact absurd rfl h2
      · exact absurd rfl h1
    | _ => simp

/-- C25 (witness). From the empty value, setting the depth flag and then the SSAO flag is a
disciplined sequence; it ends in the value 12 with both flags set. -/
theorem C25_ssao_implies_depth_for_disciplined_callers_witness :
    ssaoAfterDepth 0 [FlagSetterCall.setRequiresDepthTexture true,
        FlagSetterCall.setRequiresSsaoPass true]
      ∧ applySetters 0 [FlagSetterCall.setRequiresDepthTexture true,
        FlagSetterCall.setRequiresSsaoPass true] = 12
      ∧ (requiresSsaoPass (applySetters 0 [FlagSetterCall.setRequiresDepthTexture true,
            FlagSetterCall.setRequiresSsaoPass true]) = true →
          requiresDepthTexture (applySetters 0 [FlagSetterCall.setRequiresDepthTexture true,
            FlagSetterCall.setRequiresSsaoPass true]) = true) := by
  have hc : ssaoAfterDepth 0 [FlagSetterCall.setRequiresDepthTexture true,
      FlagSetterCall.setRequiresSsaoPass true] := by
    refine ⟨fun h => FlagSetterCall.noConfusion h, fun h => ?_, fun _ => by decide, fun h => ?_, trivial⟩
    · exact absurd h (by decide)
    · exact FlagSetterCall.noConfusion h
  exact ⟨hc, by decide,
    (C25_ssao_implies_depth_for_disciplined_callers 0 _ (by decide) hc).1⟩


/-! ## Render helpers -/

open QSSGRenderHelpers QSSGModelHelpers

/-- With an active layer `commit` calls `prepareModelsForRender` on that layer and returns
its answer. -/
theorem commit_active_layer (frameData : QSSGFrameData) (layer : Ptr)
    (prepId : QSSGPrepContextId) (renderablesId : QSSGRenderablesId) (lodThreshold : ℚ)
    (h : frameData.currentLayer = some layer) :
    commit frameData prepId renderablesId lodThreshold
      = ((frameData.layers layer).prepareModelsForRender prepId renderablesId lodThreshold,
          { frameData with layerCalls := frameData.layerCalls
              ++ [LayerCall.prepareModelsForRender layer prepId renderablesId lodThreshold] }) := by
  simp only [commit, h, QSSGFrameData.call]

/-- With an active layer and a model id `setGlobalOpacity` calls the layer. -/
theorem setGlobalOpacity_active_layer (frameData : QSSGFrameData) (layer : Ptr)
    (renderablesId : QSSGRenderablesId) (model : QSSGNodeId) (opacity : ℚ)
    (renderModel : QSSGRenderNode)
    (h : frameData.currentLayer = some layer) (hm : validModel frameData model = some renderModel) :
    setGlobalOpacity frameData renderablesId model opacity
      = { frameData with layerCalls := frameData.layerCalls
            ++ [LayerCall.setGlobalOpacity layer renderablesId model opacity] } := by
  simp only [setGlobalOpacity, h, hm, QSSGFrameData.call]

/-- With an active layer and a non-empty node list `createRenderables` calls the layer. -/
theorem createRenderables_active_layer (frameData : QSSGFrameData) (layer : Ptr)
    (prepId : QSSGPrepContextId) (nodes : List QSSGNodeId) (flags : Nat)
    (h : frameData.currentLayer = some layer) (hn : nodes ≠ []) :
    createRenderables frameData prepId nodes flags
      = ((frameData.layers layer).createRenderables prepId nodes flags,
          { frameData with layerCalls := frameData.layerCalls
              ++ [LayerCall.createRenderables layer prepId nodes flags] }) := by
  have hl : nodes.length > 0 := List.length_pos.mpr hn
  simp only [createRenderables, h, QSSGFrameData.call, if_pos hl]

/-- C22 (counterexample). Without an active layer `getLocalOpacity` of a model id returns the
model's local opacity 1, not zero; the two-argument `getGlobalOpacity` returns its global
opacity 1 as well. Neither consults the layer. -/
theorem C22_local_getters_answer_without_layer :
    exampleNoLayerFrame.currentLayer = none
      ∧ (getLocalOpacity exampleNoLayerFrame 7).1 = 1
      ∧ (getLocalOpacity exampleNoLayerFrame 7).1 ≠ 0
      ∧ (getGlobalOpacity exampleNoLayerFrame 7).1 = 1 := by
  have h : validModel exampleNoLayerFrame 7 = some { type := GraphObjectType.Model } := rfl
  refine ⟨rfl, ?_, ?_, ?_⟩
  · simp only [getLocalOpacity, h]
  · simp only [getLocalOpacity, h]
    norm_num
  · simp only [getGlobalOpacity, h]

/-- C22 (amended). While the renderer has no active layer, every helper that consults the
layer (createRenderables, prepareForRender, commit, prepareRenderables, renderRenderables, both
setModelMaterials, getGlobalTransform and getGlobalOpacity with a prep context,
setGlobalTransform, setGlobalOpacity) makes no call on a layer, changes nothing and returns
its default value (Uninitialized, the default matrix, zero). The getters getLocalTransform,
getLocalOpacity and the two-argument getGlobalOpacity never consult the layer: on every
frame, with or without an active layer, they make no call and change nothing, and return the
value stored in the model, and the default value only for an id that is not a model. -/
theorem C22_helpers_inert_without_layer (frameData : QSSGFrameData)
    (hlayer : frameData.currentLayer = none) :
    (∀ prepId nodes flags,
        createRenderables frameData prepId nodes flags = (Uninitialized, frameData))
      ∧ (∀ ext camera slot,
        prepareForRender frameData ext camera slot = (Uninitialized, frameData))
      ∧ (∀ prepId renderablesId lodThreshold,
        commit frameData prepId renderablesId lodThreshold = (Uninitialized, frameData))
      ∧ (∀ prepId renderPassDescriptor ps filter,
        prepareRenderables frameData prepId renderPassDescriptor ps filter = frameData)
      ∧ (∀ prepId, renderRenderables frameData prepId = frameData)
      ∧ (∀ renderablesId model materials,
        setModelMaterials frameData renderablesId model materials = frameData)
      ∧ (∀ renderablesId materials,
        setModelMaterialsAll frameData renderablesId materials = frameData)
      ∧ (∀ model prepId, getGlobalTransform frameData model prepId = (1, frameData))
      ∧ (∀ model prepId, getGlobalOpacityIn frameData model prepId = (0, frameData))
      ∧ (∀ renderablesId model transform,
        setGlobalTransform frameData renderablesId model transform = frameData)
      ∧ (∀ renderablesId model opacity,
        setGlobalOpacity frameData renderablesId model opacity = frameData)
      ∧ (∀ model,
        (getLocalTransform frameData model).2 = frameData
          ∧ (getLocalOpacity frameData model).2 = frameData
          ∧ (getGlobalOpacity frameData model).2 = frameData)
      ∧ (∀ model renderModel, validModel frameData model = some renderModel →
        (getLocalTransform frameData model).1 = renderModel.localTransform
          ∧ (getLocalOpacity frameData model).1 = renderModel.localOpacity
          ∧ (getGlobalOpacity frameData model).1 = renderModel.globalOpacity)
      ∧ (∀ model, validModel frameData model = none →
        (getLocalTransform frameData model).1 = 1
          ∧ (getLocalOpacity frameData model).1 = 0
          ∧ (getGlobalOpacity frameData model).1 = 0)
      ∧ (∀ (other : QSSGFrameData) (model : QSSGNodeId),
        ((getLocalTransform other model).2 = other
          ∧ (getLocalOpacity other model).2 = other
          ∧ (getGlobalOpacity other model).2 = other)
        ∧ (∀ renderModel, validModel other model = some renderModel →
          (getLocalTransform other model).1 = renderModel.localTransform
            ∧ (getLocalOpacity other model).1 = renderModel.localOpacity
            ∧ (getGlobalOpacity other model).1 = renderModel.globalOpacity)
        ∧ (validModel other model = none →
          (getLocalTransform other model).1 = 1
            ∧ (getLocalOpacity other model).1 = 0
            ∧ (getGlobalOpacity other model).1 = 0)) := by
  refine ⟨?_, ?_, ?_, ?_, ?_, ?_, ?_, ?_, ?_, ?_, ?_, ?_, ?_, ?_, ?_⟩
  · intro prepId nodes flags
    unfold createRenderables
    dsimp only
    by_cases hn : nodes.length > 0
    · rw [if_pos hn]
      simp only [hlayer]
    · rw [if_neg hn]
  · intro ext camera slot
    unfold prepareForRender
    cases hc : frameData.nodes camera with
    | none => rfl
    | some cn =>
      dsimp only
      by_cases hcam : isCamera cn.type = true
      · rw [if_pos hcam]
        simp only [hlayer]
      · rw [if_neg hcam]
  · intro prepId renderablesId lodThreshold
    simp only [commit, hlayer]
  · intro prepId renderPassDescriptor ps filter
    simp only [prepareRenderables, hlayer]
  · intro prepId
    simp only [renderRenderables, hlayer]
  · intro renderablesId model materials
    simp only [setModelMaterials, hlayer]
  · intro renderablesId materials
    simp only [setModelMaterialsAll, hlayer]
  · intro model prepId
    simp only [getGlobalTransform, hlayer]
  · intro model prepId
    simp only [getGlobalOpacityIn, hlayer]
  · intro renderablesId model transform
    simp only [setGlobalTransform, hlayer]
  · intro renderablesId model opacity
    simp only [setGlobalOpacity, hlayer]
  · intro model
    unfold getLocalTransform getLocalOpacity getGlobalOpacity
    cases validModel frameData model with
    | none => exact ⟨rfl, rfl, rfl⟩
    | some m => exact ⟨rfl, rfl, rfl⟩
  · intro model renderModel hm
    simp only [getLocalTransform, getLocalOpacity, getGlobalOpacity, hm, and_self]
  · intro model hm
    simp only [getLocalTransform, getLocalOpacity, getGlobalOpacity, hm, and_self]
  · intro other model
    refine ⟨?_, ?_, ?_⟩
    · unfold getLocalTransform getLocalOpacity getGlobalOpacity
      cases validModel other model with
      | none => exact ⟨rfl, rfl, rfl⟩
      | some m => exact ⟨rfl, rfl, rfl⟩
    · intro renderModel hm
      simp only [getLocalTransform, getLocalOpacity, getGlobalOpacity, hm, and_self]
    · intro hm
      simp only [getLocalTransform, getLocalOpacity, getGlobalOpacity, hm, and_self]

/-- C22 (witness). The frame without a layer: `commit` returns Uninitialized and leaves the
frame as it was; on the same frame with the layer 1 active `getLocalOpacity` of the model 7
leaves the frame as it was as well. -/
theorem C22_helpers_inert_without_layer_witness :
    exampleNoLayerFrame.currentLayer = none
      ∧ commit exampleNoLayerFrame 3 4 (1 / 2) = (Uninitialized, exampleNoLayerFrame)
      ∧ getGlobalOpacityIn exampleNoLayerFrame 7 3 = (0, exampleNoLayerFrame)
      ∧ exampleLayerFrame.currentLayer = some 1
      ∧ (getLocalOpacity exampleLayerFrame 7).2 = exampleLayerFrame :=
  ⟨rfl, (C22_helpers_inert_without_layer exampleNoLayerFrame rfl).2.2.1 3 4 (1 / 2),
    (C22_helpers_inert_without_layer exampleNoLayerFrame rfl).2.2.2.2.2.2.2.2.1 7 3,
    rfl,
    ((C22_helpers_inert_without_layer exampleNoLayerFrame rfl).2.2.2.2.2.2.2.2.2.2.2.2.2.2
      exampleLayerFrame 7).1.2.1⟩


/-! ## Global values of the node graph -/

open QSSGRenderNode

theorem and_clear_eq_zero (x f : Nat) : (x ^^^ (x &&& f)) &&& f = 0 := by
  apply Nat.eq_of_testBit_eq
  intro i
  simp only [Nat.testBit_and, Nat.testBit_xor, Nat.zero_testBit]
  cases x.testBit i <;> cases f.testBit i <;> rfl

theorem isDirty_clearDirty (node : QSSGRenderNode) (f : Nat) :
    (node.clearDirty f).isDirty f = false := by
  unfold QSSGRenderNode.isDirty QSSGRenderNode.clearDirty
  simp only [and_clear_eq_zero]
  rfl

theorem isAncestor_depth_lt {s : Scene} {depth : Ptr → Nat} {a n : Ptr}
    (hacyc : Acyclic s depth) (h : IsAncestor s a n) : depth a < depth n := by
  induction h with
  | parent hp => exact hacyc _ _ hp
  | step hp _ ih => exact lt_trans ih (hacyc _ _ hp)

theorem not_isAncestor_of_root {s : Scene} {a n : Ptr} (hp : (s.nodes n).parent = none) :
    ¬ IsAncestor s a n := by
  intro h
  cases h with
  | parent h1 => rw [hp] at h1; cases h1
  | step h1 _ => rw [hp] at h1; cases h1

theorem isAncestor_parent_cases {s : Scene} {a n p : Ptr} (hp : (s.nodes n).parent = some p)
    (h : IsAncestor s a n) : a = p ∨ IsAncestor s a p := by
  cases h with
  | parent h1 =>
    rw [hp] at h1
    exact Or.inl (Option.some.inj h1).symm
  | step h1 h2 =>
    rw [hp] at h1
    cases Option.some.inj h1
    exact Or.inr h2

theorem resolve_nodes_ne (s : Scene) (self m : Ptr) (h : m ≠ self) :
    (resolveGlobalValues s self).nodes m = s.nodes m := by
  simp only [resolveGlobalValues, Scene.setNode, if_neg h]

theorem resolve_resolved (s : Scene) (self : Ptr) :
    (resolveGlobalValues s self).resolved = s.resolved ++ [self] := rfl

theorem resolve_self_locals (s : Scene) (self : Ptr) :
    ((resolveGlobalValues s self).nodes self).parent = (s.nodes self).parent
      ∧ ((resolveGlobalValues s self).nodes self).localTransform = (s.nodes self).localTransform
      ∧ ((resolveGlobalValues s self).nodes self).localOpacity = (s.nodes self).localOpacity := by
  simp only [resolveGlobalValues, Scene.setNode, if_true, clearDirty]
  cases (s.nodes self).parent <;> exact ⟨rfl, rfl, rfl⟩

theorem resolve_self_clean (s : Scene) (self : Ptr) :
    ((resolveGlobalValues s self).nodes self).isDirty DirtyFlag.GlobalValuesDirty = false := by
  simp only [resolveGlobalValues, Scene.setNode, if_true]
  exact isDirty_clearDirty _ _

theorem resolve_self_global_root (s : Scene) (self : Ptr) (hp : (s.nodes self).parent = none) :
    ((resolveGlobalValues s self).nodes self).globalTransform = (s.nodes self).localTransform := by
  simp only [resolveGlobalValues, Scene.setNode, if_true, clearDirty, hp]

theorem resolve_self_global_child (s : Scene) (self p : Ptr)
    (hp : (s.nodes self).parent = some p) :
    ((resolveGlobalValues s self).nodes self).globalTransform
      = (s.nodes p).globalTransform * (s.nodes self).localTransform
    ∧ ((resolveGlobalValues s self).nodes self).globalOpacity
      = (s.nodes p).globalOpacity * (s.nodes self).localOpacity := by
  simp only [resolveGlobalValues, Scene.setNode, if_true, clearDirty, hp, and_self]

theorem resolve_locals (s : Scene) (self m : Ptr) :
    ((resolveGlobalValues s self).nodes m).parent = (s.nodes m).parent
      ∧ ((resolveGlobalValues s self).nodes m).localTransform = (s.nodes m).localTransform
      ∧ ((resolveGlobalValues s self).nodes m).localOpacity = (s.nodes m).localOpacity := by
  by_cases h : m = self
  · subst h
    exact resolve_self_locals s m
  · rw [resolve_nodes_ne s self m h]
    exact ⟨rfl, rfl, rfl⟩


theorem calculate_root_dirty (fuel : Nat) (s : Scene) (n : Ptr)
    (hp : (s.nodes n).parent = none)
    (hd : (s.nodes n).isDirty DirtyFlag.GlobalValuesDirty = true) :
    calculateGlobalVariables (fuel + 1) s n = some (true, resolveGlobalValues s n) := by
  simp only [calculateGlobalVariables, hp, hd, if_true]

theorem calculate_root_clean (fuel : Nat) (s : Scene) (n : Ptr)
    (hp : (s.nodes n).parent = none)
    (hd : (s.nodes n).isDirty DirtyFlag.GlobalValuesDirty = false) :
    calculateGlobalVariables (fuel + 1) s n = some (false, s) := by
  simp only [calculateGlobalVariables, hp, hd, Bool.false_eq_true, if_false]

theorem calculate_child_changed (fuel : Nat) (s s1 : Scene) (n p : Ptr) (changed : Bool)
    (hp : (s.nodes n).parent = some p)
    (h1 : calculateGlobalVariables fuel s p = some (changed, s1))
    (hd : (changed || (s1.nodes n).isDirty DirtyFlag.GlobalValuesDirty) = true) :
    calculateGlobalVariables (fuel + 1) s n = some (true, resolveGlobalValues s1 n) := by
  simp only [calculateGlobalVariables, hp, h1, hd, if_true]

theorem calculate_child_unchanged (fuel : Nat) (s s1 : Scene) (n p : Ptr) (changed : Bool)
    (hp : (s.nodes n).parent = some p)
    (h1 : calculateGlobalVariables fuel s p = some (changed, s1))
    (hd : (changed || (s1.nodes n).isDirty DirtyFlag.GlobalValuesDirty) = false) :
    calculateGlobalVariables (fuel + 1) s n = some (false, s1) := by
  simp only [calculateGlobalVariables, hp, h1, hd, Bool.false_eq_true, if_false]

theorem globalsResolved_root_dirty (s : Scene) (n : Ptr)
    (hp : (s.nodes n).parent = none)
    (hd : (s.nodes n).isDirty DirtyFlag.GlobalValuesDirty = true) :
    GlobalsResolved s n true (resolveGlobalValues s n) [n] where
  trace := resolve_resolved s n
  frame := fun m hm _ => resolve_nodes_ne s n m hm
  locals := resolve_locals s n
  clean := by
    intro m hm
    rcases hm with hm | hm
    · subst hm
      exact resolve_self_clean s m
    · exact absurd hm (not_isAncestor_of_root hp)
  changed_iff := ⟨fun _ => Or.inl hd, fun _ => rfl⟩
  unchanged := fun h => Bool.noConfusion h
  last := fun _ => ⟨[], rfl, fun m hm => absurd hm (List.not_mem_nil m),
    fun a ha _ => absurd ha (not_isAncestor_of_root hp)⟩
  topDown := List.pairwise_singleton _ _
  members := fun m hm => Or.inl (List.mem_singleton.mp hm)
  globals := by
    intro m hm
    have hmn : m = n := List.mem_singleton.mp hm
    subst hmn
    have hl := resolve_self_locals s m
    rw [hl.1, hp]
    dsimp only
    rw [hl.2.1]
    exact resolve_self_global_root s m hp

theorem globalsResolved_root_clean (s : Scene) (n : Ptr)
    (hp : (s.nodes n).parent = none)
    (hd : (s.nodes n).isDirty DirtyFlag.GlobalValuesDirty = false) :
    GlobalsResolved s n false s [] where
  trace := (List.append_nil _).symm
  frame := fun _ _ _ => rfl
  locals := fun _ => ⟨rfl, rfl, rfl⟩
  clean := by
    intro m hm
    rcases hm with hm | hm
    · subst hm
      exact hd
    · exact absurd hm (not_isAncestor_of_root hp)
  changed_iff := by
    constructor
    · intro h
      exact Bool.noConfusion h
    · intro h
      rcases h with h | ⟨a, ha, _⟩
      · rw [hd] at h
        exact h
      · exact absurd ha (not_isAncestor_of_root hp)
  unchanged := fun _ => ⟨rfl, rfl⟩
  last := fun h => Bool.noConfusion h
  topDown := List.Pairwise.nil
  members := fun m hm => absurd hm (List.not_mem_nil m)
  globals := fun m hm => absurd hm (List.not_mem_nil m)

theorem globalsResolved_child_changed (s s1 : Scene) (depth : Ptr → Nat) (n p : Ptr)
    (changed : Bool) (l1 : List Ptr) (hacyc : Acyclic s depth)
    (hp : (s.nodes n).parent = some p)
    (ih : GlobalsResolved s p changed s1 l1)
    (hd : (changed || (s1.nodes n).isDirty DirtyFlag.GlobalValuesDirty) = true) :
    GlobalsResolved s n true (resolveGlobalValues s1 n) (l1 ++ [n]) := by
  have hpn : depth p < depth n := hacyc n p hp
  have hanc_lt : ∀ m, m = p ∨ IsAncestor s m p → depth m < depth n := by
    intro m hm
    rcases hm with hm | hm
    · rw [hm]
      exact hpn
    · exact lt_trans (isAncestor_depth_lt hacyc hm) hpn
  have hne : ∀ m, m = p ∨ IsAncestor s m p → m ≠ n := by
    intro m hm h
    have := hanc_lt m hm
    rw [h] at this
    exact lt_irrefl _ this
  have hn1 : s1.nodes n = s.nodes n := by
    apply ih.frame n
    · intro h
      exact hne p (Or.inl rfl) h.symm
    · intro h
      have := isAncestor_depth_lt hacyc h
      exact lt_asymm this hpn
  refine
    { trace := ?_, frame := ?_, locals := ?_, clean := ?_, changed_iff := ?_, unchanged := ?_,
      last := ?_, topDown := ?_, members := ?_, globals := ?_ }
  · rw [resolve_resolved, ih.trace, List.append_assoc]
  · intro m hm hanc
    rw [resolve_nodes_ne s1 n m hm]
    apply ih.frame m
    · intro h
      exact hanc (h ▸ IsAncestor.parent hp)
    · intro h
      exact hanc (IsAncestor.step hp h)
  · intro m
    have h1 := resolve_locals s1 n m
    have h2 := ih.locals m
    exact ⟨h1.1.trans h2.1, h1.2.1.trans h2.2.1, h1.2.2.trans h2.2.2⟩
  · intro m hm
    rcases hm with hm | hm
    · subst hm
      exact resolve_self_clean s1 m
    · have hm2 := isAncestor_parent_cases hp hm
      rw [resolve_nodes_ne s1 n m (hne m hm2)]
      exact ih.clean m hm2
  · constructor
    · intro _
      rcases Bool.or_eq_true _ _ ▸ hd with hc | hdn
      · rcases ih.changed_iff.mp hc with h | ⟨a, ha, hda⟩
        · exact Or.inr ⟨p, IsAncestor.parent hp, h⟩
        · exact Or.inr ⟨a, IsAncestor.step hp ha, hda⟩
      · rw [hn1] at hdn
        exact Or.inl hdn
    · intro _
      rfl
  · intro h
    exact Bool.noConfusion h
  · intro _
    refine ⟨l1, rfl, ?_, ?_⟩
    · intro m hm
      rcases ih.members m hm with h | h
      · rw [h]
        exact IsAncestor.parent hp
      · exact IsAncestor.step hp h
    intro a ha hda
    rcases isAncestor_parent_cases hp ha with hap | hap
    · subst hap
      have hc : changed = true := ih.changed_iff.mpr (Or.inl hda)
      obtain ⟨l0, hl0, _⟩ := ih.last hc
      rw [hl0]
      exact List.mem_append_right _ (List.mem_singleton.mpr rfl)
    · have hc : changed = true := ih.changed_iff.mpr (Or.inr ⟨a, hap, hda⟩)
      obtain ⟨l0, hl0, _, hmem⟩ := ih.last hc
      rw [hl0]
      exact List.mem_append_left _ (hmem a hap hda)
  · rw [List.pairwise_append]
    refine ⟨ih.topDown, List.pairwise_singleton _ _, ?_⟩
    intro a ha b hb
    rw [List.mem_singleton.mp hb]
    rcases ih.members a ha with h | h
    · rw [h]
      exact IsAncestor.parent hp
    · exact IsAncestor.step hp h
  · intro m hm
    rcases List.mem_append.mp hm with hm | hm
    · rcases ih.members m hm with h | h
      · rw [h]
        exact Or.inr (IsAncestor.parent hp)
      · exact Or.inr (IsAncestor.step hp h)
    · exact Or.inl (List.mem_singleton.mp hm)
  · intro m hm
    rcases List.mem_append.mp hm with hm | hm
    · have hmp := ih.members m hm
      have hmn : m ≠ n := hne m hmp
      have hg := ih.globals m hm
      rw [resolve_nodes_ne s1 n m hmn]
      cases hq : (s1.nodes m).parent with
      | none =>
        rw [hq] at hg
        exact hg
      | some q =>
        rw [hq] at hg
        dsimp only at hg ⊢
        have hq2 : (s.nodes m).parent = some q := by
          rw [← (ih.locals m).1]
          exact hq
        have hqn : q ≠ n := by
          intro h
          have h1 : depth q < depth m := hacyc m q hq2
          have h2 : depth m < depth n := hanc_lt m hmp
          rw [h] at h1
          exact lt_asymm h1 h2
        rw [resolve_nodes_ne s1 n q hqn]
        exact hg
    · have hmn : m = n := List.mem_singleton.mp hm
      subst hmn
      have hp1 : (s1.nodes m).parent = some p := by
        rw [hn1]
        exact hp
      have hl := resolve_self_locals s1 m
      rw [hl.1, hp1]
      dsimp only
      rw [hl.2.1, resolve_nodes_ne s1 m p (hne p (Or.inl rfl))]
      exact (resolve_self_global_child s1 m p hp1).1

theorem globalsResolved_child_unchanged (s s1 : Scene) (depth : Ptr → Nat) (n p : Ptr)
    (changed : Bool) (l1 : List Ptr) (hacyc : Acyclic s depth)
    (hp : (s.nodes n).parent = some p)
    (ih : GlobalsResolved s p changed s1 l1)
    (hd : (changed || (s1.nodes n).isDirty DirtyFlag.GlobalValuesDirty) = false) :
    GlobalsResolved s n false s1 l1 := by
  have hc : changed = false := (Bool.or_eq_false_iff.mp hd).1
  have hdn : (s1.nodes n).isDirty DirtyFlag.GlobalValuesDirty = false :=
    (Bool.or_eq_false_iff.mp hd).2
  obtain ⟨hs, hl⟩ := ih.unchanged hc
  subst hs
  subst hl
  refine
    { trace := ih.trace, frame := fun _ _ _ => rfl, locals := fun _ => ⟨rfl, rfl, rfl⟩,
      clean := ?_, changed_iff := ?_, unchanged := fun _ => ⟨rfl, rfl⟩,
      last := fun h => Bool.noConfusion h, topDown := List.Pairwise.nil,
      members := fun m hm => absurd hm (List.not_mem_nil m),
      globals := fun m hm => absurd hm (List.not_mem_nil m) }
  · intro m hm
    rcases hm with hm | hm
    · rw [hm]
      exact hdn
    · exact ih.clean m (isAncestor_parent_cases hp hm)
  · constructor
    · intro h
      exact Bool.noConfusion h
    · intro h
      rcases h with h | ⟨a, ha, hda⟩
      · rw [hdn] at h
        exact h
      · have hcl := ih.clean a (isAncestor_parent_cases hp ha)
        rw [hcl] at hda
        exact hda

theorem calculateGlobalVariables_resolves (depth : Ptr → Nat) : ∀ (fuel : Nat) (s : Scene)
    (n : Ptr), Acyclic s depth → depth n < fuel →
    ∃ changed s1 l, calculateGlobalVariables fuel s n = some (changed, s1)
      ∧ GlobalsResolved s n changed s1 l := by
  intro fuel
  induction fuel with
  | zero =>
    intro s n _ h
    exact absurd h (Nat.not_lt_zero _)
  | succ fuel ih =>
    intro s n hacyc hfuel
    cases hp : (s.nodes n).parent with
    | none =>
      cases hd : (s.nodes n).isDirty DirtyFlag.GlobalValuesDirty with
      | true =>
        exact ⟨true, _, [n], calculate_root_dirty fuel s n hp hd,
          globalsResolved_root_dirty s n hp hd⟩
      | false =>
        exact ⟨false, s, [], calculate_root_clean fuel s n hp hd,
          globalsResolved_root_clean s n hp hd⟩
    | some p =>
      have hpn : depth p < depth n := hacyc n p hp
      obtain ⟨changed, s1, l1, h1, hr⟩ := ih s p hacyc (by omega)
      cases hd : (changed || (s1.nodes n).isDirty DirtyFlag.GlobalValuesDirty) with
      | true =>
        exact ⟨true, _, l1 ++ [n], calculate_child_changed fuel s s1 n p changed hp h1 hd,
          globalsResolved_child_changed s s1 depth n p changed l1 hacyc hp hr hd⟩
      | false =>
        exact ⟨false, s1, l1, calculate_child_unchanged fuel s s1 n p changed hp h1 hd,
          globalsResolved_child_unchanged s s1 depth n p changed l1 hacyc hp hr hd⟩


/-- The chain 1 ← 2 ← 3 is acyclic: the pointer itself is a depth. -/
theorem exampleChain_acyclic : Acyclic exampleChain id := by
  intro n p h
  unfold exampleChain at h
  dsimp only at h
  by_cases h1 : n = 1
  · rw [if_pos h1] at h
    cases h
  · rw [if_neg h1] at h
    by_cases h2 : n = 2
    · rw [if_pos h2] at h
      cases Option.some.inj h
      rw [h2]
      decide
    · rw [if_neg h2] at h
      by_cases h3 : n = 3
      · rw [if_pos h3] at h
        cases Option.some.inj h
        rw [h3]
        decide
      · rw [if_neg h3] at h
        cases h

/-- C23. In an acyclic node graph (a depth decreases towards the parent), let the node `A`
be a proper ancestor of the node `N` and have a GlobalValuesDirty bit. Then
`calculateGlobalVariables()` on `N` returns (with fuel above the depth of `N`) and reports a
change. The nodes whose global values it computes are resolved top-down, every earlier one an
ancestor of every later one, `N` last and `A` among the nodes before it; each of them ends
with global transform = parent global transform × local transform (the local transform for a
root), and afterwards `isDirty(GlobalValuesDirty)` is false for `A` and for `N`. Parents and
local values are as before. -/
theorem C23_dirty_ancestor_resolved_before_node (s : Scene) (depth : Ptr → Nat) (N A : Ptr)
    (fuel : Nat) (hacyc : Acyclic s depth) (hanc : IsAncestor s A N)
    (hdirty : (s.nodes A).isDirty DirtyFlag.GlobalValuesDirty = true)
    (hfuel : depth N < fuel) :
    ∃ s1 l0, calculateGlobalVariables fuel s N = some (true, s1)
      ∧ s1.resolved = s.resolved ++ (l0 ++ [N])
      ∧ A ∈ l0
      ∧ N ∉ l0
      ∧ (l0 ++ [N]).Pairwise (IsAncestor s)
      ∧ (s1.nodes A).isDirty DirtyFlag.GlobalValuesDirty = false
      ∧ (s1.nodes N).isDirty DirtyFlag.GlobalValuesDirty = false
      ∧ (∀ m ∈ l0 ++ [N],
          match (s1.nodes m).parent with
          | none => (s1.nodes m).globalTransform = (s1.nodes m).localTransform
          | some p =>
            (s1.nodes m).globalTransform
              = (s1.nodes p).globalTransform * (s1.nodes m).localTransform)
      ∧ (∀ m, (s1.nodes m).parent = (s.nodes m).parent
          ∧ (s1.nodes m).localTransform = (s.nodes m).localTransform
          ∧ (s1.nodes m).localOpacity = (s.nodes m).localOpacity) := by
  obtain ⟨changed, s1, l, hc, hr⟩ := calculateGlobalVariables_resolves depth fuel s N hacyc hfuel
  have hch : changed = true := hr.changed_iff.mpr (Or.inr ⟨A, hanc, hdirty⟩)
  subst hch
  obtain ⟨l0, hl, hl0, hmem⟩ := hr.last rfl
  subst hl
  refine ⟨s1, l0, hc, hr.trace, hmem A hanc hdirty, ?_, hr.topDown,
    hr.clean A (Or.inr hanc), hr.clean N (Or.inl rfl), hr.globals, hr.locals⟩
  intro hN
  exact lt_irrefl _ (isAncestor_depth_lt hacyc (hl0 N hN))

/-- C23 (witness). The chain 1 ← 2 ← 3 with a dirty root: the call on the node 3 resolves
the root before the node 3. -/
theorem C23_dirty_ancestor_resolved_before_node_witness :
    Acyclic exampleChain id
      ∧ IsAncestor exampleChain 1 3
      ∧ (exampleChain.nodes 1).isDirty DirtyFlag.GlobalValuesDirty = true
      ∧ ∃ s1 l0, calculateGlobalVariables 4 exampleChain 3 = some (true, s1)
        ∧ s1.resolved = exampleChain.resolved ++ (l0 ++ [3])
        ∧ 1 ∈ l0
        ∧ (s1.nodes 1).isDirty DirtyFlag.GlobalValuesDirty = false
        ∧ (s1.nodes 3).isDirty DirtyFlag.GlobalValuesDirty = false := by
  have hanc : IsAncestor exampleChain 1 3 :=
    @IsAncestor.step exampleChain 3 2 1 rfl (IsAncestor.parent rfl)
  have hd : (exampleChain.nodes 1).isDirty DirtyFlag.GlobalValuesDirty = true := by decide
  obtain ⟨s1, l0, h1, h2, h3, _, _, h4, h5, _⟩ :=
    C23_dirty_ancestor_resolved_before_node exampleChain id 3 1 4 exampleChain_acyclic hanc hd
      (by decide)
  exact ⟨exampleChain_acyclic, hanc, hd, s1, l0, h1, h2, h3, h4, h5⟩


theorem scaling_mul (a b : ℚ) : scaling a * scaling b = scaling (a * b) := by
  unfold scaling
  rw [Matrix.diagonal_mul_diagonal]

/-- The call on the node 3 of the chain 1 ← 2 ← 3 computes the global values of 1, 2 and 3
in this order; the global transforms are the scalings by 2, 6 and 30. -/
theorem exampleChain_resolved :
    ∃ s1, calculateGlobalVariables 4 exampleChain 3 = some (true, s1)
      ∧ s1.resolved = [1, 2, 3]
      ∧ (s1.nodes 1).globalTransform = scaling 2
      ∧ (s1.nodes 2).globalTransform = scaling 6
      ∧ (s1.nodes 3).globalTransform = scaling 30 := by
  have h1 : calculateGlobalVariables 2 exampleChain 1
      = some (true, resolveGlobalValues exampleChain 1) :=
    calculate_root_dirty 1 exampleChain 1 rfl (by decide)
  have h2 : calculateGlobalVariables 3 exampleChain 2
      = some (true, resolveGlobalValues (resolveGlobalValues exampleChain 1) 2) :=
    calculate_child_changed 2 exampleChain _ 2 1 true rfl h1 rfl
  have h3 : calculateGlobalVariables 4 exampleChain 3
      = some (true, resolveGlobalValues
          (resolveGlobalValues (resolveGlobalValues exampleChain 1) 2) 3) :=
    calculate_child_changed 3 exampleChain _ 3 2 true rfl h2 rfl
  have g1 : ((resolveGlobalValues exampleChain 1).nodes 1).globalTransform = scaling 2 :=
    resolve_self_global_root exampleChain 1 rfl
  have g2 : ((resolveGlobalValues (resolveGlobalValues exampleChain 1) 2).nodes 2).globalTransform
      = scaling 6 := by
    rw [(resolve_self_global_child (resolveGlobalValues exampleChain 1) 2 1 rfl).1, g1]
    have : ((resolveGlobalValues exampleChain 1).nodes 2).localTransform = scaling 3 := rfl
    rw [this, scaling_mul]
    norm_num
  have g3 : ((resolveGlobalValues (resolveGlobalValues (resolveGlobalValues exampleChain 1) 2)
      3).nodes 3).globalTransform = scaling 30 := by
    rw [(resolve_self_global_child
      (resolveGlobalValues (resolveGlobalValues exampleChain 1) 2) 3 2 rfl).1, g2]
    have : ((resolveGlobalValues (resolveGlobalValues exampleChain 1) 2).nodes 3).localTransform
        = scaling 5 := rfl
    rw [this, scaling_mul]
    norm_num
  refine ⟨_, h3, rfl, ?_, ?_, g3⟩
  · rw [resolve_nodes_ne _ 3 1 (by decide), resolve_nodes_ne _ 2 1 (by decide)]
    exact g1
  · rw [resolve_nodes_ne _ 3 2 (by decide)]
    exact g2

/-- With the layer 1 active `commit` calls the layer and returns its answer. -/
theorem commit_exampleLayerFrame :
    (QSSGRenderHelpers.commit exampleLayerFrame 3 4 (1 / 2)).1 = 1
      ∧ (QSSGRenderHelpers.commit exampleLayerFrame 3 4 (1 / 2)).2.layerCalls
        = [LayerCall.prepareModelsForRender 1 3 4 (1 / 2)] := by
  rw [commit_active_layer exampleLayerFrame 1 3 4 (1 / 2) rfl]
  exact ⟨rfl, rfl⟩

end Quick3DRuntimeRender
